import Mathlib

/-!
# libopensmtpd: a shallow embedding of `opensmtpd.c`

The library is a single-threaded C program working on process-wide mutable
variables.  The embedding passes these variables around explicitly in one
record (`State`); a function that can call `osmtpd_errx` returns
`Except Halt State`, the `Halt` carrying the state the process exits in.

Conventions of the embedding

* C strings are `List Char` (no NUL inside); a nullable `char *` is an
  `Option (List Char)`.
* `void *` and function pointers are natural numbers, `NULL` is `0`.  What the
  user function behind a pointer does is given by a `user_code` environment.
* `int` flags that the source only ever sets to `0` or `1` (`doregister`,
  `storereport`, `ready`) are `Bool`; `incoming` stays an `Int` because the
  public API lets the caller pass any `int`.
* `unsigned long`, `unsigned long long`, `uint64_t` are 64 bits wide, `int` is
  32 bits wide (LP64); conversions between them wrap.
* `io_printf(io_stdout, ...)` appends to `State.io_stdout`.
-/

set_option autoImplicit false

/-! ## Enumerations of `opensmtpd.h` -/

inductive osmtpd_status
  | OSMTPD_STATUS_OK
  | OSMTPD_STATUS_TEMPFAIL
  | OSMTPD_STATUS_PERMFAIL
  deriving DecidableEq, Repr

inductive osmtpd_type
  | OSMTPD_TYPE_FILTER
  | OSMTPD_TYPE_REPORT
  deriving DecidableEq, Repr

/-- Modelled from the spec: the enumerator `OSMTPD_PHASE_LINK_AUTH` is used by
`opensmtpd.c` but is missing from the `enum osmtpd_phase` of the header under
`src/`; the spec lists `link-auth` as a phase of its own, so it is one more
enumerator here.  All other enumerators are those of the header. -/
inductive osmtpd_phase
  | OSMTPD_PHASE_CONNECT
  | OSMTPD_PHASE_HELO
  | OSMTPD_PHASE_EHLO
  | OSMTPD_PHASE_STARTTLS
  | OSMTPD_PHASE_AUTH
  | OSMTPD_PHASE_MAIL_FROM
  | OSMTPD_PHASE_RCPT_TO
  | OSMTPD_PHASE_DATA
  | OSMTPD_PHASE_DATA_LINE
  | OSMTPD_PHASE_RSET
  | OSMTPD_PHASE_QUIT
  | OSMTPD_PHASE_NOOP
  | OSMTPD_PHASE_HELP
  | OSMTPD_PHASE_WIZ
  | OSMTPD_PHASE_COMMIT
  | OSMTPD_PHASE_LINK_AUTH
  | OSMTPD_PHASE_LINK_CONNECT
  | OSMTPD_PHASE_LINK_DISCONNECT
  | OSMTPD_PHASE_LINK_GREETING
  | OSMTPD_PHASE_LINK_IDENTIFY
  | OSMTPD_PHASE_LINK_TLS
  | OSMTPD_PHASE_TX_BEGIN
  | OSMTPD_PHASE_TX_MAIL
  | OSMTPD_PHASE_TX_RCPT
  | OSMTPD_PHASE_TX_ENVELOPE
  | OSMTPD_PHASE_TX_DATA
  | OSMTPD_PHASE_TX_COMMIT
  | OSMTPD_PHASE_TX_ROLLBACK
  | OSMTPD_PHASE_PROTOCOL_CLIENT
  | OSMTPD_PHASE_PROTOCOL_SERVER
  | OSMTPD_PHASE_FILTER_RESPONSE
  | OSMTPD_PHASE_TIMEOUT
  deriving DecidableEq, Repr

/-- Modelled from the spec: `enum osmtpd_auth_result` is used by
`osmtpd_link_auth` but not declared in the header under `src/`; the spec gives
the three values `pass`, `fail`, `error`. -/
inductive osmtpd_auth_result
  | OSMTPD_AUTH_PASS
  | OSMTPD_AUTH_FAIL
  | OSMTPD_AUTH_ERROR
  deriving DecidableEq, Repr

open osmtpd_status osmtpd_type osmtpd_phase osmtpd_auth_result

/-- The `OSMTPD_NEED_*` bit masks. -/
def OSMTPD_NEED_SRC : Nat := 1 <<< 0
def OSMTPD_NEED_DST : Nat := 1 <<< 1
def OSMTPD_NEED_RDNS : Nat := 1 <<< 2
def OSMTPD_NEED_FCRDNS : Nat := 1 <<< 3
def OSMTPD_NEED_IDENTITY : Nat := 1 <<< 4
def OSMTPD_NEED_GREETING : Nat := 1 <<< 5
def OSMTPD_NEED_CIPHERS : Nat := 1 <<< 6
def OSMTPD_NEED_MSGID : Nat := 1 <<< 7
def OSMTPD_NEED_MAILFROM : Nat := 1 <<< 8
def OSMTPD_NEED_RCPTTO : Nat := 1 <<< 9
def OSMTPD_NEED_EVPID : Nat := 1 <<< 10

/-! ## Data model -/

/-- The null pointer. -/
def NULL : Nat := 0

/-- Address families stored in `ss_family`. -/
inductive sa_family
  | AF_UNSPEC
  | AF_UNIX
  | AF_INET
  | AF_INET6
  deriving DecidableEq, Repr

/-- What the library writes into a `struct sockaddr_storage`: the family, the
port (the value handed to `htons`), the binary address produced by
`inet_pton`, and `sun_path` for a unix socket. -/
structure sockaddr_storage where
  ss_family : sa_family
  port : Nat
  addr : List Nat
  sun_path : List Char
  deriving DecidableEq, Repr

/-- The `struct timespec` of a context. -/
structure timespec where
  tv_sec : Int
  tv_nsec : Int
  deriving DecidableEq, Repr

/-- The `struct osmtpd_ctx` of the header. -/
structure osmtpd_ctx where
  type : osmtpd_type
  phase : osmtpd_phase
  version_major : Int
  version_minor : Int
  tm : timespec
  incoming : Int
  reqid : Nat
  token : Nat
  src : sockaddr_storage
  dst : sockaddr_storage
  rdns : Option (List Char)
  fcrdns : osmtpd_status
  identity : Option (List Char)
  greeting_identity : Option (List Char)
  ciphers : Option (List Char)
  msgid : Nat
  mailfrom : Option (List Char)
  rcptto : List (List Char)
  evpid : Nat
  local_session : Nat
  local_message : Nat
  deriving DecidableEq, Repr

/-- The payload parsers a catalog entry can point to (field `osmtpd_cb`). -/
inductive parser_fn
  | noargs
  | onearg
  | connect
  | identify
  | link_auth
  | link_connect
  | link_disconnect
  | link_greeting
  | link_identify
  | link_tls
  | tx_begin
  | tx_mail
  | tx_rcpt
  | tx_envelope
  | tx_data
  | tx_commit
  | tx_rollback
  deriving DecidableEq, Repr

/-- The `struct osmtpd_callback`: one entry of the event catalog. -/
structure osmtpd_callback where
  type : osmtpd_type
  phase : osmtpd_phase
  incoming : Int
  osmtpd_cb : parser_fn
  cb : Nat
  doregister : Bool
  storereport : Bool
  deriving DecidableEq, Repr

/-- Arguments a user callback receives after the context. -/
inductive cb_args
  | noargs
  | onearg (line : List Char)
  | connect (hostname : List Char) (ss : sockaddr_storage)
  | link_auth (username : List Char) (res : osmtpd_auth_result)
  | link_connect (rdns : List Char) (fcrdns : osmtpd_status) (src dst : sockaddr_storage)
  | tx_begin (msgid : Nat)
  | tx_addr (msgid : Nat) (address : List Char) (status : osmtpd_status)
  | tx_envelope (msgid : Nat) (evpid : Nat)
  | tx_data (msgid : Nat) (status : osmtpd_status)
  | tx_commit (msgid : Nat) (msgsz : Nat)
  | tx_rollback (msgid : Nat)
  deriving DecidableEq, Repr

/-- Calls the library makes to user functions and hooks, in the order they happen;
each records the context the function was given. -/
inductive event
  | user_cb (fn : Nat) (ctx : osmtpd_ctx) (args : cb_args)
  | oncreate_session (fn : Nat) (ctx : osmtpd_ctx)
  | ondelete_session (fn : Nat) (ctx : osmtpd_ctx) (local_session : Nat)
  | oncreate_message (fn : Nat) (ctx : osmtpd_ctx)
  | ondelete_message (fn : Nat) (ctx : osmtpd_ctx) (local_message : Nat)
  | conf_cb (fn : Nat) (key value : Option (List Char))
  deriving DecidableEq, Repr

/-- The process-wide variables of `opensmtpd.c`.  `osmtpd_sessions` is the
red-black tree of sessions, kept as the list of its records in key order;
`linedup` and `dupsize` are the function-static variables of
`osmtpd_newline`; `trace` is the log of calls to user code. -/
structure State where
  osmtpd_callbacks : List osmtpd_callback
  needs : Nat
  ready : Bool
  session_timeout : Int
  oncreatecb_session : Nat
  ondeletecb_session : Nat
  oncreatecb_message : Nat
  ondeletecb_message : Nat
  conf_cb : Nat
  osmtpd_sessions : List osmtpd_ctx
  io_stdout : List Char
  linedup : List Char
  dupsize : Nat
  trace : List event
  deriving DecidableEq, Repr

/-- How the process stops: `exit` is `osmtpd_errx`/`osmtpd_err` (status, text
written to standard error, state at that moment); `null_call` is a call
through a null function pointer; `out_of_bounds` is a read through a pointer
that was moved past the terminator of the line. -/
inductive Halt
  | exit (eval : Int) (stderr : List Char) (st : State)
  | null_call (st : State)
  | out_of_bounds (st : State)
  deriving DecidableEq, Repr

/-- What a verdict emitter was called with by user code. -/
inductive filter_call
  | proceed
  | reject (code : Int) (reason : List Char)
  | reject_enh (code cls subject detail : Int) (reason : List Char)
  | disconnect (reason : List Char)
  | disconnect_enh (cls subject detail : Int) (reason : List Char)
  | rewrite (value : List Char)
  | dataline (line : List Char)
  deriving DecidableEq, Repr

/-- The user program and the C library, as far as the library depends on
them: `callback fn ctx args` is the sequence of verdict emitters the user
function at address `fn` calls (with the context it was given) when invoked
with `ctx` and `args`; `oncreate fn ctx` is the pointer a constructor hook
returns; `inet_pton` is the libc address parser (`none` for return value 0);
`sun_path_size` is `sizeof(sun->sun_path)`.  In a `filter_call` the text
argument is the expansion of the printf format and its arguments. -/
structure user_code where
  callback : Nat → osmtpd_ctx → cb_args → List filter_call
  oncreate : Nat → osmtpd_ctx → Nat
  inet_pton : sa_family → List Char → Option (List Nat)
  sun_path_size : Nat

/-- The function `osmtpd_errx`: message and newline to standard error, then
`exit(eval)`. -/
def osmtpd_errx (s : State) (eval : Int) (msg : List Char) : Except Halt State :=
  .error (Halt.exit eval (msg ++ ['\n']) s)

/-- The function `io_printf(io_stdout, ...)` with the text already expanded. -/
def io_printf (s : State) (text : List Char) : State :=
  { s with io_stdout := s.io_stdout ++ text }

/-! ## The event catalog -/

/-- A catalog entry as written in the initialiser of `osmtpd_callbacks`:
callback `NULL`, `doregister` and `storereport` 0. -/
def catalog_entry (t : osmtpd_type) (p : osmtpd_phase) (incoming : Int)
    (f : parser_fn) : osmtpd_callback :=
  { type := t, phase := p, incoming := incoming, osmtpd_cb := f, cb := NULL,
    doregister := false, storereport := false }

/-- The static initialiser of `osmtpd_callbacks`. -/
def osmtpd_callbacks_init : List osmtpd_callback :=
  [ catalog_entry OSMTPD_TYPE_FILTER OSMTPD_PHASE_CONNECT 1 parser_fn.connect,
    catalog_entry OSMTPD_TYPE_FILTER OSMTPD_PHASE_HELO 1 parser_fn.identify,
    catalog_entry OSMTPD_TYPE_FILTER OSMTPD_PHASE_EHLO 1 parser_fn.identify,
    catalog_entry OSMTPD_TYPE_FILTER OSMTPD_PHASE_STARTTLS 1 parser_fn.noargs,
    catalog_entry OSMTPD_TYPE_FILTER OSMTPD_PHASE_AUTH 1 parser_fn.onearg,
    catalog_entry OSMTPD_TYPE_FILTER OSMTPD_PHASE_MAIL_FROM 1 parser_fn.onearg,
    catalog_entry OSMTPD_TYPE_FILTER OSMTPD_PHASE_RCPT_TO 1 parser_fn.onearg,
    catalog_entry OSMTPD_TYPE_FILTER OSMTPD_PHASE_DATA 1 parser_fn.noargs,
    catalog_entry OSMTPD_TYPE_FILTER OSMTPD_PHASE_DATA_LINE 1 parser_fn.onearg,
    catalog_entry OSMTPD_TYPE_FILTER OSMTPD_PHASE_RSET 1 parser_fn.noargs,
    catalog_entry OSMTPD_TYPE_FILTER OSMTPD_PHASE_QUIT 1 parser_fn.noargs,
    catalog_entry OSMTPD_TYPE_FILTER OSMTPD_PHASE_NOOP 1 parser_fn.noargs,
    catalog_entry OSMTPD_TYPE_FILTER OSMTPD_PHASE_HELP 1 parser_fn.noargs,
    catalog_entry OSMTPD_TYPE_FILTER OSMTPD_PHASE_WIZ 1 parser_fn.noargs,
    catalog_entry OSMTPD_TYPE_FILTER OSMTPD_PHASE_COMMIT 1 parser_fn.noargs,
    catalog_entry OSMTPD_TYPE_REPORT OSMTPD_PHASE_LINK_AUTH 1 parser_fn.link_auth,
    catalog_entry OSMTPD_TYPE_REPORT OSMTPD_PHASE_LINK_CONNECT 1 parser_fn.link_connect,
    catalog_entry OSMTPD_TYPE_REPORT OSMTPD_PHASE_LINK_DISCONNECT 1 parser_fn.link_disconnect,
    catalog_entry OSMTPD_TYPE_REPORT OSMTPD_PHASE_LINK_GREETING 1 parser_fn.link_greeting,
    catalog_entry OSMTPD_TYPE_REPORT OSMTPD_PHASE_LINK_IDENTIFY 1 parser_fn.link_identify,
    catalog_entry OSMTPD_TYPE_REPORT OSMTPD_PHASE_LINK_TLS 1 parser_fn.link_tls,
    catalog_entry OSMTPD_TYPE_REPORT OSMTPD_PHASE_TX_BEGIN 1 parser_fn.tx_begin,
    catalog_entry OSMTPD_TYPE_REPORT OSMTPD_PHASE_TX_MAIL 1 parser_fn.tx_mail,
    catalog_entry OSMTPD_TYPE_REPORT OSMTPD_PHASE_TX_RCPT 1 parser_fn.tx_rcpt,
    catalog_entry OSMTPD_TYPE_REPORT OSMTPD_PHASE_TX_ENVELOPE 1 parser_fn.tx_envelope,
    catalog_entry OSMTPD_TYPE_REPORT OSMTPD_PHASE_TX_DATA 1 parser_fn.tx_data,
    catalog_entry OSMTPD_TYPE_REPORT OSMTPD_PHASE_TX_COMMIT 1 parser_fn.tx_commit,
    catalog_entry OSMTPD_TYPE_REPORT OSMTPD_PHASE_TX_ROLLBACK 1 parser_fn.tx_rollback,
    catalog_entry OSMTPD_TYPE_REPORT OSMTPD_PHASE_PROTOCOL_CLIENT 1 parser_fn.onearg,
    catalog_entry OSMTPD_TYPE_REPORT OSMTPD_PHASE_PROTOCOL_SERVER 1 parser_fn.onearg,
    catalog_entry OSMTPD_TYPE_REPORT OSMTPD_PHASE_FILTER_RESPONSE 1 parser_fn.onearg,
    catalog_entry OSMTPD_TYPE_REPORT OSMTPD_PHASE_TIMEOUT 1 parser_fn.noargs,
    catalog_entry OSMTPD_TYPE_REPORT OSMTPD_PHASE_LINK_CONNECT 0 parser_fn.link_connect,
    catalog_entry OSMTPD_TYPE_REPORT OSMTPD_PHASE_LINK_DISCONNECT 0 parser_fn.link_disconnect,
    catalog_entry OSMTPD_TYPE_REPORT OSMTPD_PHASE_LINK_GREETING 0 parser_fn.link_greeting,
    catalog_entry OSMTPD_TYPE_REPORT OSMTPD_PHASE_LINK_IDENTIFY 0 parser_fn.link_identify,
    catalog_entry OSMTPD_TYPE_REPORT OSMTPD_PHASE_LINK_TLS 0 parser_fn.link_tls,
    catalog_entry OSMTPD_TYPE_REPORT OSMTPD_PHASE_TX_BEGIN 0 parser_fn.tx_begin,
    catalog_entry OSMTPD_TYPE_REPORT OSMTPD_PHASE_TX_MAIL 0 parser_fn.tx_mail,
    catalog_entry OSMTPD_TYPE_REPORT OSMTPD_PHASE_TX_RCPT 0 parser_fn.tx_rcpt,
    catalog_entry OSMTPD_TYPE_REPORT OSMTPD_PHASE_TX_ENVELOPE 0 parser_fn.tx_envelope,
    catalog_entry OSMTPD_TYPE_REPORT OSMTPD_PHASE_TX_DATA 0 parser_fn.tx_data,
    catalog_entry OSMTPD_TYPE_REPORT OSMTPD_PHASE_TX_COMMIT 0 parser_fn.tx_commit,
    catalog_entry OSMTPD_TYPE_REPORT OSMTPD_PHASE_TX_ROLLBACK 0 parser_fn.tx_rollback,
    catalog_entry OSMTPD_TYPE_REPORT OSMTPD_PHASE_PROTOCOL_CLIENT 0 parser_fn.onearg,
    catalog_entry OSMTPD_TYPE_REPORT OSMTPD_PHASE_PROTOCOL_SERVER 0 parser_fn.onearg,
    catalog_entry OSMTPD_TYPE_REPORT OSMTPD_PHASE_FILTER_RESPONSE 0 parser_fn.onearg,
    catalog_entry OSMTPD_TYPE_REPORT OSMTPD_PHASE_TIMEOUT 0 parser_fn.noargs ]

/-- The state of the process when `main` starts: the static initialisers of
`opensmtpd.c` (`ready = 0`, `session_timeout = 300`, hooks `NULL`, empty
session tree, nothing written). -/
def State.init : State :=
  { osmtpd_callbacks := osmtpd_callbacks_init, needs := 0, ready := false,
    session_timeout := 300, oncreatecb_session := NULL, ondeletecb_session := NULL,
    oncreatecb_message := NULL, ondeletecb_message := NULL, conf_cb := NULL,
    osmtpd_sessions := [], io_stdout := [], linedup := [], dupsize := 0,
    trace := [] }

/-! ## Registration -/

/-- Outcome of the loop of `osmtpd_register` over the catalog. -/
inductive register_scan
  | updated (l : List osmtpd_callback)
  | already
  | unknown
  deriving DecidableEq, Repr

/-- The `for` loop of `osmtpd_register`: the first entry equal to
`(type, phase, incoming)` is the one acted on. -/
def osmtpd_register_scan (type : osmtpd_type) (phase : osmtpd_phase) (incoming : Int)
    (storereport : Bool) (cb : Nat) : List osmtpd_callback → register_scan
  | [] => register_scan.unknown
  | e :: es =>
    if type = e.type ∧ phase = e.phase ∧ incoming = e.incoming then
      if e.cb ≠ NULL ∧ cb ≠ NULL then register_scan.already
      else register_scan.updated
        ({ e with cb := if cb ≠ NULL then cb else e.cb,
                  doregister := true,
                  storereport := if storereport then true else e.storereport } :: es)
    else
      match osmtpd_register_scan type phase incoming storereport cb es with
      | register_scan.updated l => register_scan.updated (e :: l)
      | register_scan.already => register_scan.already
      | register_scan.unknown => register_scan.unknown

/-- The function `osmtpd_register`. -/
def osmtpd_register (s : State) (type : osmtpd_type) (phase : osmtpd_phase)
    (incoming : Int) (storereport : Bool) (cb : Nat) : Except Halt State :=
  if s.ready then
    osmtpd_errx s 1 "Can't register when proc is running".toList
  else
    match osmtpd_register_scan type phase incoming storereport cb s.osmtpd_callbacks with
    | register_scan.updated l => .ok { s with osmtpd_callbacks := l }
    | register_scan.already => osmtpd_errx s 1 "Event already registered".toList
    | register_scan.unknown => osmtpd_errx s 1 "Trying to register unknown event".toList

/-- The function `osmtpd_register_conf`. -/
def osmtpd_register_conf (s : State) (cb : Nat) : State :=
  { s with conf_cb := cb }

/-- The function `osmtpd_register_filter_connect`. -/
def osmtpd_register_filter_connect (s : State) (cb : Nat) : Except Halt State :=
  (osmtpd_register s OSMTPD_TYPE_FILTER OSMTPD_PHASE_CONNECT 1 false cb).bind fun s1 =>
  osmtpd_register s1 OSMTPD_TYPE_REPORT OSMTPD_PHASE_LINK_DISCONNECT 1 false NULL

/-- The function `osmtpd_register_filter_helo`. -/
def osmtpd_register_filter_helo (s : State) (cb : Nat) : Except Halt State :=
  (osmtpd_register s OSMTPD_TYPE_FILTER OSMTPD_PHASE_HELO 1 false cb).bind fun s1 =>
  osmtpd_register s1 OSMTPD_TYPE_REPORT OSMTPD_PHASE_LINK_DISCONNECT 1 false NULL

/-- The function `osmtpd_register_filter_ehlo`. -/
def osmtpd_register_filter_ehlo (s : State) (cb : Nat) : Except Halt State :=
  (osmtpd_register s OSMTPD_TYPE_FILTER OSMTPD_PHASE_EHLO 1 false cb).bind fun s1 =>
  osmtpd_register s1 OSMTPD_TYPE_REPORT OSMTPD_PHASE_LINK_DISCONNECT 1 false NULL

/-- The function `osmtpd_register_filter_starttls`. -/
def osmtpd_register_filter_starttls (s : State) (cb : Nat) : Except Halt State :=
  (osmtpd_register s OSMTPD_TYPE_FILTER OSMTPD_PHASE_STARTTLS 1 false cb).bind fun s1 =>
  osmtpd_register s1 OSMTPD_TYPE_REPORT OSMTPD_PHASE_LINK_DISCONNECT 1 false NULL

/-- The function `osmtpd_register_filter_auth`. -/
def osmtpd_register_filter_auth (s : State) (cb : Nat) : Except Halt State :=
  (osmtpd_register s OSMTPD_TYPE_FILTER OSMTPD_PHASE_AUTH 1 false cb).bind fun s1 =>
  osmtpd_register s1 OSMTPD_TYPE_REPORT OSMTPD_PHASE_LINK_DISCONNECT 1 false NULL

/-- The function `osmtpd_register_filter_mailfrom`. -/
def osmtpd_register_filter_mailfrom (s : State) (cb : Nat) : Except Halt State :=
  (osmtpd_register s OSMTPD_TYPE_FILTER OSMTPD_PHASE_MAIL_FROM 1 false cb).bind fun s1 =>
  osmtpd_register s1 OSMTPD_TYPE_REPORT OSMTPD_PHASE_LINK_DISCONNECT 1 false NULL

/-- The function `osmtpd_register_filter_rcptto`. -/
def osmtpd_register_filter_rcptto (s : State) (cb : Nat) : Except Halt State :=
  (osmtpd_register s OSMTPD_TYPE_FILTER OSMTPD_PHASE_RCPT_TO 1 false cb).bind fun s1 =>
  osmtpd_register s1 OSMTPD_TYPE_REPORT OSMTPD_PHASE_LINK_DISCONNECT 1 false NULL

/-- The function `osmtpd_register_filter_data`. -/
def osmtpd_register_filter_data (s : State) (cb : Nat) : Except Halt State :=
  (osmtpd_register s OSMTPD_TYPE_FILTER OSMTPD_PHASE_DATA 1 false cb).bind fun s1 =>
  osmtpd_register s1 OSMTPD_TYPE_REPORT OSMTPD_PHASE_LINK_DISCONNECT 1 false NULL

/-- The function `osmtpd_register_filter_dataline`. -/
def osmtpd_register_filter_dataline (s : State) (cb : Nat) : Except Halt State :=
  (osmtpd_register s OSMTPD_TYPE_FILTER OSMTPD_PHASE_DATA_LINE 1 false cb).bind fun s1 =>
  osmtpd_register s1 OSMTPD_TYPE_REPORT OSMTPD_PHASE_LINK_DISCONNECT 1 false NULL

/-- The function `osmtpd_register_filter_rset`. -/
def osmtpd_register_filter_rset (s : State) (cb : Nat) : Except Halt State :=
  (osmtpd_register s OSMTPD_TYPE_FILTER OSMTPD_PHASE_RSET 1 false cb).bind fun s1 =>
  osmtpd_register s1 OSMTPD_TYPE_REPORT OSMTPD_PHASE_LINK_DISCONNECT 1 false NULL

/-- The function `osmtpd_register_filter_quit`. -/
def osmtpd_register_filter_quit (s : State) (cb : Nat) : Except Halt State :=
  (osmtpd_register s OSMTPD_TYPE_FILTER OSMTPD_PHASE_QUIT 1 false cb).bind fun s1 =>
  osmtpd_register s1 OSMTPD_TYPE_REPORT OSMTPD_PHASE_LINK_DISCONNECT 1 false NULL

/-- The function `osmtpd_register_filter_noop`. -/
def osmtpd_register_filter_noop (s : State) (cb : Nat) : Except Halt State :=
  (osmtpd_register s OSMTPD_TYPE_FILTER OSMTPD_PHASE_NOOP 1 false cb).bind fun s1 =>
  osmtpd_register s1 OSMTPD_TYPE_REPORT OSMTPD_PHASE_LINK_DISCONNECT 1 false NULL

/-- The function `osmtpd_register_filter_help`. -/
def osmtpd_register_filter_help (s : State) (cb : Nat) : Except Halt State :=
  (osmtpd_register s OSMTPD_TYPE_FILTER OSMTPD_PHASE_HELP 1 false cb).bind fun s1 =>
  osmtpd_register s1 OSMTPD_TYPE_REPORT OSMTPD_PHASE_LINK_DISCONNECT 1 false NULL

/-- The function `osmtpd_register_filter_wiz`. -/
def osmtpd_register_filter_wiz (s : State) (cb : Nat) : Except Halt State :=
  (osmtpd_register s OSMTPD_TYPE_FILTER OSMTPD_PHASE_WIZ 1 false cb).bind fun s1 =>
  osmtpd_register s1 OSMTPD_TYPE_REPORT OSMTPD_PHASE_LINK_DISCONNECT 1 false NULL

/-- The function `osmtpd_register_filter_commit`. -/
def osmtpd_register_filter_commit (s : State) (cb : Nat) : Except Halt State :=
  (osmtpd_register s OSMTPD_TYPE_FILTER OSMTPD_PHASE_COMMIT 1 false cb).bind fun s1 =>
  osmtpd_register s1 OSMTPD_TYPE_REPORT OSMTPD_PHASE_LINK_DISCONNECT 1 false NULL

/-- The function `osmtpd_register_report_connect`. -/
def osmtpd_register_report_connect (s : State) (incoming : Int) (cb : Nat) : Except Halt State :=
  (osmtpd_register s OSMTPD_TYPE_REPORT OSMTPD_PHASE_LINK_CONNECT incoming false cb).bind fun s1 =>
  osmtpd_register s1 OSMTPD_TYPE_REPORT OSMTPD_PHASE_LINK_DISCONNECT incoming false NULL

/-- The function `osmtpd_register_report_disconnect`. -/
def osmtpd_register_report_disconnect (s : State) (incoming : Int) (cb : Nat) : Except Halt State :=
  osmtpd_register s OSMTPD_TYPE_REPORT OSMTPD_PHASE_LINK_DISCONNECT incoming false cb

/-- The function `osmtpd_register_report_identify`. -/
def osmtpd_register_report_identify (s : State) (incoming : Int) (cb : Nat) : Except Halt State :=
  (osmtpd_register s OSMTPD_TYPE_REPORT OSMTPD_PHASE_LINK_IDENTIFY incoming false cb).bind fun s1 =>
  osmtpd_register s1 OSMTPD_TYPE_REPORT OSMTPD_PHASE_LINK_DISCONNECT incoming false NULL

/-- The function `osmtpd_register_report_tls`. -/
def osmtpd_register_report_tls (s : State) (incoming : Int) (cb : Nat) : Except Halt State :=
  (osmtpd_register s OSMTPD_TYPE_REPORT OSMTPD_PHASE_LINK_TLS incoming false cb).bind fun s1 =>
  osmtpd_register s1 OSMTPD_TYPE_REPORT OSMTPD_PHASE_LINK_DISCONNECT incoming false NULL

/-- The function `osmtpd_register_report_begin`. -/
def osmtpd_register_report_begin (s : State) (incoming : Int) (cb : Nat) : Except Halt State :=
  (osmtpd_register s OSMTPD_TYPE_REPORT OSMTPD_PHASE_TX_BEGIN incoming false cb).bind fun s1 =>
  osmtpd_register s1 OSMTPD_TYPE_REPORT OSMTPD_PHASE_LINK_DISCONNECT incoming false NULL

/-- The function `osmtpd_register_report_mail`. -/
def osmtpd_register_report_mail (s : State) (incoming : Int) (cb : Nat) : Except Halt State :=
  (osmtpd_register s OSMTPD_TYPE_REPORT OSMTPD_PHASE_TX_MAIL incoming false cb).bind fun s1 =>
  osmtpd_register s1 OSMTPD_TYPE_REPORT OSMTPD_PHASE_LINK_DISCONNECT incoming false NULL

/-- The function `osmtpd_register_report_rcpt`. -/
def osmtpd_register_report_rcpt (s : State) (incoming : Int) (cb : Nat) : Except Halt State :=
  (osmtpd_register s OSMTPD_TYPE_REPORT OSMTPD_PHASE_TX_RCPT incoming false cb).bind fun s1 =>
  osmtpd_register s1 OSMTPD_TYPE_REPORT OSMTPD_PHASE_LINK_DISCONNECT incoming false NULL

/-- The function `osmtpd_register_report_envelope`. -/
def osmtpd_register_report_envelope (s : State) (incoming : Int) (cb : Nat) : Except Halt State :=
  (osmtpd_register s OSMTPD_TYPE_REPORT OSMTPD_PHASE_TX_ENVELOPE incoming false cb).bind fun s1 =>
  osmtpd_register s1 OSMTPD_TYPE_REPORT OSMTPD_PHASE_LINK_DISCONNECT incoming false NULL

/-- The function `osmtpd_register_report_data`. -/
def osmtpd_register_report_data (s : State) (incoming : Int) (cb : Nat) : Except Halt State :=
  (osmtpd_register s OSMTPD_TYPE_REPORT OSMTPD_PHASE_TX_DATA incoming false cb).bind fun s1 =>
  osmtpd_register s1 OSMTPD_TYPE_REPORT OSMTPD_PHASE_LINK_DISCONNECT incoming false NULL

/-- The function `osmtpd_register_report_commit`. -/
def osmtpd_register_report_commit (s : State) (incoming : Int) (cb : Nat) : Except Halt State :=
  (osmtpd_register s OSMTPD_TYPE_REPORT OSMTPD_PHASE_TX_COMMIT incoming false cb).bind fun s1 =>
  osmtpd_register s1 OSMTPD_TYPE_REPORT OSMTPD_PHASE_LINK_DISCONNECT incoming false NULL

/-- The function `osmtpd_register_report_rollback`. -/
def osmtpd_register_report_rollback (s : State) (incoming : Int) (cb : Nat) : Except Halt State :=
  (osmtpd_register s OSMTPD_TYPE_REPORT OSMTPD_PHASE_TX_ROLLBACK incoming false cb).bind fun s1 =>
  osmtpd_register s1 OSMTPD_TYPE_REPORT OSMTPD_PHASE_LINK_DISCONNECT incoming false NULL

/-- The function `osmtpd_register_report_client`. -/
def osmtpd_register_report_client (s : State) (incoming : Int) (cb : Nat) : Except Halt State :=
  (osmtpd_register s OSMTPD_TYPE_REPORT OSMTPD_PHASE_PROTOCOL_CLIENT incoming false cb).bind fun s1 =>
  osmtpd_register s1 OSMTPD_TYPE_REPORT OSMTPD_PHASE_LINK_DISCONNECT incoming false NULL

/-- The function `osmtpd_register_report_server`. -/
def osmtpd_register_report_server (s : State) (incoming : Int) (cb : Nat) : Except Halt State :=
  (osmtpd_register s OSMTPD_TYPE_REPORT OSMTPD_PHASE_PROTOCOL_SERVER incoming false cb).bind fun s1 =>
  osmtpd_register s1 OSMTPD_TYPE_REPORT OSMTPD_PHASE_LINK_DISCONNECT incoming false NULL

/-- The function `osmtpd_register_report_response`. -/
def osmtpd_register_report_response (s : State) (incoming : Int) (cb : Nat) : Except Halt State :=
  (osmtpd_register s OSMTPD_TYPE_REPORT OSMTPD_PHASE_FILTER_RESPONSE incoming false cb).bind fun s1 =>
  osmtpd_register s1 OSMTPD_TYPE_REPORT OSMTPD_PHASE_LINK_DISCONNECT incoming false NULL

/-- The function `osmtpd_register_report_timeout`. -/
def osmtpd_register_report_timeout (s : State) (incoming : Int) (cb : Nat) : Except Halt State :=
  (osmtpd_register s OSMTPD_TYPE_REPORT OSMTPD_PHASE_TIMEOUT incoming false cb).bind fun s1 =>
  osmtpd_register s1 OSMTPD_TYPE_REPORT OSMTPD_PHASE_LINK_DISCONNECT incoming false NULL

/-- The function `osmtpd_register_report_auth`. -/
def osmtpd_register_report_auth (s : State) (incoming : Int) (cb : Nat) : Except Halt State :=
  (osmtpd_register s OSMTPD_TYPE_REPORT OSMTPD_PHASE_LINK_AUTH incoming false cb).bind fun s1 =>
  osmtpd_register s1 OSMTPD_TYPE_REPORT OSMTPD_PHASE_LINK_DISCONNECT incoming false NULL

/-- The function `osmtpd_local_session`. -/
def osmtpd_local_session (s : State) (oncreate ondelete : Nat) : State :=
  { s with oncreatecb_session := oncreate, ondeletecb_session := ondelete }

/-- The function `osmtpd_local_message`. -/
def osmtpd_local_message (s : State) (oncreate ondelete : Nat) : State :=
  { s with oncreatecb_message := oncreate, ondeletecb_message := ondelete }

/-- The function `osmtpd_need`: `needs |= lneeds`. -/
def osmtpd_need (s : State) (lneeds : Nat) : State :=
  { s with needs := s.needs ||| lneeds }

/-- One `if (needs & mask) osmtpd_register(...)` statement of
`osmtpd_register_need` whose body registers one event. -/
def need_register (mask : Nat) (phase : osmtpd_phase) (incoming : Int) (s : State) :
    Except Halt State :=
  if s.needs &&& mask ≠ 0 then
    osmtpd_register s OSMTPD_TYPE_REPORT phase incoming true NULL
  else .ok s

/-- One `if (needs & mask) { ... }` statement of `osmtpd_register_need` whose
body registers the event with store and then `tx-rollback` and `tx-commit`
without. -/
def need_register_tx (mask : Nat) (phase : osmtpd_phase) (incoming : Int) (s : State) :
    Except Halt State :=
  if s.needs &&& mask ≠ 0 then
    (osmtpd_register s OSMTPD_TYPE_REPORT phase incoming true NULL).bind fun s1 =>
    (osmtpd_register s1 OSMTPD_TYPE_REPORT OSMTPD_PHASE_TX_ROLLBACK incoming false NULL).bind
      fun s2 =>
    osmtpd_register s2 OSMTPD_TYPE_REPORT OSMTPD_PHASE_TX_COMMIT incoming false NULL
  else .ok s

/-- The function `osmtpd_register_need`. -/
def osmtpd_register_need (s : State) (incoming : Int) : Except Halt State :=
  (need_register (OSMTPD_NEED_SRC ||| OSMTPD_NEED_DST ||| OSMTPD_NEED_RDNS |||
      OSMTPD_NEED_FCRDNS) OSMTPD_PHASE_LINK_CONNECT incoming s).bind fun s1 =>
  (need_register OSMTPD_NEED_GREETING OSMTPD_PHASE_LINK_GREETING incoming s1).bind fun s2 =>
  (need_register OSMTPD_NEED_IDENTITY OSMTPD_PHASE_LINK_IDENTIFY incoming s2).bind fun s3 =>
  (need_register OSMTPD_NEED_CIPHERS OSMTPD_PHASE_LINK_TLS incoming s3).bind fun s4 =>
  (need_register_tx OSMTPD_NEED_MSGID OSMTPD_PHASE_TX_BEGIN incoming s4).bind fun s5 =>
  (need_register_tx OSMTPD_NEED_MAILFROM OSMTPD_PHASE_TX_MAIL incoming s5).bind fun s6 =>
  (need_register_tx OSMTPD_NEED_RCPTTO OSMTPD_PHASE_TX_RCPT incoming s6).bind fun s7 =>
  (need_register_tx OSMTPD_NEED_EVPID OSMTPD_PHASE_TX_ENVELOPE incoming s7).bind fun s8 =>
  osmtpd_register s8 OSMTPD_TYPE_REPORT OSMTPD_PHASE_LINK_DISCONNECT incoming false NULL

/-! ## `osmtpd_run`: implicit registrations and the handshake -/

/-- The function `osmtpd_typetostr`. -/
def osmtpd_typetostr : osmtpd_type → List Char
  | OSMTPD_TYPE_FILTER => "filter".toList
  | OSMTPD_TYPE_REPORT => "report".toList

/-- The function `osmtpd_phasetostr`. -/
def osmtpd_phasetostr : osmtpd_phase → List Char
  | OSMTPD_PHASE_CONNECT => "connect".toList
  | OSMTPD_PHASE_HELO => "helo".toList
  | OSMTPD_PHASE_EHLO => "ehlo".toList
  | OSMTPD_PHASE_STARTTLS => "starttls".toList
  | OSMTPD_PHASE_AUTH => "auth".toList
  | OSMTPD_PHASE_MAIL_FROM => "mail-from".toList
  | OSMTPD_PHASE_RCPT_TO => "rcpt-to".toList
  | OSMTPD_PHASE_DATA => "data".toList
  | OSMTPD_PHASE_DATA_LINE => "data-line".toList
  | OSMTPD_PHASE_RSET => "rset".toList
  | OSMTPD_PHASE_QUIT => "quit".toList
  | OSMTPD_PHASE_NOOP => "noop".toList
  | OSMTPD_PHASE_HELP => "help".toList
  | OSMTPD_PHASE_WIZ => "wiz".toList
  | OSMTPD_PHASE_COMMIT => "commit".toList
  | OSMTPD_PHASE_LINK_AUTH => "link-auth".toList
  | OSMTPD_PHASE_LINK_CONNECT => "link-connect".toList
  | OSMTPD_PHASE_LINK_DISCONNECT => "link-disconnect".toList
  | OSMTPD_PHASE_LINK_GREETING => "link-greeting".toList
  | OSMTPD_PHASE_LINK_IDENTIFY => "link-identify".toList
  | OSMTPD_PHASE_LINK_TLS => "link-tls".toList
  | OSMTPD_PHASE_TX_BEGIN => "tx-begin".toList
  | OSMTPD_PHASE_TX_MAIL => "tx-mail".toList
  | OSMTPD_PHASE_TX_RCPT => "tx-rcpt".toList
  | OSMTPD_PHASE_TX_ENVELOPE => "tx-envelope".toList
  | OSMTPD_PHASE_TX_DATA => "tx-data".toList
  | OSMTPD_PHASE_TX_COMMIT => "tx-commit".toList
  | OSMTPD_PHASE_TX_ROLLBACK => "tx-rollback".toList
  | OSMTPD_PHASE_PROTOCOL_CLIENT => "protocol-client".toList
  | OSMTPD_PHASE_PROTOCOL_SERVER => "protocol-server".toList
  | OSMTPD_PHASE_FILTER_RESPONSE => "filter-response".toList
  | OSMTPD_PHASE_TIMEOUT => "timeout".toList

/-- The local pointers `hidenity`, `eidentity`, `ridentity` of `osmtpd_run`,
as indices into `osmtpd_callbacks` (`none` is `NULL`). -/
structure run_locals where
  hidenity : Option Nat
  eidentity : Option Nat
  ridentity : Option Nat
  deriving DecidableEq, Repr

/-- The `if (oncreatecb_message != NULL) { ... }` statement of the first loop
of `osmtpd_run`. -/
def osmtpd_run_message (s : State) (incoming : Int) : Except Halt State :=
  if s.oncreatecb_message ≠ NULL then
    (osmtpd_register s OSMTPD_TYPE_REPORT OSMTPD_PHASE_TX_BEGIN incoming false NULL).bind
      fun s1 =>
    (osmtpd_register s1 OSMTPD_TYPE_REPORT OSMTPD_PHASE_TX_ROLLBACK incoming false NULL).bind
      fun s2 =>
    osmtpd_register s2 OSMTPD_TYPE_REPORT OSMTPD_PHASE_TX_COMMIT incoming false NULL
  else .ok s

/-- The three assignments to `hidenity`, `eidentity`, `ridentity` in the first
loop of `osmtpd_run`, for the entry `e` at index `i`. -/
def osmtpd_run_identity (e : osmtpd_callback) (i : Nat) (l : run_locals) : run_locals :=
  let l1 := if e.type = OSMTPD_TYPE_FILTER ∧ e.phase = OSMTPD_PHASE_HELO
    then { l with hidenity := some i } else l
  let l2 := if e.type = OSMTPD_TYPE_FILTER ∧ e.phase = OSMTPD_PHASE_EHLO
    then { l1 with eidentity := some i } else l1
  if e.type = OSMTPD_TYPE_REPORT ∧ e.phase = OSMTPD_PHASE_LINK_IDENTIFY ∧ e.incoming = 1
    then { l2 with ridentity := some i } else l2

/-- The body of the first `for` loop of `osmtpd_run` at index `i`. -/
def osmtpd_run_step (s : State) (l : run_locals) (i : Nat) :
    Except Halt (State × run_locals) :=
  match s.osmtpd_callbacks.get? i with
  | none => .ok (s, l)
  | some e =>
    if e.doregister then
      (osmtpd_register_need s e.incoming).bind fun s1 =>
      (osmtpd_run_message s1 ((s1.osmtpd_callbacks.get? i).getD e).incoming).bind fun s2 =>
      Except.ok (s2, osmtpd_run_identity ((s2.osmtpd_callbacks.get? i).getD e) i l)
    else .ok (s, l)

/-- The first `for` loop of `osmtpd_run`, from index `i`, with `n` iterations
left. -/
def osmtpd_run_loop : Nat → Nat → State → run_locals → Except Halt (State × run_locals)
  | 0, _, s, l => .ok (s, l)
  | n + 1, i, s, l =>
    match osmtpd_run_step s l i with
    | .ok (s1, l1) => osmtpd_run_loop n (i + 1) s1 l1
    | .error h => .error h

/-- The assignment `p->storereport = 1` through a pointer `p` to the entry at
index `i`, made when `p != NULL && p->doregister`. -/
def set_storereport (p : Option Nat) (cbs : List osmtpd_callback) : List osmtpd_callback :=
  match p with
  | none => cbs
  | some i =>
    match cbs.get? i with
    | none => cbs
    | some e => if e.doregister then cbs.set i { e with storereport := true } else cbs

/-- The identify promotion of `osmtpd_run`:
`if (ridentity != NULL && ridentity->storereport) { ... }`. -/
def osmtpd_run_promote (s : State) (l : run_locals) : State :=
  match l.ridentity.bind fun i => s.osmtpd_callbacks.get? i with
  | none => s
  | some r =>
    if r.storereport then
      { s with osmtpd_callbacks :=
          set_storereport l.eidentity (set_storereport l.hidenity s.osmtpd_callbacks) }
    else s

/-- The registration phase of `osmtpd_run`: the first loop followed by the
identify promotion. -/
def osmtpd_run_register (s : State) : Except Halt State :=
  match osmtpd_run_loop s.osmtpd_callbacks.length 0 s ⟨none, none, none⟩ with
  | .ok (s1, l) => .ok (osmtpd_run_promote s1 l)
  | .error h => .error h

/-- The text `register|<type>|smtp-<in|out>|<phase>\n` printed for an entry. -/
def register_line (e : osmtpd_callback) : List Char :=
  "register|".toList ++ osmtpd_typetostr e.type ++ "|smtp-".toList ++
    (if e.incoming ≠ 0 then "in".toList else "out".toList) ++ "|".toList ++
    osmtpd_phasetostr e.phase ++ "\n".toList

/-- The second `for` loop of `osmtpd_run` over the entries still to visit:
prints a line for each entry with `doregister` and sets `registered` when such
an entry has a callback. -/
def osmtpd_run_emit : List osmtpd_callback → State → Bool → State × Bool
  | [], s, registered => (s, registered)
  | e :: es, s, registered =>
    if e.doregister then
      osmtpd_run_emit es (io_printf s (register_line e)) (if e.cb ≠ NULL then true else registered)
    else osmtpd_run_emit es s registered

/-- The function `osmtpd_run` up to the call of `event_dispatch` (the set-up of
the two `io` objects is outside the embedding and taken to succeed). -/
def osmtpd_run (s : State) : Except Halt State :=
  (osmtpd_run_register s).bind fun s1 =>
  let r := osmtpd_run_emit s1.osmtpd_callbacks s1 false
  if r.2 = false then
    osmtpd_errx r.1 1 "No events registered".toList
  else
    .ok { io_printf r.1 "register|ready\n".toList with ready := true }


/-! ## C library functions used by the parser and the encoder -/

def ULONG_MAX : Nat := 2 ^ 64 - 1
def ULLONG_MAX : Nat := 2 ^ 64 - 1
def LLONG_MAX : Int := 2 ^ 63 - 1
def LLONG_MIN : Int := -(2 ^ 63)
def LONG_MAX : Int := 2 ^ 63 - 1
def INT64_MAX : Int := 2 ^ 63 - 1
def INT_MAX : Int := 2 ^ 31 - 1
def UINT32_MAX : Int := 2 ^ 32 - 1
def UINT16_MAX : Int := 2 ^ 16 - 1
def ERANGE : Nat := 34

/-- Conversion of an unsigned value to `int` (32 bits, wrapping). -/
def to_int (v : Nat) : Int :=
  if v % 2 ^ 32 < 2 ^ 31 then (v % 2 ^ 32 : Nat) else ((v % 2 ^ 32 : Nat) : Int) - 2 ^ 32

/-- A `long` result of signed arithmetic (64 bits, wrapping). -/
def to_long (x : Int) : Int :=
  (x + 2 ^ 63) % 2 ^ 64 - 2 ^ 63

/-- Conversion to `uint32_t`. -/
def to_uint32 (v : Nat) : Nat := v % 2 ^ 32

/-- The function `isspace` in the C locale. -/
def isspace (c : Char) : Bool :=
  c = ' ' ∨ (9 ≤ c.toNat ∧ c.toNat ≤ 13)

/-- Value of a character as a digit (`36` when it is none in any base). -/
def digit_value (c : Char) : Nat :=
  if 48 ≤ c.toNat ∧ c.toNat ≤ 57 then c.toNat - 48
  else if 97 ≤ c.toNat ∧ c.toNat ≤ 122 then c.toNat - 87
  else if 65 ≤ c.toNat ∧ c.toNat ≤ 90 then c.toNat - 55
  else 36

/-- Reads the digits of `base` at the front of a string: the number read so
far (unbounded) and the rest of the string. -/
def scan_digits (base : Nat) : List Char → Nat → Nat × List Char
  | [], acc => (acc, [])
  | c :: cs, acc =>
    if digit_value c < base then scan_digits base cs (acc * base + digit_value c)
    else (acc, c :: cs)

/-- Skips the optional `0x`/`0X` of a base-16 number (only when a hex digit
follows). -/
def strto_skip0x (base : Nat) (s : List Char) : List Char :=
  if base = 16 then
    match s with
    | z :: x :: d :: r =>
      if z = '0' ∧ (x = 'x' ∨ x = 'X') ∧ digit_value d < 16 then d :: r else s
    | _ => s
  else s

/-- The subject sequence of the `strtol` family: white space, optional sign,
optional base prefix, digits.  `conv` is false when there is no digit, and then
`endptr` is the start of the string. -/
structure strto_scan where
  neg : Bool
  acc : Nat
  endptr : List Char
  conv : Bool
  deriving DecidableEq, Repr

def strto_subject (base : Nat) (nptr : List Char) : strto_scan :=
  let s1 := nptr.dropWhile isspace
  let s2 := if s1.head? = some '-' ∨ s1.head? = some '+' then s1.tail else s1
  let s3 := strto_skip0x base s2
  match s3 with
  | [] => ⟨false, 0, nptr, false⟩
  | c :: _ =>
    if digit_value c < base then
      ⟨decide (s1.head? = some '-'), (scan_digits base s3 0).1, (scan_digits base s3 0).2, true⟩
    else ⟨false, 0, nptr, false⟩

/-- Result of `strtoul`/`strtoull`: the value, the string `endptr` points to,
and whether `errno` was set to `ERANGE`. -/
structure strtoul_result where
  val : Nat
  endptr : List Char
  erange : Bool
  deriving DecidableEq, Repr

/-- The function `strtoul` (64-bit `unsigned long`). -/
def strtoul (nptr : List Char) (base : Nat) : strtoul_result :=
  let r := strto_subject base nptr
  if r.conv = false then ⟨0, nptr, false⟩
  else if r.acc > ULONG_MAX then ⟨ULONG_MAX, r.endptr, true⟩
  else ⟨if r.neg then (2 ^ 64 - r.acc) % 2 ^ 64 else r.acc, r.endptr, false⟩

/-- The function `strtoull` (64-bit `unsigned long long`). -/
def strtoull (nptr : List Char) (base : Nat) : strtoul_result :=
  strtoul nptr base

/-- Result of `strtoll`. -/
structure strtoll_result where
  val : Int
  endptr : List Char
  erange : Bool
  conv : Bool
  deriving DecidableEq, Repr

/-- The function `strtoll` in base 10. -/
def strtoll (nptr : List Char) : strtoll_result :=
  let r := strto_subject 10 nptr
  if r.conv = false then ⟨0, nptr, false, false⟩
  else if r.neg then
    if (r.acc : Int) > 2 ^ 63 then ⟨LLONG_MIN, r.endptr, true, true⟩
    else ⟨-(r.acc : Int), r.endptr, false, true⟩
  else
    if (r.acc : Int) > LLONG_MAX then ⟨LLONG_MAX, r.endptr, true, true⟩
    else ⟨(r.acc : Int), r.endptr, false, true⟩

/-- The function `strtonum` of OpenBSD: `none` when `errstr` is set. -/
def strtonum (numstr : List Char) (minval maxval : Int) : Option Int :=
  if minval > maxval then none
  else
    let r := strtoll numstr
    if r.conv = false ∨ r.endptr ≠ [] then none
    else if (r.val = LLONG_MIN ∧ r.erange = true) ∨ r.val < minval then none
    else if (r.val = LLONG_MAX ∧ r.erange = true) ∨ r.val > maxval then none
    else some r.val

/-- `strchr(s, c)` followed by `end++[0] = 0`: the string before the first `c`
and the string after it; `none` when `c` does not occur. -/
def strchr_split (c : Char) : List Char → Option (List Char × List Char)
  | [] => none
  | x :: xs =>
    if x = c then some ([], xs)
    else
      match strchr_split c xs with
      | none => none
      | some p => some (x :: p.1, p.2)

/-- `strrchr(s, c)`: the string before the last `c` and the string after it;
`none` when `c` does not occur. -/
def strrchr_split (c : Char) : List Char → Option (List Char × List Char)
  | [] => none
  | x :: xs =>
    match strrchr_split c xs with
    | some p => some (x :: p.1, p.2)
    | none => if x = c then some ([], xs) else none

/-- The character for a hexadecimal digit, lower case. -/
def hexchar (d : Nat) : Char :=
  if d < 10 then Char.ofNat (48 + d) else Char.ofNat (87 + d)

/-- The `n` low-order hexadecimal digits of `v`, most significant first. -/
def hexpad : Nat → Nat → List Char
  | 0, _ => []
  | n + 1, v => hexpad n (v / 16) ++ [hexchar (v % 16)]

/-- The conversion `%016"PRIx64"` of printf: the argument is a `uint64_t`, so
it has at most 16 hexadecimal digits and the zero-padded field is exactly the
16 digits of the value. -/
def fmt_016x (v : Nat) : List Char :=
  hexpad 16 (v % 2 ^ 64)

/-- The conversion `%d` of printf. -/
def fmt_d (n : Int) : List Char :=
  if n < 0 then '-' :: Nat.toDigits 10 n.natAbs else Nat.toDigits 10 n.toNat

/-! ## The response encoder -/

/-- The function `osmtpd_filter_proceed`. -/
def osmtpd_filter_proceed (s : State) (ctx : osmtpd_ctx) : State :=
  if ctx.version_major = 0 ∧ ctx.version_minor < 5 then
    io_printf s ("filter-result|".toList ++ fmt_016x ctx.token ++ "|".toList ++
      fmt_016x ctx.reqid ++ "|proceed\n".toList)
  else
    io_printf s ("filter-result|".toList ++ fmt_016x ctx.reqid ++ "|".toList ++
      fmt_016x ctx.token ++ "|proceed\n".toList)

/-- The function `osmtpd_filter_reject`; `reason` is the expanded format. -/
def osmtpd_filter_reject (s : State) (ctx : osmtpd_ctx) (code : Int) (reason : List Char) :
    Except Halt State :=
  if code < 200 ∨ code > 599 then
    osmtpd_errx s 1 "Invalid reject code".toList
  else
    let s1 :=
      if ctx.version_major = 0 ∧ ctx.version_minor < 5 then
        io_printf s ("filter-result|".toList ++ fmt_016x ctx.token ++ "|".toList ++
          fmt_016x ctx.reqid ++ "|reject|".toList ++ fmt_d code ++ " ".toList)
      else
        io_printf s ("filter-result|".toList ++ fmt_016x ctx.reqid ++ "|".toList ++
          fmt_016x ctx.token ++ "|reject|".toList ++ fmt_d code ++ " ".toList)
    .ok (io_printf (io_printf s1 reason) "\n".toList)

/-- The function `osmtpd_filter_reject_enh`. -/
def osmtpd_filter_reject_enh (s : State) (ctx : osmtpd_ctx) (code cls subject detail : Int)
    (reason : List Char) : Except Halt State :=
  if code < 200 ∨ code > 599 then
    osmtpd_errx s 1 "Invalid reject code".toList
  else if cls < 2 ∨ cls > 5 then
    osmtpd_errx s 1 "Invalid enhanced status class".toList
  else if subject < 0 ∨ subject > 999 then
    osmtpd_errx s 1 "Invalid enhanced status subject".toList
  else if detail < 0 ∨ detail > 999 then
    osmtpd_errx s 1 "Invalid enhanced status detail".toList
  else
    let s1 :=
      if ctx.version_major = 0 ∧ ctx.version_minor < 5 then
        io_printf s ("filter-result|".toList ++ fmt_016x ctx.token ++ "|".toList ++
          fmt_016x ctx.reqid ++ "|reject|".toList ++ fmt_d code ++ " ".toList ++
          fmt_d cls ++ ".".toList ++ fmt_d subject ++ ".".toList ++ fmt_d detail ++
          " ".toList)
      else
        io_printf s ("filter-result|".toList ++ fmt_016x ctx.reqid ++ "|".toList ++
          fmt_016x ctx.token ++ "|reject|".toList ++ fmt_d code ++ " ".toList ++
          fmt_d cls ++ ".".toList ++ fmt_d subject ++ ".".toList ++ fmt_d detail ++
          " ".toList)
    .ok (io_printf (io_printf s1 reason) "\n".toList)

/-- The function `osmtpd_filter_disconnect`. -/
def osmtpd_filter_disconnect (s : State) (ctx : osmtpd_ctx) (reason : List Char) : State :=
  let s1 :=
    if ctx.version_major = 0 ∧ ctx.version_minor < 5 then
      io_printf s ("filter-result|".toList ++ fmt_016x ctx.token ++ "|".toList ++
        fmt_016x ctx.reqid ++ "|disconnect|421 ".toList)
    else
      io_printf s ("filter-result|".toList ++ fmt_016x ctx.reqid ++ "|".toList ++
        fmt_016x ctx.token ++ "|disconnect|421 ".toList)
  io_printf (io_printf s1 reason) "\n".toList

/-- The function `osmtpd_filter_disconnect_enh`. -/
def osmtpd_filter_disconnect_enh (s : State) (ctx : osmtpd_ctx) (cls subject detail : Int)
    (reason : List Char) : Except Halt State :=
  if cls ≤ 2 ∨ cls ≥ 5 then
    osmtpd_errx s 1 "Invalid enhanced status class".toList
  else if subject < 0 ∨ subject > 999 then
    osmtpd_errx s 1 "Invalid enhanced status subject".toList
  else if detail < 0 ∨ detail > 999 then
    osmtpd_errx s 1 "Invalid enhanced status detail".toList
  else
    let s1 :=
      if ctx.version_major = 0 ∧ ctx.version_minor < 5 then
        io_printf s ("filter-result|".toList ++ fmt_016x ctx.token ++ "|".toList ++
          fmt_016x ctx.reqid ++ "|disconnect|421 ".toList ++
          fmt_d cls ++ ".".toList ++ fmt_d subject ++ ".".toList ++ fmt_d detail ++
          " ".toList)
      else
        io_printf s ("filter-result|".toList ++ fmt_016x ctx.reqid ++ "|".toList ++
          fmt_016x ctx.token ++ "|disconnect|421 ".toList ++
          fmt_d cls ++ ".".toList ++ fmt_d subject ++ ".".toList ++ fmt_d detail ++
          " ".toList)
    .ok (io_printf (io_printf s1 reason) "\n".toList)

/-- The function `osmtpd_filter_rewrite`. -/
def osmtpd_filter_rewrite (s : State) (ctx : osmtpd_ctx) (value : List Char) : State :=
  let s1 :=
    if ctx.version_major = 0 ∧ ctx.version_minor < 5 then
      io_printf s ("filter-result|".toList ++ fmt_016x ctx.token ++ "|".toList ++
        fmt_016x ctx.reqid ++ "|rewrite|".toList)
    else
      io_printf s ("filter-result|".toList ++ fmt_016x ctx.reqid ++ "|".toList ++
        fmt_016x ctx.token ++ "|rewrite|".toList)
  io_printf (io_printf s1 value) "\n".toList

/-- The function `osmtpd_filter_dataline`. -/
def osmtpd_filter_dataline (s : State) (ctx : osmtpd_ctx) (line : List Char) : State :=
  let s1 :=
    if ctx.version_major = 0 ∧ ctx.version_minor < 5 then
      io_printf s ("filter-dataline|".toList ++ fmt_016x ctx.token ++ "|".toList ++
        fmt_016x ctx.reqid ++ "|".toList)
    else
      io_printf s ("filter-dataline|".toList ++ fmt_016x ctx.reqid ++ "|".toList ++
        fmt_016x ctx.token ++ "|".toList)
  io_printf (io_printf s1 line) "\n".toList

/-- One call of a verdict emitter made by user code with context `ctx`. -/
def filter_call.run (s : State) (ctx : osmtpd_ctx) : filter_call → Except Halt State
  | filter_call.proceed => .ok (osmtpd_filter_proceed s ctx)
  | filter_call.reject code reason => osmtpd_filter_reject s ctx code reason
  | filter_call.reject_enh code cls subject detail reason =>
    osmtpd_filter_reject_enh s ctx code cls subject detail reason
  | filter_call.disconnect reason => .ok (osmtpd_filter_disconnect s ctx reason)
  | filter_call.disconnect_enh cls subject detail reason =>
    osmtpd_filter_disconnect_enh s ctx cls subject detail reason
  | filter_call.rewrite value => .ok (osmtpd_filter_rewrite s ctx value)
  | filter_call.dataline line => .ok (osmtpd_filter_dataline s ctx line)

/-- The emitter calls of a user function, executed in order. -/
def run_filter_calls (s : State) (ctx : osmtpd_ctx) : List filter_call → Except Halt State
  | [] => .ok s
  | c :: cs =>
    match filter_call.run s ctx c with
    | .ok s1 => run_filter_calls s1 ctx cs
    | .error h => .error h

/-- The call `f(ctx, ...)` of the user function at address `fn`: a null
pointer stops the process, otherwise the call is logged and the emitters the
function calls are executed. -/
def call_user (env : user_code) (s : State) (fn : Nat) (ctx : osmtpd_ctx) (args : cb_args) :
    Except Halt State :=
  if fn = NULL then .error (Halt.null_call s)
  else
    run_filter_calls { s with trace := s.trace ++ [event.user_cb fn ctx args] } ctx
      (env.callback fn ctx args)

/-- The statement `if ((f = cb->cb) != NULL) f(ctx, ...)`. -/
def call_user_if (env : user_code) (s : State) (fn : Nat) (ctx : osmtpd_ctx) (args : cb_args) :
    Except Halt State :=
  if fn ≠ NULL then call_user env s fn ctx args else .ok s


/-! ## The session store -/

/-- `RB_FIND` on the session tree (ordered by `osmtpd_session_cmp`, that is by
`reqid`). -/
def RB_FIND (reqid : Nat) : List osmtpd_ctx → Option osmtpd_ctx
  | [] => none
  | c :: cs => if c.reqid = reqid then some c else RB_FIND reqid cs

/-- `RB_INSERT`: the record is put at its place in key order; a record with
the same key is left as it is. -/
def RB_INSERT (c : osmtpd_ctx) : List osmtpd_ctx → List osmtpd_ctx
  | [] => [c]
  | d :: ds =>
    if c.reqid < d.reqid then c :: d :: ds
    else if c.reqid = d.reqid then d :: ds
    else d :: RB_INSERT c ds

/-- `RB_REMOVE` of the record with key `reqid`. -/
def RB_REMOVE (reqid : Nat) : List osmtpd_ctx → List osmtpd_ctx
  | [] => []
  | c :: cs => if c.reqid = reqid then cs else c :: RB_REMOVE reqid cs

/-- Assignments through the pointer `ctx` to the record of a session in the
tree: the record with the key of `c` becomes `c`. -/
def session_put (c : osmtpd_ctx) : List osmtpd_ctx → List osmtpd_ctx
  | [] => []
  | d :: ds => if d.reqid = c.reqid then c :: ds else d :: session_put c ds

/-- The state after assignments to fields of `*ctx`. -/
def ctx_write (s : State) (c : osmtpd_ctx) : State :=
  { s with osmtpd_sessions := session_put c s.osmtpd_sessions }

/-- A `struct sockaddr_storage` after `memset` to zero and
`ss_family = AF_UNSPEC`; also stands for a local one before it is filled. -/
def sockaddr_unspec : sockaddr_storage :=
  { ss_family := sa_family.AF_UNSPEC, port := 0, addr := [], sun_path := [] }

/-- The record `osmtpd_newline` sets up for an unknown `reqid`, before the
session constructor runs.  The fields the source leaves uninitialised at that
point (`type`, `phase`, versions, `tm`, `incoming`, `token`) are given the
value zero. -/
def new_session (reqid : Nat) : osmtpd_ctx :=
  { type := OSMTPD_TYPE_FILTER, phase := OSMTPD_PHASE_CONNECT, version_major := 0,
    version_minor := 0, tm := ⟨0, 0⟩, incoming := 0, reqid := reqid, token := 0,
    src := sockaddr_unspec, dst := sockaddr_unspec, rdns := none,
    fcrdns := OSMTPD_STATUS_TEMPFAIL, identity := none, greeting_identity := none,
    ciphers := none, msgid := 0, mailfrom := none, rcptto := [], evpid := 0,
    local_session := NULL, local_message := NULL }

/-! ## Payload parsers -/

/-- `osmtpd_errx(1, fmt ": %s", linedup)` for the messages that end with the
retained copy of the line. -/
def fatal_line (s : State) (msg : List Char) : Except Halt State :=
  osmtpd_errx s 1 (msg ++ s.linedup)

/-- The function `osmtpd_strtostatus` (`none` when it calls `osmtpd_errx`). -/
def osmtpd_strtostatus (status : List Char) : Option osmtpd_status :=
  if status = "ok".toList then some OSMTPD_STATUS_OK
  else if status = "tempfail".toList then some OSMTPD_STATUS_TEMPFAIL
  else if status = "permfail".toList then some OSMTPD_STATUS_PERMFAIL
  else none

/-- The call of `osmtpd_errx` at the end of `osmtpd_strtostatus`. -/
def fatal_status (s : State) : Except Halt State :=
  osmtpd_errx s 1 ("Invalid line received: invalid status: ".toList ++ s.linedup ++ "\n".toList)

/-- The function `osmtpd_strtophase` (`none` when it calls `osmtpd_errx`). -/
def osmtpd_strtophase (phase : List Char) : Option osmtpd_phase :=
  if phase = "connect".toList then some OSMTPD_PHASE_CONNECT
  else if phase = "helo".toList then some OSMTPD_PHASE_HELO
  else if phase = "ehlo".toList then some OSMTPD_PHASE_EHLO
  else if phase = "starttls".toList then some OSMTPD_PHASE_STARTTLS
  else if phase = "auth".toList then some OSMTPD_PHASE_AUTH
  else if phase = "mail-from".toList then some OSMTPD_PHASE_MAIL_FROM
  else if phase = "rcpt-to".toList then some OSMTPD_PHASE_RCPT_TO
  else if phase = "data".toList then some OSMTPD_PHASE_DATA
  else if phase = "data-line".toList then some OSMTPD_PHASE_DATA_LINE
  else if phase = "rset".toList then some OSMTPD_PHASE_RSET
  else if phase = "quit".toList then some OSMTPD_PHASE_QUIT
  else if phase = "noop".toList then some OSMTPD_PHASE_NOOP
  else if phase = "help".toList then some OSMTPD_PHASE_HELP
  else if phase = "wiz".toList then some OSMTPD_PHASE_WIZ
  else if phase = "commit".toList then some OSMTPD_PHASE_COMMIT
  else if phase = "link-auth".toList then some OSMTPD_PHASE_LINK_AUTH
  else if phase = "link-connect".toList then some OSMTPD_PHASE_LINK_CONNECT
  else if phase = "link-disconnect".toList then some OSMTPD_PHASE_LINK_DISCONNECT
  else if phase = "link-greeting".toList then some OSMTPD_PHASE_LINK_GREETING
  else if phase = "link-identify".toList then some OSMTPD_PHASE_LINK_IDENTIFY
  else if phase = "link-tls".toList then some OSMTPD_PHASE_LINK_TLS
  else if phase = "tx-begin".toList then some OSMTPD_PHASE_TX_BEGIN
  else if phase = "tx-mail".toList then some OSMTPD_PHASE_TX_MAIL
  else if phase = "tx-rcpt".toList then some OSMTPD_PHASE_TX_RCPT
  else if phase = "tx-envelope".toList then some OSMTPD_PHASE_TX_ENVELOPE
  else if phase = "tx-data".toList then some OSMTPD_PHASE_TX_DATA
  else if phase = "tx-commit".toList then some OSMTPD_PHASE_TX_COMMIT
  else if phase = "tx-rollback".toList then some OSMTPD_PHASE_TX_ROLLBACK
  else if phase = "protocol-client".toList then some OSMTPD_PHASE_PROTOCOL_CLIENT
  else if phase = "protocol-server".toList then some OSMTPD_PHASE_PROTOCOL_SERVER
  else if phase = "filter-response".toList then some OSMTPD_PHASE_FILTER_RESPONSE
  else if phase = "timeout".toList then some OSMTPD_PHASE_TIMEOUT
  else none

/-- The function `osmtpd_addrtoss`: the address written to `*ss`, or the fatal
exit.  In every error message `addr` is the original text (the source restores
the character it had overwritten). -/
def osmtpd_addrtoss (env : user_code) (s : State) (addr : List Char) (hasport : Bool) :
    Except Halt sockaddr_storage :=
  let bad : Except Halt sockaddr_storage :=
    .error (Halt.exit 1 ("Invalid line received: invalid address (".toList ++ addr ++
      "): ".toList ++ s.linedup ++ "\n".toList) s)
  if addr.head? = some '[' then
    if hasport then
      match strrchr_split ':' addr with
      | none => bad
      | some (host, port) =>
        if host.getLast? ≠ some ']' then bad
        else
          match strtonum port 0 UINT16_MAX with
          | none => bad
          | some p =>
            match env.inet_pton sa_family.AF_INET6 host.dropLast.tail with
            | none => bad
            | some a => .ok { ss_family := sa_family.AF_INET6, port := p.toNat, addr := a,
                              sun_path := [] }
    else
      if addr.getLast? ≠ some ']' then bad
      else
        match env.inet_pton sa_family.AF_INET6 addr.dropLast.tail with
        | none => bad
        | some a => .ok { ss_family := sa_family.AF_INET6, port := 0, addr := a,
                          sun_path := [] }
  else if (addr.take 5).map Char.toLower = "unix:".toList then
    if addr.length ≥ env.sun_path_size then
      .error (Halt.exit 1 ("Invalid line received: address too long (".toList ++ addr ++
        "): ".toList ++ s.linedup ++ "\n".toList) s)
    else .ok { ss_family := sa_family.AF_UNIX, port := 0, addr := [], sun_path := addr }
  else
    if hasport then
      match strrchr_split ':' addr with
      | none => bad
      | some (host, port) =>
        match strtonum port 0 UINT16_MAX with
        | none => bad
        | some p =>
          match env.inet_pton sa_family.AF_INET host with
          | none => bad
          | some a => .ok { ss_family := sa_family.AF_INET, port := p.toNat, addr := a,
                            sun_path := [] }
    else
      match env.inet_pton sa_family.AF_INET addr with
      | none => bad
      | some a => .ok { ss_family := sa_family.AF_INET, port := 0, addr := a, sun_path := [] }

/-- The function `osmtpd_noargs`. -/
def osmtpd_noargs (env : user_code) (s : State) (cb : osmtpd_callback) (ctx : osmtpd_ctx) :
    Except Halt State :=
  call_user env s cb.cb ctx cb_args.noargs

/-- The function `osmtpd_onearg`. -/
def osmtpd_onearg (env : user_code) (s : State) (cb : osmtpd_callback) (ctx : osmtpd_ctx)
    (line : Option (List Char)) : Except Halt State :=
  match line with
  | none => .error (Halt.out_of_bounds s)
  | some line => call_user env s cb.cb ctx (cb_args.onearg line)

/-- The function `osmtpd_connect`. -/
def osmtpd_connect (env : user_code) (s : State) (cb : osmtpd_callback) (ctx : osmtpd_ctx)
    (params : Option (List Char)) : Except Halt State :=
  match params with
  | none => .error (Halt.out_of_bounds s)
  | some params =>
    match strchr_split '|' params with
    | none => fatal_line s "Invalid line received: missing address: ".toList
    | some (hostname, address) =>
      match osmtpd_addrtoss env s address false with
      | .error h => .error h
      | .ok ss => call_user env s cb.cb ctx (cb_args.connect hostname ss)

/-- The function `osmtpd_identify`. -/
def osmtpd_identify (env : user_code) (s : State) (cb : osmtpd_callback) (ctx : osmtpd_ctx)
    (identity : Option (List Char)) : Except Halt State :=
  match identity with
  | none => .error (Halt.out_of_bounds s)
  | some identity =>
    let ctx1 := if cb.storereport then { ctx with identity := some identity } else ctx
    call_user env (ctx_write s ctx1) cb.cb ctx1 (cb_args.onearg identity)

/-- The function `osmtpd_link_auth`. -/
def osmtpd_link_auth (env : user_code) (s : State) (cb : osmtpd_callback) (ctx : osmtpd_ctx)
    (params : Option (List Char)) : Except Halt State :=
  match params with
  | none => .error (Halt.out_of_bounds s)
  | some params =>
    match strchr_split '|' params with
    | none => fatal_line s "Invalid line received: missing username: ".toList
    | some (username, res) =>
      if res = "pass".toList then
        call_user_if env s cb.cb ctx (cb_args.link_auth username OSMTPD_AUTH_PASS)
      else if res = "fail".toList then
        call_user_if env s cb.cb ctx (cb_args.link_auth username OSMTPD_AUTH_FAIL)
      else if res = "error".toList then
        call_user_if env s cb.cb ctx (cb_args.link_auth username OSMTPD_AUTH_ERROR)
      else fatal_line s "Invalid line received: invalid result: ".toList

/-- The word of the `fcrdns` field of `link-connect`. -/
def fcrdns_of_string (w : List Char) : Option osmtpd_status :=
  if w = "pass".toList then some OSMTPD_STATUS_OK
  else if w = "fail".toList then some OSMTPD_STATUS_PERMFAIL
  else if w = "error".toList then some OSMTPD_STATUS_TEMPFAIL
  else none

/-- The function `osmtpd_link_connect`. -/
def osmtpd_link_connect (env : user_code) (s : State) (cb : osmtpd_callback)
    (ctx : osmtpd_ctx) (params : Option (List Char)) : Except Halt State :=
  match params with
  | none => .error (Halt.out_of_bounds s)
  | some params =>
    match strchr_split '|' params with
    | none => fatal_line s "Invalid line received: missing fcrdns: ".toList
    | some (rdns, p1) =>
      match strchr_split '|' p1 with
      | none => fatal_line s "Invalid line received: missing src: ".toList
      | some (w, p2) =>
        match fcrdns_of_string w with
        | none => fatal_line s "Invalid line received: invalid fcrdns: ".toList
        | some fcrdns =>
          match strchr_split '|' p2 with
          | none => fatal_line s "Invalid line received: missing dst: ".toList
          | some (srcs, dsts) =>
            match osmtpd_addrtoss env s srcs true with
            | .error h => .error h
            | .ok src =>
              match osmtpd_addrtoss env s dsts true with
              | .error h => .error h
              | .ok dst =>
                let ctx1 :=
                  if cb.storereport then
                    { ctx with rdns := some rdns, fcrdns := fcrdns, src := src, dst := dst }
                  else ctx
                call_user_if env (ctx_write s ctx1) cb.cb ctx1
                  (cb_args.link_connect rdns fcrdns src dst)

/-- The function `osmtpd_link_disconnect`. -/
def osmtpd_link_disconnect (env : user_code) (s : State) (cb : osmtpd_callback)
    (ctx : osmtpd_ctx) : Except Halt State :=
  match call_user_if env s cb.cb ctx cb_args.noargs with
  | .error h => .error h
  | .ok s1 =>
    match RB_FIND ctx.reqid s1.osmtpd_sessions with
    | none => .ok s1
    | some session =>
      let s2 := { s1 with osmtpd_sessions := RB_REMOVE ctx.reqid s1.osmtpd_sessions }
      if s2.ondeletecb_session ≠ NULL then
        .ok { s2 with trace := s2.trace ++
                [event.ondelete_session s2.ondeletecb_session ctx session.local_session] }
      else .ok s2

/-- The function `osmtpd_link_greeting`. -/
def osmtpd_link_greeting (env : user_code) (s : State) (cb : osmtpd_callback)
    (ctx : osmtpd_ctx) (identity : Option (List Char)) : Except Halt State :=
  match identity with
  | none => .error (Halt.out_of_bounds s)
  | some identity =>
    let ctx1 := if cb.storereport then { ctx with greeting_identity := some identity } else ctx
    call_user_if env (ctx_write s ctx1) cb.cb ctx1 (cb_args.onearg identity)

/-- The function `osmtpd_link_identify`. -/
def osmtpd_link_identify (env : user_code) (s : State) (cb : osmtpd_callback)
    (ctx : osmtpd_ctx) (identity : Option (List Char)) : Except Halt State :=
  match identity with
  | none => .error (Halt.out_of_bounds s)
  | some identity =>
    let ctx1 := if cb.storereport then { ctx with identity := some identity } else ctx
    call_user_if env (ctx_write s ctx1) cb.cb ctx1 (cb_args.onearg identity)

/-- The function `osmtpd_link_tls`. -/
def osmtpd_link_tls (env : user_code) (s : State) (cb : osmtpd_callback)
    (ctx : osmtpd_ctx) (ciphers : Option (List Char)) : Except Halt State :=
  match ciphers with
  | none => .error (Halt.out_of_bounds s)
  | some ciphers =>
    let ctx1 := if cb.storereport then { ctx with ciphers := some ciphers } else ctx
    call_user_if env (ctx_write s ctx1) cb.cb ctx1 (cb_args.onearg ciphers)

/-- The function `osmtpd_tx_begin`. -/
def osmtpd_tx_begin (env : user_code) (s : State) (cb : osmtpd_callback)
    (ctx : osmtpd_ctx) (msgid : Option (List Char)) : Except Halt State :=
  match msgid with
  | none => .error (Halt.out_of_bounds s)
  | some msgid =>
    let r := strtoul msgid 16
    if (r.val = ULONG_MAX ∧ r.erange = true) ∨ r.endptr ≠ [] then
      fatal_line s "Invalid line received: invalid msgid: ".toList
    else
      let ctx1 := { ctx with msgid := to_uint32 r.val }
      if ctx1.msgid ≠ r.val then
        fatal_line (ctx_write s ctx1) "Invalid line received: invalid msgid: ".toList
      else
        let ctx2 := if cb.storereport = false then { ctx1 with msgid := 0 } else ctx1
        let s2 := ctx_write s ctx2
        if s2.oncreatecb_message ≠ NULL then
          let ctx3 := { ctx2 with local_message := env.oncreate s2.oncreatecb_message ctx2 }
          let s3 := ctx_write
            { s2 with trace := s2.trace ++ [event.oncreate_message s2.oncreatecb_message ctx2] }
            ctx3
          call_user_if env s3 cb.cb ctx3 (cb_args.tx_begin r.val)
        else call_user_if env s2 cb.cb ctx2 (cb_args.tx_begin r.val)

/-- The common start of the `tx-*` parsers that expect more fields after the
message id: `strtoul`, the three checks, `params = end + 1`.  Gives the
`uint32_t msgid` and the rest of the payload. -/
def tx_msgid (s : State) (params : Option (List Char)) : Except Halt (Nat × List Char) :=
  match params with
  | none => .error (Halt.out_of_bounds s)
  | some params =>
    let r := strtoul params 16
    if r.val = ULONG_MAX ∧ r.erange = true then
      .error (Halt.exit 1 ("Invalid line received: invalid msgid: ".toList ++ s.linedup ++
        "\n".toList) s)
    else if r.endptr.head? ≠ some '|' then
      .error (Halt.exit 1 ("Invalid line received: missing address: ".toList ++ s.linedup ++
        "\n".toList) s)
    else if to_uint32 r.val ≠ r.val then
      .error (Halt.exit 1 ("Invalid line received: invalid msgid: ".toList ++ s.linedup ++
        "\n".toList) s)
    else .ok (to_uint32 r.val, r.endptr.tail)

/-- The address and status fields of `tx-mail` and `tx-rcpt`: split at the
first `|`, the order chosen by the protocol version.  The status is `none`
when `osmtpd_strtostatus` is fatal. -/
def tx_addr_status (ctx : osmtpd_ctx) (first second : List Char) :
    List Char × Option osmtpd_status :=
  if ctx.version_major = 0 ∧ ctx.version_minor < 6 then
    (first, osmtpd_strtostatus second)
  else (second, osmtpd_strtostatus first)

/-- The function `osmtpd_tx_mail`. -/
def osmtpd_tx_mail (env : user_code) (s : State) (cb : osmtpd_callback)
    (ctx : osmtpd_ctx) (params : Option (List Char)) : Except Halt State :=
  match tx_msgid s params with
  | .error h => .error h
  | .ok (msgid, params) =>
    match strchr_split '|' params with
    | none => fatal_line s "Invalid line received: missing status: ".toList
    | some (first, second) =>
      match tx_addr_status ctx first second with
      | (_, none) => fatal_status s
      | (mailfrom, some status) =>
        let ctx1 := if cb.storereport then { ctx with mailfrom := some mailfrom } else ctx
        call_user_if env (ctx_write s ctx1) cb.cb ctx1 (cb_args.tx_addr msgid mailfrom status)

/-- The function `osmtpd_tx_rcpt`. -/
def osmtpd_tx_rcpt (env : user_code) (s : State) (cb : osmtpd_callback)
    (ctx : osmtpd_ctx) (params : Option (List Char)) : Except Halt State :=
  match tx_msgid s params with
  | .error h => .error h
  | .ok (msgid, params) =>
    match strchr_split '|' params with
    | none => fatal_line s "Invalid line received: missing status: ".toList
    | some (first, second) =>
      match tx_addr_status ctx first second with
      | (_, none) => fatal_status s
      | (rcptto, some status) =>
        let ctx1 := if cb.storereport then { ctx with rcptto := ctx.rcptto ++ [rcptto] } else ctx
        call_user_if env (ctx_write s ctx1) cb.cb ctx1 (cb_args.tx_addr msgid rcptto status)

/-- The function `osmtpd_tx_envelope`.  The range test reads `ctx->evpid`, as
the source does. -/
def osmtpd_tx_envelope (env : user_code) (s : State) (cb : osmtpd_callback)
    (ctx : osmtpd_ctx) (params : Option (List Char)) : Except Halt State :=
  match tx_msgid s params with
  | .error h => .error h
  | .ok (msgid, params) =>
    let r := strtoull params 16
    if (ctx.evpid = ULLONG_MAX ∧ r.erange = true) ∨ r.endptr ≠ [] then
      fatal_line s "Invalid line received: invalid evpid: ".toList
    else
      let ctx1 := if cb.storereport then { ctx with evpid := r.val } else ctx
      call_user_if env (ctx_write s ctx1) cb.cb ctx1 (cb_args.tx_envelope msgid r.val)

/-- The function `osmtpd_tx_data`: the status is parsed only when there is a
callback. -/
def osmtpd_tx_data (env : user_code) (s : State) (cb : osmtpd_callback)
    (ctx : osmtpd_ctx) (params : Option (List Char)) : Except Halt State :=
  match tx_msgid s params with
  | .error h => .error h
  | .ok (msgid, params) =>
    if cb.cb ≠ NULL then
      match osmtpd_strtostatus params with
      | none => fatal_status s
      | some status => call_user env s cb.cb ctx (cb_args.tx_data msgid status)
    else .ok s

/-- The end of `osmtpd_tx_commit` and `osmtpd_tx_rollback`: the message
destructor, then the message-level fields are cleared. -/
def tx_end (s : State) (ctx : osmtpd_ctx) : State :=
  let s1 :=
    if s.ondeletecb_message ≠ NULL then
      { s with trace := s.trace ++
          [event.ondelete_message s.ondeletecb_message ctx ctx.local_message] }
    else s
  let ctx1 := if s.ondeletecb_message ≠ NULL then { ctx with local_message := NULL } else ctx
  ctx_write s1 { ctx1 with mailfrom := none, rcptto := [], evpid := 0, msgid := 0 }

/-- The function `osmtpd_tx_commit`. -/
def osmtpd_tx_commit (env : user_code) (s : State) (cb : osmtpd_callback)
    (ctx : osmtpd_ctx) (params : Option (List Char)) : Except Halt State :=
  match tx_msgid s params with
  | .error h => .error h
  | .ok (msgid, params) =>
    match strtonum params 0 UINT32_MAX with
    | none => fatal_line s "Invalid line received: invalid msg size: ".toList
    | some msgsz =>
      match call_user_if env s cb.cb ctx (cb_args.tx_commit msgid msgsz.toNat) with
      | .error h => .error h
      | .ok s1 => .ok (tx_end s1 ctx)

/-- The function `osmtpd_tx_rollback`. -/
def osmtpd_tx_rollback (env : user_code) (s : State) (cb : osmtpd_callback)
    (ctx : osmtpd_ctx) (params : Option (List Char)) : Except Halt State :=
  match params with
  | none => .error (Halt.out_of_bounds s)
  | some params =>
    let r := strtoul params 16
    if r.val = ULONG_MAX ∧ r.erange = true then
      fatal_line s "Invalid line received: invalid msgid: ".toList
    else if r.endptr ≠ [] then
      fatal_line s "Invalid line received: missing address: ".toList
    else if to_uint32 r.val ≠ r.val then
      fatal_line s "Invalid line received: invalid msgid: ".toList
    else
      match call_user_if env s cb.cb ctx (cb_args.tx_rollback (to_uint32 r.val)) with
      | .error h => .error h
      | .ok s1 => .ok (tx_end s1 ctx)

/-- The call `osmtpd_callbacks[i].osmtpd_cb(&osmtpd_callbacks[i], &ctx->ctx,
line, linedup)`. -/
def call_osmtpd_cb (env : user_code) (s : State) (cb : osmtpd_callback) (ctx : osmtpd_ctx)
    (line : Option (List Char)) : Except Halt State :=
  match cb.osmtpd_cb with
  | parser_fn.noargs => osmtpd_noargs env s cb ctx
  | parser_fn.onearg => osmtpd_onearg env s cb ctx line
  | parser_fn.connect => osmtpd_connect env s cb ctx line
  | parser_fn.identify => osmtpd_identify env s cb ctx line
  | parser_fn.link_auth => osmtpd_link_auth env s cb ctx line
  | parser_fn.link_connect => osmtpd_link_connect env s cb ctx line
  | parser_fn.link_disconnect => osmtpd_link_disconnect env s cb ctx
  | parser_fn.link_greeting => osmtpd_link_greeting env s cb ctx line
  | parser_fn.link_identify => osmtpd_link_identify env s cb ctx line
  | parser_fn.link_tls => osmtpd_link_tls env s cb ctx line
  | parser_fn.tx_begin => osmtpd_tx_begin env s cb ctx line
  | parser_fn.tx_mail => osmtpd_tx_mail env s cb ctx line
  | parser_fn.tx_rcpt => osmtpd_tx_rcpt env s cb ctx line
  | parser_fn.tx_envelope => osmtpd_tx_envelope env s cb ctx line
  | parser_fn.tx_data => osmtpd_tx_data env s cb ctx line
  | parser_fn.tx_commit => osmtpd_tx_commit env s cb ctx line
  | parser_fn.tx_rollback => osmtpd_tx_rollback env s cb ctx line

/-! ## The line decoder and dispatcher: `osmtpd_newline` -/

/-- The `for` loop of `osmtpd_newline` that looks for the catalog entry of the
event: the first entry equal to `(type, phase, incoming)`. -/
def find_callback (type : osmtpd_type) (phase : osmtpd_phase) (incoming : Int) :
    List osmtpd_callback → Option osmtpd_callback
  | [] => none
  | e :: es =>
    if type = e.type ∧ phase = e.phase ∧ incoming = e.incoming then some e
    else find_callback type phase incoming es

/-- The copy of the line kept for error messages: `linedup` is reallocated
only when `dupsize < linelen`, and `strlcpy` copies at most `dupsize - 1`
characters. -/
def newline_linedup (s : State) (line : List Char) : State :=
  let dupsize := if s.dupsize < line.length then line.length + 1 else s.dupsize
  { s with dupsize := dupsize, linedup := line.take (dupsize - 1) }

/-- The `config` branch of `osmtpd_newline`; `line` is the text after
`config|`. -/
def osmtpd_newline_config (s : State) (line : List Char) : Except Halt State :=
  if line = "ready".toList then
    .ok (if s.conf_cb ≠ NULL then
      { s with trace := s.trace ++ [event.conf_cb s.conf_cb none none] } else s)
  else
    match strchr_split '|' line with
    | none => fatal_line s "Invalid line received: missing key: ".toList
    | some (key, value) =>
      let s1 := if s.conf_cb ≠ NULL then
        { s with trace := s.trace ++ [event.conf_cb s.conf_cb (some key) (some value)] } else s
      if key = "smtp-session-timeout".toList then
        match strtonum value 0 INT_MAX with
        | none =>
          fatal_line { s1 with session_timeout := 0 }
            "Invalid line received: invalid smtp-sesion-timeout: ".toList
        | some v => .ok { s1 with session_timeout := v }
      else .ok s1

/-- The statements `ctx = RB_FIND(...); if (ctx == NULL) { ... }` of
`osmtpd_newline`: the record of the session `reqid`, set up and inserted when
there is none (the session constructor, if set, is called on the new record),
and the state afterwards. -/
def session_lookup (env : user_code) (s : State) (reqid : Nat) : State × osmtpd_ctx :=
  match RB_FIND reqid s.osmtpd_sessions with
  | some c => (s, c)
  | none =>
    let s0 := { s with osmtpd_sessions := RB_INSERT (new_session reqid) s.osmtpd_sessions }
    if s0.oncreatecb_session ≠ NULL then
      let c := { new_session reqid with
                   local_session := env.oncreate s0.oncreatecb_session (new_session reqid) }
      (ctx_write
        { s0 with trace := s0.trace ++
            [event.oncreate_session s0.oncreatecb_session (new_session reqid)] } c, c)
    else (s0, new_session reqid)

/-- The part of `osmtpd_newline` from `RB_FIND` to the call of the payload
parser.  `reqid` is the result of `strtoull` on the reqid field, `errno` the
value of `errno` after it, and `line` the text after the reqid field: `none`
when the reqid field ended the line, since `line = end + 1` then points past
the terminator. -/
def osmtpd_newline_dispatch (env : user_code) (s : State) (type : osmtpd_type)
    (version_major version_minor : Int) (tm : timespec) (incoming : Int)
    (phase : osmtpd_phase) (reqid : Nat) (errno : Nat) (line : Option (List Char)) :
    Except Halt State :=
  let ctx1 : osmtpd_ctx :=
    { (session_lookup env s reqid).2 with
        type := type, phase := phase, version_major := version_major,
        version_minor := version_minor, incoming := incoming, tm := tm, token := 0 }
  let s2 := ctx_write (session_lookup env s reqid).1 ctx1
  match find_callback type phase incoming s2.osmtpd_callbacks with
  | none => fatal_line s2 "Invalid line received: received unregistered line: ".toList
  | some cb =>
    if type = OSMTPD_TYPE_FILTER then
      match line with
      | none => .error (Halt.out_of_bounds s2)
      | some line =>
        let r := strtoull line 16
        let errno1 := if r.erange then ERANGE else errno
        let ctx2 := { ctx1 with token := r.val }
        let s3 := ctx_write s2 ctx2
        if (ctx2.token = ULLONG_MAX ∧ errno1 ≠ 0) ∨ r.endptr.head? ≠ some '|' then
          fatal_line s3 "Invalid line received: invalid token: ".toList
        else call_osmtpd_cb env s3 cb ctx2 (some r.endptr.tail)
    else call_osmtpd_cb env s2 cb ctx1 line

/-- The part of `osmtpd_newline` that reads the reqid field and goes on to the
session and the payload parser; `line` is the text after the phase field. -/
def osmtpd_newline_reqid (env : user_code) (s : State) (type : osmtpd_type)
    (version_major version_minor : Int) (tm : timespec) (incoming : Int)
    (phase : osmtpd_phase) (line : List Char) : Except Halt State :=
  let r := strtoull line 16
  let errno := if r.erange then ERANGE else 0
  if (r.val = ULLONG_MAX ∧ errno ≠ 0) ∨ (r.endptr.head? ≠ some '|' ∧ r.endptr ≠ []) then
    fatal_line s "Invalid line received: invalid reqid: ".toList
  else
    osmtpd_newline_dispatch env s type version_major version_minor tm incoming phase r.val
      errno (if r.endptr = [] then none else some r.endptr.tail)

/-- The part of `osmtpd_newline` that reads the direction and the phase;
`line` is the text after the timestamp. -/
def osmtpd_newline_phase (env : user_code) (s : State) (type : osmtpd_type)
    (version_major version_minor : Int) (tm : timespec) (line : List Char) :
    Except Halt State :=
  match strchr_split '|' line with
  | none => fatal_line s "Invalid line received: missing phase: ".toList
  | some (dir, line6) =>
    if dir ≠ "smtp-in".toList ∧ dir ≠ "smtp-out".toList then
      fatal_line s "Invalid line: invalid direction: ".toList
    else
      match strchr_split '|' line6 with
      | none => fatal_line s "Invalid line received: missing reqid: ".toList
      | some (ph, line7) =>
        match osmtpd_strtophase ph with
        | none => fatal_line s "Invalid line received: invalid phase: ".toList
        | some phase =>
          osmtpd_newline_reqid env s type version_major version_minor tm
            (if dir = "smtp-in".toList then 1 else 0) phase line7

/-- The part of `osmtpd_newline` that reads the timestamp; `line` is the text
after the protocol version.  The fraction is multiplied by
`10 * (9 - (end - line))`, where `end` has already been moved past the `|`
that ends the fraction. -/
def osmtpd_newline_time (env : user_code) (s : State) (type : osmtpd_type)
    (version_major version_minor : Int) (line : List Char) : Except Halt State :=
  match strchr_split '.' line with
  | none => fatal_line s "Invalid line received: invalid timestamp: ".toList
  | some (sec, line4) =>
    match strtonum sec 0 INT64_MAX with
    | none => fatal_line s "Invalid line received: invalid timestamp: ".toList
    | some tv_sec =>
      match strchr_split '|' line4 with
      | none => fatal_line s "Invalid line received: missing direction: ".toList
      | some (frac, line5) =>
        match strtonum frac 0 LONG_MAX with
        | none => fatal_line s "Invalid line received: invalid timestamp: ".toList
        | some nsec =>
          osmtpd_newline_phase env s type version_major version_minor
            ⟨tv_sec, to_long (nsec * (10 * (9 - ((frac.length : Int) + 1))))⟩ line5

/-- The part of `osmtpd_newline` for a `filter` or `report` line that reads
the protocol version; `line` is the text after the first `|`. -/
def osmtpd_newline_event (env : user_code) (s : State) (type : osmtpd_type)
    (line : List Char) : Except Halt State :=
  let r1 := strtoul line 10
  if r1.endptr.length = line.length ∨ r1.endptr.head? ≠ some '.' then
    fatal_line s "Invalid protocol received: ".toList
  else
    let r2 := strtoul r1.endptr.tail 10
    if r2.endptr = [] then
      fatal_line s "Invalid line received: missing time: ".toList
    else if r2.endptr.length = r1.endptr.tail.length ∨ r2.endptr.head? ≠ some '|' then
      fatal_line s "Invalid protocol received: ".toList
    else if to_int r1.val ≠ 0 then
      fatal_line s "Unsupported protocol received: ".toList
    else
      osmtpd_newline_time env s type (to_int r1.val) (to_int r2.val) r2.endptr.tail

/-- The body of the `while` loop of `osmtpd_newline`: one line handed over by
`io_getline`, without its newline. -/
def osmtpd_newline_line (env : user_code) (s0 : State) (line : List Char) :
    Except Halt State :=
  let s := newline_linedup s0 line
  match strchr_split '|' line with
  | none => fatal_line s "Invalid line received: missing version: ".toList
  | some (kind, rest) =>
    if kind = "filter".toList then osmtpd_newline_event env s OSMTPD_TYPE_FILTER rest
    else if kind = "report".toList then osmtpd_newline_event env s OSMTPD_TYPE_REPORT rest
    else if kind = "config".toList then osmtpd_newline_config s rest
    else fatal_line s "Invalid line received: unknown message type: ".toList

/-- The function `osmtpd_newline` for the event `IO_DATAIN`: every line that
`io_getline` returns is processed in turn. -/
def osmtpd_newline (env : user_code) (s : State) : List (List Char) → Except Halt State
  | [] => .ok s
  | line :: lines =>
    match osmtpd_newline_line env s line with
    | .ok s1 => osmtpd_newline env s1 lines
    | .error h => .error h


/-! ## Vocabulary of the statements -/

/-- The two identifier fields `A|B` of a verdict line for a context: token
first for protocol `0.x` with `x < 5`, reqid first otherwise. -/
def verdict_ids (ctx : osmtpd_ctx) : List Char :=
  if ctx.version_major = 0 ∧ ctx.version_minor < 5 then
    fmt_016x ctx.token ++ "|".toList ++ fmt_016x ctx.reqid
  else fmt_016x ctx.reqid ++ "|".toList ++ fmt_016x ctx.token

/-- A lower-case hexadecimal digit. -/
def is_lower_hex (c : Char) : Prop :=
  (48 ≤ c.toNat ∧ c.toNat ≤ 57) ∨ (97 ≤ c.toNat ∧ c.toNat ≤ 102)

instance (c : Char) : Decidable (is_lower_hex c) := by
  unfold is_lower_hex; infer_instance

/-- The number a string of hexadecimal digits denotes. -/
def hex_value (ds : List Char) : Nat :=
  ds.foldl (fun acc c => acc * 16 + digit_value c) 0

/-- A decimal digit. -/
def is_decimal (c : Char) : Prop :=
  48 ≤ c.toNat ∧ c.toNat ≤ 57

instance (c : Char) : Decidable (is_decimal c) := by
  unfold is_decimal; infer_instance

/-- The number a string of decimal digits denotes. -/
def decimal_value (ds : List Char) : Nat :=
  ds.foldl (fun acc c => acc * 10 + digit_value c) 0

/-- The first word of the line a verdict emitter writes. -/
def verdict_keyword : filter_call → List Char
  | filter_call.dataline _ => "filter-dataline|".toList
  | _ => "filter-result|".toList

/-- The fields of a catalog entry that identify the event. -/
def entry_key (e : osmtpd_callback) : osmtpd_type × osmtpd_phase × Int :=
  (e.type, e.phase, e.incoming)

/-- How an entry can change during the registration phase of `osmtpd_run`
(registrations with a null callback and the identify promotion): only
`doregister` and `storereport` change, and only from false to true. -/
def entry_rel (e e1 : osmtpd_callback) : Prop :=
  e1.type = e.type ∧ e1.phase = e.phase ∧ e1.incoming = e.incoming ∧
    e1.osmtpd_cb = e.osmtpd_cb ∧ e1.cb = e.cb ∧
    (e.doregister = true → e1.doregister = true) ∧
    (e.storereport = true → e1.storereport = true)

/-- A state reached from `s` by implicit registrations: nothing but the
catalog differs, and the catalog differs entry by entry as in `entry_rel`. -/
def reg_ok (s s1 : State) : Prop :=
  s1 = { s with osmtpd_callbacks := s1.osmtpd_callbacks } ∧
    List.Forall₂ entry_rel s.osmtpd_callbacks s1.osmtpd_callbacks

/-- The fatal exits of `osmtpd_register`. -/
def reg_err (h : Halt) : Prop :=
  ∃ st, h = Halt.exit 1 "Can't register when proc is running\n".toList st ∨
    h = Halt.exit 1 "Trying to register unknown event\n".toList st ∨
    h = Halt.exit 1 "Event already registered\n".toList st

/-- A result of implicit registrations started in `s`. -/
def reg_res (s : State) : Except Halt State → Prop
  | .ok s1 => reg_ok s s1
  | .error h => reg_err h

/-- The lines the second loop of `osmtpd_run` prints for a catalog. -/
def register_lines (cbs : List osmtpd_callback) : List (List Char) :=
  (cbs.filter fun e => e.doregister).map register_line

/-- The state after `osmtpd_register_filter_mailfrom(7)` on the initial state
(used as a concrete input). -/
def mailfrom_state : State :=
  match osmtpd_register_filter_mailfrom State.init 7 with
  | .ok s => s
  | .error _ => State.init

/-- The state after `osmtpd_run` on `mailfrom_state`. -/
def mailfrom_ready : State :=
  match osmtpd_run mailfrom_state with
  | .ok s => s
  | .error _ => State.init

/-- A user program in which every callback calls `osmtpd_filter_proceed` and
nothing else (used as a concrete input). -/
def proceed_env : user_code :=
  { callback := fun _ _ _ => [filter_call.proceed], oncreate := fun _ _ => NULL,
    inet_pton := fun _ _ => none, sun_path_size := 104 }

/-- The fields of a catalog entry that the registration functions never
change: the event and its payload parser. -/
def catalog_sig (e : osmtpd_callback) : osmtpd_type × osmtpd_phase × Int × parser_fn :=
  (e.type, e.phase, e.incoming, e.osmtpd_cb)

/-- A catalog with the events and payload parsers of the static initialiser,
in the same order. -/
def catalog_shaped (cbs : List osmtpd_callback) : Prop :=
  cbs.map catalog_sig = osmtpd_callbacks_init.map catalog_sig

instance (cbs : List osmtpd_callback) : Decidable (catalog_shaped cbs) := by
  unfold catalog_shaped; infer_instance

/-- What `osmtpd_newline` has read from a `filter` or `report` line when it
looks the session up: the values it hands to `osmtpd_newline_dispatch`. -/
structure line_header where
  type : osmtpd_type
  version_major : Int
  version_minor : Int
  tm : timespec
  incoming : Int
  phase : osmtpd_phase
  reqid : Nat
  errno : Nat
  params : Option (List Char)
  deriving DecidableEq, Repr

/-- The reqid field as `osmtpd_newline_reqid` reads it (`none` where that
function is fatal). -/
def header_reqid (type : osmtpd_type) (version_major version_minor : Int) (tm : timespec)
    (incoming : Int) (phase : osmtpd_phase) (line : List Char) : Option line_header :=
  let r := strtoull line 16
  let errno := if r.erange then ERANGE else 0
  if (r.val = ULLONG_MAX ∧ errno ≠ 0) ∨ (r.endptr.head? ≠ some '|' ∧ r.endptr ≠ []) then none
  else
    some { type := type, version_major := version_major, version_minor := version_minor,
           tm := tm, incoming := incoming, phase := phase, reqid := r.val, errno := errno,
           params := if r.endptr = [] then none else some r.endptr.tail }

/-- The direction and phase fields as `osmtpd_newline_phase` reads them. -/
def header_phase (type : osmtpd_type) (version_major version_minor : Int) (tm : timespec)
    (line : List Char) : Option line_header :=
  match strchr_split '|' line with
  | none => none
  | some (dir, line6) =>
    if dir ≠ "smtp-in".toList ∧ dir ≠ "smtp-out".toList then none
    else
      match strchr_split '|' line6 with
      | none => none
      | some (ph, line7) =>
        match osmtpd_strtophase ph with
        | none => none
        | some phase =>
          header_reqid type version_major version_minor tm
            (if dir = "smtp-in".toList then 1 else 0) phase line7

/-- The timestamp field as `osmtpd_newline_time` reads it. -/
def header_time (type : osmtpd_type) (version_major version_minor : Int) (line : List Char) :
    Option line_header :=
  match strchr_split '.' line with
  | none => none
  | some (sec, line4) =>
    match strtonum sec 0 INT64_MAX with
    | none => none
    | some tv_sec =>
      match strchr_split '|' line4 with
      | none => none
      | some (frac, line5) =>
        match strtonum frac 0 LONG_MAX with
        | none => none
        | some nsec =>
          header_phase type version_major version_minor
            ⟨tv_sec, to_long (nsec * (10 * (9 - ((frac.length : Int) + 1))))⟩ line5

/-- The protocol version field as `osmtpd_newline_event` reads it. -/
def header_event (type : osmtpd_type) (line : List Char) : Option line_header :=
  let r1 := strtoul line 10
  if r1.endptr.length = line.length ∨ r1.endptr.head? ≠ some '.' then none
  else
    let r2 := strtoul r1.endptr.tail 10
    if r2.endptr = [] then none
    else if r2.endptr.length = r1.endptr.tail.length ∨ r2.endptr.head? ≠ some '|' then none
    else if to_int r1.val ≠ 0 then none
    else header_time type (to_int r1.val) (to_int r2.val) r2.endptr.tail

/-- The header of a line: `some h` exactly for the `filter` and `report` lines
that `osmtpd_newline` takes as far as the session lookup, `h` holding the
values read on the way. -/
def osmtpd_newline_header (line : List Char) : Option line_header :=
  match strchr_split '|' line with
  | none => none
  | some (kind, rest) =>
    if kind = "filter".toList then header_event OSMTPD_TYPE_FILTER rest
    else if kind = "report".toList then header_event OSMTPD_TYPE_REPORT rest
    else none

/-- The dispatch of a line whose header has been read. -/
def dispatch_header (env : user_code) (s : State) (h : line_header) : Except Halt State :=
  osmtpd_newline_dispatch env s h.type h.version_major h.version_minor h.tm h.incoming h.phase
    h.reqid h.errno h.params

/-- Whether the session `reqid` is open after a sequence of lines: the last
`filter` or `report` line that names `reqid` is not a `link-disconnect`
(`b` is the answer before the first line). -/
def session_live (reqid : Nat) : List (List Char) → Bool → Bool
  | [], b => b
  | line :: lines, b =>
    match osmtpd_newline_header line with
    | some h =>
      if h.reqid = reqid then session_live reqid lines (decide (h.phase ≠ OSMTPD_PHASE_LINK_DISCONNECT))
      else session_live reqid lines b
    | none => session_live reqid lines b

/-- The keys of the session tree, in order. -/
def session_keys (s : State) : List Nat :=
  s.osmtpd_sessions.map fun c => c.reqid

/-- The variables that only the registration functions write: the catalog,
the need mask, `ready`, the four hooks and the configuration callback. -/
def same_setup (s s1 : State) : Prop :=
  s1.osmtpd_callbacks = s.osmtpd_callbacks ∧ s1.needs = s.needs ∧ s1.ready = s.ready ∧
    s1.oncreatecb_session = s.oncreatecb_session ∧
    s1.ondeletecb_session = s.ondeletecb_session ∧
    s1.oncreatecb_message = s.oncreatecb_message ∧
    s1.ondeletecb_message = s.ondeletecb_message ∧ s1.conf_cb = s.conf_cb

/-- A call of the session constructor hook. -/
def event.is_oncreate_session : event → Bool
  | event.oncreate_session _ _ => true
  | _ => false

/-- A call of the session destructor hook. -/
def event.is_ondelete_session : event → Bool
  | event.ondelete_session _ _ _ => true
  | _ => false

/-- What a payload parser other than `osmtpd_link_disconnect` may do to the
state: the set-up variables and the keys of the session tree stay, and the
calls it logs are neither session constructor nor session destructor calls. -/
def payload_frame (s s1 : State) : Prop :=
  same_setup s s1 ∧ session_keys s1 = session_keys s ∧
    ∃ evs, s1.trace = s.trace ++ evs ∧
      ∀ e ∈ evs, e.is_oncreate_session = false ∧ e.is_ondelete_session = false

/-- The context `osmtpd_newline` hands to the payload parser for a line with
header `h`: the record of the session with the fields of the header written
into it; `tok` is the token (0 for a `report` line). -/
def dispatch_ctx (env : user_code) (s : State) (h : line_header) (tok : Nat) : osmtpd_ctx :=
  { (session_lookup env s h.reqid).2 with
      type := h.type, phase := h.phase, version_major := h.version_major,
      version_minor := h.version_minor, incoming := h.incoming, tm := h.tm, token := tok }

/-- The state in which the payload parser of a line with header `h` starts. -/
def dispatch_state (env : user_code) (s : State) (h : line_header) (tok : Nat) : State :=
  ctx_write (session_lookup env s h.reqid).1 (dispatch_ctx env s h tok)

/-- The record `osmtpd_newline` creates for an unknown `reqid`, after the
session constructor has run. -/
def created_session (env : user_code) (s : State) (reqid : Nat) : osmtpd_ctx :=
  { new_session reqid with
      local_session :=
        if s.oncreatecb_session ≠ NULL then env.oncreate s.oncreatecb_session (new_session reqid)
        else NULL }

/-- The calls `osmtpd_newline` logs when it looks the session `reqid` up: the
session constructor, when there is no record yet and the hook is set. -/
def creation_events (s : State) (reqid : Nat) : List event :=
  match RB_FIND reqid s.osmtpd_sessions with
  | some _ => []
  | none =>
    if s.oncreatecb_session ≠ NULL then
      [event.oncreate_session s.oncreatecb_session (new_session reqid)]
    else []

/-- The call of the user callback `fn`, when there is one. -/
def callback_events (fn : Nat) (ctx : osmtpd_ctx) (args : cb_args) : List event :=
  if fn ≠ NULL then [event.user_cb fn ctx args] else []

/-- The state after `osmtpd_need(OSMTPD_NEED_MSGID)`, `osmtpd_local_session(21,
22)`, `osmtpd_local_message(23, 24)` and `osmtpd_register_report_begin(1, 9)`
on the initial state (used as a concrete input). -/
def report_state : State :=
  match osmtpd_register_report_begin
      (osmtpd_local_message (osmtpd_local_session (osmtpd_need State.init OSMTPD_NEED_MSGID)
        21 22) 23 24) 1 9 with
  | .ok s => s
  | .error _ => State.init

/-- The state after `osmtpd_run` on `report_state`. -/
def report_ready : State :=
  match osmtpd_run report_state with
  | .ok s => s
  | .error _ => State.init

/-- A user program whose callbacks emit nothing and whose constructor hooks
return their own address plus 100 (used as a concrete input). -/
def hook_env : user_code :=
  { callback := fun _ _ _ => [], oncreate := fun fn _ => fn + 100,
    inet_pton := fun _ _ => none, sun_path_size := 104 }

/-- The state after a list of lines, `State.init` if one of them is fatal
(used to name concrete states). -/
def after_lines (env : user_code) (s : State) (lines : List (List Char)) : State :=
  match osmtpd_newline env s lines with
  | .ok s1 => s1
  | .error _ => State.init

/-- The record of the session after `osmtpd_tx_begin` has assigned `msgid`:
the message id `v` of the line when the entry has `storereport`, 0 when it
has not. -/
def tx_begin_ctx (cb : osmtpd_callback) (ctx : osmtpd_ctx) (v : Nat) : osmtpd_ctx :=
  { ctx with msgid := if cb.storereport then v else 0 }

/-- The calls of the message constructor `osmtpd_tx_begin` logs. -/
def message_events (s : State) (ctx : osmtpd_ctx) : List event :=
  if s.oncreatecb_message ≠ NULL then [event.oncreate_message s.oncreatecb_message ctx] else []

/-- The `local_message` of the session after `osmtpd_tx_begin`. -/
def tx_begin_message (env : user_code) (s : State) (ctx : osmtpd_ctx) : Nat :=
  if s.oncreatecb_message ≠ NULL then env.oncreate s.oncreatecb_message ctx
  else ctx.local_message

/-- An inbound `tx-begin` line of session 1 with message id `0xabcd` (used as a
concrete input). -/
def line_in_begin : List Char :=
  "report|0.7|1700000000.000000000|smtp-in|tx-begin|0000000000000001|0000abcd".toList

/-- The line `line_in_begin` with direction `smtp-out`. -/
def line_out_begin : List Char :=
  "report|0.7|1700000000.000000000|smtp-out|tx-begin|0000000000000001|0000abcd".toList

/-- An inbound `tx-commit` line of session 1. -/
def line_in_commit : List Char :=
  "report|0.7|1700000000.000000000|smtp-in|tx-commit|0000000000000001|0000abcd|42".toList

/-- An inbound `tx-rollback` line of session 1. -/
def line_in_rollback : List Char :=
  "report|0.7|1700000000.000000000|smtp-in|tx-rollback|0000000000000001|0000abcd".toList

/-- The record `c` with the fields of the header `h` written into it, token
0: the context of a `report` line for a session whose record is `c`. -/
def header_ctx (c : osmtpd_ctx) (h : line_header) : osmtpd_ctx :=
  { c with type := h.type, phase := h.phase, version_major := h.version_major,
           version_minor := h.version_minor, incoming := h.incoming, tm := h.tm, token := 0 }

/-- An inbound `link-disconnect` line of session 1. -/
def line_in_disconnect : List Char :=
  "report|0.7|1700000000.000000000|smtp-in|link-disconnect|0000000000000001".toList

/-- The spellings of the phases as the spec lists them. -/
def phase_spellings : List (List Char) :=
  ["connect".toList, "helo".toList, "ehlo".toList, "starttls".toList, "auth".toList,
   "mail-from".toList, "rcpt-to".toList, "data".toList, "data-line".toList, "rset".toList,
   "quit".toList, "noop".toList, "help".toList, "wiz".toList, "commit".toList,
   "link-auth".toList, "link-connect".toList, "link-disconnect".toList,
   "link-greeting".toList, "link-identify".toList, "link-tls".toList, "tx-begin".toList,
   "tx-mail".toList, "tx-rcpt".toList, "tx-envelope".toList, "tx-data".toList,
   "tx-commit".toList, "tx-rollback".toList, "protocol-client".toList,
   "protocol-server".toList, "filter-response".toList, "timeout".toList]

/-- The phases of the `filter` events of the catalog. -/
def filter_phases : List osmtpd_phase :=
  [OSMTPD_PHASE_CONNECT, OSMTPD_PHASE_HELO, OSMTPD_PHASE_EHLO, OSMTPD_PHASE_STARTTLS,
   OSMTPD_PHASE_AUTH, OSMTPD_PHASE_MAIL_FROM, OSMTPD_PHASE_RCPT_TO, OSMTPD_PHASE_DATA,
   OSMTPD_PHASE_DATA_LINE, OSMTPD_PHASE_RSET, OSMTPD_PHASE_QUIT, OSMTPD_PHASE_NOOP,
   OSMTPD_PHASE_HELP, OSMTPD_PHASE_WIZ, OSMTPD_PHASE_COMMIT]

/-- An outbound `filter` line for the phase `connect` (used as a concrete
input). -/
def line_out_connect : List Char :=
  "filter|0.7|1700000000.000000000|smtp-out|connect|0000000000000001|0000000000000002|h|1.2.3.4".toList

/-- The state after the call `conf_cb(key, value)` that `osmtpd_newline` makes
when a configuration callback is registered. -/
def conf_call (s : State) (key value : Option (List Char)) : State :=
  if s.conf_cb ≠ NULL then
    { s with trace := s.trace ++ [event.conf_cb s.conf_cb key value] }
  else s

/-- A `filter` or `report` line put together from its fields: kind, protocol
version `maj.min`, timestamp `sec.frac`, direction, phase, and the rest of the
line (the reqid field and what follows it). -/
def event_line (kind maj min sec frac dir ph rest : List Char) : List Char :=
  kind ++ '|' :: (maj ++ '.' :: (min ++ '|' :: (sec ++ '.' :: (frac ++ '|' ::
    (dir ++ '|' :: (ph ++ '|' :: rest))))))

/-- The type a line of kind `filter` or `report` has. -/
def kind_type (kind : List Char) : osmtpd_type :=
  if kind = "filter".toList then OSMTPD_TYPE_FILTER else OSMTPD_TYPE_REPORT

/-- Well-formed fields of an `event_line` as far as the lexical structure
goes: the kind is `filter` or `report`, the two version numbers are non-empty
strings of decimal digits that fit `unsigned long`, the two parts of the
timestamp are accepted by `strtonum` with the results `tv_sec` and `nsec`, and
no field contains the separator that ends it. -/
def event_fields (kind maj min sec frac dir ph : List Char) (tv_sec nsec : Int) : Prop :=
  (kind = "filter".toList ∨ kind = "report".toList) ∧
  maj ≠ [] ∧ (∀ c ∈ maj, is_decimal c) ∧ decimal_value maj ≤ ULONG_MAX ∧
  min ≠ [] ∧ (∀ c ∈ min, is_decimal c) ∧ decimal_value min ≤ ULONG_MAX ∧
  '.' ∉ sec ∧ strtonum sec 0 INT64_MAX = some tv_sec ∧
  '|' ∉ frac ∧ strtonum frac 0 LONG_MAX = some nsec ∧
  '|' ∉ dir ∧ '|' ∉ ph

/-- A `report` line with the direction `smtp-foo` (used as a concrete
input). -/
def line_foo_begin : List Char :=
  event_line "report".toList "0".toList "7".toList "1700000000".toList "000000000".toList
    "smtp-foo".toList "tx-begin".toList "0000000000000001|0000abcd".toList

/-- A `report` line with the protocol version `4294967296.7` (used as a
concrete input). -/
def line_major_wrap : List Char :=
  "report|4294967296.7|1700000000.000000000|smtp-in|tx-begin|0000000000000001|0000abcd".toList

/-- A `report` line with the timestamp `1700000000.5` (used as a concrete
input). -/
def line_half_second : List Char :=
  "report|0.7|1700000000.5|smtp-in|tx-begin|0000000000000001|0000abcd".toList

/-- A `report` line with the timestamp `1700000000.123456789` (used as a
concrete input). -/
def line_nine_digits : List Char :=
  "report|0.7|1700000000.123456789|smtp-in|tx-begin|0000000000000001|0000abcd".toList

/-- The state after `osmtpd_need(OSMTPD_NEED_MAILFROM | OSMTPD_NEED_RCPTTO)` and
`osmtpd_register_report_mail(1, 8)` on the initial state (used as a concrete
input). -/
def cache_state : State :=
  match osmtpd_register_report_mail
      (osmtpd_need State.init (OSMTPD_NEED_MAILFROM ||| OSMTPD_NEED_RCPTTO)) 1 8 with
  | .ok s => s
  | .error _ => State.init

/-- The state after `osmtpd_run` on `cache_state`. -/
def cache_ready : State :=
  match osmtpd_run cache_state with
  | .ok s => s
  | .error _ => State.init

/-- A `tx-mail` line of protocol 0.7 with the payload `msgid|ok|<a@b>`. -/
def line_mail_7_status_first : List Char :=
  "report|0.7|1700000000.000000000|smtp-in|tx-mail|0000000000000001|0000abcd|ok|<a@b>".toList

/-- A `tx-mail` line of protocol 0.7 with the payload `msgid|<a@b>|ok`. -/
def line_mail_7_address_first : List Char :=
  "report|0.7|1700000000.000000000|smtp-in|tx-mail|0000000000000001|0000abcd|<a@b>|ok".toList

/-- A `tx-mail` line of protocol 0.5 with the payload `msgid|<a@b>|ok`. -/
def line_mail_5_address_first : List Char :=
  "report|0.5|1700000000.000000000|smtp-in|tx-mail|0000000000000001|0000abcd|<a@b>|ok".toList

/-- The bits of the need mask that make `osmtpd_register_need` register the
`report` event of a phase with `storereport` (0 for the phases it never
registers that way). -/
def need_mask : osmtpd_phase → Nat
  | OSMTPD_PHASE_LINK_CONNECT =>
    OSMTPD_NEED_SRC ||| OSMTPD_NEED_DST ||| OSMTPD_NEED_RDNS ||| OSMTPD_NEED_FCRDNS
  | OSMTPD_PHASE_LINK_GREETING => OSMTPD_NEED_GREETING
  | OSMTPD_PHASE_LINK_IDENTIFY => OSMTPD_NEED_IDENTITY
  | OSMTPD_PHASE_LINK_TLS => OSMTPD_NEED_CIPHERS
  | OSMTPD_PHASE_TX_BEGIN => OSMTPD_NEED_MSGID
  | OSMTPD_PHASE_TX_MAIL => OSMTPD_NEED_MAILFROM
  | OSMTPD_PHASE_TX_RCPT => OSMTPD_NEED_RCPTTO
  | OSMTPD_PHASE_TX_ENVELOPE => OSMTPD_NEED_EVPID
  | _ => 0

/-- The need mask has a bit that maps to the phase. -/
def need_phase (needs : Nat) (p : osmtpd_phase) : Prop :=
  needs &&& need_mask p ≠ 0

/-- Some entry of the catalog with direction `d` is registered. -/
def direction_active (cbs : List osmtpd_callback) (d : Int) : Prop :=
  ∃ e ∈ cbs, e.doregister = true ∧ e.incoming = d

/-- A catalog as the public registration functions can leave it: the events
and parsers of the initialiser, and no entry with `storereport` (every public
function calls `osmtpd_register` with `storereport = 0`). -/
def api_catalog (cbs : List osmtpd_callback) : Prop :=
  catalog_shaped cbs ∧ ∀ e ∈ cbs, e.storereport = false

/-- The entries with the key `key` are registered, and have `storereport`
when `st` is set. -/
def has_flags (cbs : List osmtpd_callback) (key : osmtpd_type × osmtpd_phase × Int)
    (st : Bool) : Prop :=
  ∀ e ∈ cbs, entry_key e = key → e.doregister = true ∧ (st = true → e.storereport = true)

/-- How far an entry can have changed by implicit registrations for the
directions in `D` under the need mask `needs`: as in `entry_rel`, and
`doregister` is new only on `report` entries of a direction in `D`,
`storereport` only on those whose phase the need mask maps to. -/
def change_bound (needs : Nat) (D : Int → Prop) (e e1 : osmtpd_callback) : Prop :=
  entry_rel e e1 ∧
  (e1.doregister = true → e.doregister = true ∨ (e.type = OSMTPD_TYPE_REPORT ∧ D e.incoming)) ∧
  (e1.storereport = true → e.storereport = true ∨
    (e.type = OSMTPD_TYPE_REPORT ∧ D e.incoming ∧ need_phase needs e.phase))

/-- A state reached from `s` by implicit registrations for the directions in
`D`. -/
def reg_step (D : Int → Prop) (s s1 : State) : Prop :=
  s1 = { s with osmtpd_callbacks := s1.osmtpd_callbacks } ∧
    List.Forall₂ (change_bound s.needs D) s.osmtpd_callbacks s1.osmtpd_callbacks
/-- What `osmtpd_register_need` has registered for the direction `d` under
the need mask `needs`: with `storereport` the `report` event of every phase
the mask maps to, without it `tx-rollback` and `tx-commit` when the mask has
one of the four message bits, and `link-disconnect` in any case. -/
def need_flags (needs : Nat) (d : Int) (cbs : List osmtpd_callback) : Prop :=
  (∀ p, need_phase needs p → has_flags cbs (OSMTPD_TYPE_REPORT, p, d) true) ∧
  ((needs &&& OSMTPD_NEED_MSGID ≠ 0 ∨ needs &&& OSMTPD_NEED_MAILFROM ≠ 0 ∨
      needs &&& OSMTPD_NEED_RCPTTO ≠ 0 ∨ needs &&& OSMTPD_NEED_EVPID ≠ 0) →
    has_flags cbs (OSMTPD_TYPE_REPORT, OSMTPD_PHASE_TX_ROLLBACK, d) false ∧
    has_flags cbs (OSMTPD_TYPE_REPORT, OSMTPD_PHASE_TX_COMMIT, d) false) ∧
  has_flags cbs (OSMTPD_TYPE_REPORT, OSMTPD_PHASE_LINK_DISCONNECT, d) false

/-- Every registered entry of the catalog has a direction in `D`. -/
def dir_closed (D : Int → Prop) (cbs : List osmtpd_callback) : Prop :=
  ∀ e ∈ cbs, e.doregister = true → D e.incoming

/-- The condition `ridentity != NULL && ridentity->storereport` of the
identify promotion in `osmtpd_run`. -/
def promote_gate (s : State) (l : run_locals) : Bool :=
  match l.ridentity.bind fun i => s.osmtpd_callbacks.get? i with
  | none => false
  | some r => r.storereport

/-- What the identify promotion of `osmtpd_run` does to the entry `e` at
index `k`: `storereport` is set when the gate holds, `hidenity` or `eidentity`
points to the entry, and the entry is registered. -/
def promote_entry (s : State) (l : run_locals) (k : Nat) (e : osmtpd_callback) :
    osmtpd_callback :=
  if promote_gate s l = true ∧ (l.hidenity = some k ∨ l.eidentity = some k) ∧
      e.doregister = true
  then { e with storereport := true } else e

instance (cbs : List osmtpd_callback) : Decidable (api_catalog cbs) := by
  unfold api_catalog; infer_instance

/-- The state after `osmtpd_need(OSMTPD_NEED_IDENTITY | OSMTPD_NEED_MSGID)` and
`osmtpd_register_filter_helo(7)` on the initial state (used as a concrete
input). -/
def identify_state : State :=
  match osmtpd_register_filter_helo
      (osmtpd_need State.init (OSMTPD_NEED_IDENTITY ||| OSMTPD_NEED_MSGID)) 7 with
  | .ok s => s
  | .error _ => State.init

/-- The state after the registration phase of `osmtpd_run` on
`identify_state`. -/
def identify_registered : State :=
  match osmtpd_run_register identify_state with
  | .ok s => s
  | .error _ => State.init

/-- The state after `osmtpd_run` on `identify_state`. -/
def identify_ready : State :=
  match osmtpd_run identify_state with
  | .ok s => s
  | .error _ => State.init

/-- The line the second loop of `osmtpd_run` prints for the `report` event
`link-disconnect` of direction `d`. -/
def link_disconnect_line (d : Int) : List Char :=
  "register|report|smtp-".toList ++ (if d ≠ 0 then "in".toList else "out".toList) ++
    "|link-disconnect\n".toList

instance (cbs : List osmtpd_callback) (d : Int) : Decidable (direction_active cbs d) := by
  unfold direction_active; infer_instance

/-- A `config` line of 12 characters (used as a concrete input). -/
def line_config_ready : List Char := "config|ready".toList

/-- An ill-formed `config` line of 13 characters, one more than
`line_config_ready` (used as a concrete input). -/
def line_config_bogus : List Char := "config|bogus!".toList

/-- A `report` line with the timestamp fraction `5` and a well-formed
remainder (used as a concrete input). -/
def line_fraction_five : List Char :=
  event_line "report".toList "0".toList "7".toList "1700000000".toList "5".toList
    "smtp-in".toList "tx-begin".toList "0000000000000001|0000abcd".toList

/-- The payload of a `link-connect` line put together from its four fields. -/
def link_connect_payload (rdns w srcs dsts : List Char) : List Char :=
  rdns ++ '|' :: (w ++ '|' :: (srcs ++ '|' :: dsts))

/-- The state after `osmtpd_need(OSMTPD_NEED_FCRDNS)` and
`osmtpd_register_report_connect(1, 5)` on the initial state (used as a
concrete input). -/
def connect_state : State :=
  match osmtpd_register_report_connect (osmtpd_need State.init OSMTPD_NEED_FCRDNS) 1 5 with
  | .ok s => s
  | .error _ => State.init

/-- The state after `osmtpd_run` on `connect_state`. -/
def connect_ready : State :=
  match osmtpd_run connect_state with
  | .ok s => s
  | .error _ => State.init

/-- An inbound `link-connect` line of session 1 between two local sockets with
the `fcrdns` word `w` (used as a concrete input). -/
def line_connect (w : List Char) : List Char :=
  "report|0.7|1700000000.000000000|smtp-in|link-connect|0000000000000001|".toList ++
    link_connect_payload "localhost".toList w "unix:/a".toList "unix:/b".toList

/-- The `fcrdns` values cached in the sessions of a state. -/
def cached_fcrdns (s : State) : List osmtpd_status :=
  s.osmtpd_sessions.map fun c => c.fcrdns

/-- The message of a fatal exit with status 1 (`none` for another result). -/
def fatal_message : Except Halt State → Option (List Char)
  | .error (Halt.exit 1 msg _) => some msg
  | _ => none

/-- The state after `osmtpd_need(OSMTPD_NEED_EVPID)` and
`osmtpd_register_report_envelope(1, 6)` on the initial state (used as a
concrete input). -/
def envelope_state : State :=
  match osmtpd_register_report_envelope (osmtpd_need State.init OSMTPD_NEED_EVPID) 1 6 with
  | .ok s => s
  | .error _ => State.init

/-- The state after `osmtpd_run` on `envelope_state`. -/
def envelope_ready : State :=
  match osmtpd_run envelope_state with
  | .ok s => s
  | .error _ => State.init

/-- An inbound `tx-envelope` line of session 1 whose envelope id has 17
hexadecimal digits (used as a concrete input). -/
def line_envelope_overflow : List Char :=
  "report|0.7|1700000000.000000000|smtp-in|tx-envelope|0000000000000001|0000abcd|1ffffffffffffffff".toList

/-- The state after `osmtpd_register_filter_data(4)` and
`osmtpd_register_report_timeout(1, 3)` on the initial state (used as a
concrete input). -/
def noargs_state : State :=
  match (osmtpd_register_filter_data State.init 4).bind
      fun s => osmtpd_register_report_timeout s 1 3 with
  | .ok s => s
  | .error _ => State.init

/-- The state after `osmtpd_run` on `noargs_state`. -/
def noargs_ready : State :=
  match osmtpd_run noargs_state with
  | .ok s => s
  | .error _ => State.init

/-- A `filter` line for the phase `data` that ends after the token. -/
def line_data_bare : List Char :=
  "filter|0.7|1700000000.000000000|smtp-in|data|0000000000000001|00000000000000ab".toList

/-- A `filter` line for the phase `data` with a `|` after the token and an
empty payload. -/
def line_data_bar : List Char :=
  "filter|0.7|1700000000.000000000|smtp-in|data|0000000000000001|00000000000000ab|".toList

/-- A `report` line for the phase `timeout` that ends after the reqid. -/
def line_timeout_bare : List Char :=
  "report|0.7|1700000000.000000000|smtp-in|timeout|0000000000000001".toList

/-- The user callbacks logged in a state: address, token of the context, and
arguments. -/
def logged_callbacks (s : State) : List (Nat × Nat × cb_args) :=
  s.trace.filterMap fun e =>
    match e with
    | event.user_cb fn ctx args => some (fn, ctx.token, args)
    | _ => none

/-- The phases of the `filter` events whose parser takes no payload. -/
def noargs_phases : List osmtpd_phase :=
  [OSMTPD_PHASE_STARTTLS, OSMTPD_PHASE_DATA, OSMTPD_PHASE_RSET, OSMTPD_PHASE_QUIT,
    OSMTPD_PHASE_NOOP, OSMTPD_PHASE_HELP, OSMTPD_PHASE_WIZ, OSMTPD_PHASE_COMMIT]

/-- The payload parsers that cache a value of the line in the session when
the entry has `storereport`. -/
def caching_parsers : List parser_fn :=
  [parser_fn.identify, parser_fn.link_connect, parser_fn.link_greeting,
    parser_fn.link_identify, parser_fn.link_tls, parser_fn.tx_begin, parser_fn.tx_mail,
    parser_fn.tx_rcpt, parser_fn.tx_envelope]

/-- The context `c` holds the values that the parser `p` hands to the callback
as `args`: the identity, the greeting, the ciphers, the four values of
`link-connect`, the message id, the sender, the last recipient, the envelope
id. -/
def cached_in (c : osmtpd_ctx) : parser_fn → cb_args → Prop
  | parser_fn.identify, cb_args.onearg v => c.identity = some v
  | parser_fn.link_identify, cb_args.onearg v => c.identity = some v
  | parser_fn.link_greeting, cb_args.onearg v => c.greeting_identity = some v
  | parser_fn.link_tls, cb_args.onearg v => c.ciphers = some v
  | parser_fn.link_connect, cb_args.link_connect rdns fcrdns src dst =>
    c.rdns = some rdns ∧ c.fcrdns = fcrdns ∧ c.src = src ∧ c.dst = dst
  | parser_fn.tx_begin, cb_args.tx_begin v => c.msgid = v
  | parser_fn.tx_mail, cb_args.tx_addr _ a _ => c.mailfrom = some a
  | parser_fn.tx_rcpt, cb_args.tx_addr _ a _ => c.rcptto.getLast? = some a
  | parser_fn.tx_envelope, cb_args.tx_envelope _ v => c.evpid = v
  | _, _ => False

/-- An event that is not the call of a user callback. -/
def event.is_hook : event → Bool
  | event.user_cb _ _ _ => false
  | _ => true

/-- The events whose payload parser caches a value of the line. -/
def caching_events : List (osmtpd_type × osmtpd_phase) :=
  [(OSMTPD_TYPE_FILTER, OSMTPD_PHASE_HELO), (OSMTPD_TYPE_FILTER, OSMTPD_PHASE_EHLO),
    (OSMTPD_TYPE_REPORT, OSMTPD_PHASE_LINK_CONNECT),
    (OSMTPD_TYPE_REPORT, OSMTPD_PHASE_LINK_GREETING),
    (OSMTPD_TYPE_REPORT, OSMTPD_PHASE_LINK_IDENTIFY),
    (OSMTPD_TYPE_REPORT, OSMTPD_PHASE_LINK_TLS), (OSMTPD_TYPE_REPORT, OSMTPD_PHASE_TX_BEGIN),
    (OSMTPD_TYPE_REPORT, OSMTPD_PHASE_TX_MAIL), (OSMTPD_TYPE_REPORT, OSMTPD_PHASE_TX_RCPT),
    (OSMTPD_TYPE_REPORT, OSMTPD_PHASE_TX_ENVELOPE)]

/-- A `filter` line for the phase `helo` of session 1 (used as a concrete
input). -/
def line_helo : List Char :=
  "filter|0.7|1700000000.000000000|smtp-in|helo|0000000000000001|00000000000000ab|mail.example.org".toList

/-- The user callbacks logged in a state with the identity the context held
when the callback was called. -/
def logged_identity (s : State) : List (Nat × Option (List Char) × cb_args) :=
  s.trace.filterMap fun e =>
    match e with
    | event.user_cb fn ctx args => some (fn, ctx.identity, args)
    | _ => none

/-- The `rcptto` list of the session `reqid` (empty when there is no
record). -/
def session_rcptto (s : State) (reqid : Nat) : List (List Char) :=
  match RB_FIND reqid s.osmtpd_sessions with
  | some c => c.rcptto
  | none => []

/-- A `tx-rcpt` line of the session `reqid` and the direction `d` whose
recipient is `addr`: the payload is `msgid|first|second` with a hexadecimal
`msgid`, and the address is `first` for protocol minor below 6 and `second`
(the rest of the line) from minor 6 on; the other of the two is the status. -/
def is_rcpt_line (reqid : Nat) (d : Int) (line addr : List Char) : Prop :=
  ∃ h m first second,
    osmtpd_newline_header line = some h ∧ h.type = OSMTPD_TYPE_REPORT ∧
    h.phase = OSMTPD_PHASE_TX_RCPT ∧ h.incoming = d ∧ h.reqid = reqid ∧
    h.params = some (m ++ '|' :: (first ++ '|' :: second)) ∧
    m ≠ [] ∧ (∀ c ∈ m, digit_value c < 16) ∧ '|' ∉ first ∧
    addr = (if h.version_minor < 6 then first else second)

/-- An inbound `tx-rcpt` line of session 1 in protocol 0.7 with the given
status and address (used as a concrete input). -/
def line_rcpt (status addr : List Char) : List Char :=
  "report|0.7|1700000000.000000000|smtp-in|tx-rcpt|0000000000000001|0000abcd|".toList ++
    status ++ '|' :: addr

/-- The line `line_rcpt` with direction `smtp-out`. -/
def line_rcpt_out (status addr : List Char) : List Char :=
  "report|0.7|1700000000.000000000|smtp-out|tx-rcpt|0000000000000001|0000abcd|".toList ++
    status ++ '|' :: addr

/-- How `doregister` of an entry can change during the registration phase of
`osmtpd_run` when only events with a key in `Q` are registered: the entry
changes as in `entry_rel`, and `doregister` is raised only for a key in
`Q`. -/
def raise_bound (Q : osmtpd_type × osmtpd_phase × Int → Prop) (e e1 : osmtpd_callback) :
    Prop :=
  entry_rel e e1 ∧ (e1.doregister = true → e.doregister = true ∨ Q (entry_key e))

/-- A state reached from `s` by implicit registrations of events with a key
in `Q`. -/
def key_step (Q : osmtpd_type × osmtpd_phase × Int → Prop) (s s1 : State) : Prop :=
  s1 = { s with osmtpd_callbacks := s1.osmtpd_callbacks } ∧
    List.Forall₂ (raise_bound Q) s.osmtpd_callbacks s1.osmtpd_callbacks

/-- The need mask has one of the four message bits. -/
def need_tx (needs : Nat) : Prop :=
  needs &&& OSMTPD_NEED_MSGID ≠ 0 ∨ needs &&& OSMTPD_NEED_MAILFROM ≠ 0 ∨
    needs &&& OSMTPD_NEED_RCPTTO ≠ 0 ∨ needs &&& OSMTPD_NEED_EVPID ≠ 0

/-- The events `osmtpd_run` registers on its own, for a need mask `needs`, a
message constructor `oncreate` and the directions `D`: for each direction in
`D` the `report` events `link-disconnect`, those the need mask maps to,
`tx-rollback` and `tx-commit` when the mask has a message bit, and `tx-begin`,
`tx-rollback` and `tx-commit` when there is a message constructor. -/
def implicit_key (needs oncreate : Nat) (D : Int → Prop)
    (k : osmtpd_type × osmtpd_phase × Int) : Prop :=
  k.1 = OSMTPD_TYPE_REPORT ∧ D k.2.2 ∧
    (k.2.1 = OSMTPD_PHASE_LINK_DISCONNECT ∨ need_phase needs k.2.1 ∨
      (need_tx needs ∧
        (k.2.1 = OSMTPD_PHASE_TX_ROLLBACK ∨ k.2.1 = OSMTPD_PHASE_TX_COMMIT)) ∨
      (oncreate ≠ NULL ∧
        (k.2.1 = OSMTPD_PHASE_TX_BEGIN ∨ k.2.1 = OSMTPD_PHASE_TX_ROLLBACK ∨
          k.2.1 = OSMTPD_PHASE_TX_COMMIT)))

/-- The three `report` events of the message hooks are registered for the
direction `d`. -/
def message_flags (d : Int) (cbs : List osmtpd_callback) : Prop :=
  has_flags cbs (OSMTPD_TYPE_REPORT, OSMTPD_PHASE_TX_BEGIN, d) false ∧
  has_flags cbs (OSMTPD_TYPE_REPORT, OSMTPD_PHASE_TX_ROLLBACK, d) false ∧
  has_flags cbs (OSMTPD_TYPE_REPORT, OSMTPD_PHASE_TX_COMMIT, d) false

/-- The payload parsers that test the callback for null before they call it
and that belong to events `osmtpd_run` registers on its own. -/
def null_safe_parsers : List parser_fn :=
  [parser_fn.link_connect, parser_fn.link_disconnect, parser_fn.link_greeting,
    parser_fn.link_identify, parser_fn.link_tls, parser_fn.tx_begin, parser_fn.tx_mail,
    parser_fn.tx_rcpt, parser_fn.tx_envelope, parser_fn.tx_commit, parser_fn.tx_rollback]

/-- The payload parsers that call the callback without a test. -/
def unconditional_parsers : List parser_fn :=
  [parser_fn.noargs, parser_fn.onearg, parser_fn.connect, parser_fn.identify]

/-- A catalog in which the only registered entries without a callback are
`report` `link-disconnect` entries: what the public registration functions
leave when every one of them is given a non-null callback (each registers its
own event with the callback and `link-disconnect` without one). -/
def api_null_inv (cbs : List osmtpd_callback) : Prop :=
  ∀ e ∈ cbs, e.doregister = true → e.cb = NULL →
    e.type = OSMTPD_TYPE_REPORT ∧ e.phase = OSMTPD_PHASE_LINK_DISCONNECT

instance (cbs : List osmtpd_callback) : Decidable (api_null_inv cbs) := by
  unfold api_null_inv; infer_instance

/-- The state after `osmtpd_local_message(23, 24)` and
`osmtpd_register_filter_data(4)` on the initial state: a message constructor,
no need (used as a concrete input). -/
def message_state : State :=
  match osmtpd_register_filter_data (osmtpd_local_message State.init 23 24) 4 with
  | .ok s => s
  | .error _ => State.init

/-- The state after the registration phase of `osmtpd_run` on
`message_state`. -/
def message_registered : State :=
  match osmtpd_run_register message_state with
  | .ok s => s
  | .error _ => State.init

/-- The state after `osmtpd_local_message(0, 24)` and
`osmtpd_register_filter_data(4)` on the initial state: a message destructor
without a constructor (used as a concrete input). -/
def destructor_state : State :=
  match osmtpd_register_filter_data (osmtpd_local_message State.init NULL 24) 4 with
  | .ok s => s
  | .error _ => State.init

/-- The state after the registration phase of `osmtpd_run` on
`destructor_state`. -/
def destructor_registered : State :=
  match osmtpd_run_register destructor_state with
  | .ok s => s
  | .error _ => State.init

/-- The events registered in a catalog. -/
def registered_keys (cbs : List osmtpd_callback) :
    List (osmtpd_type × osmtpd_phase × Int) :=
  (cbs.filter fun e => e.doregister).map entry_key

/-! ## Lemmas on the encoder -/

theorem io_printf_stdout (s : State) (text : List Char) :
    (io_printf s text).io_stdout = s.io_stdout ++ text := rfl

theorem io_printf_printf (s : State) (a b : List Char) :
    io_printf (io_printf s a) b = io_printf s (a ++ b) := by
  simp [io_printf, List.append_assoc]

theorem hexpad_length (n v : Nat) : (hexpad n v).length = n := by
  induction n generalizing v with
  | zero => rfl
  | succ n ih => simp [hexpad, ih]

theorem hexchar_lower_hex (d : Nat) (h : d < 16) : is_lower_hex (hexchar d) := by
  have : ∀ k : Fin 16, is_lower_hex (hexchar k.val) := by decide
  exact this ⟨d, h⟩

theorem hexchar_digit_value (d : Nat) (h : d < 16) : digit_value (hexchar d) = d := by
  have : ∀ k : Fin 16, digit_value (hexchar k.val) = k.val := by decide
  exact this ⟨d, h⟩

theorem hexpad_lower_hex (n v : Nat) : ∀ c ∈ hexpad n v, is_lower_hex c := by
  induction n generalizing v with
  | zero => intro c hc; simp [hexpad] at hc
  | succ n ih =>
    intro c hc
    simp only [hexpad, List.mem_append, List.mem_singleton] at hc
    rcases hc with hc | hc
    · exact ih _ c hc
    · subst hc; exact hexchar_lower_hex _ (Nat.mod_lt _ (by decide))

theorem hex_value_append (ds : List Char) (c : Char) :
    hex_value (ds ++ [c]) = hex_value ds * 16 + digit_value c := by
  simp [hex_value, List.foldl_append]

theorem hex_value_hexpad (n v : Nat) : hex_value (hexpad n v) = v % 16 ^ n := by
  induction n generalizing v with
  | zero => simp [hexpad, hex_value, Nat.mod_one]
  | succ n ih =>
    rw [hexpad, hex_value_append, ih, hexchar_digit_value _ (Nat.mod_lt _ (by decide))]
    rw [pow_succ, Nat.mul_comm (16 ^ n) 16, Nat.mod_mul]
    omega

theorem verdict_ids_printf (s : State) (ctx : osmtpd_ctx) (kw rest : List Char) :
    (if ctx.version_major = 0 ∧ ctx.version_minor < 5 then
      io_printf s (kw ++ (fmt_016x ctx.token ++ ("|".toList ++ (fmt_016x ctx.reqid ++ rest))))
    else
      io_printf s (kw ++ (fmt_016x ctx.reqid ++ ("|".toList ++ (fmt_016x ctx.token ++ rest))))) =
    io_printf s (kw ++ (verdict_ids ctx ++ rest)) := by
  unfold verdict_ids
  by_cases hv : ctx.version_major = 0 ∧ ctx.version_minor < 5
  · simp only [if_pos hv, List.append_assoc]
  · simp only [if_neg hv, List.append_assoc]

theorem osmtpd_filter_proceed_eq (s : State) (ctx : osmtpd_ctx) :
    osmtpd_filter_proceed s ctx =
      io_printf s ("filter-result|".toList ++ verdict_ids ctx ++ "|proceed\n".toList) := by
  unfold osmtpd_filter_proceed
  simp only [List.append_assoc, verdict_ids_printf]

theorem osmtpd_filter_disconnect_eq (s : State) (ctx : osmtpd_ctx) (reason : List Char) :
    osmtpd_filter_disconnect s ctx reason =
      io_printf s ("filter-result|".toList ++ verdict_ids ctx ++ "|disconnect|421 ".toList ++
        reason ++ "\n".toList) := by
  unfold osmtpd_filter_disconnect
  simp only [List.append_assoc, verdict_ids_printf, io_printf_printf]

theorem osmtpd_filter_rewrite_eq (s : State) (ctx : osmtpd_ctx) (value : List Char) :
    osmtpd_filter_rewrite s ctx value =
      io_printf s ("filter-result|".toList ++ verdict_ids ctx ++ "|rewrite|".toList ++
        value ++ "\n".toList) := by
  unfold osmtpd_filter_rewrite
  simp only [List.append_assoc, verdict_ids_printf, io_printf_printf]

theorem osmtpd_filter_dataline_eq (s : State) (ctx : osmtpd_ctx) (line : List Char) :
    osmtpd_filter_dataline s ctx line =
      io_printf s ("filter-dataline|".toList ++ verdict_ids ctx ++ "|".toList ++
        line ++ "\n".toList) := by
  unfold osmtpd_filter_dataline
  simp only [List.append_assoc, verdict_ids_printf, io_printf_printf]

theorem osmtpd_filter_reject_err (s : State) (ctx : osmtpd_ctx) (code : Int)
    (reason : List Char) (hc : code < 200 ∨ code > 599) :
    osmtpd_filter_reject s ctx code reason =
      .error (Halt.exit 1 "Invalid reject code\n".toList s) := by
  unfold osmtpd_filter_reject
  rw [if_pos hc]; rfl

theorem osmtpd_filter_reject_ok (s : State) (ctx : osmtpd_ctx) (code : Int)
    (reason : List Char) (hc : ¬ (code < 200 ∨ code > 599)) :
    osmtpd_filter_reject s ctx code reason =
      .ok (io_printf s ("filter-result|".toList ++ verdict_ids ctx ++ "|reject|".toList ++
        fmt_d code ++ " ".toList ++ reason ++ "\n".toList)) := by
  unfold osmtpd_filter_reject
  rw [if_neg hc]
  simp only [List.append_assoc, verdict_ids_printf, io_printf_printf]

theorem osmtpd_filter_reject_enh_ok (s : State) (ctx : osmtpd_ctx)
    (code cls subject detail : Int) (reason : List Char)
    (h : 200 ≤ code ∧ code ≤ 599 ∧ 2 ≤ cls ∧ cls ≤ 5 ∧ 0 ≤ subject ∧ subject ≤ 999 ∧
      0 ≤ detail ∧ detail ≤ 999) :
    osmtpd_filter_reject_enh s ctx code cls subject detail reason =
      .ok (io_printf s ("filter-result|".toList ++ verdict_ids ctx ++ "|reject|".toList ++
        fmt_d code ++ " ".toList ++ fmt_d cls ++ ".".toList ++ fmt_d subject ++ ".".toList ++
        fmt_d detail ++ " ".toList ++ reason ++ "\n".toList)) := by
  obtain ⟨h1, h2, h3, h4, h5, h6, h7, h8⟩ := h
  unfold osmtpd_filter_reject_enh
  rw [if_neg (by omega), if_neg (by omega), if_neg (by omega), if_neg (by omega)]
  simp only [List.append_assoc, verdict_ids_printf, io_printf_printf]

theorem osmtpd_filter_reject_enh_err (s : State) (ctx : osmtpd_ctx)
    (code cls subject detail : Int) (reason : List Char)
    (hn : ¬ (200 ≤ code ∧ code ≤ 599 ∧ 2 ≤ cls ∧ cls ≤ 5 ∧ 0 ≤ subject ∧ subject ≤ 999 ∧
      0 ≤ detail ∧ detail ≤ 999)) :
    ∃ msg, osmtpd_filter_reject_enh s ctx code cls subject detail reason =
      .error (Halt.exit 1 msg s) := by
  unfold osmtpd_filter_reject_enh osmtpd_errx
  by_cases c1 : code < 200 ∨ code > 599
  · exact ⟨_, by rw [if_pos c1]⟩
  · rw [if_neg c1]
    by_cases c2 : cls < 2 ∨ cls > 5
    · exact ⟨_, by rw [if_pos c2]⟩
    · rw [if_neg c2]
      by_cases c3 : subject < 0 ∨ subject > 999
      · exact ⟨_, by rw [if_pos c3]⟩
      · rw [if_neg c3]
        by_cases c4 : detail < 0 ∨ detail > 999
        · exact ⟨_, by rw [if_pos c4]⟩
        · exact absurd (by omega) hn

theorem osmtpd_filter_disconnect_enh_ok (s : State) (ctx : osmtpd_ctx)
    (cls subject detail : Int) (reason : List Char)
    (h : 3 ≤ cls ∧ cls ≤ 4 ∧ 0 ≤ subject ∧ subject ≤ 999 ∧ 0 ≤ detail ∧ detail ≤ 999) :
    osmtpd_filter_disconnect_enh s ctx cls subject detail reason =
      .ok (io_printf s ("filter-result|".toList ++ verdict_ids ctx ++
        "|disconnect|421 ".toList ++ fmt_d cls ++ ".".toList ++ fmt_d subject ++ ".".toList ++
        fmt_d detail ++ " ".toList ++ reason ++ "\n".toList)) := by
  obtain ⟨h1, h2, h3, h4, h5, h6⟩ := h
  unfold osmtpd_filter_disconnect_enh
  rw [if_neg (by omega), if_neg (by omega), if_neg (by omega)]
  simp only [List.append_assoc, verdict_ids_printf, io_printf_printf]

theorem osmtpd_filter_disconnect_enh_err (s : State) (ctx : osmtpd_ctx)
    (cls subject detail : Int) (reason : List Char)
    (hn : ¬ (3 ≤ cls ∧ cls ≤ 4 ∧ 0 ≤ subject ∧ subject ≤ 999 ∧ 0 ≤ detail ∧ detail ≤ 999)) :
    ∃ msg, osmtpd_filter_disconnect_enh s ctx cls subject detail reason =
      .error (Halt.exit 1 msg s) := by
  unfold osmtpd_filter_disconnect_enh osmtpd_errx
  by_cases c2 : cls ≤ 2 ∨ cls ≥ 5
  · exact ⟨_, by rw [if_pos c2]⟩
  · rw [if_neg c2]
    by_cases c3 : subject < 0 ∨ subject > 999
    · exact ⟨_, by rw [if_pos c3]⟩
    · rw [if_neg c3]
      by_cases c4 : detail < 0 ∨ detail > 999
      · exact ⟨_, by rw [if_pos c4]⟩
      · exact absurd (by omega) hn

/-- Every verdict emitter that succeeds appends the keyword, the two
identifier fields, a `|`, a body and a newline. -/
theorem filter_call_run_ok (s s1 : State) (ctx : osmtpd_ctx) (c : filter_call)
    (hrun : filter_call.run s ctx c = .ok s1) :
    ∃ body : List Char,
      s1 = io_printf s (verdict_keyword c ++ verdict_ids ctx ++ "|".toList ++ body ++
        "\n".toList) := by
  cases c with
  | proceed =>
    simp only [filter_call.run, Except.ok.injEq] at hrun
    refine ⟨"proceed".toList, ?_⟩
    rw [← hrun, osmtpd_filter_proceed_eq]
    have e : "|proceed\n".toList = "|".toList ++ ("proceed".toList ++ "\n".toList) := by decide
    simp only [verdict_keyword, e, List.append_assoc]
  | reject code reason =>
    simp only [filter_call.run] at hrun
    by_cases hc : code < 200 ∨ code > 599
    · rw [osmtpd_filter_reject_err s ctx code reason hc] at hrun; cases hrun
    · rw [osmtpd_filter_reject_ok s ctx code reason hc] at hrun
      simp only [Except.ok.injEq] at hrun
      refine ⟨"reject|".toList ++ fmt_d code ++ " ".toList ++ reason, ?_⟩
      have e : "|reject|".toList = "|".toList ++ "reject|".toList := by decide
      rw [← hrun]
      simp only [verdict_keyword, e, List.append_assoc]
  | reject_enh code cls subject detail reason =>
    simp only [filter_call.run] at hrun
    by_cases hc : 200 ≤ code ∧ code ≤ 599 ∧ 2 ≤ cls ∧ cls ≤ 5 ∧ 0 ≤ subject ∧
        subject ≤ 999 ∧ 0 ≤ detail ∧ detail ≤ 999
    · rw [osmtpd_filter_reject_enh_ok s ctx code cls subject detail reason hc] at hrun
      simp only [Except.ok.injEq] at hrun
      refine ⟨"reject|".toList ++ fmt_d code ++ " ".toList ++ fmt_d cls ++ ".".toList ++
        fmt_d subject ++ ".".toList ++ fmt_d detail ++ " ".toList ++ reason, ?_⟩
      have e : "|reject|".toList = "|".toList ++ "reject|".toList := by decide
      rw [← hrun]
      simp only [verdict_keyword, e, List.append_assoc]
    · obtain ⟨msg, hm⟩ := osmtpd_filter_reject_enh_err s ctx code cls subject detail reason hc
      rw [hm] at hrun; cases hrun
  | disconnect reason =>
    simp only [filter_call.run, Except.ok.injEq] at hrun
    refine ⟨"disconnect|421 ".toList ++ reason, ?_⟩
    rw [← hrun, osmtpd_filter_disconnect_eq]
    have e : "|disconnect|421 ".toList = "|".toList ++ "disconnect|421 ".toList := by decide
    simp only [verdict_keyword, e, List.append_assoc]
  | disconnect_enh cls subject detail reason =>
    simp only [filter_call.run] at hrun
    by_cases hc : 3 ≤ cls ∧ cls ≤ 4 ∧ 0 ≤ subject ∧ subject ≤ 999 ∧ 0 ≤ detail ∧ detail ≤ 999
    · rw [osmtpd_filter_disconnect_enh_ok s ctx cls subject detail reason hc] at hrun
      simp only [Except.ok.injEq] at hrun
      refine ⟨"disconnect|421 ".toList ++ fmt_d cls ++ ".".toList ++
        fmt_d subject ++ ".".toList ++ fmt_d detail ++ " ".toList ++ reason, ?_⟩
      have e : "|disconnect|421 ".toList = "|".toList ++ "disconnect|421 ".toList := by decide
      rw [← hrun]
      simp only [verdict_keyword, e, List.append_assoc]
    · obtain ⟨msg, hm⟩ := osmtpd_filter_disconnect_enh_err s ctx cls subject detail reason hc
      rw [hm] at hrun; cases hrun
  | rewrite value =>
    simp only [filter_call.run, Except.ok.injEq] at hrun
    refine ⟨"rewrite|".toList ++ value, ?_⟩
    rw [← hrun, osmtpd_filter_rewrite_eq]
    have e : "|rewrite|".toList = "|".toList ++ "rewrite|".toList := by decide
    simp only [verdict_keyword, e, List.append_assoc]
  | dataline line =>
    simp only [filter_call.run, Except.ok.injEq] at hrun
    refine ⟨line, ?_⟩
    rw [← hrun, osmtpd_filter_dataline_eq]
    simp only [verdict_keyword, List.append_assoc]

/-! ## Claims on the response encoder -/

/-- C2: for a context of protocol major 0 whose reqid and token are 64-bit
values, every verdict emitter that succeeds appends one text of the form
`<keyword>A|B|<body>\n`, where the keyword is `filter-dataline|` for dataline
and `filter-result|` otherwise, and `A`, `B` are strings of exactly 16
lower-case hexadecimal digits: `A` denotes the reqid and `B` the token when
the protocol minor is at least 5, `A` the token and `B` the reqid when it is
below 5. -/
theorem verdict_line_shape (s s1 : State) (ctx : osmtpd_ctx) (c : filter_call)
    (hmaj : ctx.version_major = 0) (hr : ctx.reqid < 2 ^ 64) (ht : ctx.token < 2 ^ 64)
    (hrun : filter_call.run s ctx c = .ok s1) :
    ∃ A B body : List Char,
      s1.io_stdout = s.io_stdout ++ (verdict_keyword c ++ A ++ "|".toList ++ B ++ "|".toList ++
        body ++ "\n".toList) ∧
      A.length = 16 ∧ B.length = 16 ∧ (∀ x ∈ A, is_lower_hex x) ∧ (∀ x ∈ B, is_lower_hex x) ∧
      (5 ≤ ctx.version_minor → hex_value A = ctx.reqid ∧ hex_value B = ctx.token) ∧
      (ctx.version_minor < 5 → hex_value A = ctx.token ∧ hex_value B = ctx.reqid) := by
  have hvr : hex_value (fmt_016x ctx.reqid) = ctx.reqid := by
    unfold fmt_016x; rw [hex_value_hexpad]; omega
  have hvt : hex_value (fmt_016x ctx.token) = ctx.token := by
    unfold fmt_016x; rw [hex_value_hexpad]; omega
  obtain ⟨body, hb⟩ := filter_call_run_ok s s1 ctx c hrun
  by_cases hv : ctx.version_minor < 5
  · refine ⟨fmt_016x ctx.token, fmt_016x ctx.reqid, body, ?_, hexpad_length _ _,
      hexpad_length _ _, hexpad_lower_hex _ _, hexpad_lower_hex _ _, fun h => ?_,
      fun _ => ⟨hvt, hvr⟩⟩
    · rw [hb, io_printf_stdout, verdict_ids, if_pos ⟨hmaj, hv⟩]
      simp only [List.append_assoc]
    · omega
  · refine ⟨fmt_016x ctx.reqid, fmt_016x ctx.token, body, ?_, hexpad_length _ _,
      hexpad_length _ _, hexpad_lower_hex _ _, hexpad_lower_hex _ _, fun _ => ⟨hvr, hvt⟩,
      fun h => absurd h hv⟩
    · rw [hb, io_printf_stdout, verdict_ids, if_neg (fun h => hv h.2)]
      simp only [List.append_assoc]

/-- Witness of C2: protocol 0.7, reqid 1, token 2, `proceed`. -/
theorem verdict_line_shape_witness :
    ∃ A B body : List Char,
      (osmtpd_filter_proceed State.init { new_session 1 with version_minor := 7, token := 2 }).io_stdout
        = State.init.io_stdout ++ (verdict_keyword filter_call.proceed ++ A ++ "|".toList ++ B ++
          "|".toList ++ body ++ "\n".toList) ∧
      A.length = 16 ∧ B.length = 16 ∧ (∀ x ∈ A, is_lower_hex x) ∧ (∀ x ∈ B, is_lower_hex x) ∧
      ((5 : Int) ≤ 7 → hex_value A = 1 ∧ hex_value B = 2) ∧
      ((7 : Int) < 5 → hex_value A = 2 ∧ hex_value B = 1) :=
  verdict_line_shape State.init _ { new_session 1 with version_minor := 7, token := 2 }
    filter_call.proceed rfl (by decide) (by decide) rfl

/-- C3: `osmtpd_filter_reject` is fatal exactly when `code < 200` or
`code > 599`; then the process exits with the state untouched (nothing was
written); otherwise it appends `filter-result|A|B|reject|<code> <reason>\n`
with the code in decimal.  Code 600 is fatal, 200 and 599 are accepted, and
code 550 with reason `blocked` gives `...|reject|550 blocked\n`. -/
theorem osmtpd_filter_reject_spec (s : State) (ctx : osmtpd_ctx) (code : Int)
    (reason : List Char) :
    ((∃ h, osmtpd_filter_reject s ctx code reason = .error h) ↔ (code < 200 ∨ code > 599)) ∧
    ((code < 200 ∨ code > 599) →
      osmtpd_filter_reject s ctx code reason =
        .error (Halt.exit 1 "Invalid reject code\n".toList s)) ∧
    (¬ (code < 200 ∨ code > 599) →
      osmtpd_filter_reject s ctx code reason =
        .ok { s with io_stdout := s.io_stdout ++ ("filter-result|".toList ++ verdict_ids ctx ++
          "|reject|".toList ++ fmt_d code ++ " ".toList ++ reason ++ "\n".toList) }) ∧
    osmtpd_filter_reject s ctx 600 reason =
      .error (Halt.exit 1 "Invalid reject code\n".toList s) ∧
    (∃ s1, osmtpd_filter_reject s ctx 200 reason = .ok s1) ∧
    (∃ s1, osmtpd_filter_reject s ctx 599 reason = .ok s1) ∧
    osmtpd_filter_reject s ctx 550 "blocked".toList =
      .ok { s with io_stdout := s.io_stdout ++ ("filter-result|".toList ++ verdict_ids ctx ++
        "|reject|550 blocked\n".toList) } := by
  refine ⟨⟨?_, fun hc => ⟨_, osmtpd_filter_reject_err s ctx code reason hc⟩⟩,
    osmtpd_filter_reject_err s ctx code reason,
    osmtpd_filter_reject_ok s ctx code reason,
    osmtpd_filter_reject_err s ctx 600 reason (by decide),
    ⟨_, osmtpd_filter_reject_ok s ctx 200 reason (by decide)⟩,
    ⟨_, osmtpd_filter_reject_ok s ctx 599 reason (by decide)⟩, ?_⟩
  · rintro ⟨h, hh⟩
    by_contra hc
    rw [osmtpd_filter_reject_ok s ctx code reason hc] at hh
    cases hh
  · rw [osmtpd_filter_reject_ok s ctx 550 _ (by decide)]
    have e : "|reject|".toList ++ fmt_d 550 ++ " ".toList ++ "blocked".toList ++ "\n".toList =
        "|reject|550 blocked\n".toList := by decide
    rw [← e]
    simp only [io_printf, List.append_assoc]

/-- C4: `osmtpd_filter_reject_enh` succeeds exactly when `200 ≤ code ≤ 599`,
`2 ≤ class ≤ 5`, `0 ≤ subject ≤ 999` and `0 ≤ detail ≤ 999`; then it appends
`filter-result|A|B|reject|<code> <class>.<subject>.<detail> <reason>\n`;
otherwise the process exits with status 1 and the state untouched (nothing
was written). -/
theorem osmtpd_filter_reject_enh_spec (s : State) (ctx : osmtpd_ctx)
    (code cls subject detail : Int) (reason : List Char) :
    ((∃ s1, osmtpd_filter_reject_enh s ctx code cls subject detail reason = .ok s1) ↔
      (200 ≤ code ∧ code ≤ 599 ∧ 2 ≤ cls ∧ cls ≤ 5 ∧ 0 ≤ subject ∧ subject ≤ 999 ∧
        0 ≤ detail ∧ detail ≤ 999)) ∧
    ((200 ≤ code ∧ code ≤ 599 ∧ 2 ≤ cls ∧ cls ≤ 5 ∧ 0 ≤ subject ∧ subject ≤ 999 ∧
        0 ≤ detail ∧ detail ≤ 999) →
      osmtpd_filter_reject_enh s ctx code cls subject detail reason =
        .ok { s with io_stdout := s.io_stdout ++ ("filter-result|".toList ++ verdict_ids ctx ++
          "|reject|".toList ++ fmt_d code ++ " ".toList ++ fmt_d cls ++ ".".toList ++
          fmt_d subject ++ ".".toList ++ fmt_d detail ++ " ".toList ++ reason ++
          "\n".toList) }) ∧
    (¬ (200 ≤ code ∧ code ≤ 599 ∧ 2 ≤ cls ∧ cls ≤ 5 ∧ 0 ≤ subject ∧ subject ≤ 999 ∧
        0 ≤ detail ∧ detail ≤ 999) →
      ∃ msg, osmtpd_filter_reject_enh s ctx code cls subject detail reason =
        .error (Halt.exit 1 msg s)) ∧
    osmtpd_filter_reject_enh s ctx 550 5 7 1 "blocked".toList =
      .ok { s with io_stdout := s.io_stdout ++ ("filter-result|".toList ++ verdict_ids ctx ++
        "|reject|550 5.7.1 blocked\n".toList) } := by
  refine ⟨⟨?_, fun h => ⟨_, osmtpd_filter_reject_enh_ok s ctx code cls subject detail reason h⟩⟩,
    osmtpd_filter_reject_enh_ok s ctx code cls subject detail reason,
    osmtpd_filter_reject_enh_err s ctx code cls subject detail reason, ?_⟩
  · rintro ⟨s1, hs1⟩
    by_contra hn
    obtain ⟨msg, hm⟩ := osmtpd_filter_reject_enh_err s ctx code cls subject detail reason hn
    rw [hm] at hs1
    cases hs1
  · rw [osmtpd_filter_reject_enh_ok s ctx 550 5 7 1 _ (by decide)]
    have e : "|reject|".toList ++ fmt_d 550 ++ " ".toList ++ fmt_d 5 ++ ".".toList ++
        fmt_d 7 ++ ".".toList ++ fmt_d 1 ++ " ".toList ++ "blocked".toList ++ "\n".toList =
        "|reject|550 5.7.1 blocked\n".toList := by decide
    rw [← e]
    simp only [io_printf, List.append_assoc]

/-- C5 (what the code does): `osmtpd_filter_disconnect_enh` tests the class
with `class <= 2 || class >= 5`, so it succeeds exactly for the classes 3 and
4 (with subject and detail in 0..999); for the classes 2 and 5 it exits with
"Invalid enhanced status class", where `osmtpd_filter_reject_enh` accepts
the same enhanced status. -/
theorem osmtpd_filter_disconnect_enh_class (s : State) (ctx : osmtpd_ctx)
    (cls subject detail : Int) (reason : List Char) :
    ((∃ s1, osmtpd_filter_disconnect_enh s ctx cls subject detail reason = .ok s1) ↔
      (3 ≤ cls ∧ cls ≤ 4 ∧ 0 ≤ subject ∧ subject ≤ 999 ∧ 0 ≤ detail ∧ detail ≤ 999)) ∧
    osmtpd_filter_disconnect_enh s ctx 2 0 0 reason =
      .error (Halt.exit 1 "Invalid enhanced status class\n".toList s) ∧
    osmtpd_filter_disconnect_enh s ctx 5 0 0 reason =
      .error (Halt.exit 1 "Invalid enhanced status class\n".toList s) ∧
    (∃ s1, osmtpd_filter_reject_enh s ctx 550 2 0 0 reason = .ok s1) ∧
    (∃ s1, osmtpd_filter_reject_enh s ctx 550 5 0 0 reason = .ok s1) ∧
    osmtpd_filter_disconnect_enh s ctx 4 7 1 reason =
      .ok { s with io_stdout := s.io_stdout ++ ("filter-result|".toList ++ verdict_ids ctx ++
        "|disconnect|421 4.7.1 ".toList ++ reason ++ "\n".toList) } := by
  refine ⟨⟨?_, fun h => ⟨_, osmtpd_filter_disconnect_enh_ok s ctx cls subject detail reason h⟩⟩,
    rfl, rfl, ⟨_, osmtpd_filter_reject_enh_ok s ctx 550 2 0 0 reason (by decide)⟩,
    ⟨_, osmtpd_filter_reject_enh_ok s ctx 550 5 0 0 reason (by decide)⟩, ?_⟩
  · rintro ⟨s1, hs1⟩
    by_contra hn
    obtain ⟨msg, hm⟩ := osmtpd_filter_disconnect_enh_err s ctx cls subject detail reason hn
    rw [hm] at hs1
    cases hs1
  · rw [osmtpd_filter_disconnect_enh_ok s ctx 4 7 1 _ (by decide)]
    have e : "|disconnect|421 ".toList ++ fmt_d 4 ++ ".".toList ++ fmt_d 7 ++ ".".toList ++
        fmt_d 1 ++ " ".toList = "|disconnect|421 4.7.1 ".toList := by decide
    rw [← e]
    simp only [io_printf, List.append_assoc]

/-! ## Lemmas on registration -/

/-- The triple test of the loops over the catalog. -/
theorem find_callback_some_match (type : osmtpd_type) (phase : osmtpd_phase) (incoming : Int)
    (cbs : List osmtpd_callback) (e : osmtpd_callback)
    (h : find_callback type phase incoming cbs = some e) :
    type = e.type ∧ phase = e.phase ∧ incoming = e.incoming := by
  induction cbs with
  | nil => simp [find_callback] at h
  | cons x xs ih =>
    unfold find_callback at h
    by_cases hm : type = x.type ∧ phase = x.phase ∧ incoming = x.incoming
    · rw [if_pos hm] at h
      cases h
      exact hm
    · rw [if_neg hm] at h
      exact ih h

theorem osmtpd_register_scan_unknown (type : osmtpd_type) (phase : osmtpd_phase)
    (incoming : Int) (storereport : Bool) (cb : Nat) (cbs : List osmtpd_callback) :
    osmtpd_register_scan type phase incoming storereport cb cbs = register_scan.unknown ↔
      find_callback type phase incoming cbs = none := by
  induction cbs with
  | nil => simp [osmtpd_register_scan, find_callback]
  | cons x xs ih =>
    unfold osmtpd_register_scan find_callback
    by_cases hm : type = x.type ∧ phase = x.phase ∧ incoming = x.incoming
    · rw [if_pos hm, if_pos hm]
      by_cases hc : x.cb ≠ NULL ∧ cb ≠ NULL
      · rw [if_pos hc]; simp
      · rw [if_neg hc]; simp
    · rw [if_neg hm, if_neg hm, ← ih]
      cases osmtpd_register_scan type phase incoming storereport cb xs <;> simp

theorem osmtpd_register_scan_already (type : osmtpd_type) (phase : osmtpd_phase)
    (incoming : Int) (storereport : Bool) (cb : Nat) (cbs : List osmtpd_callback) :
    osmtpd_register_scan type phase incoming storereport cb cbs = register_scan.already ↔
      ∃ e, find_callback type phase incoming cbs = some e ∧ e.cb ≠ NULL ∧ cb ≠ NULL := by
  induction cbs with
  | nil => simp [osmtpd_register_scan, find_callback]
  | cons x xs ih =>
    unfold osmtpd_register_scan find_callback
    by_cases hm : type = x.type ∧ phase = x.phase ∧ incoming = x.incoming
    · rw [if_pos hm, if_pos hm]
      by_cases hc : x.cb ≠ NULL ∧ cb ≠ NULL
      · rw [if_pos hc]; simp only [true_iff]; exact ⟨x, rfl, hc⟩
      · rw [if_neg hc]
        constructor
        · intro h; cases h
        · rintro ⟨e, he, hc2⟩
          cases he
          exact absurd hc2 hc
    · rw [if_neg hm, if_neg hm, ← ih]
      cases osmtpd_register_scan type phase incoming storereport cb xs <;> simp

/-- The entry `osmtpd_register` leaves behind when it acts on `e`. -/
theorem osmtpd_register_scan_updated (type : osmtpd_type) (phase : osmtpd_phase)
    (incoming : Int) (storereport : Bool) (cb : Nat) (cbs l : List osmtpd_callback)
    (h : osmtpd_register_scan type phase incoming storereport cb cbs = register_scan.updated l) :
    ∃ pre e post, cbs = pre ++ e :: post ∧
      (∀ x ∈ pre, ¬ (type = x.type ∧ phase = x.phase ∧ incoming = x.incoming)) ∧
      (type = e.type ∧ phase = e.phase ∧ incoming = e.incoming) ∧
      ¬ (e.cb ≠ NULL ∧ cb ≠ NULL) ∧
      find_callback type phase incoming cbs = some e ∧
      l = pre ++ { e with cb := if cb ≠ NULL then cb else e.cb, doregister := true,
                          storereport := if storereport then true else e.storereport } :: post := by
  induction cbs generalizing l with
  | nil => simp [osmtpd_register_scan] at h
  | cons x xs ih =>
    unfold osmtpd_register_scan at h
    by_cases hm : type = x.type ∧ phase = x.phase ∧ incoming = x.incoming
    · rw [if_pos hm] at h
      by_cases hc : x.cb ≠ NULL ∧ cb ≠ NULL
      · rw [if_pos hc] at h; cases h
      · rw [if_neg hc] at h
        cases h
        refine ⟨[], x, xs, rfl, ?_, hm, hc, ?_, rfl⟩
        · intro y hy; cases hy
        · unfold find_callback; rw [if_pos hm]
    · rw [if_neg hm] at h
      cases hs : osmtpd_register_scan type phase incoming storereport cb xs with
      | updated l1 =>
        rw [hs] at h
        cases h
        obtain ⟨pre, e, post, h1, h2, h3, h4, h5, h6⟩ := ih l1 hs
        refine ⟨x :: pre, e, post, by rw [h1]; rfl, ?_, h3, h4, ?_, by rw [h6]; rfl⟩
        · intro y hy
          rcases List.mem_cons.mp hy with hy | hy
          · subst hy; exact hm
          · exact h2 y hy
        · unfold find_callback; rw [if_neg hm]; exact h5
      | already => rw [hs] at h; cases h
      | unknown => rw [hs] at h; cases h

theorem find_callback_append (type : osmtpd_type) (phase : osmtpd_phase) (incoming : Int)
    (pre : List osmtpd_callback) (e : osmtpd_callback) (post : List osmtpd_callback)
    (hpre : ∀ x ∈ pre, ¬ (type = x.type ∧ phase = x.phase ∧ incoming = x.incoming))
    (he : type = e.type ∧ phase = e.phase ∧ incoming = e.incoming) :
    find_callback type phase incoming (pre ++ e :: post) = some e := by
  induction pre with
  | nil => simp only [List.nil_append, find_callback, if_pos he]
  | cons x xs ih =>
    simp only [List.cons_append, find_callback]
    rw [if_neg (hpre x (List.mem_cons_self _ _))]
    exact ih (fun y hy => hpre y (List.mem_cons_of_mem _ hy))

/-- What `osmtpd_register` returns, by cases on `ready` and on the first entry
that matches the triple. -/
theorem osmtpd_register_cases (s : State) (type : osmtpd_type) (phase : osmtpd_phase)
    (incoming : Int) (storereport : Bool) (cb : Nat) :
    (s.ready = true ∧ osmtpd_register s type phase incoming storereport cb =
        .error (Halt.exit 1 "Can't register when proc is running\n".toList s)) ∨
    (s.ready = false ∧ find_callback type phase incoming s.osmtpd_callbacks = none ∧
      osmtpd_register s type phase incoming storereport cb =
        .error (Halt.exit 1 "Trying to register unknown event\n".toList s)) ∨
    (s.ready = false ∧
      (∃ e, find_callback type phase incoming s.osmtpd_callbacks = some e ∧ e.cb ≠ NULL ∧
        cb ≠ NULL) ∧
      osmtpd_register s type phase incoming storereport cb =
        .error (Halt.exit 1 "Event already registered\n".toList s)) ∨
    (s.ready = false ∧
      ∃ pre e post, s.osmtpd_callbacks = pre ++ e :: post ∧
        (∀ x ∈ pre, ¬ (type = x.type ∧ phase = x.phase ∧ incoming = x.incoming)) ∧
        (type = e.type ∧ phase = e.phase ∧ incoming = e.incoming) ∧
        ¬ (e.cb ≠ NULL ∧ cb ≠ NULL) ∧
        find_callback type phase incoming s.osmtpd_callbacks = some e ∧
        osmtpd_register s type phase incoming storereport cb =
          .ok { s with osmtpd_callbacks :=
            pre ++ { e with cb := if cb ≠ NULL then cb else e.cb, doregister := true,
                            storereport := if storereport then true else e.storereport } ::
              post }) := by
  unfold osmtpd_register
  cases hr : s.ready with
  | true => left; exact ⟨rfl, rfl⟩
  | false =>
    right
    simp only [Bool.false_eq_true, if_false]
    cases hs : osmtpd_register_scan type phase incoming storereport cb s.osmtpd_callbacks with
    | updated l =>
      right; right
      obtain ⟨pre, e, post, h1, h2, h3, h4, h5, h6⟩ :=
        osmtpd_register_scan_updated type phase incoming storereport cb _ l hs
      exact ⟨trivial, pre, e, post, h1, h2, h3, h4, h5, by rw [h6]⟩
    | already =>
      right; left
      exact ⟨trivial, (osmtpd_register_scan_already type phase incoming storereport cb _).mp hs, rfl⟩
    | unknown =>
      left
      exact ⟨trivial, (osmtpd_register_scan_unknown type phase incoming storereport cb _).mp hs, rfl⟩

/-! ## Claims on `osmtpd_register` -/

/-- C9: `osmtpd_register(type, phase, incoming, store, cb)` is fatal exactly
when `ready` is set, or no catalog entry matches the triple, or `cb` is
non-null and the matching entry already has a non-null callback; a fatal exit
leaves the state as it was.  After a registration with a non-null callback a
second registration of the same triple with a non-null callback is fatal,
while a registration of the same triple with a null callback is accepted. -/
theorem osmtpd_register_fatal_iff (s : State) (type : osmtpd_type) (phase : osmtpd_phase)
    (incoming : Int) (storereport : Bool) (cb : Nat) :
    ((∃ h, osmtpd_register s type phase incoming storereport cb = .error h) ↔
      (s.ready = true ∨ find_callback type phase incoming s.osmtpd_callbacks = none ∨
        (cb ≠ NULL ∧ ∃ e, find_callback type phase incoming s.osmtpd_callbacks = some e ∧
          e.cb ≠ NULL))) ∧
    (∀ h, osmtpd_register s type phase incoming storereport cb = .error h →
      ∃ msg, h = Halt.exit 1 msg s) ∧
    (∀ s1 store2 cb2, cb ≠ NULL → cb2 ≠ NULL →
      osmtpd_register s type phase incoming storereport cb = .ok s1 →
      osmtpd_register s1 type phase incoming store2 cb2 =
        .error (Halt.exit 1 "Event already registered\n".toList s1)) ∧
    (∀ s1 store2, osmtpd_register s type phase incoming storereport cb = .ok s1 →
      ∃ s2, osmtpd_register s1 type phase incoming store2 NULL = .ok s2) := by
  have after : ∀ s1, osmtpd_register s type phase incoming storereport cb = .ok s1 →
      s1.ready = false ∧ ∃ e1, find_callback type phase incoming s1.osmtpd_callbacks = some e1 ∧
        (cb ≠ NULL → e1.cb ≠ NULL) := by
    intro s1 h1
    rcases osmtpd_register_cases s type phase incoming storereport cb with
      ⟨_, h⟩ | ⟨_, _, h⟩ | ⟨_, _, h⟩ | ⟨hr, pre, e, post, hl, hpre, he, hc, hf, h⟩
    · rw [h] at h1; cases h1
    · rw [h] at h1; cases h1
    · rw [h] at h1; cases h1
    · rw [h] at h1
      cases h1
      refine ⟨hr, _, find_callback_append type phase incoming pre _ post hpre he, ?_⟩
      intro hcb
      simp only [if_pos hcb]
      exact hcb
  refine ⟨⟨?_, ?_⟩, ?_, ?_, ?_⟩
  · rintro ⟨h, hh⟩
    rcases osmtpd_register_cases s type phase incoming storereport cb with
      ⟨hr, _⟩ | ⟨_, hn, _⟩ | ⟨_, ⟨e, he, hc1, hc2⟩, _⟩ | ⟨_, pre, e, post, _, _, _, _, _, h1⟩
    · exact Or.inl hr
    · exact Or.inr (Or.inl hn)
    · exact Or.inr (Or.inr ⟨hc2, e, he, hc1⟩)
    · rw [h1] at hh; cases hh
  · intro hcond
    rcases osmtpd_register_cases s type phase incoming storereport cb with
      ⟨_, h⟩ | ⟨_, _, h⟩ | ⟨_, _, h⟩ | ⟨hr, pre, e, post, hl, hpre, he, hc, hf, h⟩
    · exact ⟨_, h⟩
    · exact ⟨_, h⟩
    · exact ⟨_, h⟩
    · rcases hcond with hcond | hcond | ⟨hcb, e2, he2, hc2⟩
      · rw [hr] at hcond; cases hcond
      · rw [hf] at hcond; cases hcond
      · rw [hf] at he2
        cases he2
        exact absurd ⟨hc2, hcb⟩ hc
  · intro h hh
    rcases osmtpd_register_cases s type phase incoming storereport cb with
      ⟨_, h1⟩ | ⟨_, _, h1⟩ | ⟨_, _, h1⟩ | ⟨_, pre, e, post, _, _, _, _, _, h1⟩
    · rw [h1] at hh; cases hh; exact ⟨_, rfl⟩
    · rw [h1] at hh; cases hh; exact ⟨_, rfl⟩
    · rw [h1] at hh; cases hh; exact ⟨_, rfl⟩
    · rw [h1] at hh; cases hh
  · intro s1 store2 cb2 hcb hcb2 h1
    obtain ⟨hr1, e1, hf1, hc1⟩ := after s1 h1
    rcases osmtpd_register_cases s1 type phase incoming store2 cb2 with
      ⟨hr, _⟩ | ⟨_, hn, _⟩ | ⟨_, _, h⟩ | ⟨_, pre, e, post, _, _, _, hc, hf, _⟩
    · rw [hr1] at hr; cases hr
    · rw [hf1] at hn; cases hn
    · exact h
    · rw [hf1] at hf
      cases hf
      exact absurd ⟨hc1 hcb, hcb2⟩ hc
  · intro s1 store2 h1
    obtain ⟨hr1, e1, hf1, _⟩ := after s1 h1
    rcases osmtpd_register_cases s1 type phase incoming store2 NULL with
      ⟨hr, _⟩ | ⟨_, hn, _⟩ | ⟨_, ⟨e, _, _, hc⟩, _⟩ | ⟨_, pre, e, post, _, _, _, _, _, h⟩
    · rw [hr1] at hr; cases hr
    · rw [hf1] at hn; cases hn
    · exact absurd rfl hc
    · exact ⟨_, h⟩

/-- C10: a successful `osmtpd_register(type, phase, incoming, store, cb)`
changes nothing but the catalog, and in the catalog nothing but the first entry
that matches the triple: the entries before and after it are the same, and of
the entry itself `type`, `phase`, `incoming` and the parser are the same,
`doregister` is true, `storereport` is the old value or `store`, and the
callback is `cb` when `cb` is non-null and the old callback otherwise. -/
theorem osmtpd_register_frame (s s1 : State) (type : osmtpd_type) (phase : osmtpd_phase)
    (incoming : Int) (storereport : Bool) (cb : Nat)
    (h : osmtpd_register s type phase incoming storereport cb = .ok s1) :
    ∃ pre e e1 post,
      s.osmtpd_callbacks = pre ++ e :: post ∧
      s1 = { s with osmtpd_callbacks := pre ++ e1 :: post } ∧
      (∀ x ∈ pre, ¬ (type = x.type ∧ phase = x.phase ∧ incoming = x.incoming)) ∧
      (e.type = type ∧ e.phase = phase ∧ e.incoming = incoming) ∧
      e1.type = e.type ∧ e1.phase = e.phase ∧ e1.incoming = e.incoming ∧
      e1.osmtpd_cb = e.osmtpd_cb ∧
      e1.doregister = true ∧
      e1.storereport = (e.storereport || storereport) ∧
      (cb ≠ NULL → e1.cb = cb) ∧ (cb = NULL → e1.cb = e.cb) := by
  rcases osmtpd_register_cases s type phase incoming storereport cb with
    ⟨_, h1⟩ | ⟨_, _, h1⟩ | ⟨_, _, h1⟩ | ⟨_, pre, e, post, hl, hpre, he, _, _, h1⟩
  · rw [h1] at h; cases h
  · rw [h1] at h; cases h
  · rw [h1] at h; cases h
  · rw [h1] at h
    cases h
    refine ⟨pre, e, _, post, hl, rfl, hpre, ⟨he.1.symm, he.2.1.symm, he.2.2.symm⟩, rfl, rfl,
      rfl, rfl, rfl, ?_, ?_, ?_⟩
    · cases storereport <;> simp
    · intro hcb; simp only [if_pos hcb]
    · intro hcb; simp only [hcb, ne_eq, not_true_eq_false, if_false]

/-- Witness of C10: the first registration of `osmtpd_register_filter_mailfrom`
on the initial state. -/
theorem osmtpd_register_frame_witness :
    ∃ pre e e1 post,
      State.init.osmtpd_callbacks = pre ++ e :: post ∧
      ({ State.init with osmtpd_callbacks :=
          (State.init.osmtpd_callbacks.take 5) ++
            { catalog_entry OSMTPD_TYPE_FILTER OSMTPD_PHASE_MAIL_FROM 1 parser_fn.onearg with
                cb := 7, doregister := true } :: State.init.osmtpd_callbacks.drop 6 } : State) =
        { State.init with osmtpd_callbacks := pre ++ e1 :: post } ∧
      (∀ x ∈ pre, ¬ (OSMTPD_TYPE_FILTER = x.type ∧ OSMTPD_PHASE_MAIL_FROM = x.phase ∧
        (1 : Int) = x.incoming)) ∧
      (e.type = OSMTPD_TYPE_FILTER ∧ e.phase = OSMTPD_PHASE_MAIL_FROM ∧ e.incoming = 1) ∧
      e1.type = e.type ∧ e1.phase = e.phase ∧ e1.incoming = e.incoming ∧
      e1.osmtpd_cb = e.osmtpd_cb ∧
      e1.doregister = true ∧
      e1.storereport = (e.storereport || false) ∧
      ((7 : Nat) ≠ NULL → e1.cb = 7) ∧ ((7 : Nat) = NULL → e1.cb = e.cb) :=
  osmtpd_register_frame State.init _ OSMTPD_TYPE_FILTER OSMTPD_PHASE_MAIL_FROM 1 false 7 rfl

/-! ## Lemmas on `osmtpd_run` -/

theorem entry_rel_refl (e : osmtpd_callback) : entry_rel e e :=
  ⟨rfl, rfl, rfl, rfl, rfl, id, id⟩

theorem entry_rel_trans {a b c : osmtpd_callback} (h1 : entry_rel a b) (h2 : entry_rel b c) :
    entry_rel a c := by
  obtain ⟨a1, a2, a3, a4, a5, a6, a7⟩ := h1
  obtain ⟨b1, b2, b3, b4, b5, b6, b7⟩ := h2
  exact ⟨b1.trans a1, b2.trans a2, b3.trans a3, b4.trans a4, b5.trans a5,
    fun h => b6 (a6 h), fun h => b7 (a7 h)⟩

theorem forall₂_entry_rel_refl (l : List osmtpd_callback) : List.Forall₂ entry_rel l l := by
  induction l with
  | nil => exact List.Forall₂.nil
  | cons x xs ih => exact List.Forall₂.cons (entry_rel_refl x) ih

theorem forall₂_entry_rel_trans {l1 l2 l3 : List osmtpd_callback}
    (h1 : List.Forall₂ entry_rel l1 l2) (h2 : List.Forall₂ entry_rel l2 l3) :
    List.Forall₂ entry_rel l1 l3 := by
  induction h1 generalizing l3 with
  | nil => cases h2; exact List.Forall₂.nil
  | cons hab _ ih =>
    cases h2 with
    | cons hbc htl => exact List.Forall₂.cons (entry_rel_trans hab hbc) (ih htl)

theorem reg_ok_refl (s : State) : reg_ok s s :=
  ⟨rfl, forall₂_entry_rel_refl _⟩

theorem reg_ok_trans {s s1 s2 : State} (h1 : reg_ok s s1) (h2 : reg_ok s1 s2) : reg_ok s s2 := by
  refine ⟨?_, forall₂_entry_rel_trans h1.2 h2.2⟩
  rw [h2.1, h1.1]

theorem reg_res_bind (s : State) (r : Except Halt State) (f : State → Except Halt State)
    (hr : reg_res s r) (hf : ∀ s1, reg_ok s s1 → reg_res s1 (f s1)) :
    reg_res s (r.bind f) := by
  cases r with
  | error h => exact hr
  | ok s1 =>
    have h1 : reg_ok s s1 := hr
    have h2 := hf s1 h1
    show reg_res s (f s1)
    cases hfs : f s1 with
    | error h => rw [hfs] at h2; exact h2
    | ok s2 => rw [hfs] at h2; exact reg_ok_trans h1 h2

theorem forall₂_entry_rel_update (pre post : List osmtpd_callback) (e e1 : osmtpd_callback)
    (h : entry_rel e e1) : List.Forall₂ entry_rel (pre ++ e :: post) (pre ++ e1 :: post) := by
  induction pre with
  | nil => exact List.Forall₂.cons h (forall₂_entry_rel_refl post)
  | cons x xs ih => exact List.Forall₂.cons (entry_rel_refl x) ih

theorem osmtpd_register_null_res (s : State) (type : osmtpd_type) (phase : osmtpd_phase)
    (incoming : Int) (storereport : Bool) :
    reg_res s (osmtpd_register s type phase incoming storereport NULL) := by
  rcases osmtpd_register_cases s type phase incoming storereport NULL with
    ⟨_, h⟩ | ⟨_, _, h⟩ | ⟨_, _, h⟩ | ⟨_, pre, e, post, hl, _, _, _, _, h⟩
  · rw [h]; exact ⟨s, Or.inl rfl⟩
  · rw [h]; exact ⟨s, Or.inr (Or.inl rfl)⟩
  · rw [h]; exact ⟨s, Or.inr (Or.inr rfl)⟩
  · rw [h]
    refine ⟨rfl, ?_⟩
    show List.Forall₂ entry_rel s.osmtpd_callbacks _
    rw [hl]
    apply forall₂_entry_rel_update
    refine ⟨rfl, rfl, rfl, rfl, ?_, fun _ => rfl, ?_⟩
    · simp
    · intro hs; cases storereport <;> simp [hs]

theorem need_register_res (mask : Nat) (phase : osmtpd_phase) (incoming : Int) (s : State) :
    reg_res s (need_register mask phase incoming s) := by
  unfold need_register
  split
  · exact osmtpd_register_null_res _ _ _ _ _
  · exact reg_ok_refl s

theorem need_register_tx_res (mask : Nat) (phase : osmtpd_phase) (incoming : Int) (s : State) :
    reg_res s (need_register_tx mask phase incoming s) := by
  unfold need_register_tx
  split
  · apply reg_res_bind _ _ _ (osmtpd_register_null_res _ _ _ _ _)
    intro s1 _
    apply reg_res_bind _ _ _ (osmtpd_register_null_res _ _ _ _ _)
    intro s2 _
    exact osmtpd_register_null_res _ _ _ _ _
  · exact reg_ok_refl s

theorem osmtpd_register_need_res (s : State) (incoming : Int) :
    reg_res s (osmtpd_register_need s incoming) := by
  unfold osmtpd_register_need
  apply reg_res_bind _ _ _ (need_register_res _ _ _ _); intro s1 _
  apply reg_res_bind _ _ _ (need_register_res _ _ _ _); intro s2 _
  apply reg_res_bind _ _ _ (need_register_res _ _ _ _); intro s3 _
  apply reg_res_bind _ _ _ (need_register_res _ _ _ _); intro s4 _
  apply reg_res_bind _ _ _ (need_register_tx_res _ _ _ _); intro s5 _
  apply reg_res_bind _ _ _ (need_register_tx_res _ _ _ _); intro s6 _
  apply reg_res_bind _ _ _ (need_register_tx_res _ _ _ _); intro s7 _
  apply reg_res_bind _ _ _ (need_register_tx_res _ _ _ _); intro s8 _
  exact osmtpd_register_null_res _ _ _ _ _

theorem osmtpd_run_message_res (s : State) (incoming : Int) :
    reg_res s (osmtpd_run_message s incoming) := by
  unfold osmtpd_run_message
  split
  · apply reg_res_bind _ _ _ (osmtpd_register_null_res _ _ _ _ _)
    intro s1 _
    apply reg_res_bind _ _ _ (osmtpd_register_null_res _ _ _ _ _)
    intro s2 _
    exact osmtpd_register_null_res _ _ _ _ _
  · exact reg_ok_refl s

/-- The first loop of `osmtpd_run` only makes implicit registrations. -/
theorem osmtpd_run_step_res (s : State) (l : run_locals) (i : Nat) :
    match osmtpd_run_step s l i with
    | .ok (s1, _) => reg_ok s s1
    | .error h => reg_err h := by
  unfold osmtpd_run_step
  cases hg : s.osmtpd_callbacks.get? i with
  | none => exact reg_ok_refl s
  | some e =>
    simp only
    by_cases hd : e.doregister = true
    · rw [if_pos hd]
      have h1 := osmtpd_register_need_res s e.incoming
      cases hn : osmtpd_register_need s e.incoming with
      | error h => rw [hn] at h1; exact h1
      | ok s1 =>
        rw [hn] at h1
        have h2 := osmtpd_run_message_res s1 ((s1.osmtpd_callbacks.get? i).getD e).incoming
        simp only [Except.bind]
        cases hm : osmtpd_run_message s1 ((s1.osmtpd_callbacks.get? i).getD e).incoming with
        | error h => rw [hm] at h2; exact h2
        | ok s2 => rw [hm] at h2; exact reg_ok_trans h1 h2
    · rw [if_neg hd]; exact reg_ok_refl s

theorem osmtpd_run_loop_res (n i : Nat) (s : State) (l : run_locals) :
    match osmtpd_run_loop n i s l with
    | .ok (s1, _) => reg_ok s s1
    | .error h => reg_err h := by
  induction n generalizing i s l with
  | zero => exact reg_ok_refl s
  | succ n ih =>
    unfold osmtpd_run_loop
    have h1 := osmtpd_run_step_res s l i
    cases hs : osmtpd_run_step s l i with
    | error h => rw [hs] at h1; exact h1
    | ok p =>
      obtain ⟨s1, l1⟩ := p
      rw [hs] at h1
      simp only
      have h2 := ih (i + 1) s1 l1
      cases hl : osmtpd_run_loop n (i + 1) s1 l1 with
      | error h => rw [hl] at h2; exact h2
      | ok q =>
        obtain ⟨s2, l2⟩ := q
        rw [hl] at h2
        exact reg_ok_trans h1 h2

theorem forall₂_entry_rel_set (cbs : List osmtpd_callback) (i : Nat) (e e1 : osmtpd_callback)
    (hg : cbs.get? i = some e) (h : entry_rel e e1) :
    List.Forall₂ entry_rel cbs (cbs.set i e1) := by
  induction cbs generalizing i with
  | nil => simp at hg
  | cons x xs ih =>
    cases i with
    | zero =>
      simp only [List.get?_cons_zero, Option.some.injEq] at hg
      subst hg
      exact List.Forall₂.cons h (forall₂_entry_rel_refl xs)
    | succ j =>
      simp only [List.get?_cons_succ] at hg
      exact List.Forall₂.cons (entry_rel_refl x) (ih j hg)

theorem set_storereport_rel (p : Option Nat) (cbs : List osmtpd_callback) :
    List.Forall₂ entry_rel cbs (set_storereport p cbs) := by
  unfold set_storereport
  cases p with
  | none => exact forall₂_entry_rel_refl cbs
  | some i =>
    simp only
    cases hg : cbs.get? i with
    | none => exact forall₂_entry_rel_refl cbs
    | some e =>
      simp only
      split
      · exact forall₂_entry_rel_set cbs i e _ hg ⟨rfl, rfl, rfl, rfl, rfl, id, fun _ => rfl⟩
      · exact forall₂_entry_rel_refl cbs

theorem osmtpd_run_promote_ok (s : State) (l : run_locals) : reg_ok s (osmtpd_run_promote s l) := by
  unfold osmtpd_run_promote
  split
  · exact reg_ok_refl s
  · split
    · exact ⟨rfl, forall₂_entry_rel_trans (set_storereport_rel _ _) (set_storereport_rel _ _)⟩
    · exact reg_ok_refl s

/-- The registration phase of `osmtpd_run` either exits through
`osmtpd_register` or ends in a state that differs from the start only in
`doregister` and `storereport` flags that were raised. -/
theorem osmtpd_run_register_res (s : State) : reg_res s (osmtpd_run_register s) := by
  unfold osmtpd_run_register
  have h1 := osmtpd_run_loop_res s.osmtpd_callbacks.length 0 s ⟨none, none, none⟩
  cases hl : osmtpd_run_loop s.osmtpd_callbacks.length 0 s ⟨none, none, none⟩ with
  | error h => rw [hl] at h1; exact h1
  | ok q =>
    obtain ⟨s1, l1⟩ := q
    rw [hl] at h1
    exact reg_ok_trans h1 (osmtpd_run_promote_ok s1 l1)

/-- The second loop of `osmtpd_run`: what it prints and when it sets
`registered`. -/
theorem osmtpd_run_emit_eq (cbs : List osmtpd_callback) (s : State) (registered : Bool) :
    osmtpd_run_emit cbs s registered =
      (io_printf s (register_lines cbs).flatten,
        registered || cbs.any fun e => e.doregister && decide (e.cb ≠ NULL)) := by
  induction cbs generalizing s registered with
  | nil => simp [osmtpd_run_emit, register_lines, io_printf]
  | cons e es ih =>
    unfold osmtpd_run_emit
    by_cases hd : e.doregister = true
    · rw [if_pos hd, ih]
      have hl : register_lines (e :: es) = register_line e :: register_lines es := by
        simp [register_lines, hd]
      rw [hl, List.flatten_cons, io_printf_printf]
      by_cases hc : e.cb = NULL
      · simp [hd, hc]
      · simp [hd, hc]
    · rw [if_neg hd, ih]
      have hl : register_lines (e :: es) = register_lines es := by
        simp [register_lines, hd]
      rw [hl]
      simp [hd]

theorem register_line_ne_ready (e : osmtpd_callback) :
    register_line e ≠ "register|ready\n".toList := by
  intro h
  have h2 := congrArg (List.take 12) h
  unfold register_line at h2
  cases ht : e.type with
  | OSMTPD_TYPE_FILTER => rw [ht] at h2; revert h2; simp [osmtpd_typetostr]
  | OSMTPD_TYPE_REPORT => rw [ht] at h2; revert h2; simp [osmtpd_typetostr]

theorem register_line_key (e e1 : osmtpd_callback) (h : entry_key e1 = entry_key e) :
    register_line e1 = register_line e := by
  simp only [entry_key, Prod.mk.injEq] at h
  unfold register_line
  rw [h.1, h.2.1, h.2.2]

theorem forall₂_entry_rel_key {l l1 : List osmtpd_callback} (h : List.Forall₂ entry_rel l l1) :
    l1.map entry_key = l.map entry_key := by
  induction h with
  | nil => rfl
  | cons hab _ ih =>
    simp only [List.map_cons, ih, entry_key]
    rw [hab.1, hab.2.1, hab.2.2.1]

theorem register_lines_sublist (cbs : List osmtpd_callback) :
    List.Sublist (register_lines cbs) (cbs.map register_line) := by
  unfold register_lines
  exact List.Sublist.map _ (List.filter_sublist _)

theorem map_register_line_key (l l1 : List osmtpd_callback)
    (h : l1.map entry_key = l.map entry_key) : l1.map register_line = l.map register_line := by
  induction l generalizing l1 with
  | nil => cases l1 with
    | nil => rfl
    | cons y ys => simp at h
  | cons x xs ih =>
    cases l1 with
    | nil => simp at h
    | cons y ys =>
      simp only [List.map_cons, List.cons.injEq] at h ⊢
      exact ⟨register_line_key x y h.1, ih ys h.2⟩

theorem osmtpd_callbacks_init_lines_nodup :
    (osmtpd_callbacks_init.map register_line).Nodup := by
  decide

theorem need_register_zero (mask : Nat) (phase : osmtpd_phase) (incoming : Int) (s : State)
    (h : s.needs = 0) : need_register mask phase incoming s = .ok s := by
  simp [need_register, h]

theorem need_register_tx_zero (mask : Nat) (phase : osmtpd_phase) (incoming : Int) (s : State)
    (h : s.needs = 0) : need_register_tx mask phase incoming s = .ok s := by
  simp [need_register_tx, h]

/-- Without a need mask `osmtpd_register_need` only registers
`link-disconnect`. -/
theorem osmtpd_register_need_zero (s : State) (incoming : Int) (h : s.needs = 0) :
    osmtpd_register_need s incoming =
      osmtpd_register s OSMTPD_TYPE_REPORT OSMTPD_PHASE_LINK_DISCONNECT incoming false NULL := by
  simp only [osmtpd_register_need, need_register_zero _ _ _ s h, need_register_tx_zero _ _ _ s h,
    Except.bind]

theorem osmtpd_run_message_null (s : State) (incoming : Int) (h : s.oncreatecb_message = NULL) :
    osmtpd_run_message s incoming = .ok s := by
  simp [osmtpd_run_message, h]

/-- What `osmtpd_run` returns once the registration phase has succeeded. -/
theorem osmtpd_run_of_register (s s1 : State) (h : osmtpd_run_register s = .ok s1) :
    osmtpd_run s =
      if (s1.osmtpd_callbacks.any fun e => e.doregister && decide (e.cb ≠ NULL)) = false then
        .error (Halt.exit 1 "No events registered\n".toList
          (io_printf s1 (register_lines s1.osmtpd_callbacks).flatten))
      else
        .ok { io_printf (io_printf s1 (register_lines s1.osmtpd_callbacks).flatten)
                "register|ready\n".toList with ready := true } := by
  unfold osmtpd_run
  rw [h]
  simp only [Except.bind, osmtpd_run_emit_eq, Bool.false_or]
  rfl

theorem reg_err_ne_no_events (h : Halt) (st : State) (hh : reg_err h) :
    h ≠ Halt.exit 1 "No events registered\n".toList st := by
  obtain ⟨st1, h1 | h1 | h1⟩ := hh
  · rw [h1]; intro e; injection e with _ e2 _; revert e2; decide
  · rw [h1]; intro e; injection e with _ e2 _; revert e2; decide
  · rw [h1]; intro e; injection e with _ e2 _; revert e2; decide

/-! ## Claims on `osmtpd_run` -/

/-- C6: with nothing else registered, no need mask and no hooks, after
`osmtpd_register_filter_mailfrom(cb)` with a non-null callback the handshake
written by `osmtpd_run` is exactly the three lines
`register|filter|smtp-in|mail-from`, `register|report|smtp-in|link-disconnect`,
`register|ready`, in that order, and `ready` is set. -/
theorem handshake_filter_mailfrom (cb : Nat) (hcb : cb ≠ NULL) :
    ∃ s1 s2, osmtpd_register_filter_mailfrom State.init cb = .ok s1 ∧
      osmtpd_run s1 = .ok s2 ∧ s2.ready = true ∧
      s2.io_stdout = ("register|filter|smtp-in|mail-from\n" ++
        "register|report|smtp-in|link-disconnect\n" ++ "register|ready\n").toList := by
  have hcb0 : cb ≠ 0 := hcb
  simp [osmtpd_register_filter_mailfrom, osmtpd_register, osmtpd_register_scan, State.init,
    osmtpd_callbacks_init, catalog_entry, Except.bind, hcb0, NULL, osmtpd_run, osmtpd_run_register,
    osmtpd_run_loop, osmtpd_run_step, osmtpd_register_need_zero, osmtpd_run_message_null,
    osmtpd_run_identity, osmtpd_run_promote, osmtpd_run_emit, io_printf, register_line,
    osmtpd_typetostr, osmtpd_phasetostr, osmtpd_errx]

/-- Witness of C6: the callback at address 7. -/
theorem handshake_filter_mailfrom_witness :
    (7 : Nat) ≠ NULL ∧
    ∃ s1 s2, osmtpd_register_filter_mailfrom State.init 7 = .ok s1 ∧
      osmtpd_run s1 = .ok s2 ∧ s2.ready = true ∧
      s2.io_stdout = ("register|filter|smtp-in|mail-from\n" ++
        "register|report|smtp-in|link-disconnect\n" ++ "register|ready\n").toList :=
  ⟨by decide, handshake_filter_mailfrom 7 (by decide)⟩

/-- C7: whenever `osmtpd_run` succeeds, the registration phase has succeeded
with some state `s1`, and what `osmtpd_run` wrote is, in catalog order, the
line `register|<type>|smtp-<in|out>|<phase>\n` of each entry of `s1` with
`doregister` set (one per such entry, none for the others), followed by
`register|ready\n`; none of the entry lines is `register|ready\n`, and for
the catalog of the library the entry lines are pairwise different. -/
theorem osmtpd_run_handshake (s s2 : State) (h : osmtpd_run s = .ok s2) :
    ∃ s1, osmtpd_run_register s = .ok s1 ∧
      s2.io_stdout = s.io_stdout ++
        ((s1.osmtpd_callbacks.filter fun e => e.doregister).map register_line).flatten ++
        "register|ready\n".toList ∧
      (∀ l ∈ (s1.osmtpd_callbacks.filter fun e => e.doregister).map register_line,
        l ≠ "register|ready\n".toList) ∧
      (s.osmtpd_callbacks.map entry_key = osmtpd_callbacks_init.map entry_key →
        ((s1.osmtpd_callbacks.filter fun e => e.doregister).map register_line).Nodup) ∧
      s2.ready = true := by
  have hres := osmtpd_run_register_res s
  cases hr : osmtpd_run_register s with
  | error e =>
    unfold osmtpd_run at h
    rw [hr] at h
    cases h
  | ok s1 =>
    rw [hr] at hres
    have hok : reg_ok s s1 := hres
    rw [osmtpd_run_of_register s s1 hr] at h
    split at h
    · cases h
    · simp only [Except.ok.injEq] at h
      refine ⟨s1, rfl, ?_, ?_, ?_, ?_⟩
      · rw [← h]
        show (s1.io_stdout ++ _) ++ _ = _
        rw [hok.1]
        rfl
      · intro l hl
        obtain ⟨e, _, he⟩ := List.mem_map.mp hl
        rw [← he]
        exact register_line_ne_ready e
      · intro hk
        have h1 : s1.osmtpd_callbacks.map register_line =
            osmtpd_callbacks_init.map register_line :=
          map_register_line_key _ _ ((forall₂_entry_rel_key hok.2).trans hk)
        have h2 := register_lines_sublist s1.osmtpd_callbacks
        rw [h1] at h2
        exact List.Nodup.sublist h2 osmtpd_callbacks_init_lines_nodup
      · rw [← h]

/-- Witness of C7: the run after `osmtpd_register_filter_mailfrom(7)`. -/
theorem osmtpd_run_handshake_witness :
    osmtpd_run mailfrom_state = .ok mailfrom_ready ∧
    ∃ s1, osmtpd_run_register mailfrom_state = .ok s1 ∧
      mailfrom_ready.io_stdout = mailfrom_state.io_stdout ++
        ((s1.osmtpd_callbacks.filter fun e => e.doregister).map register_line).flatten ++
        "register|ready\n".toList ∧
      (∀ l ∈ (s1.osmtpd_callbacks.filter fun e => e.doregister).map register_line,
        l ≠ "register|ready\n".toList) ∧
      (mailfrom_state.osmtpd_callbacks.map entry_key = osmtpd_callbacks_init.map entry_key →
        ((s1.osmtpd_callbacks.filter fun e => e.doregister).map register_line).Nodup) ∧
      mailfrom_ready.ready = true :=
  ⟨rfl, osmtpd_run_handshake mailfrom_state mailfrom_ready rfl⟩

/-- C8: `osmtpd_run` exits with "No events registered" exactly when the
registration phase succeeds and afterwards no catalog entry with `doregister`
set has a non-null callback; the process then exits with `ready` as it was
(false before a first run) and with nothing written but the `register` lines
of the entries, none of which is `register|ready`. -/
theorem osmtpd_run_no_events (s : State) :
    ((∃ st, osmtpd_run s = .error (Halt.exit 1 "No events registered\n".toList st)) ↔
      ∃ s1, osmtpd_run_register s = .ok s1 ∧
        ∀ e ∈ s1.osmtpd_callbacks, e.doregister = true → e.cb = NULL) ∧
    (∀ st, osmtpd_run s = .error (Halt.exit 1 "No events registered\n".toList st) →
      st.ready = s.ready ∧ (s.ready = false → st.ready = false) ∧
      ∃ s1, osmtpd_run_register s = .ok s1 ∧
        st.io_stdout = s.io_stdout ++
          ((s1.osmtpd_callbacks.filter fun e => e.doregister).map register_line).flatten ∧
        ∀ l ∈ (s1.osmtpd_callbacks.filter fun e => e.doregister).map register_line,
          l ≠ "register|ready\n".toList) ∧
    osmtpd_run State.init =
      .error (Halt.exit 1 "No events registered\n".toList State.init) := by
  refine and_assoc.mp ⟨?_, rfl⟩
  have hres := osmtpd_run_register_res s
  cases hr : osmtpd_run_register s with
  | error e =>
    rw [hr] at hres
    have hrun : osmtpd_run s = .error e := by
      unfold osmtpd_run; rw [hr]; rfl
    have hne : ∀ st, osmtpd_run s ≠ .error (Halt.exit 1 "No events registered\n".toList st) := by
      intro st h
      rw [hrun] at h
      injection h with h
      exact reg_err_ne_no_events e st hres h
    refine ⟨⟨fun ⟨st, h⟩ => absurd h (hne st), fun ⟨s1, h, _⟩ => by cases h⟩,
      fun st h => absurd h (hne st)⟩
  | ok s1 =>
    rw [hr] at hres
    have hok : reg_ok s s1 := hres
    have hany : (s1.osmtpd_callbacks.any fun e => e.doregister && decide (e.cb ≠ NULL)) = false ↔
        ∀ e ∈ s1.osmtpd_callbacks, e.doregister = true → e.cb = NULL := by
      rw [List.any_eq_false]
      constructor
      · intro h e he hd
        have := h e he
        simp only [hd, Bool.true_and, decide_eq_true_eq, ne_eq, not_not] at this
        exact this
      · intro h e he
        by_cases hd : e.doregister = true
        · simp [hd, h e he hd]
        · simp [hd]
    rw [osmtpd_run_of_register s s1 hr]
    refine ⟨⟨?_, ?_⟩, ?_⟩
    · rintro ⟨st, h⟩
      split at h
      · rename_i hc; exact ⟨s1, rfl, hany.mp hc⟩
      · cases h
    · rintro ⟨s1', h1, hall⟩
      cases h1
      rw [if_pos (hany.mpr hall)]
      exact ⟨_, rfl⟩
    · intro st h
      split at h
      · injection h with h
        injection h with _ _ h3
        subst h3
        have hs1 : s1.ready = s.ready ∧ s1.io_stdout = s.io_stdout := by
          rw [hok.1]; exact ⟨rfl, rfl⟩
        refine ⟨hs1.1, fun h0 => hs1.1.trans h0, s1, rfl, ?_, ?_⟩
        · show s1.io_stdout ++ _ = _
          rw [hs1.2]; rfl
        · intro l hl
          obtain ⟨e, _, he⟩ := List.mem_map.mp hl
          rw [← he]
          exact register_line_ne_ready e
      · cases h

/-! ## Lemmas on the C library model -/

theorem strchr_split_append (c : Char) (a b : List Char) (h : c ∉ a) :
    strchr_split c (a ++ c :: b) = some (a, b) := by
  induction a with
  | nil => simp [strchr_split]
  | cons x xs ih =>
    have hx : x ≠ c := fun e => h (by rw [e]; exact List.mem_cons_self _ _)
    have hxs : c ∉ xs := fun e => h (List.mem_cons_of_mem _ e)
    rw [List.cons_append]
    unfold strchr_split
    rw [if_neg hx, ih hxs]

theorem is_lower_hex_digit_value (c : Char) (h : is_lower_hex c) : digit_value c < 16 := by
  unfold is_lower_hex at h
  unfold digit_value
  split_ifs <;> omega

theorem is_decimal_digit_value (c : Char) (h : is_decimal c) : digit_value c < 10 := by
  unfold is_decimal at h
  unfold digit_value
  split_ifs
  omega

/-- A character that is a digit in some base is neither white space nor a
sign. -/
theorem digit_not_space_sign (c : Char) (h : digit_value c < 36) :
    isspace c = false ∧ c ≠ '-' ∧ c ≠ '+' := by
  have hr : (48 ≤ c.toNat ∧ c.toNat ≤ 57) ∨ (97 ≤ c.toNat ∧ c.toNat ≤ 122) ∨
      (65 ≤ c.toNat ∧ c.toNat ≤ 90) := by
    unfold digit_value at h
    split_ifs at h with h1 h2 h3
    · exact Or.inl h1
    · exact Or.inr (Or.inl h2)
    · exact Or.inr (Or.inr h3)
    · omega
  refine ⟨?_, ?_, ?_⟩
  · unfold isspace
    have h32 : c ≠ ' ' := by
      intro e; rw [e] at hr; revert hr; decide
    simp only [h32, false_or, decide_eq_false_iff_not, not_and, not_le]
    omega
  · intro e; rw [e] at hr; revert hr; decide
  · intro e; rw [e] at hr; revert hr; decide

theorem is_lower_hex_not_x (c : Char) (h : is_lower_hex c) : ¬ (c = 'x' ∨ c = 'X') := by
  unfold is_lower_hex at h
  rintro (e | e) <;> (rw [e] at h; revert h; decide)

theorem scan_digits_append (base : Nat) (ds rest : List Char) (acc : Nat)
    (hd : ∀ c ∈ ds, digit_value c < base)
    (hstop : ∀ c, rest.head? = some c → ¬ digit_value c < base) :
    scan_digits base (ds ++ rest) acc =
      (ds.foldl (fun a c => a * base + digit_value c) acc, rest) := by
  induction ds generalizing acc with
  | nil =>
    cases rest with
    | nil => rfl
    | cons c r =>
      simp only [List.nil_append, scan_digits, List.foldl_nil]
      rw [if_neg (hstop c rfl)]
  | cons x xs ih =>
    rw [List.cons_append]
    unfold scan_digits
    rw [if_pos (hd x (List.mem_cons_self _ _))]
    rw [ih _ (fun c hc => hd c (List.mem_cons_of_mem _ hc))]
    rfl

/-- The subject sequence of a number that starts at once with its digits,
when the base prefix does not apply. -/
theorem strto_subject_digits (base : Nat) (hb : base ≤ 36) (ds rest : List Char)
    (hne : ds ≠ []) (hd : ∀ c ∈ ds, digit_value c < base)
    (hstop : ∀ c, rest.head? = some c → ¬ digit_value c < base)
    (hskip : strto_skip0x base (ds ++ rest) = ds ++ rest) :
    strto_subject base (ds ++ rest) =
      ⟨false, ds.foldl (fun a c => a * base + digit_value c) 0, rest, true⟩ := by
  cases ds with
  | nil => exact absurd rfl hne
  | cons x xs =>
    have hx : digit_value x < base := hd x (List.mem_cons_self _ _)
    obtain ⟨h1, h2, h3⟩ := digit_not_space_sign x (by omega)
    have hdrop : List.dropWhile isspace (x :: xs ++ rest) = x :: xs ++ rest := by
      rw [List.cons_append, List.dropWhile_cons, h1]; rfl
    unfold strto_subject
    simp only [hdrop]
    have hhead : (x :: xs ++ rest).head? = some x := rfl
    simp only [hhead, Option.some.injEq, h2, h3, or_self, if_false, hskip, decide_False]
    rw [List.cons_append] at *
    simp only [if_pos hx]
    rw [← List.cons_append, scan_digits_append base (x :: xs) rest 0 hd hstop]

theorem strto_skip0x_decimal (s : List Char) : strto_skip0x 10 s = s := by
  simp [strto_skip0x]

theorem strto_skip0x_hex (ds rest : List Char) (h2 : 2 ≤ ds.length)
    (hd : ∀ c ∈ ds, is_lower_hex c) : strto_skip0x 16 (ds ++ rest) = ds ++ rest := by
  match ds, h2 with
  | a :: b :: tl, _ =>
    have hb : ¬ (b = 'x' ∨ b = 'X') := is_lower_hex_not_x b (hd b (by simp))
    unfold strto_skip0x
    simp only [if_true]
    cases htl : tl ++ rest with
    | nil => simp [htl]
    | cons d r =>
      simp only [List.cons_append, htl]
      rw [if_neg (fun h => hb h.2.1)]

theorem decimal_value_eq (ds : List Char) :
    ds.foldl (fun a c => a * 10 + digit_value c) 0 = decimal_value ds := rfl

theorem hex_value_eq (ds : List Char) :
    ds.foldl (fun a c => a * 16 + digit_value c) 0 = hex_value ds := rfl

theorem hex_value_lt (ds : List Char) (hd : ∀ c ∈ ds, is_lower_hex c) :
    hex_value ds < 16 ^ ds.length := by
  induction ds using List.reverseRecOn with
  | nil => simp [hex_value]
  | append_singleton xs x ih =>
    rw [hex_value_append, List.length_append, List.length_singleton, pow_succ]
    have h1 := ih (fun c hc => hd c (List.mem_append_left _ hc))
    have h2 := is_lower_hex_digit_value x (hd x (by simp))
    omega

/-- `strtoul` in base 10 on a number written with decimal digits only. -/
theorem strtoul_decimal (ds rest : List Char) (hne : ds ≠ [])
    (hd : ∀ c ∈ ds, is_decimal c)
    (hstop : ∀ c, rest.head? = some c → ¬ digit_value c < 10)
    (hv : decimal_value ds ≤ ULONG_MAX) :
    strtoul (ds ++ rest) 10 = ⟨decimal_value ds, rest, false⟩ := by
  unfold strtoul
  rw [strto_subject_digits 10 (by decide) ds rest hne (fun c hc => is_decimal_digit_value c (hd c hc))
    hstop (strto_skip0x_decimal _), decimal_value_eq]
  simp only [Bool.true_eq_false, if_false, Bool.false_eq_true]
  rw [if_neg (by omega)]

/-- `strtoull` in base 16 on sixteen lower-case hexadecimal digits. -/
theorem strtoull_hex16 (ds rest : List Char) (hlen : ds.length = 16)
    (hd : ∀ c ∈ ds, is_lower_hex c)
    (hstop : ∀ c, rest.head? = some c → ¬ digit_value c < 16) :
    strtoull (ds ++ rest) 16 = ⟨hex_value ds, rest, false⟩ := by
  have hne : ds ≠ [] := by intro e; rw [e] at hlen; cases hlen
  have hlt := hex_value_lt ds hd
  rw [hlen] at hlt
  unfold strtoull strtoul
  rw [strto_subject_digits 16 (by decide) ds rest hne
    (fun c hc => is_lower_hex_digit_value c (hd c hc)) hstop
    (strto_skip0x_hex ds rest (by omega) hd), hex_value_eq]
  simp only [Bool.true_eq_false, if_false, Bool.false_eq_true]
  rw [if_neg (by unfold ULONG_MAX; omega)]

theorem hexchar_digit_value_inv (c : Char) (h : is_lower_hex c) :
    hexchar (digit_value c) = c := by
  unfold is_lower_hex at h
  rcases h with h | h
  · have hv : digit_value c = c.toNat - 48 := by
      unfold digit_value; rw [if_pos h]
    rw [hv]
    unfold hexchar
    rw [if_pos (by omega)]
    have : 48 + (c.toNat - 48) = c.toNat := by omega
    rw [this, Char.ofNat_toNat]
  · have hv : digit_value c = c.toNat - 87 := by
      unfold digit_value; rw [if_neg (by omega), if_pos (by omega)]
    rw [hv]
    unfold hexchar
    rw [if_neg (by omega)]
    have : 87 + (c.toNat - 87) = c.toNat := by omega
    rw [this, Char.ofNat_toNat]

/-- Printing the value of a string of lower-case hexadecimal digits with as
many digits gives the string back. -/
theorem hexpad_hex_value (ds : List Char) (hd : ∀ c ∈ ds, is_lower_hex c) :
    hexpad ds.length (hex_value ds) = ds := by
  induction ds using List.reverseRecOn with
  | nil => rfl
  | append_singleton xs x ih =>
    have hx := is_lower_hex_digit_value x (hd x (by simp))
    rw [hex_value_append, List.length_append, List.length_singleton, hexpad]
    have e1 : (hex_value xs * 16 + digit_value x) / 16 = hex_value xs := by omega
    have e2 : (hex_value xs * 16 + digit_value x) % 16 = digit_value x := by omega
    rw [e1, e2, ih (fun c hc => hd c (List.mem_append_left _ hc)),
      hexchar_digit_value_inv x (hd x (by simp))]

theorem fmt_016x_hex_value (ds : List Char) (hlen : ds.length = 16)
    (hd : ∀ c ∈ ds, is_lower_hex c) : fmt_016x (hex_value ds) = ds := by
  have hlt := hex_value_lt ds hd
  rw [hlen] at hlt
  unfold fmt_016x
  rw [Nat.mod_eq_of_lt (by omega)]
  have := hexpad_hex_value ds hd
  rw [hlen] at this
  exact this

theorem to_int_small (v : Nat) (h : v < 2 ^ 31) : to_int v = (v : Int) := by
  unfold to_int
  have : v % 2 ^ 32 = v := Nat.mod_eq_of_lt (by omega)
  rw [this, if_pos h]

/-! ## Lemmas on the dispatcher -/

theorem RB_FIND_reqid (reqid : Nat) (l : List osmtpd_ctx) (c : osmtpd_ctx)
    (h : RB_FIND reqid l = some c) : c.reqid = reqid := by
  induction l with
  | nil => cases h
  | cons d ds ih =>
    unfold RB_FIND at h
    by_cases hd : d.reqid = reqid
    · rw [if_pos hd] at h; cases h; exact hd
    · rw [if_neg hd] at h; exact ih h

theorem ctx_write_callbacks (s : State) (c : osmtpd_ctx) :
    (ctx_write s c).osmtpd_callbacks = s.osmtpd_callbacks := rfl

theorem ctx_write_stdout (s : State) (c : osmtpd_ctx) :
    (ctx_write s c).io_stdout = s.io_stdout := rfl

/-- Looking a session up (and creating it) writes nothing, leaves the catalog
alone and yields a record of the requested key. -/
theorem session_lookup_frame (env : user_code) (s : State) (reqid : Nat) :
    (session_lookup env s reqid).1.osmtpd_callbacks = s.osmtpd_callbacks ∧
    (session_lookup env s reqid).1.io_stdout = s.io_stdout ∧
    (session_lookup env s reqid).2.reqid = reqid := by
  unfold session_lookup
  cases hf : RB_FIND reqid s.osmtpd_sessions with
  | some c => exact ⟨rfl, rfl, RB_FIND_reqid reqid _ c hf⟩
  | none =>
    simp only
    split
    · exact ⟨rfl, rfl, rfl⟩
    · exact ⟨rfl, rfl, rfl⟩

/-- A `filter` line whose event is in the catalog and whose token field is
well formed reaches the payload parser of its entry with a context that holds
the fields of the line; nothing has been written and the catalog is as it
was. -/
theorem osmtpd_newline_dispatch_filter (env : user_code) (s : State)
    (version_major version_minor : Int) (tm : timespec) (incoming : Int)
    (phase : osmtpd_phase) (reqid tok : Nat) (line rest : List Char) (e : osmtpd_callback)
    (hfind : find_callback OSMTPD_TYPE_FILTER phase incoming s.osmtpd_callbacks = some e)
    (htok : strtoull line 16 = ⟨tok, '|' :: rest, false⟩) :
    ∃ s3 ctx,
      osmtpd_newline_dispatch env s OSMTPD_TYPE_FILTER version_major version_minor tm incoming
        phase reqid 0 (some line) = call_osmtpd_cb env s3 e ctx (some rest) ∧
      s3.io_stdout = s.io_stdout ∧ s3.osmtpd_callbacks = s.osmtpd_callbacks ∧
      ctx.reqid = reqid ∧ ctx.token = tok ∧ ctx.version_major = version_major ∧
      ctx.version_minor = version_minor ∧ ctx.type = OSMTPD_TYPE_FILTER ∧ ctx.phase = phase ∧
      ctx.incoming = incoming := by
  obtain ⟨h1, h2, h3⟩ := session_lookup_frame env s reqid
  refine ⟨ctx_write (ctx_write (session_lookup env s reqid).1
      { (session_lookup env s reqid).2 with
          type := OSMTPD_TYPE_FILTER, phase := phase, version_major := version_major,
          version_minor := version_minor, incoming := incoming, tm := tm, token := 0 })
      { (session_lookup env s reqid).2 with
          type := OSMTPD_TYPE_FILTER, phase := phase, version_major := version_major,
          version_minor := version_minor, incoming := incoming, tm := tm, token := tok },
    { (session_lookup env s reqid).2 with
          type := OSMTPD_TYPE_FILTER, phase := phase, version_major := version_major,
          version_minor := version_minor, incoming := incoming, tm := tm, token := tok },
    ?_, ?_, ?_, h3, rfl, rfl, rfl, rfl, rfl, rfl⟩
  · unfold osmtpd_newline_dispatch
    simp only [ctx_write_callbacks, h1, hfind, if_true, htok, Bool.false_eq_true, if_false,
      List.head?_cons, List.tail_cons, ne_eq, not_true_eq_false, and_false, or_self]
  · simp only [ctx_write_stdout, h2]
  · simp only [ctx_write_callbacks, h1]

theorem newline_linedup_frame (s : State) (line : List Char) :
    (newline_linedup s line).osmtpd_callbacks = s.osmtpd_callbacks ∧
    (newline_linedup s line).io_stdout = s.io_stdout := ⟨rfl, rfl⟩

/-- The callback of an `onearg` entry that only calls `osmtpd_filter_proceed`
makes the parser write the proceed line of the context. -/
theorem call_osmtpd_cb_onearg_proceed (env : user_code) (s : State) (e : osmtpd_callback)
    (ctx : osmtpd_ctx) (line : List Char)
    (hparser : e.osmtpd_cb = parser_fn.onearg) (hcb : e.cb ≠ NULL)
    (huser : ∀ c args, env.callback e.cb c args = [filter_call.proceed]) :
    ∃ s1, call_osmtpd_cb env s e ctx (some line) = .ok s1 ∧
      s1.io_stdout = s.io_stdout ++ ("filter-result|".toList ++ verdict_ids ctx ++
        "|proceed\n".toList) := by
  unfold call_osmtpd_cb
  rw [hparser]
  simp only [osmtpd_onearg, call_user, if_neg hcb, huser, run_filter_calls, filter_call.run,
    osmtpd_filter_proceed_eq]
  exact ⟨_, rfl, rfl⟩

/-- The line of scenario 2 of the spec with the minor version, the reqid and
the token left open, cut at its separators. -/
theorem proceed_line_split (ms rs ts : List Char) :
    "filter|0.".toList ++ ms ++ "|1700000000.000000000|smtp-in|mail-from|".toList ++ rs ++
        "|".toList ++ ts ++ "|ok|<a@b>".toList =
      "filter".toList ++ '|' :: ("0".toList ++ ('.' :: (ms ++ ('|' :: ("1700000000".toList ++
        '.' :: ("000000000".toList ++ '|' :: ("smtp-in".toList ++ '|' :: ("mail-from".toList ++
        '|' :: (rs ++ ('|' :: (ts ++ ('|' :: "ok|<a@b>".toList)))))))))))) := by
  have e1 : "filter|0.".toList = "filter".toList ++ '|' :: ("0".toList ++ ['.']) := by decide
  have e2 : "|1700000000.000000000|smtp-in|mail-from|".toList =
      '|' :: ("1700000000".toList ++ '.' :: ("000000000".toList ++ '|' :: ("smtp-in".toList ++
        '|' :: ("mail-from".toList ++ ['|'])))) := by decide
  have e3 : "|".toList = ['|'] := by decide
  have e4 : "|ok|<a@b>".toList = '|' :: "ok|<a@b>".toList := by decide
  rw [e1, e2, e3, e4]
  simp only [List.append_assoc, List.cons_append, List.nil_append, List.singleton_append]

theorem not_digit_bar (base : Nat) (hb : base ≤ 36) (r : List Char) :
    ∀ c, ('|' :: r).head? = some c → ¬ digit_value c < base := by
  intro c hc
  simp only [List.head?_cons, Option.some.injEq] at hc
  subst hc
  have : digit_value '|' = 36 := by decide
  omega

theorem not_digit_dot (base : Nat) (hb : base ≤ 36) (r : List Char) :
    ∀ c, ('.' :: r).head? = some c → ¬ digit_value c < base := by
  intro c hc
  simp only [List.head?_cons, Option.some.injEq] at hc
  subst hc
  have : digit_value '.' = 36 := by decide
  omega

/-- A reqid field of sixteen lower-case hexadecimal digits followed by `|` is
accepted with the value the digits denote. -/
theorem osmtpd_newline_reqid_hex16 (env : user_code) (s : State) (type : osmtpd_type)
    (version_major version_minor : Int) (tm : timespec) (incoming : Int)
    (phase : osmtpd_phase) (rs rest : List Char)
    (hrl : rs.length = 16) (hrh : ∀ c ∈ rs, is_lower_hex c) :
    osmtpd_newline_reqid env s type version_major version_minor tm incoming phase
        (rs ++ '|' :: rest) =
      osmtpd_newline_dispatch env s type version_major version_minor tm incoming phase
        (hex_value rs) 0 (some rest) := by
  have hreq := strtoull_hex16 rs ('|' :: rest) hrl hrh (not_digit_bar 16 (by decide) _)
  unfold osmtpd_newline_reqid
  simp only [hreq, Bool.false_eq_true, if_false, List.head?_cons, List.tail_cons]
  rw [if_neg (by simp)]
  simp

/-- The fields `smtp-in|mail-from|` are accepted as inbound, phase
`mail-from`. -/
theorem osmtpd_newline_phase_in_mailfrom (env : user_code) (s : State) (type : osmtpd_type)
    (version_major version_minor : Int) (tm : timespec) (rest : List Char) :
    osmtpd_newline_phase env s type version_major version_minor tm
        ("smtp-in".toList ++ '|' :: ("mail-from".toList ++ '|' :: rest)) =
      osmtpd_newline_reqid env s type version_major version_minor tm 1
        OSMTPD_PHASE_MAIL_FROM rest := by
  have hphase : osmtpd_strtophase "mail-from".toList = some OSMTPD_PHASE_MAIL_FROM := by decide
  unfold osmtpd_newline_phase
  rw [strchr_split_append '|' "smtp-in".toList _ (by decide)]
  simp only
  rw [if_neg (by simp)]
  rw [strchr_split_append '|' "mail-from".toList _ (by decide)]
  simp only [hphase, if_true]

/-- A timestamp `<sec>.<frac>|` whose two parts `strtonum` accepts is accepted;
the fraction is stored multiplied by `10 * (9 - (digits + 1))`. -/
theorem osmtpd_newline_time_ok (env : user_code) (s : State) (type : osmtpd_type)
    (version_major version_minor : Int) (sec frac rest : List Char) (tv_sec nsec : Int)
    (h1 : '.' ∉ sec) (hsec : strtonum sec 0 INT64_MAX = some tv_sec)
    (h2 : '|' ∉ frac) (hfrac : strtonum frac 0 LONG_MAX = some nsec) :
    osmtpd_newline_time env s type version_major version_minor
        (sec ++ '.' :: (frac ++ '|' :: rest)) =
      osmtpd_newline_phase env s type version_major version_minor
        ⟨tv_sec, to_long (nsec * (10 * (9 - ((frac.length : Int) + 1))))⟩ rest := by
  unfold osmtpd_newline_time
  rw [strchr_split_append '.' sec _ h1]
  simp only [hsec]
  rw [strchr_split_append '|' frac _ h2]
  simp only [hfrac]

/-- The timestamp `1700000000.000000000|` is accepted. -/
theorem osmtpd_newline_time_scenario (env : user_code) (s : State) (type : osmtpd_type)
    (version_major version_minor : Int) (rest : List Char) :
    osmtpd_newline_time env s type version_major version_minor
        ("1700000000".toList ++ '.' :: ("000000000".toList ++ '|' :: rest)) =
      osmtpd_newline_phase env s type version_major version_minor
        ⟨1700000000, 0⟩ rest := by
  have hl0 : to_long (0 * (10 * (9 - ((("000000000".toList).length : Int) + 1)))) = 0 := by
    decide
  have h := osmtpd_newline_time_ok env s type version_major version_minor
    "1700000000".toList "000000000".toList rest 1700000000 0 (by decide) (by decide)
    (by decide) (by decide)
  rw [hl0] at h
  exact h

/-- The version field `0.<digits>|` is accepted with major 0 and the minor
the digits denote, converted to `int`. -/
theorem osmtpd_newline_event_version (env : user_code) (s : State) (type : osmtpd_type)
    (ms rest : List Char)
    (hmne : ms ≠ []) (hmd : ∀ c ∈ ms, is_decimal c) (hmv : decimal_value ms ≤ ULONG_MAX) :
    osmtpd_newline_event env s type ("0".toList ++ ('.' :: (ms ++ ('|' :: rest)))) =
      osmtpd_newline_time env s type 0 (to_int (decimal_value ms)) rest := by
  have hmaj : strtoul ("0".toList ++ ('.' :: (ms ++ ('|' :: rest)))) 10 =
      ⟨0, '.' :: (ms ++ ('|' :: rest)), false⟩ :=
    strtoul_decimal "0".toList _ (by decide) (by decide) (not_digit_dot 10 (by decide) _)
      (by decide)
  have hmin := strtoul_decimal ms ('|' :: rest) hmne hmd (not_digit_bar 10 (by decide) _) hmv
  have hmaj0 : to_int 0 = 0 := by decide
  unfold osmtpd_newline_event
  simp only [hmaj, List.tail_cons, List.head?_cons, hmin, hmaj0]
  rw [if_neg (by simp), if_neg (by simp), if_neg (by simp [hmne]), if_neg (by simp)]

/-- A line that starts with `filter|` goes to the event parser with type
`Filter`, after the copy for error messages has been taken. -/
theorem osmtpd_newline_line_filter (env : user_code) (s : State) (kind rest : List Char)
    (hk : kind = "filter".toList) :
    osmtpd_newline_line env s (kind ++ '|' :: rest) =
      osmtpd_newline_event env (newline_linedup s (kind ++ '|' :: rest)) OSMTPD_TYPE_FILTER
        rest := by
  have hbar : '|' ∉ kind := by rw [hk]; decide
  unfold osmtpd_newline_line
  simp only [strchr_split_append '|' kind rest hbar]
  rw [if_pos hk]

/-! ## Claim on the proceed round trip -/

/-- C1 (amended): for every reqid `rs` and token `ts` written as 16 lower-case
hexadecimal digits and every protocol minor written as a non-empty string `ms`
of decimal digits whose value fits the `int` field (below 2^31): with a
catalog entry for the inbound `mail-from` filter whose callback calls
`osmtpd_filter_proceed` and nothing else, processing the line
`filter|0.<ms>|1700000000.000000000|smtp-in|mail-from|<rs>|<ts>|ok|<a@b>`
succeeds and appends exactly `filter-result|<rs>|<ts>|proceed\n` when the
minor is at least 5 and exactly `filter-result|<ts>|<rs>|proceed\n` when it is
below 5: the digits of the input are reproduced unchanged. -/
theorem proceed_line_roundtrip (env : user_code) (s : State) (e : osmtpd_callback)
    (rs ts ms : List Char)
    (hrl : rs.length = 16) (hrh : ∀ c ∈ rs, is_lower_hex c)
    (htl : ts.length = 16) (hth : ∀ c ∈ ts, is_lower_hex c)
    (hmne : ms ≠ []) (hmd : ∀ c ∈ ms, is_decimal c) (hmv : decimal_value ms < 2 ^ 31)
    (hfind : find_callback OSMTPD_TYPE_FILTER OSMTPD_PHASE_MAIL_FROM 1 s.osmtpd_callbacks =
      some e)
    (hparser : e.osmtpd_cb = parser_fn.onearg) (hcb : e.cb ≠ NULL)
    (huser : ∀ ctx args, env.callback e.cb ctx args = [filter_call.proceed]) :
    ∃ s1,
      osmtpd_newline_line env s
        ("filter|0.".toList ++ ms ++ "|1700000000.000000000|smtp-in|mail-from|".toList ++ rs ++
          "|".toList ++ ts ++ "|ok|<a@b>".toList) = .ok s1 ∧
      s1.io_stdout = s.io_stdout ++
        (if 5 ≤ decimal_value ms then
          "filter-result|".toList ++ rs ++ "|".toList ++ ts ++ "|proceed\n".toList
        else
          "filter-result|".toList ++ ts ++ "|".toList ++ rs ++ "|proceed\n".toList) := by
  rw [proceed_line_split, osmtpd_newline_line_filter env s _ _ rfl,
    osmtpd_newline_event_version env _ _ ms _ hmne hmd (by unfold ULONG_MAX; omega),
    osmtpd_newline_time_scenario, osmtpd_newline_phase_in_mailfrom,
    osmtpd_newline_reqid_hex16 env _ _ _ _ _ _ _ rs _ hrl hrh, to_int_small _ hmv]
  obtain ⟨s3, ctx, hd, ho, _, hreq, htok, hmaj, hmin, _, _, _⟩ :=
    osmtpd_newline_dispatch_filter env (newline_linedup s _) 0 (decimal_value ms : Int)
      ⟨1700000000, 0⟩ 1 OSMTPD_PHASE_MAIL_FROM (hex_value rs) (hex_value ts)
      (ts ++ '|' :: "ok|<a@b>".toList) "ok|<a@b>".toList e hfind
      (strtoull_hex16 ts _ htl hth (not_digit_bar 16 (by decide) _))
  obtain ⟨s1, hp, hout⟩ := call_osmtpd_cb_onearg_proceed env s3 e ctx "ok|<a@b>".toList hparser hcb
    huser
  refine ⟨s1, by rw [hd, hp], ?_⟩
  rw [hout, ho]
  have hids : verdict_ids ctx =
      if 5 ≤ decimal_value ms then rs ++ "|".toList ++ ts else ts ++ "|".toList ++ rs := by
    unfold verdict_ids
    rw [hreq, htok, hmaj, hmin, fmt_016x_hex_value rs hrl hrh, fmt_016x_hex_value ts htl hth]
    by_cases h5 : 5 ≤ decimal_value ms
    · rw [if_pos h5, if_neg (by omega)]
    · rw [if_neg h5, if_pos ⟨rfl, by omega⟩]
  rw [hids]
  show s.io_stdout ++ _ = _
  by_cases h5 : 5 ≤ decimal_value ms
  · simp only [if_pos h5, List.append_assoc]
  · simp only [if_neg h5, List.append_assoc]

/-- Witness of C1: protocol 0.7, reqid 1, token 2, after
`osmtpd_register_filter_mailfrom(7)` and `osmtpd_run`. -/
theorem proceed_line_roundtrip_witness :
    ∃ s1,
      osmtpd_newline_line proceed_env mailfrom_ready
        ("filter|0.".toList ++ "7".toList ++
          "|1700000000.000000000|smtp-in|mail-from|".toList ++ "0000000000000001".toList ++
          "|".toList ++ "0000000000000002".toList ++ "|ok|<a@b>".toList) = .ok s1 ∧
      s1.io_stdout = mailfrom_ready.io_stdout ++
        (if 5 ≤ decimal_value "7".toList then
          "filter-result|".toList ++ "0000000000000001".toList ++ "|".toList ++
            "0000000000000002".toList ++ "|proceed\n".toList
        else
          "filter-result|".toList ++ "0000000000000002".toList ++ "|".toList ++
            "0000000000000001".toList ++ "|proceed\n".toList) :=
  proceed_line_roundtrip proceed_env mailfrom_ready
    { catalog_entry OSMTPD_TYPE_FILTER OSMTPD_PHASE_MAIL_FROM 1 parser_fn.onearg with
        cb := 7, doregister := true }
    "0000000000000001".toList "0000000000000002".toList "7".toList
    (by decide) (by decide) (by decide) (by decide) (by decide) (by decide) (by decide)
    (by decide) rfl (by decide) (fun _ _ => rfl)

/-- C1 (counterexample): the minor version is stored in an `int`. For the
line of scenario 2 with version `0.2147483648` (2^31, which is at least 5) the
stored minor is -2147483648, and the callback's `osmtpd_filter_proceed` writes
the token first: `filter-result|<token>|<reqid>|proceed`, not
`filter-result|<reqid>|<token>|proceed`. -/
theorem proceed_line_minor_wraps :
    5 ≤ decimal_value "2147483648".toList ∧
    ∃ s1,
      osmtpd_newline_line proceed_env mailfrom_ready
        "filter|0.2147483648|1700000000.000000000|smtp-in|mail-from|0000000000000001|0000000000000002|ok|<a@b>".toList
        = .ok s1 ∧
      s1.osmtpd_sessions.map (fun c => c.version_minor) = [-2147483648] ∧
      s1.io_stdout = mailfrom_ready.io_stdout ++
        "filter-result|0000000000000002|0000000000000001|proceed\n".toList ∧
      s1.io_stdout ≠ mailfrom_ready.io_stdout ++
        "filter-result|0000000000000001|0000000000000002|proceed\n".toList :=
  ⟨by decide, _, rfl, by decide, by decide, by decide⟩

/-! ## Lemmas on the header of a line -/

theorem header_reqid_spec (env : user_code) (s : State) (type : osmtpd_type)
    (vM vm : Int) (tm : timespec) (incoming : Int) (phase : osmtpd_phase) (line : List Char) :
    match header_reqid type vM vm tm incoming phase line with
    | some h => osmtpd_newline_reqid env s type vM vm tm incoming phase line =
        dispatch_header env s h
    | none => ∃ msg, osmtpd_newline_reqid env s type vM vm tm incoming phase line =
        fatal_line s msg := by
  unfold osmtpd_newline_reqid header_reqid dispatch_header
  by_cases hc : ((strtoull line 16).val = ULLONG_MAX ∧
      (if (strtoull line 16).erange then ERANGE else 0) ≠ 0) ∨
      ((strtoull line 16).endptr.head? ≠ some '|' ∧ (strtoull line 16).endptr ≠ [])
  · simp only [if_pos hc]; exact ⟨_, rfl⟩
  · simp only [if_neg hc]

theorem header_phase_spec (env : user_code) (s : State) (type : osmtpd_type)
    (vM vm : Int) (tm : timespec) (line : List Char) :
    match header_phase type vM vm tm line with
    | some h => osmtpd_newline_phase env s type vM vm tm line = dispatch_header env s h
    | none => ∃ msg, osmtpd_newline_phase env s type vM vm tm line = fatal_line s msg := by
  unfold osmtpd_newline_phase header_phase
  cases strchr_split '|' line with
  | none => exact ⟨_, rfl⟩
  | some p =>
    obtain ⟨dir, line6⟩ := p
    simp only
    by_cases h1 : dir ≠ "smtp-in".toList ∧ dir ≠ "smtp-out".toList
    · simp only [if_pos h1]; exact ⟨_, rfl⟩
    · simp only [if_neg h1]
      cases strchr_split '|' line6 with
      | none => exact ⟨_, rfl⟩
      | some q =>
        obtain ⟨ph, line7⟩ := q
        simp only
        cases osmtpd_strtophase ph with
        | none => exact ⟨_, rfl⟩
        | some phase => exact header_reqid_spec env s type vM vm tm _ phase line7

theorem header_time_spec (env : user_code) (s : State) (type : osmtpd_type)
    (vM vm : Int) (line : List Char) :
    match header_time type vM vm line with
    | some h => osmtpd_newline_time env s type vM vm line = dispatch_header env s h
    | none => ∃ msg, osmtpd_newline_time env s type vM vm line = fatal_line s msg := by
  unfold osmtpd_newline_time header_time
  cases strchr_split '.' line with
  | none => exact ⟨_, rfl⟩
  | some p =>
    obtain ⟨sec, line4⟩ := p
    simp only
    cases strtonum sec 0 INT64_MAX with
    | none => exact ⟨_, rfl⟩
    | some tv_sec =>
      simp only
      cases strchr_split '|' line4 with
      | none => exact ⟨_, rfl⟩
      | some q =>
        obtain ⟨frac, line5⟩ := q
        simp only
        cases strtonum frac 0 LONG_MAX with
        | none => exact ⟨_, rfl⟩
        | some nsec => exact header_phase_spec env s type vM vm _ line5

theorem header_event_spec (env : user_code) (s : State) (type : osmtpd_type)
    (line : List Char) :
    match header_event type line with
    | some h => osmtpd_newline_event env s type line = dispatch_header env s h
    | none => ∃ msg, osmtpd_newline_event env s type line = fatal_line s msg := by
  unfold osmtpd_newline_event header_event
  simp only
  by_cases h1 : (strtoul line 10).endptr.length = line.length ∨
      (strtoul line 10).endptr.head? ≠ some '.'
  · simp only [if_pos h1]; exact ⟨_, rfl⟩
  · simp only [if_neg h1]
    by_cases h2 : (strtoul (strtoul line 10).endptr.tail 10).endptr = []
    · simp only [if_pos h2]; exact ⟨_, rfl⟩
    · simp only [if_neg h2]
      by_cases h3 : (strtoul (strtoul line 10).endptr.tail 10).endptr.length =
          (strtoul line 10).endptr.tail.length ∨
          (strtoul (strtoul line 10).endptr.tail 10).endptr.head? ≠ some '|'
      · simp only [if_pos h3]; exact ⟨_, rfl⟩
      · simp only [if_neg h3]
        by_cases h4 : to_int (strtoul line 10).val ≠ 0
        · simp only [if_pos h4]; exact ⟨_, rfl⟩
        · simp only [if_neg h4]
          exact header_time_spec env s type _ _ _

/-- A line with a header is handed to the dispatcher with the values of the
header, after the copy for error messages has been taken. -/
theorem osmtpd_newline_line_header (env : user_code) (s : State) (line : List Char)
    (h : line_header) (hh : osmtpd_newline_header line = some h) :
    osmtpd_newline_line env s line = dispatch_header env (newline_linedup s line) h := by
  unfold osmtpd_newline_header at hh
  unfold osmtpd_newline_line
  cases hs : strchr_split '|' line with
  | none => rw [hs] at hh; cases hh
  | some p =>
    obtain ⟨kind, rest⟩ := p
    rw [hs] at hh
    simp only at hh ⊢
    by_cases h1 : kind = "filter".toList
    · simp only [if_pos h1] at hh ⊢
      have := header_event_spec env (newline_linedup s line) OSMTPD_TYPE_FILTER rest
      rw [hh] at this; exact this
    · simp only [if_neg h1] at hh ⊢
      by_cases h2 : kind = "report".toList
      · simp only [if_pos h2] at hh ⊢
        have := header_event_spec env (newline_linedup s line) OSMTPD_TYPE_REPORT rest
        rw [hh] at this; exact this
      · simp only [if_neg h2] at hh
        cases hh

/-- A line without a header is fatal unless it is a `config` line, which is
handled by `osmtpd_newline_config`. -/
theorem osmtpd_newline_line_no_header (env : user_code) (s s1 : State) (line : List Char)
    (hh : osmtpd_newline_header line = none)
    (hok : osmtpd_newline_line env s line = .ok s1) :
    ∃ rest, strchr_split '|' line = some ("config".toList, rest) ∧
      osmtpd_newline_config (newline_linedup s line) rest = .ok s1 := by
  unfold osmtpd_newline_header at hh
  unfold osmtpd_newline_line at hok
  cases hs : strchr_split '|' line with
  | none => rw [hs] at hok; cases hok
  | some p =>
    obtain ⟨kind, rest⟩ := p
    rw [hs] at hh hok
    simp only at hh hok
    by_cases h1 : kind = "filter".toList
    · simp only [if_pos h1] at hh hok
      have := header_event_spec env (newline_linedup s line) OSMTPD_TYPE_FILTER rest
      rw [hh] at this; obtain ⟨msg, hm⟩ := this; rw [hm] at hok; cases hok
    · simp only [if_neg h1] at hh hok
      by_cases h2 : kind = "report".toList
      · simp only [if_pos h2] at hh hok
        have := header_event_spec env (newline_linedup s line) OSMTPD_TYPE_REPORT rest
        rw [hh] at this; obtain ⟨msg, hm⟩ := this; rw [hm] at hok; cases hok
      · simp only [if_neg h2] at hok
        by_cases h3 : kind = "config".toList
        · simp only [if_pos h3] at hok
          exact ⟨rest, by rw [h3], hok⟩
        · simp only [if_neg h3] at hok
          cases hok

/-! ## Lemmas on the session store -/

theorem session_put_keys (c : osmtpd_ctx) (l : List osmtpd_ctx) :
    (session_put c l).map (fun d => d.reqid) = l.map (fun d => d.reqid) := by
  induction l with
  | nil => rfl
  | cons d ds ih =>
    unfold session_put
    by_cases h : d.reqid = c.reqid
    · rw [if_pos h]; simp [h]
    · rw [if_neg h]; simp only [List.map_cons, ih]

theorem RB_FIND_none_iff (reqid : Nat) (l : List osmtpd_ctx) :
    RB_FIND reqid l = none ↔ reqid ∉ l.map (fun d => d.reqid) := by
  induction l with
  | nil => simp [RB_FIND]
  | cons d ds ih =>
    unfold RB_FIND
    by_cases h : d.reqid = reqid
    · rw [if_pos h]; simp [h]
    · rw [if_neg h, ih]; simp [Ne.symm h]

theorem RB_FIND_some_iff (reqid : Nat) (l : List osmtpd_ctx) :
    (∃ c, RB_FIND reqid l = some c) ↔ reqid ∈ l.map (fun d => d.reqid) := by
  rw [← not_iff_not, ← RB_FIND_none_iff]
  cases RB_FIND reqid l <;> simp

theorem RB_FIND_session_put (c : osmtpd_ctx) (l : List osmtpd_ctx)
    (h : c.reqid ∈ l.map (fun d => d.reqid)) :
    RB_FIND c.reqid (session_put c l) = some c := by
  induction l with
  | nil => simp at h
  | cons d ds ih =>
    unfold session_put
    by_cases hd : d.reqid = c.reqid
    · rw [if_pos hd]; simp [RB_FIND]
    · rw [if_neg hd]
      unfold RB_FIND
      rw [if_neg hd]
      apply ih
      simpa [Ne.symm hd] using h

theorem RB_FIND_session_put_ne (reqid : Nat) (c : osmtpd_ctx) (l : List osmtpd_ctx)
    (h : c.reqid ≠ reqid) :
    RB_FIND reqid (session_put c l) = RB_FIND reqid l := by
  induction l with
  | nil => rfl
  | cons d ds ih =>
    unfold session_put
    by_cases hd : d.reqid = c.reqid
    · rw [if_pos hd]
      unfold RB_FIND
      rw [if_neg h, if_neg (by rw [hd]; exact h)]
    · rw [if_neg hd]
      unfold RB_FIND
      rw [ih]

theorem RB_INSERT_keys_mem (c : osmtpd_ctx) (l : List osmtpd_ctx) (k : Nat) :
    k ∈ (RB_INSERT c l).map (fun d => d.reqid) ↔
      k = c.reqid ∨ k ∈ l.map (fun d => d.reqid) := by
  induction l with
  | nil => simp [RB_INSERT]
  | cons d ds ih =>
    unfold RB_INSERT
    by_cases h1 : c.reqid < d.reqid
    · rw [if_pos h1]; simp
    · rw [if_neg h1]
      by_cases h2 : c.reqid = d.reqid
      · rw [if_pos h2]; simp [h2]
      · rw [if_neg h2]
        simp only [List.map_cons, List.mem_cons, ih]
        tauto

theorem RB_INSERT_keys_perm (c : osmtpd_ctx) (l : List osmtpd_ctx)
    (h : c.reqid ∉ l.map (fun d => d.reqid)) :
    ((RB_INSERT c l).map (fun d => d.reqid)).Perm (c.reqid :: l.map (fun d => d.reqid)) := by
  induction l with
  | nil => simp [RB_INSERT]
  | cons d ds ih =>
    have hd : c.reqid ≠ d.reqid := by
      intro e; apply h; simp [e]
    have hds : c.reqid ∉ ds.map (fun d => d.reqid) := by
      intro e; apply h; simp [e]
    unfold RB_INSERT
    by_cases h1 : c.reqid < d.reqid
    · rw [if_pos h1]; exact List.Perm.refl _
    · rw [if_neg h1, if_neg hd]
      simp only [List.map_cons]
      exact ((ih hds).cons d.reqid).trans (List.Perm.swap _ _ _)

theorem RB_FIND_insert (c : osmtpd_ctx) (l : List osmtpd_ctx)
    (h : c.reqid ∉ l.map (fun d => d.reqid)) :
    RB_FIND c.reqid (RB_INSERT c l) = some c := by
  induction l with
  | nil => simp [RB_INSERT, RB_FIND]
  | cons d ds ih =>
    have hd : c.reqid ≠ d.reqid := by
      intro e; apply h; simp [e]
    have hds : c.reqid ∉ ds.map (fun d => d.reqid) := by
      intro e; apply h; simp [e]
    unfold RB_INSERT
    by_cases h1 : c.reqid < d.reqid
    · rw [if_pos h1]; simp [RB_FIND]
    · rw [if_neg h1, if_neg hd]
      unfold RB_FIND
      rw [if_neg (Ne.symm hd)]
      exact ih hds

theorem RB_REMOVE_keys (reqid : Nat) (l : List osmtpd_ctx) :
    (RB_REMOVE reqid l).map (fun d => d.reqid) = (l.map (fun d => d.reqid)).erase reqid := by
  induction l with
  | nil => rfl
  | cons d ds ih =>
    unfold RB_REMOVE
    by_cases h : d.reqid = reqid
    · rw [if_pos h]; simp [h]
    · rw [if_neg h]
      simp only [List.map_cons, ih]
      rw [List.erase_cons_tail]
      simpa using h

/-! ## Lemmas on the payload parsers -/

theorem same_setup_refl (s : State) : same_setup s s :=
  ⟨rfl, rfl, rfl, rfl, rfl, rfl, rfl, rfl⟩

theorem same_setup_trans {s s1 s2 : State} (h1 : same_setup s s1) (h2 : same_setup s1 s2) :
    same_setup s s2 := by
  obtain ⟨a1, a2, a3, a4, a5, a6, a7, a8⟩ := h1
  obtain ⟨b1, b2, b3, b4, b5, b6, b7, b8⟩ := h2
  exact ⟨b1.trans a1, b2.trans a2, b3.trans a3, b4.trans a4, b5.trans a5, b6.trans a6,
    b7.trans a7, b8.trans a8⟩

theorem payload_frame_refl (s : State) : payload_frame s s :=
  ⟨same_setup_refl s, rfl, [], by simp, by simp⟩

theorem payload_frame_trans {s s1 s2 : State} (h1 : payload_frame s s1)
    (h2 : payload_frame s1 s2) : payload_frame s s2 := by
  obtain ⟨a1, a2, e1, a3, a4⟩ := h1
  obtain ⟨b1, b2, e2, b3, b4⟩ := h2
  refine ⟨same_setup_trans a1 b1, b2.trans a2, e1 ++ e2, ?_, ?_⟩
  · rw [b3, a3, List.append_assoc]
  · intro e he
    rcases List.mem_append.1 he with h | h
    · exact a4 e h
    · exact b4 e h

theorem payload_frame_ctx_write (s : State) (c : osmtpd_ctx) :
    payload_frame s (ctx_write s c) :=
  ⟨same_setup_refl s, session_put_keys c s.osmtpd_sessions, [], by simp [ctx_write], by simp⟩

/-- The emitters a user function calls only write to standard output. -/
theorem run_filter_calls_ok (s s1 : State) (ctx : osmtpd_ctx) (cs : List filter_call)
    (h : run_filter_calls s ctx cs = .ok s1) : ∃ text, s1 = io_printf s text := by
  induction cs generalizing s with
  | nil =>
    simp only [run_filter_calls, Except.ok.injEq] at h
    exact ⟨[], by rw [← h]; simp [io_printf]⟩
  | cons c cs ih =>
    unfold run_filter_calls at h
    cases hc : filter_call.run s ctx c with
    | error e => rw [hc] at h; cases h
    | ok s0 =>
      rw [hc] at h
      obtain ⟨b, hb⟩ := filter_call_run_ok s s0 ctx c hc
      obtain ⟨t, ht⟩ := ih s0 h
      exact ⟨_, by rw [ht, hb, io_printf_printf]⟩

/-- A call of a user function logs the call and writes what the function
emits; nothing else changes. -/
theorem call_user_ok (env : user_code) (s s1 : State) (fn : Nat) (ctx : osmtpd_ctx)
    (args : cb_args) (h : call_user env s fn ctx args = .ok s1) :
    fn ≠ NULL ∧
    ∃ text, s1 = io_printf { s with trace := s.trace ++ [event.user_cb fn ctx args] } text := by
  unfold call_user at h
  by_cases hf : fn = NULL
  · rw [if_pos hf] at h; cases h
  · rw [if_neg hf] at h
    exact ⟨hf, run_filter_calls_ok _ _ _ _ h⟩

theorem call_user_if_ok (env : user_code) (s s1 : State) (fn : Nat) (ctx : osmtpd_ctx)
    (args : cb_args) (h : call_user_if env s fn ctx args = .ok s1) :
    (fn = NULL ∧ s1 = s) ∨
    (fn ≠ NULL ∧
      ∃ text, s1 = io_printf { s with trace := s.trace ++ [event.user_cb fn ctx args] } text) := by
  unfold call_user_if at h
  by_cases hf : fn = NULL
  · rw [if_neg (by simpa using hf)] at h
    cases h
    exact Or.inl ⟨hf, rfl⟩
  · rw [if_pos hf] at h
    exact Or.inr (call_user_ok env s s1 fn ctx args h)

theorem payload_frame_call_user (env : user_code) (s s1 : State) (fn : Nat)
    (ctx : osmtpd_ctx) (args : cb_args) (h : call_user env s fn ctx args = .ok s1) :
    payload_frame s s1 := by
  obtain ⟨_, text, ht⟩ := call_user_ok env s s1 fn ctx args h
  subst ht
  exact ⟨same_setup_refl s, rfl, [event.user_cb fn ctx args], rfl, by
    intro e he; simp only [List.mem_singleton] at he; subst he; exact ⟨rfl, rfl⟩⟩

theorem payload_frame_call_user_if (env : user_code) (s s1 : State) (fn : Nat)
    (ctx : osmtpd_ctx) (args : cb_args) (h : call_user_if env s fn ctx args = .ok s1) :
    payload_frame s s1 := by
  unfold call_user_if at h
  by_cases hf : fn ≠ NULL
  · rw [if_pos hf] at h; exact payload_frame_call_user env s s1 fn ctx args h
  · rw [if_neg hf] at h; cases h; exact payload_frame_refl s

theorem payload_frame_tx_end (s : State) (ctx : osmtpd_ctx) : payload_frame s (tx_end s ctx) := by
  unfold tx_end
  by_cases h : s.ondeletecb_message ≠ NULL
  · simp only [if_pos h]
    exact ⟨same_setup_refl s, session_put_keys _ _, [_], rfl, by
      intro e he; simp only [List.mem_singleton] at he; subst he; exact ⟨rfl, rfl⟩⟩
  · simp only [if_neg h]
    exact payload_frame_ctx_write s _

theorem fatal_line_ne_ok (s s1 : State) (msg : List Char) : fatal_line s msg ≠ .ok s1 := by
  simp [fatal_line, osmtpd_errx]

theorem fatal_status_ne_ok (s s1 : State) : fatal_status s ≠ .ok s1 := by
  simp [fatal_status, osmtpd_errx]

theorem payload_frame_noargs (env : user_code) (s s1 : State) (cb : osmtpd_callback)
    (ctx : osmtpd_ctx) (h : osmtpd_noargs env s cb ctx = .ok s1) : payload_frame s s1 :=
  payload_frame_call_user env s s1 _ _ _ h

theorem payload_frame_onearg (env : user_code) (s s1 : State) (cb : osmtpd_callback)
    (ctx : osmtpd_ctx) (line : Option (List Char))
    (h : osmtpd_onearg env s cb ctx line = .ok s1) : payload_frame s s1 := by
  unfold osmtpd_onearg at h
  split at h
  · cases h
  · exact payload_frame_call_user env s s1 _ _ _ h

theorem payload_frame_connect (env : user_code) (s s1 : State) (cb : osmtpd_callback)
    (ctx : osmtpd_ctx) (line : Option (List Char))
    (h : osmtpd_connect env s cb ctx line = .ok s1) : payload_frame s s1 := by
  unfold osmtpd_connect at h
  repeat' split at h
  all_goals first
    | cases h
    | exact absurd h (fatal_line_ne_ok _ _ _)
    | exact payload_frame_call_user env s s1 _ _ _ h

theorem payload_frame_identify (env : user_code) (s s1 : State) (cb : osmtpd_callback)
    (ctx : osmtpd_ctx) (line : Option (List Char))
    (h : osmtpd_identify env s cb ctx line = .ok s1) : payload_frame s s1 := by
  unfold osmtpd_identify at h
  split at h
  · cases h
  · exact payload_frame_trans (payload_frame_ctx_write _ _)
      (payload_frame_call_user env _ s1 _ _ _ h)

theorem payload_frame_link_auth (env : user_code) (s s1 : State) (cb : osmtpd_callback)
    (ctx : osmtpd_ctx) (line : Option (List Char))
    (h : osmtpd_link_auth env s cb ctx line = .ok s1) : payload_frame s s1 := by
  unfold osmtpd_link_auth at h
  repeat' split at h
  all_goals first
    | cases h
    | exact absurd h (fatal_line_ne_ok _ _ _)
    | exact payload_frame_call_user_if env s s1 _ _ _ h

theorem payload_frame_link_connect (env : user_code) (s s1 : State) (cb : osmtpd_callback)
    (ctx : osmtpd_ctx) (line : Option (List Char))
    (h : osmtpd_link_connect env s cb ctx line = .ok s1) : payload_frame s s1 := by
  unfold osmtpd_link_connect at h
  repeat' split at h
  all_goals first
    | cases h
    | exact absurd h (fatal_line_ne_ok _ _ _)
    | exact payload_frame_trans (payload_frame_ctx_write _ _)
        (payload_frame_call_user_if env _ s1 _ _ _ h)

theorem payload_frame_link_greeting (env : user_code) (s s1 : State) (cb : osmtpd_callback)
    (ctx : osmtpd_ctx) (line : Option (List Char))
    (h : osmtpd_link_greeting env s cb ctx line = .ok s1) : payload_frame s s1 := by
  unfold osmtpd_link_greeting at h
  split at h
  · cases h
  · exact payload_frame_trans (payload_frame_ctx_write _ _)
      (payload_frame_call_user_if env _ s1 _ _ _ h)

theorem payload_frame_link_identify (env : user_code) (s s1 : State) (cb : osmtpd_callback)
    (ctx : osmtpd_ctx) (line : Option (List Char))
    (h : osmtpd_link_identify env s cb ctx line = .ok s1) : payload_frame s s1 := by
  unfold osmtpd_link_identify at h
  split at h
  · cases h
  · exact payload_frame_trans (payload_frame_ctx_write _ _)
      (payload_frame_call_user_if env _ s1 _ _ _ h)

theorem payload_frame_link_tls (env : user_code) (s s1 : State) (cb : osmtpd_callback)
    (ctx : osmtpd_ctx) (line : Option (List Char))
    (h : osmtpd_link_tls env s cb ctx line = .ok s1) : payload_frame s s1 := by
  unfold osmtpd_link_tls at h
  split at h
  · cases h
  · exact payload_frame_trans (payload_frame_ctx_write _ _)
      (payload_frame_call_user_if env _ s1 _ _ _ h)

theorem tx_msgid_ok (s : State) (params : Option (List Char)) (msgid : Nat) (rest : List Char)
    (h : tx_msgid s params = .ok (msgid, rest)) :
    ∃ text, params = some text ∧ msgid = (strtoul text 16).val ∧ msgid < 2 ^ 32 ∧
      (strtoul text 16).endptr = '|' :: rest := by
  unfold tx_msgid at h
  split at h
  · cases h
  · rename_i text
    simp only at h
    split_ifs at h with h1 h2 h3
    simp only [Except.ok.injEq, Prod.mk.injEq] at h
    have h3 : to_uint32 (strtoul text 16).val = (strtoul text 16).val := by simpa using h3
    refine ⟨text, rfl, ?_, ?_, ?_⟩
    · rw [← h.1, h3]
    · rw [← h.1]
      have := Nat.mod_lt (strtoul text 16).val (show 0 < 2 ^ 32 by decide)
      unfold to_uint32 at h3
      omega
    · rw [← h.2]
      cases he : (strtoul text 16).endptr with
      | nil => rw [he] at h2; simp at h2
      | cons c cs =>
        rw [he] at h2
        simp only [List.head?_cons, ne_eq, Option.some.injEq, not_not] at h2
        rw [h2]; rfl

theorem payload_frame_tx_mail (env : user_code) (s s1 : State) (cb : osmtpd_callback)
    (ctx : osmtpd_ctx) (line : Option (List Char))
    (h : osmtpd_tx_mail env s cb ctx line = .ok s1) : payload_frame s s1 := by
  unfold osmtpd_tx_mail at h
  repeat' split at h
  all_goals first
    | cases h
    | exact absurd h (fatal_line_ne_ok _ _ _)
    | exact absurd h (fatal_status_ne_ok _ _)
    | exact payload_frame_trans (payload_frame_ctx_write _ _)
        (payload_frame_call_user_if env _ s1 _ _ _ h)

theorem payload_frame_tx_rcpt (env : user_code) (s s1 : State) (cb : osmtpd_callback)
    (ctx : osmtpd_ctx) (line : Option (List Char))
    (h : osmtpd_tx_rcpt env s cb ctx line = .ok s1) : payload_frame s s1 := by
  unfold osmtpd_tx_rcpt at h
  repeat' split at h
  all_goals first
    | cases h
    | exact absurd h (fatal_line_ne_ok _ _ _)
    | exact absurd h (fatal_status_ne_ok _ _)
    | exact payload_frame_trans (payload_frame_ctx_write _ _)
        (payload_frame_call_user_if env _ s1 _ _ _ h)

theorem payload_frame_tx_envelope (env : user_code) (s s1 : State) (cb : osmtpd_callback)
    (ctx : osmtpd_ctx) (line : Option (List Char))
    (h : osmtpd_tx_envelope env s cb ctx line = .ok s1) : payload_frame s s1 := by
  unfold osmtpd_tx_envelope at h
  split at h
  · cases h
  · simp only at h
    split at h
    · exact absurd h (fatal_line_ne_ok _ _ _)
    · exact payload_frame_trans (payload_frame_ctx_write _ _)
        (payload_frame_call_user_if env _ s1 _ _ _ h)

theorem payload_frame_tx_data (env : user_code) (s s1 : State) (cb : osmtpd_callback)
    (ctx : osmtpd_ctx) (line : Option (List Char))
    (h : osmtpd_tx_data env s cb ctx line = .ok s1) : payload_frame s s1 := by
  unfold osmtpd_tx_data at h
  repeat' split at h
  all_goals first
    | cases h; exact payload_frame_refl _
    | cases h
    | exact absurd h (fatal_status_ne_ok _ _)
    | exact payload_frame_call_user env _ s1 _ _ _ h

/-- An accepted `tx-commit` payload: the callback, if any, is called with the
context as it is, then `tx_end` runs. -/
theorem osmtpd_tx_commit_ok (env : user_code) (s s1 : State) (cb : osmtpd_callback)
    (ctx : osmtpd_ctx) (line : Option (List Char))
    (h : osmtpd_tx_commit env s cb ctx line = .ok s1) :
    ∃ s0 args, call_user_if env s cb.cb ctx args = .ok s0 ∧ s1 = tx_end s0 ctx := by
  unfold osmtpd_tx_commit at h
  split at h
  · cases h
  · split at h
    · exact absurd h (fatal_line_ne_ok _ _ _)
    · split at h
      · cases h
      · rename_i s0 hs0
        cases h
        exact ⟨s0, _, hs0, rfl⟩

/-- An accepted `tx-rollback` payload: as for `tx-commit`. -/
theorem osmtpd_tx_rollback_ok (env : user_code) (s s1 : State) (cb : osmtpd_callback)
    (ctx : osmtpd_ctx) (line : Option (List Char))
    (h : osmtpd_tx_rollback env s cb ctx line = .ok s1) :
    ∃ s0 args, call_user_if env s cb.cb ctx args = .ok s0 ∧ s1 = tx_end s0 ctx := by
  unfold osmtpd_tx_rollback at h
  split at h
  · cases h
  · simp only at h
    split_ifs at h with h1 h2 h3
    · exact absurd h (fatal_line_ne_ok _ _ _)
    · exact absurd h (fatal_line_ne_ok _ _ _)
    · exact absurd h (fatal_line_ne_ok _ _ _)
    · split at h
      · cases h
      · rename_i s0 hs0
        cases h
        exact ⟨s0, _, hs0, rfl⟩

theorem payload_frame_tx_commit (env : user_code) (s s1 : State) (cb : osmtpd_callback)
    (ctx : osmtpd_ctx) (line : Option (List Char))
    (h : osmtpd_tx_commit env s cb ctx line = .ok s1) : payload_frame s s1 := by
  obtain ⟨s0, args, h0, h1⟩ := osmtpd_tx_commit_ok env s s1 cb ctx line h
  rw [h1]
  exact payload_frame_trans (payload_frame_call_user_if env s s0 _ _ _ h0)
    (payload_frame_tx_end s0 ctx)

theorem payload_frame_tx_rollback (env : user_code) (s s1 : State) (cb : osmtpd_callback)
    (ctx : osmtpd_ctx) (line : Option (List Char))
    (h : osmtpd_tx_rollback env s cb ctx line = .ok s1) : payload_frame s s1 := by
  obtain ⟨s0, args, h0, h1⟩ := osmtpd_tx_rollback_ok env s s1 cb ctx line h
  rw [h1]
  exact payload_frame_trans (payload_frame_call_user_if env s s0 _ _ _ h0)
    (payload_frame_tx_end s0 ctx)

/-- An accepted `tx-begin` payload: the message id `v` fits 32 bits; the
record gets `msgid = v` when the entry has `storereport` and `msgid = 0` when
not; then the message constructor, if set, is called and its result stored;
then the callback, if any, is called with `v`. -/
theorem osmtpd_tx_begin_ok (env : user_code) (s s1 : State) (cb : osmtpd_callback)
    (ctx : osmtpd_ctx) (line : Option (List Char))
    (h : osmtpd_tx_begin env s cb ctx line = .ok s1) :
    ∃ text ctx2, line = some text ∧ (strtoul text 16).val < 2 ^ 32 ∧
      (strtoul text 16).endptr = [] ∧
      ctx2 = { ctx with msgid := if cb.storereport then (strtoul text 16).val else 0 } ∧
      ((s.oncreatecb_message = NULL ∧
        call_user_if env (ctx_write s ctx2) cb.cb ctx2
          (cb_args.tx_begin (strtoul text 16).val) = .ok s1) ∨
       (s.oncreatecb_message ≠ NULL ∧
        call_user_if env
          (ctx_write
            { ctx_write s ctx2 with
                trace := s.trace ++ [event.oncreate_message s.oncreatecb_message ctx2] }
            { ctx2 with local_message := env.oncreate s.oncreatecb_message ctx2 })
          cb.cb { ctx2 with local_message := env.oncreate s.oncreatecb_message ctx2 }
          (cb_args.tx_begin (strtoul text 16).val) = .ok s1)) := by
  unfold osmtpd_tx_begin at h
  split at h
  · cases h
  · rename_i text
    simp only at h
    split_ifs at h with h1 h2 h3 h4 h5
    all_goals first
      | exact absurd h (fatal_line_ne_ok _ _ _)
      | skip
    all_goals
      have hend : (strtoul text 16).endptr = [] := by
        by_contra hne; exact h1 (Or.inr hne)
      have hv : (strtoul text 16).val < 2 ^ 32 := by
        have hh : to_uint32 (strtoul text 16).val = (strtoul text 16).val := by simpa using h2
        have := Nat.mod_lt (strtoul text 16).val (show 0 < 2 ^ 32 by decide)
        unfold to_uint32 at hh
        omega
      have hu : to_uint32 (strtoul text 16).val = (strtoul text 16).val := by simpa using h2
    · refine ⟨text, _, rfl, hv, hend, rfl, Or.inr ⟨h4, ?_⟩⟩
      simpa [h3, hu] using h
    · refine ⟨text, _, rfl, hv, hend, rfl, Or.inl ⟨by simpa using h4, ?_⟩⟩
      simpa [h3, hu] using h
    · refine ⟨text, _, rfl, hv, hend, rfl, Or.inr ⟨h5, ?_⟩⟩
      simpa [h3, hu] using h
    · refine ⟨text, _, rfl, hv, hend, rfl, Or.inl ⟨by simpa using h5, ?_⟩⟩
      simpa [h3, hu] using h

theorem payload_frame_tx_begin (env : user_code) (s s1 : State) (cb : osmtpd_callback)
    (ctx : osmtpd_ctx) (line : Option (List Char))
    (h : osmtpd_tx_begin env s cb ctx line = .ok s1) : payload_frame s s1 := by
  obtain ⟨text, ctx2, _, _, _, _, h1 | h1⟩ := osmtpd_tx_begin_ok env s s1 cb ctx line h
  · exact payload_frame_trans (payload_frame_ctx_write _ _)
      (payload_frame_call_user_if env _ s1 _ _ _ h1.2)
  · refine payload_frame_trans ?_ (payload_frame_call_user_if env _ s1 _ _ _ h1.2)
    refine ⟨same_setup_refl s, ?_, [event.oncreate_message s.oncreatecb_message ctx2], rfl, ?_⟩
    · show (session_put _ (session_put _ _)).map _ = _
      rw [session_put_keys, session_put_keys]; rfl
    · intro e he; simp only [List.mem_singleton] at he; subst he; exact ⟨rfl, rfl⟩

/-- An accepted `link-disconnect`: the callback, if any, is called; then the
record of the session is taken out of the tree and the session destructor, if
set, is called with its `local_session`. -/
theorem osmtpd_link_disconnect_ok (env : user_code) (s s1 : State) (cb : osmtpd_callback)
    (ctx : osmtpd_ctx) (h : osmtpd_link_disconnect env s cb ctx = .ok s1) :
    ∃ s0, call_user_if env s cb.cb ctx cb_args.noargs = .ok s0 ∧
      ((RB_FIND ctx.reqid s0.osmtpd_sessions = none ∧ s1 = s0) ∨
       ∃ session, RB_FIND ctx.reqid s0.osmtpd_sessions = some session ∧
         s1 = { s0 with
           osmtpd_sessions := RB_REMOVE ctx.reqid s0.osmtpd_sessions,
           trace := s0.trace ++
             (if s0.ondeletecb_session ≠ NULL then
               [event.ondelete_session s0.ondeletecb_session ctx session.local_session]
             else []) }) := by
  unfold osmtpd_link_disconnect at h
  split at h
  · cases h
  · rename_i s0 hs0
    refine ⟨s0, hs0, ?_⟩
    split at h
    · rename_i hf
      cases h
      exact Or.inl ⟨hf, rfl⟩
    · rename_i session hf
      refine Or.inr ⟨session, hf, ?_⟩
      simp only at h
      by_cases hd : s0.ondeletecb_session ≠ NULL
      · rw [if_pos hd] at h; cases h; rw [if_pos hd]
      · rw [if_neg hd] at h; cases h; rw [if_neg hd]; simp

theorem session_put_put (c1 c2 : osmtpd_ctx) (l : List osmtpd_ctx)
    (h : c1.reqid = c2.reqid) :
    session_put c2 (session_put c1 l) = session_put c2 l := by
  induction l with
  | nil => rfl
  | cons d ds ih =>
    by_cases hd : d.reqid = c1.reqid
    · simp only [session_put, if_pos hd, if_pos (hd.trans h), if_pos h]
    · have hd2 : ¬ d.reqid = c2.reqid := by rw [← h]; exact hd
      simp only [session_put, if_neg hd, if_neg hd2, ih]

/-- Every payload parser but `osmtpd_link_disconnect` keeps the keys of the
session tree and calls no session hook. -/
theorem payload_frame_call_osmtpd_cb (env : user_code) (s s1 : State) (cb : osmtpd_callback)
    (ctx : osmtpd_ctx) (line : Option (List Char))
    (hp : cb.osmtpd_cb ≠ parser_fn.link_disconnect)
    (h : call_osmtpd_cb env s cb ctx line = .ok s1) : payload_frame s s1 := by
  unfold call_osmtpd_cb at h
  cases hc : cb.osmtpd_cb <;> rw [hc] at h <;> simp only at h
  · exact payload_frame_noargs env s s1 cb ctx h
  · exact payload_frame_onearg env s s1 cb ctx line h
  · exact payload_frame_connect env s s1 cb ctx line h
  · exact payload_frame_identify env s s1 cb ctx line h
  · exact payload_frame_link_auth env s s1 cb ctx line h
  · exact payload_frame_link_connect env s s1 cb ctx line h
  · exact absurd hc hp
  · exact payload_frame_link_greeting env s s1 cb ctx line h
  · exact payload_frame_link_identify env s s1 cb ctx line h
  · exact payload_frame_link_tls env s s1 cb ctx line h
  · exact payload_frame_tx_begin env s s1 cb ctx line h
  · exact payload_frame_tx_mail env s s1 cb ctx line h
  · exact payload_frame_tx_rcpt env s s1 cb ctx line h
  · exact payload_frame_tx_envelope env s s1 cb ctx line h
  · exact payload_frame_tx_data env s s1 cb ctx line h
  · exact payload_frame_tx_commit env s s1 cb ctx line h
  · exact payload_frame_tx_rollback env s s1 cb ctx line h

/-! ## Lemmas on the session lookup and the dispatch -/

theorem session_lookup_found (env : user_code) (s : State) (reqid : Nat) (c : osmtpd_ctx)
    (hf : RB_FIND reqid s.osmtpd_sessions = some c) :
    session_lookup env s reqid = (s, c) := by
  unfold session_lookup; rw [hf]

/-- The look-up of a `reqid` that has no record: the record created, the tree
and the log afterwards. -/
theorem session_lookup_new (env : user_code) (s : State) (reqid : Nat)
    (hf : RB_FIND reqid s.osmtpd_sessions = none) :
    (session_lookup env s reqid).2 = created_session env s reqid ∧
    RB_FIND reqid (session_lookup env s reqid).1.osmtpd_sessions =
      some (created_session env s reqid) ∧
    (session_keys (session_lookup env s reqid).1).Perm (reqid :: session_keys s) ∧
    (session_lookup env s reqid).1.trace = s.trace ++
      (if s.oncreatecb_session ≠ NULL then
        [event.oncreate_session s.oncreatecb_session (new_session reqid)] else []) ∧
    same_setup s (session_lookup env s reqid).1 ∧
    (session_lookup env s reqid).1.io_stdout = s.io_stdout ∧
    (session_lookup env s reqid).1.linedup = s.linedup := by
  have hn : (new_session reqid).reqid ∉ s.osmtpd_sessions.map (fun d => d.reqid) :=
    (RB_FIND_none_iff reqid _).1 hf
  have hperm := RB_INSERT_keys_perm (new_session reqid) s.osmtpd_sessions hn
  have hfind := RB_FIND_insert (new_session reqid) s.osmtpd_sessions hn
  unfold session_lookup created_session
  rw [hf]
  by_cases hk : s.oncreatecb_session ≠ NULL
  · simp only [if_pos hk]
    refine ⟨trivial, ?_, ?_, rfl, same_setup_refl s, rfl, rfl⟩
    · show RB_FIND reqid (session_put _ _) = _
      have := RB_FIND_session_put
        { new_session reqid with
            local_session := env.oncreate s.oncreatecb_session (new_session reqid) }
        (RB_INSERT (new_session reqid) s.osmtpd_sessions)
        ((RB_INSERT_keys_mem _ _ _).2 (Or.inl rfl))
      exact this
    · show ((session_put _ _).map _).Perm _
      rw [session_put_keys]
      exact hperm
  · simp only [if_neg hk]
    refine ⟨rfl, hfind, hperm, ?_, same_setup_refl s, ?_, ?_⟩ <;> first | rfl | trivial | simp

theorem dispatch_ctx_reqid (env : user_code) (s : State) (h : line_header) (tok : Nat) :
    (dispatch_ctx env s h tok).reqid = h.reqid :=
  (session_lookup_frame env s h.reqid).2.2

theorem session_lookup_mem (env : user_code) (s : State) (reqid : Nat) :
    reqid ∈ session_keys (session_lookup env s reqid).1 := by
  cases hf : RB_FIND reqid s.osmtpd_sessions with
  | some c =>
    rw [session_lookup_found env s reqid c hf]
    exact (RB_FIND_some_iff reqid _).1 ⟨c, hf⟩
  | none =>
    exact (session_lookup_new env s reqid hf).2.2.1.mem_iff.2 (List.mem_cons_self _ _)

/-- The payload parser starts with the context in the tree, under the key of
the line. -/
theorem dispatch_state_find (env : user_code) (s : State) (h : line_header) (tok : Nat) :
    RB_FIND h.reqid (dispatch_state env s h tok).osmtpd_sessions =
      some (dispatch_ctx env s h tok) := by
  unfold dispatch_state ctx_write
  have h1 := RB_FIND_session_put (dispatch_ctx env s h tok)
    (session_lookup env s h.reqid).1.osmtpd_sessions
    (by rw [dispatch_ctx_reqid]; exact session_lookup_mem env s h.reqid)
  rw [dispatch_ctx_reqid] at h1
  exact h1

theorem dispatch_state_keys (env : user_code) (s : State) (h : line_header) (tok : Nat) :
    session_keys (dispatch_state env s h tok) =
      session_keys (session_lookup env s h.reqid).1 :=
  session_put_keys _ _

theorem ctx_write_ctx_write (s : State) (c1 c2 : osmtpd_ctx) (h : c1.reqid = c2.reqid) :
    ctx_write (ctx_write s c1) c2 = ctx_write s c2 := by
  unfold ctx_write
  simp only [session_put_put c1 c2 _ h]

/-- An accepted line with header `h` has its event in the catalog, and its
payload parser has run on `dispatch_ctx` in `dispatch_state`; for a `report`
line the token is 0 and the payload is the text after the reqid field. -/
theorem dispatch_header_ok (env : user_code) (s s1 : State) (h : line_header)
    (hok : dispatch_header env s h = .ok s1) :
    ∃ cb tok params,
      find_callback h.type h.phase h.incoming s.osmtpd_callbacks = some cb ∧
      (h.type = OSMTPD_TYPE_REPORT → tok = 0 ∧ params = h.params) ∧
      call_osmtpd_cb env (dispatch_state env s h tok) cb (dispatch_ctx env s h tok) params =
        .ok s1 := by
  unfold dispatch_header osmtpd_newline_dispatch at hok
  simp only [ctx_write_callbacks, (session_lookup_frame env s h.reqid).1] at hok
  cases hf : find_callback h.type h.phase h.incoming s.osmtpd_callbacks with
  | none => rw [hf] at hok; exact absurd hok (fatal_line_ne_ok _ _ _)
  | some cb =>
    rw [hf] at hok
    simp only at hok
    by_cases ht : h.type = OSMTPD_TYPE_FILTER
    · rw [if_pos ht] at hok
      cases hp : h.params with
      | none => rw [hp] at hok; cases hok
      | some line =>
        rw [hp] at hok
        simp only at hok
        by_cases hc : ((strtoull line 16).val = ULLONG_MAX ∧
            (if (strtoull line 16).erange then ERANGE else h.errno) ≠ 0) ∨
            (strtoull line 16).endptr.head? ≠ some '|'
        · rw [if_pos hc] at hok
          exact absurd hok (fatal_line_ne_ok _ _ _)
        · rw [if_neg hc, ctx_write_ctx_write _ _ _ (by rfl)] at hok
          refine ⟨cb, (strtoull line 16).val, some (strtoull line 16).endptr.tail, rfl, ?_, hok⟩
          intro hr; rw [ht] at hr; cases hr
    · rw [if_neg ht] at hok
      exact ⟨cb, 0, h.params, rfl, fun _ => ⟨rfl, rfl⟩, hok⟩

/-- The entry found for an event has the key of the event, and in a catalog
with the shape of the initialiser its parser is the one written there. -/
theorem catalog_find (cbs : List osmtpd_callback) (type : osmtpd_type) (phase : osmtpd_phase)
    (incoming : Int) (cb : osmtpd_callback) (hcat : catalog_shaped cbs)
    (hfind : find_callback type phase incoming cbs = some cb) :
    cb.type = type ∧ cb.phase = phase ∧ cb.incoming = incoming ∧
      (type, phase, incoming, cb.osmtpd_cb) ∈ osmtpd_callbacks_init.map catalog_sig := by
  have hmem : cb ∈ cbs ∧ cb.type = type ∧ cb.phase = phase ∧ cb.incoming = incoming := by
    clear hcat
    induction cbs with
    | nil => cases hfind
    | cons e es ih =>
      unfold find_callback at hfind
      by_cases hk : type = e.type ∧ phase = e.phase ∧ incoming = e.incoming
      · rw [if_pos hk] at hfind
        cases hfind
        exact ⟨List.mem_cons_self _ _, hk.1.symm, hk.2.1.symm, hk.2.2.symm⟩
      · rw [if_neg hk] at hfind
        obtain ⟨h1, h2⟩ := ih hfind
        exact ⟨List.mem_cons_of_mem _ h1, h2⟩
  obtain ⟨h1, h2, h3, h4⟩ := hmem
  refine ⟨h2, h3, h4, ?_⟩
  rw [← hcat, ← h2, ← h3, ← h4]
  exact List.mem_map_of_mem catalog_sig h1

theorem catalog_init_link_disconnect :
    ∀ x ∈ osmtpd_callbacks_init.map catalog_sig,
      (x.2.2.2 = parser_fn.link_disconnect ↔ x.2.1 = OSMTPD_PHASE_LINK_DISCONNECT) := by
  decide

theorem catalog_init_tx :
    ∀ x ∈ osmtpd_callbacks_init.map catalog_sig,
      (x.2.1 = OSMTPD_PHASE_TX_BEGIN → x.2.2.2 = parser_fn.tx_begin) ∧
      (x.2.1 = OSMTPD_PHASE_TX_MAIL → x.2.2.2 = parser_fn.tx_mail) ∧
      (x.2.1 = OSMTPD_PHASE_TX_RCPT → x.2.2.2 = parser_fn.tx_rcpt) ∧
      (x.2.1 = OSMTPD_PHASE_TX_ENVELOPE → x.2.2.2 = parser_fn.tx_envelope) ∧
      (x.2.1 = OSMTPD_PHASE_TX_DATA → x.2.2.2 = parser_fn.tx_data) ∧
      (x.2.1 = OSMTPD_PHASE_TX_COMMIT → x.2.2.2 = parser_fn.tx_commit) ∧
      (x.2.1 = OSMTPD_PHASE_TX_ROLLBACK → x.2.2.2 = parser_fn.tx_rollback) := by
  decide

theorem catalog_init_report :
    ∀ x ∈ osmtpd_callbacks_init.map catalog_sig,
      (x.2.2.2 = parser_fn.link_disconnect ∨ x.2.2.2 = parser_fn.tx_begin ∨
        x.2.2.2 = parser_fn.tx_mail ∨ x.2.2.2 = parser_fn.tx_rcpt ∨
        x.2.2.2 = parser_fn.tx_envelope ∨ x.2.2.2 = parser_fn.tx_data ∨
        x.2.2.2 = parser_fn.tx_commit ∨ x.2.2.2 = parser_fn.tx_rollback) →
      x.1 = OSMTPD_TYPE_REPORT := by
  decide

/-! ## Lemmas on the processing of one line -/

/-- An accepted line with a header: the entry of its event, which is in the
catalog, and the run of its payload parser. -/
theorem line_payload (env : user_code) (s s1 : State) (line : List Char) (h : line_header)
    (hcat : catalog_shaped s.osmtpd_callbacks)
    (hh : osmtpd_newline_header line = some h)
    (hok : osmtpd_newline_line env s line = .ok s1) :
    ∃ cb tok params,
      find_callback h.type h.phase h.incoming s.osmtpd_callbacks = some cb ∧
      (h.type, h.phase, h.incoming, cb.osmtpd_cb) ∈ osmtpd_callbacks_init.map catalog_sig ∧
      (h.type = OSMTPD_TYPE_REPORT → tok = 0 ∧ params = h.params) ∧
      call_osmtpd_cb env (dispatch_state env (newline_linedup s line) h tok) cb
        (dispatch_ctx env (newline_linedup s line) h tok) params = .ok s1 := by
  rw [osmtpd_newline_line_header env s line h hh] at hok
  obtain ⟨cb, tok, params, hf, ht, hc⟩ := dispatch_header_ok env _ s1 h hok
  have hf2 : find_callback h.type h.phase h.incoming s.osmtpd_callbacks = some cb := hf
  exact ⟨cb, tok, params, hf2, (catalog_find _ _ _ _ cb hcat hf2).2.2.2, ht, hc⟩

theorem session_lookup_trace (env : user_code) (s : State) (reqid : Nat) :
    (session_lookup env s reqid).1.trace = s.trace ++ creation_events s reqid := by
  unfold creation_events
  cases hf : RB_FIND reqid s.osmtpd_sessions with
  | some c => rw [session_lookup_found env s reqid c hf]; simp
  | none => exact (session_lookup_new env s reqid hf).2.2.2.1

theorem session_lookup_setup (env : user_code) (s : State) (reqid : Nat) :
    same_setup s (session_lookup env s reqid).1 := by
  cases hf : RB_FIND reqid s.osmtpd_sessions with
  | some c => rw [session_lookup_found env s reqid c hf]; exact same_setup_refl s
  | none => exact (session_lookup_new env s reqid hf).2.2.2.2.1

theorem dispatch_state_trace (env : user_code) (s : State) (line : List Char)
    (h : line_header) (tok : Nat) :
    (dispatch_state env (newline_linedup s line) h tok).trace =
      s.trace ++ creation_events s h.reqid :=
  session_lookup_trace env (newline_linedup s line) h.reqid

theorem dispatch_state_setup (env : user_code) (s : State) (line : List Char)
    (h : line_header) (tok : Nat) :
    same_setup s (dispatch_state env (newline_linedup s line) h tok) :=
  session_lookup_setup env (newline_linedup s line) h.reqid

theorem call_user_if_trace (env : user_code) (s s1 : State) (fn : Nat) (ctx : osmtpd_ctx)
    (args : cb_args) (h : call_user_if env s fn ctx args = .ok s1) :
    s1.trace = s.trace ++ callback_events fn ctx args ∧
      s1.osmtpd_sessions = s.osmtpd_sessions ∧ same_setup s s1 := by
  unfold callback_events
  rcases call_user_if_ok env s s1 fn ctx args h with ⟨h1, h2⟩ | ⟨h1, text, h2⟩
  · subst h2; rw [if_neg (by simpa using h1)]; exact ⟨by simp, rfl, same_setup_refl _⟩
  · subst h2; rw [if_pos h1]; exact ⟨rfl, rfl, same_setup_refl _⟩

/-- The end of `tx-commit` and `tx-rollback` on a session that is in the
tree: the record afterwards and the call logged. -/
theorem tx_end_find (s : State) (ctx : osmtpd_ctx) (hmem : ctx.reqid ∈ session_keys s) :
    ∃ c, RB_FIND ctx.reqid (tx_end s ctx).osmtpd_sessions = some c ∧
      c.msgid = 0 ∧ c.evpid = 0 ∧ c.mailfrom = none ∧ c.rcptto = [] ∧
      c.local_message = (if s.ondeletecb_message ≠ NULL then NULL else ctx.local_message) ∧
      (tx_end s ctx).trace = s.trace ++
        (if s.ondeletecb_message ≠ NULL then
          [event.ondelete_message s.ondeletecb_message ctx ctx.local_message] else []) := by
  unfold tx_end
  by_cases hk : s.ondeletecb_message ≠ NULL
  · simp only [if_pos hk]
    exact ⟨_, RB_FIND_session_put
      { ctx with local_message := NULL, mailfrom := none, rcptto := [], evpid := 0, msgid := 0 }
      s.osmtpd_sessions hmem, rfl, rfl, rfl, rfl, rfl, rfl⟩
  · simp only [if_neg hk]
    exact ⟨_, RB_FIND_session_put
      { ctx with mailfrom := none, rcptto := [], evpid := 0, msgid := 0 }
      s.osmtpd_sessions hmem, rfl, rfl, rfl, rfl, rfl, by simp [ctx_write]⟩

theorem dispatch_state_mem (env : user_code) (s : State) (h : line_header) (tok : Nat) :
    h.reqid ∈ session_keys (dispatch_state env s h tok) := by
  rw [dispatch_state_keys]
  exact session_lookup_mem env s h.reqid

/-! ## Lemmas on the transaction lines -/

/-- An accepted `tx-commit` or `tx-rollback` line is a `report` line; the
callback of its entry, if any, is called with the context of the line and then
`tx_end` runs on that context. -/
theorem line_tx_end (env : user_code) (s s1 : State) (line : List Char) (h : line_header)
    (hcat : catalog_shaped s.osmtpd_callbacks)
    (hh : osmtpd_newline_header line = some h)
    (hph : h.phase = OSMTPD_PHASE_TX_COMMIT ∨ h.phase = OSMTPD_PHASE_TX_ROLLBACK)
    (hok : osmtpd_newline_line env s line = .ok s1) :
    ∃ cb s0 args,
      find_callback h.type h.phase h.incoming s.osmtpd_callbacks = some cb ∧
      call_user_if env (dispatch_state env (newline_linedup s line) h 0) cb.cb
        (dispatch_ctx env (newline_linedup s line) h 0) args = .ok s0 ∧
      s1 = tx_end s0 (dispatch_ctx env (newline_linedup s line) h 0) := by
  obtain ⟨cb, tok, params, hf, hsig, ht, hc⟩ := line_payload env s s1 line h hcat hh hok
  have hp : cb.osmtpd_cb = parser_fn.tx_commit ∨ cb.osmtpd_cb = parser_fn.tx_rollback := by
    have := catalog_init_tx _ hsig
    rcases hph with hph | hph
    · exact Or.inl (this.2.2.2.2.2.1 hph)
    · exact Or.inr (this.2.2.2.2.2.2 hph)
  have hrep : h.type = OSMTPD_TYPE_REPORT := by
    apply catalog_init_report _ hsig
    rcases hp with hp | hp
    · exact Or.inr (Or.inr (Or.inr (Or.inr (Or.inr (Or.inr (Or.inl hp))))))
    · exact Or.inr (Or.inr (Or.inr (Or.inr (Or.inr (Or.inr (Or.inr hp))))))
  obtain ⟨htok, _⟩ := ht hrep
  subst htok
  unfold call_osmtpd_cb at hc
  rcases hp with hp | hp
  · rw [hp] at hc
    obtain ⟨s0, args, h0, h1⟩ := osmtpd_tx_commit_ok env _ s1 cb _ params hc
    exact ⟨cb, s0, args, hf, h0, h1⟩
  · rw [hp] at hc
    obtain ⟨s0, args, h0, h1⟩ := osmtpd_tx_rollback_ok env _ s1 cb _ params hc
    exact ⟨cb, s0, args, hf, h0, h1⟩

/-! ## Claims on the transaction lines -/

/-- C18: after an accepted `tx-commit` or `tx-rollback` line the record of
the session of the line has `msgid = 0`, `evpid = 0`, `mailfrom` null and an
empty `rcptto` list, whatever the state before the line was. -/
theorem tx_end_cache_empty (env : user_code) (s s1 : State) (line : List Char)
    (h : line_header)
    (hcat : catalog_shaped s.osmtpd_callbacks)
    (hh : osmtpd_newline_header line = some h)
    (hph : h.phase = OSMTPD_PHASE_TX_COMMIT ∨ h.phase = OSMTPD_PHASE_TX_ROLLBACK)
    (hok : osmtpd_newline_line env s line = .ok s1) :
    ∃ c, RB_FIND h.reqid s1.osmtpd_sessions = some c ∧
      c.msgid = 0 ∧ c.evpid = 0 ∧ c.mailfrom = none ∧ c.rcptto = [] := by
  obtain ⟨cb, s0, args, _, h0, h1⟩ := line_tx_end env s s1 line h hcat hh hph hok
  have hs := (call_user_if_trace env _ s0 _ _ _ h0).2.1
  have hmem : (dispatch_ctx env (newline_linedup s line) h 0).reqid ∈ session_keys s0 := by
    unfold session_keys
    rw [hs, dispatch_ctx_reqid]
    exact dispatch_state_mem env _ h 0
  obtain ⟨c, hc1, hc2, hc3, hc4, hc5, _⟩ := tx_end_find s0 _ hmem
  rw [dispatch_ctx_reqid] at hc1
  exact ⟨c, by rw [h1]; exact hc1, hc2, hc3, hc4, hc5⟩

/-- An accepted `tx-begin` line: the message id `v` of the payload fits 32
bits; the record of the session gets `msgid` as in `tx_begin_ctx`; the message
constructor, if set, is called on that record and its result stored; then the
callback, if any, is called with `v`. -/
theorem line_tx_begin (env : user_code) (s s1 : State) (line : List Char) (h : line_header)
    (hcat : catalog_shaped s.osmtpd_callbacks)
    (hh : osmtpd_newline_header line = some h)
    (hph : h.phase = OSMTPD_PHASE_TX_BEGIN)
    (hok : osmtpd_newline_line env s line = .ok s1) :
    ∃ cb text ctx2 ctx3,
      find_callback h.type h.phase h.incoming s.osmtpd_callbacks = some cb ∧
      h.params = some text ∧ (strtoul text 16).val < 2 ^ 32 ∧
      ctx2 = tx_begin_ctx cb (dispatch_ctx env (newline_linedup s line) h 0)
        (strtoul text 16).val ∧
      ctx3 = { ctx2 with local_message := tx_begin_message env s ctx2 } ∧
      RB_FIND h.reqid s1.osmtpd_sessions = some ctx3 ∧
      s1.trace = s.trace ++ creation_events s h.reqid ++ message_events s ctx2 ++
        callback_events cb.cb ctx3 (cb_args.tx_begin (strtoul text 16).val) := by
  obtain ⟨cb, tok, params, hf, hsig, ht, hc⟩ := line_payload env s s1 line h hcat hh hok
  have hp : cb.osmtpd_cb = parser_fn.tx_begin := (catalog_init_tx _ hsig).1 hph
  have hrep : h.type = OSMTPD_TYPE_REPORT :=
    catalog_init_report _ hsig (Or.inr (Or.inl hp))
  obtain ⟨htok, hpar⟩ := ht hrep
  subst htok
  unfold call_osmtpd_cb at hc
  rw [hp] at hc
  obtain ⟨text, ctx2, hline, hv, _, hctx2, hcase⟩ := osmtpd_tx_begin_ok env _ s1 cb _ params hc
  have hsetup := dispatch_state_setup env s line h 0
  have hhook : (dispatch_state env (newline_linedup s line) h 0).oncreatecb_message =
      s.oncreatecb_message := hsetup.2.2.2.2.2.1
  have htr := dispatch_state_trace env s line h 0
  have hmem := dispatch_state_mem env (newline_linedup s line) h 0
  have hreq : ctx2.reqid = h.reqid := by rw [hctx2]; exact dispatch_ctx_reqid env _ h 0
  have hctx2b : ctx2 = tx_begin_ctx cb (dispatch_ctx env (newline_linedup s line) h 0)
      (strtoul text 16).val := hctx2
  rw [hhook] at hcase
  rcases hcase with ⟨hk, hcall⟩ | ⟨hk, hcall⟩
  · obtain ⟨t1, t2, _⟩ := call_user_if_trace env _ s1 _ _ _ hcall
    have hm : tx_begin_message env s ctx2 = ctx2.local_message := by
      unfold tx_begin_message; rw [if_neg (by simpa using hk)]
    refine ⟨cb, text, ctx2, ctx2, hf, by rw [← hpar, hline], hv, hctx2b, by rw [hm], ?_, ?_⟩
    · rw [t2]
      have := RB_FIND_session_put ctx2
        (dispatch_state env (newline_linedup s line) h 0).osmtpd_sessions
        (by rw [hreq]; exact hmem)
      rw [hreq] at this
      exact this
    · rw [t1]
      show (dispatch_state env (newline_linedup s line) h 0).trace ++ _ = _
      rw [htr]
      unfold message_events
      rw [if_neg (by simpa using hk)]
      simp
  · obtain ⟨t1, t2, _⟩ := call_user_if_trace env _ s1 _ _ _ hcall
    have hm : tx_begin_message env s ctx2 = env.oncreate s.oncreatecb_message ctx2 := by
      unfold tx_begin_message; rw [if_pos hk]
    refine ⟨cb, text, ctx2, _, hf, by rw [← hpar, hline], hv, hctx2b, rfl, ?_, ?_⟩
    · rw [t2, hm]
      have := RB_FIND_session_put
        { ctx2 with local_message := env.oncreate s.oncreatecb_message ctx2 }
        (session_put ctx2 (dispatch_state env (newline_linedup s line) h 0).osmtpd_sessions)
        (by
          rw [session_put_keys]
          show ctx2.reqid ∈ _
          rw [hreq]; exact hmem)
      rw [← hreq]
      exact this
    · rw [t1, hm]
      show (dispatch_state env (newline_linedup s line) h 0).trace ++ _ ++ _ = _
      rw [htr]
      unfold message_events
      rw [if_pos hk]

theorem dispatch_ctx_found (env : user_code) (s : State) (line : List Char) (h : line_header)
    (c : osmtpd_ctx) (hf : RB_FIND h.reqid s.osmtpd_sessions = some c) :
    dispatch_ctx env (newline_linedup s line) h 0 = header_ctx c h ∧
      creation_events s h.reqid = [] := by
  have hf2 : RB_FIND h.reqid (newline_linedup s line).osmtpd_sessions = some c := hf
  unfold dispatch_ctx header_ctx creation_events
  rw [session_lookup_found env _ h.reqid c hf2, hf]
  exact ⟨rfl, rfl⟩

theorem dispatch_ctx_new (env : user_code) (s : State) (line : List Char) (h : line_header)
    (tok : Nat) (hf : RB_FIND h.reqid s.osmtpd_sessions = none) :
    dispatch_ctx env (newline_linedup s line) h tok =
      { header_ctx (created_session env s h.reqid) h with token := tok } := by
  have hf2 : RB_FIND h.reqid (newline_linedup s line).osmtpd_sessions = none := hf
  unfold dispatch_ctx header_ctx
  rw [(session_lookup_new env _ h.reqid hf2).1]
  rfl

/-- C19: with the message constructor set, an accepted `tx-begin` line calls
it on the record of the session, stores its result in `local_message`, and
only then calls the callback of the entry (if any), which sees the stored
value; with the message destructor set, an accepted `tx-commit` or
`tx-rollback` line for a session with record `c0` calls the callback (if any)
and after it the destructor, once, with the `local_message` of `c0`, and the
record is left with `local_message` null. -/
theorem message_hook_lifecycle (env : user_code) (s s1 : State) (line : List Char)
    (h : line_header)
    (hcat : catalog_shaped s.osmtpd_callbacks)
    (hh : osmtpd_newline_header line = some h)
    (hok : osmtpd_newline_line env s line = .ok s1) :
    (h.phase = OSMTPD_PHASE_TX_BEGIN → s.oncreatecb_message ≠ NULL →
      ∃ cb text ctx2 ctx3,
        find_callback h.type h.phase h.incoming s.osmtpd_callbacks = some cb ∧
        h.params = some text ∧
        ctx3 = { ctx2 with local_message := env.oncreate s.oncreatecb_message ctx2 } ∧
        RB_FIND h.reqid s1.osmtpd_sessions = some ctx3 ∧
        s1.trace = s.trace ++ creation_events s h.reqid ++
          [event.oncreate_message s.oncreatecb_message ctx2] ++
          callback_events cb.cb ctx3 (cb_args.tx_begin (strtoul text 16).val)) ∧
    ((h.phase = OSMTPD_PHASE_TX_COMMIT ∨ h.phase = OSMTPD_PHASE_TX_ROLLBACK) →
      s.ondeletecb_message ≠ NULL →
      ∀ c0, RB_FIND h.reqid s.osmtpd_sessions = some c0 →
      ∃ cb args c,
        find_callback h.type h.phase h.incoming s.osmtpd_callbacks = some cb ∧
        s1.trace = s.trace ++ callback_events cb.cb (header_ctx c0 h) args ++
          [event.ondelete_message s.ondeletecb_message (header_ctx c0 h) c0.local_message] ∧
        RB_FIND h.reqid s1.osmtpd_sessions = some c ∧ c.local_message = NULL) := by
  constructor
  · intro hph hk
    obtain ⟨cb, text, ctx2, ctx3, hf, hpar, _, _, h3, hfind, htr⟩ :=
      line_tx_begin env s s1 line h hcat hh hph hok
    refine ⟨cb, text, ctx2, ctx3, hf, hpar, ?_, hfind, ?_⟩
    · rw [h3]; unfold tx_begin_message; rw [if_pos hk]
    · rw [htr]; unfold message_events; rw [if_pos hk]
  · intro hph hk c0 hc0
    obtain ⟨cb, s0, args, hf, h0, h1⟩ := line_tx_end env s s1 line h hcat hh hph hok
    obtain ⟨hctx, hcre⟩ := dispatch_ctx_found env s line h c0 hc0
    obtain ⟨t1, t2, t3⟩ := call_user_if_trace env _ s0 _ _ _ h0
    have hhook : s0.ondeletecb_message = s.ondeletecb_message :=
      t3.2.2.2.2.2.2.1.trans (dispatch_state_setup env s line h 0).2.2.2.2.2.2.1
    have hmem : (dispatch_ctx env (newline_linedup s line) h 0).reqid ∈ session_keys s0 := by
      unfold session_keys
      rw [t2, dispatch_ctx_reqid]
      exact dispatch_state_mem env _ h 0
    obtain ⟨c, hc1, _, _, _, _, hc6, hc7⟩ := tx_end_find s0 _ hmem
    rw [dispatch_ctx_reqid] at hc1
    rw [hhook, if_pos hk] at hc6 hc7
    refine ⟨cb, args, c, hf, ?_, by rw [h1]; exact hc1, hc6⟩
    rw [h1, hc7, t1, dispatch_state_trace, hcre, hctx]
    have : (header_ctx c0 h).local_message = c0.local_message := rfl
    rw [this]
    simp

/-- C20 (amended): after an accepted `tx-begin` line with message id `v` the
`msgid` of the session is `v` when the entry of the event has `storereport`
and 0 when it has not; in both cases the callback of the entry, if there is
one, is the last call logged and receives `v`. -/
theorem tx_begin_msgid (env : user_code) (s s1 : State) (line : List Char) (h : line_header)
    (hcat : catalog_shaped s.osmtpd_callbacks)
    (hh : osmtpd_newline_header line = some h)
    (hph : h.phase = OSMTPD_PHASE_TX_BEGIN)
    (hok : osmtpd_newline_line env s line = .ok s1) :
    ∃ cb text c,
      find_callback h.type h.phase h.incoming s.osmtpd_callbacks = some cb ∧
      h.params = some text ∧ (strtoul text 16).val < 2 ^ 32 ∧
      RB_FIND h.reqid s1.osmtpd_sessions = some c ∧
      c.msgid = (if cb.storereport then (strtoul text 16).val else 0) ∧
      (cb.cb ≠ NULL → ∃ pre, s1.trace =
        pre ++ [event.user_cb cb.cb c (cb_args.tx_begin (strtoul text 16).val)]) := by
  obtain ⟨cb, text, ctx2, ctx3, hf, hpar, hv, h2, h3, hfind, htr⟩ :=
    line_tx_begin env s s1 line h hcat hh hph hok
  refine ⟨cb, text, ctx3, hf, hpar, hv, hfind, ?_, ?_⟩
  · rw [h3, h2]; rfl
  · intro hcb
    refine ⟨s.trace ++ creation_events s h.reqid ++ message_events s ctx2, ?_⟩
    rw [htr]
    unfold callback_events
    rw [if_pos hcb]

/-- Witness of C18: session 1 has message id `0xabcd` after a `tx-begin`
line, and the `tx-commit` line that follows empties the cache. -/
theorem tx_end_cache_empty_witness :
    (RB_FIND 1 (after_lines hook_env report_ready [line_in_begin]).osmtpd_sessions).map
        (fun c => c.msgid) = some 43981 ∧
    ∃ c, RB_FIND 1
        (after_lines hook_env report_ready [line_in_begin, line_in_commit]).osmtpd_sessions =
          some c ∧
      c.msgid = 0 ∧ c.evpid = 0 ∧ c.mailfrom = none ∧ c.rcptto = [] :=
  ⟨by decide,
    tx_end_cache_empty hook_env (after_lines hook_env report_ready [line_in_begin])
      (after_lines hook_env report_ready [line_in_begin, line_in_commit]) line_in_commit
      ⟨OSMTPD_TYPE_REPORT, 0, 7, ⟨1700000000, 0⟩, 1, OSMTPD_PHASE_TX_COMMIT, 1, 0,
        some "0000abcd|42".toList⟩
      (by decide) (by decide) (Or.inl rfl) rfl⟩

/-- Witness of C19: the `tx-rollback` line after a `tx-begin` line of
session 1; the destructor 24 gets the value 123 the constructor 23 returned. -/
theorem message_hook_lifecycle_witness :
    (after_lines hook_env report_ready [line_in_begin, line_in_rollback]).trace =
      [event.oncreate_session 21 (new_session 1),
       event.oncreate_message 23
         { header_ctx (created_session hook_env report_ready 1)
             ⟨OSMTPD_TYPE_REPORT, 0, 7, ⟨1700000000, 0⟩, 1, OSMTPD_PHASE_TX_BEGIN, 1, 0, none⟩
           with msgid := 43981 },
       event.user_cb 9
         { header_ctx (created_session hook_env report_ready 1)
             ⟨OSMTPD_TYPE_REPORT, 0, 7, ⟨1700000000, 0⟩, 1, OSMTPD_PHASE_TX_BEGIN, 1, 0, none⟩
           with msgid := 43981, local_message := 123 }
         (cb_args.tx_begin 43981),
       event.ondelete_message 24
         { header_ctx (created_session hook_env report_ready 1)
             ⟨OSMTPD_TYPE_REPORT, 0, 7, ⟨1700000000, 0⟩, 1, OSMTPD_PHASE_TX_ROLLBACK, 1, 0, none⟩
           with msgid := 43981, local_message := 123 }
         123] ∧
    ∃ c, RB_FIND 1
        (after_lines hook_env report_ready [line_in_begin, line_in_rollback]).osmtpd_sessions =
          some c ∧ c.local_message = NULL := by
  obtain ⟨cb, args, c, _, _, h3, h4⟩ :=
    (message_hook_lifecycle hook_env (after_lines hook_env report_ready [line_in_begin])
      (after_lines hook_env report_ready [line_in_begin, line_in_rollback]) line_in_rollback
      ⟨OSMTPD_TYPE_REPORT, 0, 7, ⟨1700000000, 0⟩, 1, OSMTPD_PHASE_TX_ROLLBACK, 1, 0,
        some "0000abcd".toList⟩
      (by decide) (by decide) rfl).2 (Or.inr rfl) (by decide) _ rfl
  exact ⟨by decide, c, h3, h4⟩

/-- Witness of C20 (amended): the inbound `tx-begin` line of session 1, whose
entry has `storereport` because of `OSMTPD_NEED_MSGID`. -/
theorem tx_begin_msgid_witness :
    ∃ cb text c,
      find_callback OSMTPD_TYPE_REPORT OSMTPD_PHASE_TX_BEGIN 1 report_ready.osmtpd_callbacks =
        some cb ∧
      some "0000abcd".toList = some text ∧ (strtoul text 16).val < 2 ^ 32 ∧
      RB_FIND 1 (after_lines hook_env report_ready [line_in_begin]).osmtpd_sessions = some c ∧
      c.msgid = (if cb.storereport then (strtoul text 16).val else 0) ∧
      (cb.cb ≠ NULL → ∃ pre, (after_lines hook_env report_ready [line_in_begin]).trace =
        pre ++ [event.user_cb cb.cb c (cb_args.tx_begin (strtoul text 16).val)]) :=
  tx_begin_msgid hook_env report_ready (after_lines hook_env report_ready [line_in_begin])
    line_in_begin
    ⟨OSMTPD_TYPE_REPORT, 0, 7, ⟨1700000000, 0⟩, 1, OSMTPD_PHASE_TX_BEGIN, 1, 0,
      some "0000abcd".toList⟩
    (by decide) (by decide) rfl rfl

/-- C20 (counterexample): after `osmtpd_need(OSMTPD_NEED_MSGID)` and
`osmtpd_register_report_begin(1, 9)` the outbound `tx-begin` entry has no
`storereport`.  Session 1 has `msgid = 0xabcd` after an inbound `tx-begin`
line; an outbound `tx-begin` line for the same session is accepted and leaves
`msgid = 0`, not the value it had before the line. -/
theorem tx_begin_msgid_reset :
    (find_callback OSMTPD_TYPE_REPORT OSMTPD_PHASE_TX_BEGIN 0
        report_ready.osmtpd_callbacks).map (fun e => e.storereport) = some false ∧
    (RB_FIND 1 (after_lines hook_env report_ready [line_in_begin]).osmtpd_sessions).map
        (fun c => c.msgid) = some 43981 ∧
    osmtpd_newline_line hook_env (after_lines hook_env report_ready [line_in_begin])
        line_out_begin =
      .ok (after_lines hook_env report_ready [line_in_begin, line_out_begin]) ∧
    (RB_FIND 1
        (after_lines hook_env report_ready [line_in_begin, line_out_begin]).osmtpd_sessions).map
        (fun c => c.msgid) = some 0 :=
  ⟨by decide, by decide, rfl, by decide⟩

/-! ## Lemmas on the session tree across lines -/

theorem session_lookup_keys (env : user_code) (s : State) (reqid : Nat) :
    ((session_keys s).Nodup → (session_keys (session_lookup env s reqid).1).Nodup) ∧
    ∀ k, k ∈ session_keys (session_lookup env s reqid).1 ↔ k = reqid ∨ k ∈ session_keys s := by
  cases hf : RB_FIND reqid s.osmtpd_sessions with
  | some c =>
    rw [session_lookup_found env s reqid c hf]
    refine ⟨id, fun k => ⟨Or.inr, ?_⟩⟩
    rintro (hk | hk)
    · rw [hk]; exact (RB_FIND_some_iff reqid _).1 ⟨c, hf⟩
    · exact hk
  | none =>
    have hp := (session_lookup_new env s reqid hf).2.2.1
    have hn : reqid ∉ session_keys s := (RB_FIND_none_iff reqid _).1 hf
    refine ⟨fun hnd => hp.nodup_iff.2 (List.nodup_cons.2 ⟨hn, hnd⟩), fun k => ?_⟩
    rw [hp.mem_iff, List.mem_cons]

/-- A `config` line leaves the session tree, the log of session and message
hooks and the set-up alone, apart from the timeout. -/
theorem osmtpd_newline_config_frame (s s1 : State) (rest : List Char)
    (h : osmtpd_newline_config s rest = .ok s1) :
    s1.osmtpd_sessions = s.osmtpd_sessions ∧ same_setup s s1 ∧ s1.io_stdout = s.io_stdout := by
  unfold osmtpd_newline_config at h
  by_cases h1 : rest = "ready".toList
  · rw [if_pos h1] at h
    cases h
    split_ifs <;> exact ⟨rfl, same_setup_refl _, rfl⟩
  · rw [if_neg h1] at h
    cases hs : strchr_split '|' rest with
    | none => rw [hs] at h; exact absurd h (fatal_line_ne_ok _ _ _)
    | some p =>
      obtain ⟨key, value⟩ := p
      rw [hs] at h
      simp only at h
      by_cases hk : key = "smtp-session-timeout".toList
      · rw [if_pos hk] at h
        cases hn : strtonum value 0 INT_MAX with
        | none => rw [hn] at h; exact absurd h (fatal_line_ne_ok _ _ _)
        | some v =>
          rw [hn] at h
          cases h
          split_ifs <;> exact ⟨rfl, same_setup_refl _, rfl⟩
      · rw [if_neg hk] at h
        cases h
        split_ifs <;> exact ⟨rfl, same_setup_refl _, rfl⟩

/-- The payload parser of a line is `osmtpd_link_disconnect` exactly when the
phase of the line is `link-disconnect`. -/
theorem line_parser_disconnect (type : osmtpd_type) (phase : osmtpd_phase) (incoming : Int)
    (p : parser_fn)
    (hsig : (type, phase, incoming, p) ∈ osmtpd_callbacks_init.map catalog_sig) :
    p = parser_fn.link_disconnect ↔ phase = OSMTPD_PHASE_LINK_DISCONNECT :=
  catalog_init_link_disconnect _ hsig

/-- The log of a payload parser: it never calls the session constructor. -/
theorem call_osmtpd_cb_trace (env : user_code) (s s1 : State) (cb : osmtpd_callback)
    (ctx : osmtpd_ctx) (line : Option (List Char))
    (h : call_osmtpd_cb env s cb ctx line = .ok s1) :
    same_setup s s1 ∧
    ∃ evs, s1.trace = s.trace ++ evs ∧ ∀ e ∈ evs, e.is_oncreate_session = false := by
  by_cases hp : cb.osmtpd_cb = parser_fn.link_disconnect
  · unfold call_osmtpd_cb at h
    rw [hp] at h
    obtain ⟨s0, h0, hcase⟩ := osmtpd_link_disconnect_ok env s s1 cb ctx h
    obtain ⟨t1, t2, t3⟩ := call_user_if_trace env s s0 _ _ _ h0
    have hcb : ∀ e ∈ callback_events cb.cb ctx cb_args.noargs, e.is_oncreate_session = false := by
      intro e he
      unfold callback_events at he
      split_ifs at he
      · simp only [List.mem_singleton] at he; subst he; rfl
      · cases he
    rcases hcase with ⟨_, h1⟩ | ⟨session, _, h1⟩
    · subst h1; exact ⟨t3, _, t1, hcb⟩
    · subst h1
      refine ⟨t3, _, by simp only [t1, List.append_assoc]; rfl, ?_⟩
      intro e he
      rcases List.mem_append.1 he with he | he
      · exact hcb e he
      · split_ifs at he
        · simp only [List.mem_singleton] at he; subst he; rfl
        · cases he
  · obtain ⟨h1, _, evs, h3, h4⟩ := payload_frame_call_osmtpd_cb env s s1 cb ctx line hp h
    exact ⟨h1, evs, h3, fun e he => (h4 e he).1⟩

/-- The keys of the session tree after an accepted line with header `h`: the
key of the line is there unless the line is a `link-disconnect`, every other
key is there as before, and no key occurs twice. -/
theorem line_keys (env : user_code) (s s1 : State) (line : List Char) (h : line_header)
    (hcat : catalog_shaped s.osmtpd_callbacks)
    (hnd : (session_keys s).Nodup)
    (hh : osmtpd_newline_header line = some h)
    (hok : osmtpd_newline_line env s line = .ok s1) :
    (session_keys s1).Nodup ∧ same_setup s s1 ∧
    ∀ k, k ∈ session_keys s1 ↔
      (if k = h.reqid then h.phase ≠ OSMTPD_PHASE_LINK_DISCONNECT else k ∈ session_keys s) := by
  obtain ⟨cb, tok, params, hf, hsig, ht, hc⟩ := line_payload env s s1 line h hcat hh hok
  have hk := session_lookup_keys env (newline_linedup s line) h.reqid
  have hst := dispatch_state_keys env (newline_linedup s line) h tok
  have hnd1 : (session_keys (dispatch_state env (newline_linedup s line) h tok)).Nodup := by
    rw [hst]; exact hk.1 hnd
  have hmem1 : ∀ k, k ∈ session_keys (dispatch_state env (newline_linedup s line) h tok) ↔
      k = h.reqid ∨ k ∈ session_keys s := by
    intro k; rw [hst]; exact hk.2 k
  have hset := same_setup_trans (dispatch_state_setup env s line h tok)
    (call_osmtpd_cb_trace env _ s1 cb _ params hc).1
  by_cases hph : h.phase = OSMTPD_PHASE_LINK_DISCONNECT
  · have hp : cb.osmtpd_cb = parser_fn.link_disconnect :=
      (line_parser_disconnect _ _ _ _ hsig).2 hph
    unfold call_osmtpd_cb at hc
    rw [hp] at hc
    obtain ⟨s0, h0, hcase⟩ := osmtpd_link_disconnect_ok env _ s1 cb _ hc
    obtain ⟨_, t2, _⟩ := call_user_if_trace env _ s0 _ _ _ h0
    have hin : h.reqid ∈ session_keys s0 := by
      unfold session_keys; rw [t2]; exact (hmem1 h.reqid).2 (Or.inl rfl)
    rw [dispatch_ctx_reqid] at hcase
    rcases hcase with ⟨hnone, _⟩ | ⟨session, _, h1⟩
    · exact absurd hin ((RB_FIND_none_iff _ _).1 hnone)
    · have hkeys : session_keys s1 =
          (session_keys (dispatch_state env (newline_linedup s line) h tok)).erase h.reqid := by
        rw [h1]
        unfold session_keys
        simp only [RB_REMOVE_keys, t2]
      rw [hkeys]
      refine ⟨hnd1.erase _, hset, fun k => ?_⟩
      rw [hnd1.mem_erase_iff, hmem1 k]
      by_cases hkr : k = h.reqid
      · simp [hkr, hph]
      · simp [hkr]
  · have hp : cb.osmtpd_cb ≠ parser_fn.link_disconnect :=
      fun e => hph ((line_parser_disconnect _ _ _ _ hsig).1 e)
    obtain ⟨_, h2, _⟩ := payload_frame_call_osmtpd_cb env _ s1 cb _ params hp hc
    rw [h2]
    refine ⟨hnd1, hset, fun k => ?_⟩
    rw [hmem1 k]
    by_cases hkr : k = h.reqid
    · simp [hkr, hph]
    · simp [hkr]

theorem catalog_shaped_setup (s s1 : State) (h : same_setup s s1)
    (hcat : catalog_shaped s.osmtpd_callbacks) : catalog_shaped s1.osmtpd_callbacks := by
  rw [h.1]; exact hcat

/-! ## Claims on the session store -/

/-- C16: for every sequence of lines that are all accepted, started in a
state whose session tree has no key twice, and every `reqid`: afterwards the
tree has a record for `reqid` exactly when the session is live, that is when
the last `filter` or `report` line that names `reqid` is not a
`link-disconnect` (when no line names it: when it had a record at the start);
and the tree still has no key twice. -/
theorem session_store_invariant (env : user_code) (s s1 : State) (lines : List (List Char))
    (reqid : Nat)
    (hcat : catalog_shaped s.osmtpd_callbacks)
    (hnd : (session_keys s).Nodup)
    (hok : osmtpd_newline env s lines = .ok s1) :
    (reqid ∈ session_keys s1 ↔
      session_live reqid lines (decide (reqid ∈ session_keys s)) = true) ∧
    (session_keys s1).Nodup := by
  induction lines generalizing s with
  | nil =>
    simp only [osmtpd_newline, Except.ok.injEq] at hok
    subst hok
    simp [session_live, hnd]
  | cons line lines ih =>
    unfold osmtpd_newline at hok
    cases hl : osmtpd_newline_line env s line with
    | error e => rw [hl] at hok; cases hok
    | ok s0 =>
      rw [hl] at hok
      simp only at hok
      unfold session_live
      cases hh : osmtpd_newline_header line with
      | none =>
        obtain ⟨rest, _, hcfg⟩ := osmtpd_newline_line_no_header env s s0 line hh hl
        obtain ⟨c1, c2, _⟩ := osmtpd_newline_config_frame _ s0 rest hcfg
        have hkeys : session_keys s0 = session_keys s := by
          unfold session_keys; rw [c1]; rfl
        have := ih s0 (catalog_shaped_setup _ _ c2 hcat) (by rw [hkeys]; exact hnd) hok
        rw [hkeys] at this
        exact this
      | some h =>
        obtain ⟨k1, k2, k3⟩ := line_keys env s s0 line h hcat hnd hh hl
        have := ih s0 (catalog_shaped_setup _ _ k2 hcat) k1 hok
        simp only
        by_cases hr : h.reqid = reqid
        · rw [if_pos hr]
          have e : decide (reqid ∈ session_keys s0) =
              decide (h.phase ≠ OSMTPD_PHASE_LINK_DISCONNECT) := by
            have := k3 reqid
            rw [if_pos hr.symm] at this
            exact decide_eq_decide.2 this
          rw [← e]
          exact this
        · rw [if_neg hr]
          have e : decide (reqid ∈ session_keys s0) = decide (reqid ∈ session_keys s) := by
            have := k3 reqid
            rw [if_neg (fun e => hr e.symm)] at this
            exact decide_eq_decide.2 this
          rw [← e]
          exact this

/-- Witness of C16: session 1 after a `tx-begin` line and a `link-disconnect`
line is not live, and the tree is empty. -/
theorem session_store_invariant_witness :
    session_keys (after_lines hook_env report_ready [line_in_begin]) = [1] ∧
    session_keys (after_lines hook_env report_ready [line_in_begin, line_in_disconnect]) = [] ∧
    ((1 ∈ session_keys (after_lines hook_env report_ready [line_in_begin, line_in_disconnect]) ↔
      session_live 1 [line_in_begin, line_in_disconnect]
        (decide (1 ∈ session_keys report_ready)) = true) ∧
    (session_keys
      (after_lines hook_env report_ready [line_in_begin, line_in_disconnect])).Nodup) :=
  ⟨by decide, by decide,
    session_store_invariant hook_env report_ready
      (after_lines hook_env report_ready [line_in_begin, line_in_disconnect])
      [line_in_begin, line_in_disconnect] 1 (by decide) (by decide) rfl⟩

/-- C17: an accepted `link-disconnect` line for a session calls the callback
of the entry (if any), then the session destructor (if set), once, with the
`local_session` of the record of the session; afterwards the tree has no
record for the session, the other keys are as before, and a following line
with the same `reqid` gets a new record with the default fields and the
session constructor is called for it. -/
theorem link_disconnect_teardown (env : user_code) (s s1 : State) (line : List Char)
    (h : line_header)
    (hcat : catalog_shaped s.osmtpd_callbacks)
    (hnd : (session_keys s).Nodup)
    (hh : osmtpd_newline_header line = some h)
    (hph : h.phase = OSMTPD_PHASE_LINK_DISCONNECT)
    (hok : osmtpd_newline_line env s line = .ok s1) :
    ∃ cb ctx,
      find_callback h.type h.phase h.incoming s.osmtpd_callbacks = some cb ∧
      ctx = dispatch_ctx env (newline_linedup s line) h 0 ∧
      (∀ c0, RB_FIND h.reqid s.osmtpd_sessions = some c0 → ctx = header_ctx c0 h) ∧
      s1.trace = s.trace ++ creation_events s h.reqid ++
        callback_events cb.cb ctx cb_args.noargs ++
        (if s.ondeletecb_session ≠ NULL then
          [event.ondelete_session s.ondeletecb_session ctx ctx.local_session] else []) ∧
      RB_FIND h.reqid s1.osmtpd_sessions = none ∧
      (∀ k, k ∈ session_keys s1 ↔ k ≠ h.reqid ∧ k ∈ session_keys s) ∧
      creation_events s1 h.reqid =
        (if s.oncreatecb_session ≠ NULL then
          [event.oncreate_session s.oncreatecb_session (new_session h.reqid)] else []) ∧
      ∀ line2 h2 tok, h2.reqid = h.reqid →
        dispatch_ctx env (newline_linedup s1 line2) h2 tok =
          { header_ctx (created_session env s1 h.reqid) h2 with token := tok } := by
  obtain ⟨cb, tok, params, hf, hsig, ht, hc⟩ := line_payload env s s1 line h hcat hh hok
  have hp : cb.osmtpd_cb = parser_fn.link_disconnect :=
    (line_parser_disconnect _ _ _ _ hsig).2 hph
  have hrep : h.type = OSMTPD_TYPE_REPORT := catalog_init_report _ hsig (Or.inl hp)
  obtain ⟨htok, _⟩ := ht hrep
  subst htok
  obtain ⟨_, hset, hkeys⟩ := line_keys env s s1 line h hcat hnd hh hok
  have hnone : RB_FIND h.reqid s1.osmtpd_sessions = none := by
    rw [RB_FIND_none_iff]
    intro hin
    have := (hkeys h.reqid).1 hin
    rw [if_pos rfl] at this
    exact this hph
  unfold call_osmtpd_cb at hc
  rw [hp] at hc
  obtain ⟨s0, h0, hcase⟩ := osmtpd_link_disconnect_ok env _ s1 cb _ hc
  obtain ⟨t1, t2, t3⟩ := call_user_if_trace env _ s0 _ _ _ h0
  have hfind := dispatch_state_find env (newline_linedup s line) h 0
  rw [dispatch_ctx_reqid, t2, hfind] at hcase
  have hhook : s0.ondeletecb_session = s.ondeletecb_session :=
    t3.2.2.2.2.1.trans (dispatch_state_setup env s line h 0).2.2.2.2.1
  refine ⟨cb, _, hf, rfl, fun c0 hc0 => (dispatch_ctx_found env s line h c0 hc0).1, ?_, hnone,
    ?_, ?_, ?_⟩
  · rcases hcase with ⟨hcontra, _⟩ | ⟨session, hs, h1⟩
    · cases hcontra
    · cases hs
      rw [h1]
      show s0.trace ++ _ = _
      rw [t1, dispatch_state_trace, hhook]
  · intro k
    rw [hkeys k]
    by_cases hk : k = h.reqid
    · simp [hk, hph]
    · simp [hk]
  · unfold creation_events
    rw [hnone, hset.2.2.2.1]
  · intro line2 h2 tok hr
    rw [← hr]
    exact dispatch_ctx_new env s1 line2 h2 tok (by rw [hr]; exact hnone)

/-- Witness of C17: the `link-disconnect` line of session 1 after its
`tx-begin` line; the destructor 22 gets the value 121 the constructor 21
returned, and the session has no record afterwards. -/
theorem link_disconnect_teardown_witness :
    (after_lines hook_env report_ready [line_in_begin, line_in_disconnect]).trace.getLast? =
      some (event.ondelete_session 22
        { header_ctx (created_session hook_env report_ready 1)
            ⟨OSMTPD_TYPE_REPORT, 0, 7, ⟨1700000000, 0⟩, 1, OSMTPD_PHASE_LINK_DISCONNECT, 1, 0,
              none⟩
          with msgid := 43981, local_message := 123 } 121) ∧
    RB_FIND 1
      (after_lines hook_env report_ready [line_in_begin, line_in_disconnect]).osmtpd_sessions =
        none ∧
    creation_events (after_lines hook_env report_ready [line_in_begin, line_in_disconnect]) 1 =
      [event.oncreate_session 21 (new_session 1)] := by
  obtain ⟨cb, ctx, _, _, _, _, h5, _, h7, _⟩ :=
    link_disconnect_teardown hook_env (after_lines hook_env report_ready [line_in_begin])
      (after_lines hook_env report_ready [line_in_begin, line_in_disconnect]) line_in_disconnect
      ⟨OSMTPD_TYPE_REPORT, 0, 7, ⟨1700000000, 0⟩, 1, OSMTPD_PHASE_LINK_DISCONNECT, 1, 0, none⟩
      (by decide) (by decide) (by decide) rfl rfl
  exact ⟨by decide, h5, h7⟩

/-- C15: an accepted `filter` or `report` line whose `reqid` has no record
makes `osmtpd_newline` insert one record for it before the payload parser
runs: the parser starts on that record, which has the fields of the header of
the line and otherwise `rdns`, `identity`, greeting identity, `ciphers`,
`mailfrom` and `local_message` null, `fcrdns` tempfail, `msgid` and `evpid` 0,
an empty `rcptto`, `src` and `dst` of family `AF_UNSPEC`, and as
`local_session` the result of the session constructor if one is set and null
otherwise; the keys of the tree are then the old ones and the new `reqid`
(and still so after the line unless it is a `link-disconnect`).  The session
constructor is called once for that creation and by nothing else in the line;
a line whose `reqid` has a record calls no session constructor and adds no
key. -/
theorem session_creation (env : user_code) (s s1 : State) (line : List Char)
    (h : line_header)
    (hcat : catalog_shaped s.osmtpd_callbacks)
    (hh : osmtpd_newline_header line = some h)
    (hok : osmtpd_newline_line env s line = .ok s1) :
    ∃ cb tok params evs,
      call_osmtpd_cb env (dispatch_state env (newline_linedup s line) h tok) cb
        (dispatch_ctx env (newline_linedup s line) h tok) params = .ok s1 ∧
      RB_FIND h.reqid (dispatch_state env (newline_linedup s line) h tok).osmtpd_sessions =
        some (dispatch_ctx env (newline_linedup s line) h tok) ∧
      s1.trace = s.trace ++ creation_events s h.reqid ++ evs ∧
      (∀ e ∈ evs, e.is_oncreate_session = false) ∧
      (∀ c0, RB_FIND h.reqid s.osmtpd_sessions = some c0 →
        creation_events s h.reqid = [] ∧
        session_keys (dispatch_state env (newline_linedup s line) h tok) = session_keys s ∧
        (h.phase ≠ OSMTPD_PHASE_LINK_DISCONNECT → session_keys s1 = session_keys s)) ∧
      (RB_FIND h.reqid s.osmtpd_sessions = none →
        creation_events s h.reqid =
          (if s.oncreatecb_session ≠ NULL then
            [event.oncreate_session s.oncreatecb_session (new_session h.reqid)] else []) ∧
        (session_keys (dispatch_state env (newline_linedup s line) h tok)).Perm
          (h.reqid :: session_keys s) ∧
        (h.phase ≠ OSMTPD_PHASE_LINK_DISCONNECT →
          (session_keys s1).Perm (h.reqid :: session_keys s)) ∧
        dispatch_ctx env (newline_linedup s line) h tok =
          { header_ctx (created_session env s h.reqid) h with token := tok } ∧
        (created_session env s h.reqid).reqid = h.reqid ∧
        (created_session env s h.reqid).rdns = none ∧
        (created_session env s h.reqid).identity = none ∧
        (created_session env s h.reqid).greeting_identity = none ∧
        (created_session env s h.reqid).ciphers = none ∧
        (created_session env s h.reqid).mailfrom = none ∧
        (created_session env s h.reqid).local_message = NULL ∧
        (created_session env s h.reqid).fcrdns = OSMTPD_STATUS_TEMPFAIL ∧
        (created_session env s h.reqid).msgid = 0 ∧
        (created_session env s h.reqid).evpid = 0 ∧
        (created_session env s h.reqid).rcptto = [] ∧
        (created_session env s h.reqid).src.ss_family = sa_family.AF_UNSPEC ∧
        (created_session env s h.reqid).dst.ss_family = sa_family.AF_UNSPEC ∧
        (created_session env s h.reqid).local_session =
          (if s.oncreatecb_session ≠ NULL then
            env.oncreate s.oncreatecb_session (new_session h.reqid) else NULL)) := by
  obtain ⟨cb, tok, params, hf, hsig, ht, hc⟩ := line_payload env s s1 line h hcat hh hok
  obtain ⟨_, evs, he1, he2⟩ := call_osmtpd_cb_trace env _ s1 cb _ params hc
  have hst := dispatch_state_keys env (newline_linedup s line) h tok
  have hframe : h.phase ≠ OSMTPD_PHASE_LINK_DISCONNECT →
      session_keys s1 = session_keys (dispatch_state env (newline_linedup s line) h tok) := by
    intro hph
    have hp : cb.osmtpd_cb ≠ parser_fn.link_disconnect :=
      fun e => hph ((line_parser_disconnect _ _ _ _ hsig).1 e)
    exact (payload_frame_call_osmtpd_cb env _ s1 cb _ params hp hc).2.1
  refine ⟨cb, tok, params, evs, hc, dispatch_state_find env _ h tok, ?_, he2, ?_, ?_⟩
  · rw [he1, dispatch_state_trace]
  · intro c0 hc0
    have hf2 : RB_FIND h.reqid (newline_linedup s line).osmtpd_sessions = some c0 := hc0
    have hk : session_keys (dispatch_state env (newline_linedup s line) h tok) =
        session_keys s := by
      rw [hst, session_lookup_found env _ h.reqid c0 hf2]; rfl
    refine ⟨(dispatch_ctx_found env s line h c0 hc0).2, hk, fun hph => ?_⟩
    rw [hframe hph, hk]
  · intro hnone
    have hf2 : RB_FIND h.reqid (newline_linedup s line).osmtpd_sessions = none := hnone
    have hperm : (session_keys (dispatch_state env (newline_linedup s line) h tok)).Perm
        (h.reqid :: session_keys s) := by
      rw [hst]; exact (session_lookup_new env _ h.reqid hf2).2.2.1
    refine ⟨?_, hperm, fun hph => ?_, dispatch_ctx_new env s line h tok hnone,
      rfl, rfl, rfl, rfl, rfl, rfl, rfl, rfl, rfl, rfl, rfl, rfl, rfl, rfl⟩
    · unfold creation_events; rw [hnone]
    · rw [hframe hph]; exact hperm

/-- Witness of C15: the first line of session 1, with the constructor 21
set. -/
theorem session_creation_witness :
    RB_FIND 1 report_ready.osmtpd_sessions = none ∧
    session_keys (after_lines hook_env report_ready [line_in_begin]) = [1] ∧
    ∃ evs,
      (after_lines hook_env report_ready [line_in_begin]).trace =
        report_ready.trace ++ [event.oncreate_session 21 (new_session 1)] ++ evs ∧
      ∀ e ∈ evs, e.is_oncreate_session = false := by
  obtain ⟨cb, tok, params, evs, _, _, h3, h4, _, h6⟩ :=
    session_creation hook_env report_ready (after_lines hook_env report_ready [line_in_begin])
      line_in_begin
      ⟨OSMTPD_TYPE_REPORT, 0, 7, ⟨1700000000, 0⟩, 1, OSMTPD_PHASE_TX_BEGIN, 1, 0,
        some "0000abcd".toList⟩
      (by decide) (by decide) rfl
  have h7 := (h6 (by decide)).1
  rw [h7] at h3
  exact ⟨by decide, by decide, evs, h3, h4⟩

/-! ## Phases and the catalog lookup -/

theorem osmtpd_strtophase_none (str : List Char) (hmem : str ∉ phase_spellings) :
    osmtpd_strtophase str = none := by
  simp only [phase_spellings, List.mem_cons, List.mem_singleton, not_or, List.not_mem_nil,
    not_false_eq_true, and_true] at hmem
  unfold osmtpd_strtophase
  simp only [hmem, if_false]

/-- C25: `osmtpd_strtophase (osmtpd_phasetostr p) = p` for every phase `p`;
`osmtpd_strtophase` returns `p` only on the spelling `osmtpd_phasetostr p`; the
strings it accepts are exactly the 32 spellings of the spec, and on every
other string it calls `osmtpd_errx` (the value `none`). -/
theorem osmtpd_strtophase_roundtrip :
    (∀ p, osmtpd_strtophase (osmtpd_phasetostr p) = some p) ∧
    (∀ str p, osmtpd_strtophase str = some p ↔ str = osmtpd_phasetostr p) ∧
    (∀ str, osmtpd_strtophase str = none ↔ str ∉ phase_spellings) := by
  have h1 : ∀ p, osmtpd_strtophase (osmtpd_phasetostr p) = some p := by
    intro p; cases p <;> decide
  have h0 : ∀ t ∈ phase_spellings, osmtpd_strtophase t ≠ none ∧
      t = osmtpd_phasetostr ((osmtpd_strtophase t).getD OSMTPD_PHASE_CONNECT) := by decide
  have h2 : ∀ str p, osmtpd_strtophase str = some p → str = osmtpd_phasetostr p := by
    intro str p h
    by_cases hmem : str ∈ phase_spellings
    · have := (h0 str hmem).2
      rw [h] at this
      exact this
    · rw [osmtpd_strtophase_none str hmem] at h; cases h
  refine ⟨h1, fun str p => ⟨h2 str p, fun e => by rw [e]; exact h1 p⟩, fun str => ?_⟩
  constructor
  · intro hn hmem
    exact (h0 str hmem).1 hn
  · exact osmtpd_strtophase_none str

theorem find_callback_none (type : osmtpd_type) (phase : osmtpd_phase) (incoming : Int)
    (cbs : List osmtpd_callback) (h : (type, phase, incoming) ∉ cbs.map entry_key) :
    find_callback type phase incoming cbs = none := by
  induction cbs with
  | nil => rfl
  | cons e es ih =>
    unfold find_callback
    have h1 : ¬ (type = e.type ∧ phase = e.phase ∧ incoming = e.incoming) := by
      rintro ⟨a, b, c⟩
      apply h
      simp [entry_key, a, b, c]
    rw [if_neg h1]
    apply ih
    intro hm
    apply h
    simp only [List.map_cons, List.mem_cons]
    exact Or.inr hm

theorem catalog_shaped_keys (cbs : List osmtpd_callback) (h : catalog_shaped cbs) :
    cbs.map entry_key = osmtpd_callbacks_init.map entry_key := by
  have e : entry_key = (fun x : osmtpd_type × osmtpd_phase × Int × parser_fn =>
      (x.1, x.2.1, x.2.2.1)) ∘ catalog_sig := rfl
  rw [e, ← List.map_map, h, List.map_map]

/-- C26: a `filter` or `report` line whose event `(type, phase, direction)` is
not in the catalog is fatal with the message `received unregistered line`;
the exit happens before any payload parser: nothing is written, and the only
call that can have been logged for the line is the session constructor of a
new `reqid`.  No outbound `filter` event is in the catalog, no `report` event
with a phase of the `filter` events, no `filter` event with another phase,
and not the outbound `report` event `link-auth`. -/
theorem unregistered_line_fatal (env : user_code) (s : State) (line : List Char)
    (h : line_header)
    (hcat : catalog_shaped s.osmtpd_callbacks)
    (hh : osmtpd_newline_header line = some h)
    (hkey : (h.type, h.phase, h.incoming) ∉ osmtpd_callbacks_init.map entry_key) :
    osmtpd_newline_line env s line =
      fatal_line (dispatch_state env (newline_linedup s line) h 0)
        "Invalid line received: received unregistered line: ".toList ∧
    (dispatch_state env (newline_linedup s line) h 0).trace =
      s.trace ++ creation_events s h.reqid ∧
    (dispatch_state env (newline_linedup s line) h 0).io_stdout = s.io_stdout ∧
    (∀ p, (OSMTPD_TYPE_FILTER, p, (0 : Int)) ∉ osmtpd_callbacks_init.map entry_key) ∧
    (∀ p ∈ filter_phases, ∀ i : Int,
      (OSMTPD_TYPE_REPORT, p, i) ∉ osmtpd_callbacks_init.map entry_key) ∧
    (∀ p, p ∉ filter_phases → ∀ i : Int,
      (OSMTPD_TYPE_FILTER, p, i) ∉ osmtpd_callbacks_init.map entry_key) ∧
    (OSMTPD_TYPE_REPORT, OSMTPD_PHASE_LINK_AUTH, (0 : Int)) ∉
      osmtpd_callbacks_init.map entry_key := by
  have hnone : find_callback h.type h.phase h.incoming s.osmtpd_callbacks = none :=
    find_callback_none _ _ _ _ (by rw [catalog_shaped_keys _ hcat]; exact hkey)
  have hall : ∀ x ∈ osmtpd_callbacks_init.map entry_key,
      (x.1 = OSMTPD_TYPE_FILTER → x.2.2 = 1 ∧ x.2.1 ∈ filter_phases) ∧
      (x.1 = OSMTPD_TYPE_REPORT → x.2.1 ∉ filter_phases) ∧
      x ≠ (OSMTPD_TYPE_REPORT, OSMTPD_PHASE_LINK_AUTH, (0 : Int)) := by decide
  refine ⟨?_, dispatch_state_trace env s line h 0, ?_, ?_, ?_, ?_, ?_⟩
  · rw [osmtpd_newline_line_header env s line h hh]
    unfold dispatch_header osmtpd_newline_dispatch
    simp only [ctx_write_callbacks, (session_lookup_frame env _ h.reqid).1]
    have hnone2 : find_callback h.type h.phase h.incoming
        (newline_linedup s line).osmtpd_callbacks = none := hnone
    rw [hnone2]
    rfl
  · exact (session_lookup_frame env _ h.reqid).2.1
  · intro p hm
    have := ((hall _ hm).1 rfl).1
    cases this
  · intro p hp i hm
    exact (hall _ hm).2.1 rfl hp
  · intro p hp i hm
    exact hp ((hall _ hm).1 rfl).2
  · intro hm
    exact (hall _ hm).2.2 rfl

/-- Witness of C26: an outbound `filter` line is fatal. -/
theorem unregistered_line_fatal_witness :
    osmtpd_newline_line hook_env report_ready line_out_connect =
      fatal_line
        (dispatch_state hook_env (newline_linedup report_ready line_out_connect)
          ⟨OSMTPD_TYPE_FILTER, 0, 7, ⟨1700000000, 0⟩, 0, OSMTPD_PHASE_CONNECT, 1, 0,
            some "0000000000000002|h|1.2.3.4".toList⟩ 0)
        "Invalid line received: received unregistered line: ".toList :=
  (unregistered_line_fatal hook_env report_ready line_out_connect
    ⟨OSMTPD_TYPE_FILTER, 0, 7, ⟨1700000000, 0⟩, 0, OSMTPD_PHASE_CONNECT, 1, 0,
      some "0000000000000002|h|1.2.3.4".toList⟩
    (by decide) (by decide) (by decide)).1

/-! ## Claim on the configuration lines -/

/-- C30: a line `config|<rest>` is handled by the `config` branch alone (it
never reaches the version parser).  For `rest = ready` the configuration
callback, if registered, is called with `(NULL, NULL)`.  For `rest =
<key>|<value>`, cut at the first `|`, it is called with `(key, value)`
whatever the key is; for the key `smtp-session-timeout` the value must be
accepted by `strtonum(value, 0, INT_MAX)` and becomes `session_timeout`,
otherwise the line is fatal, with or without a callback; for any other key
nothing else happens.  A `config` line that is accepted leaves the session
tree, the catalog and the output as they were.  `strtonum` accepts `0` and
`2147483647` and refuses `2147483648`, `-1` and `5m`. -/
theorem config_line (env : user_code) (s : State) (rest : List Char) :
    osmtpd_newline_line env s ("config".toList ++ '|' :: rest) =
      osmtpd_newline_config (newline_linedup s ("config".toList ++ '|' :: rest)) rest ∧
    osmtpd_newline_header ("config".toList ++ '|' :: rest) = none ∧
    (∀ s0 : State, osmtpd_newline_config s0 "ready".toList = .ok (conf_call s0 none none)) ∧
    (∀ (s0 : State) (key value : List Char), '|' ∉ key →
      key ≠ "smtp-session-timeout".toList →
      osmtpd_newline_config s0 (key ++ '|' :: value) =
        .ok (conf_call s0 (some key) (some value))) ∧
    (∀ (s0 : State) (value : List Char) (v : Int),
      strtonum value 0 INT_MAX = some v →
      osmtpd_newline_config s0 ("smtp-session-timeout".toList ++ '|' :: value) =
        .ok { conf_call s0 (some "smtp-session-timeout".toList) (some value) with
                session_timeout := v }) ∧
    (∀ (s0 : State) (value : List Char),
      strtonum value 0 INT_MAX = none →
      ∃ msg st, osmtpd_newline_config s0 ("smtp-session-timeout".toList ++ '|' :: value) =
        .error (Halt.exit 1 msg st)) ∧
    (∀ s1, osmtpd_newline_line env s ("config".toList ++ '|' :: rest) = .ok s1 →
      s1.osmtpd_sessions = s.osmtpd_sessions ∧ same_setup s s1 ∧
      s1.io_stdout = s.io_stdout) ∧
    strtonum "0".toList 0 INT_MAX = some 0 ∧
    strtonum "2147483647".toList 0 INT_MAX = some 2147483647 ∧
    strtonum "2147483648".toList 0 INT_MAX = none ∧
    strtonum "-1".toList 0 INT_MAX = none ∧
    strtonum "5m".toList 0 INT_MAX = none := by
  have hline : osmtpd_newline_line env s ("config".toList ++ '|' :: rest) =
      osmtpd_newline_config (newline_linedup s ("config".toList ++ '|' :: rest)) rest := by
    unfold osmtpd_newline_line
    simp only [strchr_split_append '|' "config".toList rest (by decide)]
    rw [if_neg (by decide), if_neg (by decide), if_pos trivial]
  have hready : ∀ key value : List Char, key ++ '|' :: value ≠ "ready".toList := by
    intro key value e
    have : '|' ∈ key ++ '|' :: value := by simp
    rw [e] at this
    revert this
    decide
  refine ⟨hline, ?_, ?_, ?_, ?_, ?_, ?_, by decide, by decide, by decide, by decide,
    by decide⟩
  · unfold osmtpd_newline_header
    simp only [strchr_split_append '|' "config".toList rest (by decide)]
    rw [if_neg (by decide), if_neg (by decide)]
  · intro s0
    unfold osmtpd_newline_config conf_call
    rw [if_pos rfl]
  · intro s0 key value hbar hkey
    unfold osmtpd_newline_config conf_call
    rw [if_neg (hready key value), strchr_split_append '|' key value hbar]
    simp only
    rw [if_neg hkey]
  · intro s0 value v hv
    unfold osmtpd_newline_config conf_call
    rw [if_neg (hready _ value),
      strchr_split_append '|' "smtp-session-timeout".toList value (by decide)]
    simp only
    rw [if_pos trivial, hv]
  · intro s0 value hv
    unfold osmtpd_newline_config
    rw [if_neg (hready _ value),
      strchr_split_append '|' "smtp-session-timeout".toList value (by decide)]
    simp only
    rw [if_pos trivial, hv]
    exact ⟨_, _, rfl⟩
  · intro s1 hok
    rw [hline] at hok
    have hfr := osmtpd_newline_config_frame
      (newline_linedup s ("config".toList ++ '|' :: rest)) s1 rest hok
    exact hfr

/-! ## Claims on the payload of the transaction lines -/

theorem to_uint32_big (v : Nat) (h : 2 ^ 32 ≤ v) : to_uint32 v ≠ v := by
  unfold to_uint32
  have := Nat.mod_lt v (show 0 < 2 ^ 32 by decide)
  omega

theorem to_uint32_small (v : Nat) (h : v < 2 ^ 32) : to_uint32 v = v :=
  Nat.mod_eq_of_lt h

theorem tx_msgid_big (s : State) (text : List Char) (h : 2 ^ 32 ≤ (strtoul text 16).val) :
    ∃ m, tx_msgid s (some text) = .error (Halt.exit 1 m s) := by
  unfold tx_msgid
  simp only
  split_ifs with h1 h2 h3
  · exact ⟨_, rfl⟩
  · exact ⟨_, rfl⟩
  · exact ⟨_, rfl⟩
  · exact absurd (not_not.1 h3) (to_uint32_big _ h)

theorem tx_msgid_small (s : State) (text rest : List Char)
    (h : (strtoul text 16).val < 2 ^ 32) (hend : (strtoul text 16).endptr = '|' :: rest) :
    tx_msgid s (some text) = .ok ((strtoul text 16).val, rest) := by
  unfold tx_msgid
  simp only
  have hmax : ¬ ((strtoul text 16).val = ULONG_MAX ∧ (strtoul text 16).erange = true) := by
    rintro ⟨e, _⟩
    rw [e] at h
    revert h
    decide
  rw [if_neg hmax, hend, if_neg (by simp), if_neg (by simpa using to_uint32_small _ h),
    to_uint32_small _ h]
  rfl

/-- C22: every `tx-*` payload parser is fatal on a message id whose value is
above `2^32 - 1`.  A value up to `2^32 - 1` followed by `|` passes the common
checks of `tx-mail`, `tx-rcpt`, `tx-envelope`, `tx-data` and `tx-commit`
(`tx_msgid`), and one that ends the payload passes the checks of `tx-begin`
and `tx-rollback`, which go on to the hook and the callback.  The message id
`0000000100000000` has the value `2^32`, `ffffffff` the value `2^32 - 1`. -/
theorem tx_msgid_range (env : user_code) (s : State) (cb : osmtpd_callback) (ctx : osmtpd_ctx)
    (text : List Char) :
    (2 ^ 32 ≤ (strtoul text 16).val →
      (∃ m st, osmtpd_tx_begin env s cb ctx (some text) = .error (Halt.exit 1 m st)) ∧
      (∃ m st, osmtpd_tx_mail env s cb ctx (some text) = .error (Halt.exit 1 m st)) ∧
      (∃ m st, osmtpd_tx_rcpt env s cb ctx (some text) = .error (Halt.exit 1 m st)) ∧
      (∃ m st, osmtpd_tx_envelope env s cb ctx (some text) = .error (Halt.exit 1 m st)) ∧
      (∃ m st, osmtpd_tx_data env s cb ctx (some text) = .error (Halt.exit 1 m st)) ∧
      (∃ m st, osmtpd_tx_commit env s cb ctx (some text) = .error (Halt.exit 1 m st)) ∧
      (∃ m st, osmtpd_tx_rollback env s cb ctx (some text) = .error (Halt.exit 1 m st))) ∧
    ((strtoul text 16).val < 2 ^ 32 →
      (∀ rest, (strtoul text 16).endptr = '|' :: rest →
        tx_msgid s (some text) = .ok ((strtoul text 16).val, rest)) ∧
      ((strtoul text 16).endptr = [] →
        osmtpd_tx_rollback env s cb ctx (some text) =
          (match call_user_if env s cb.cb ctx
              (cb_args.tx_rollback (strtoul text 16).val) with
            | .error h => .error h
            | .ok s1 => .ok (tx_end s1 ctx)) ∧
        osmtpd_tx_begin env s cb ctx (some text) =
          (if s.oncreatecb_message ≠ NULL then
            call_user_if env
              (ctx_write
                { ctx_write s (tx_begin_ctx cb ctx (strtoul text 16).val) with
                    trace := s.trace ++
                      message_events s (tx_begin_ctx cb ctx (strtoul text 16).val) }
                { tx_begin_ctx cb ctx (strtoul text 16).val with
                    local_message :=
                      tx_begin_message env s (tx_begin_ctx cb ctx (strtoul text 16).val) })
              cb.cb
              { tx_begin_ctx cb ctx (strtoul text 16).val with
                  local_message :=
                    tx_begin_message env s (tx_begin_ctx cb ctx (strtoul text 16).val) }
              (cb_args.tx_begin (strtoul text 16).val)
          else
            call_user_if env (ctx_write s (tx_begin_ctx cb ctx (strtoul text 16).val)) cb.cb
              (tx_begin_ctx cb ctx (strtoul text 16).val)
              (cb_args.tx_begin (strtoul text 16).val)))) ∧
    (strtoul "0000000100000000|ok|<a@b>".toList 16).val = 2 ^ 32 ∧
    (strtoul "ffffffff|ok|<a@b>".toList 16).val = 2 ^ 32 - 1 := by
  refine ⟨?_, ?_, by decide, by decide⟩
  · intro hbig
    obtain ⟨m, hm⟩ := tx_msgid_big s text hbig
    have hne := to_uint32_big _ hbig
    refine ⟨?_, ?_, ?_, ?_, ?_, ?_, ?_⟩
    · unfold osmtpd_tx_begin
      simp only
      split_ifs with h1
      · exact ⟨_, _, rfl⟩
      · exact ⟨_, _, rfl⟩
    · unfold osmtpd_tx_mail; rw [hm]; exact ⟨_, _, rfl⟩
    · unfold osmtpd_tx_rcpt; rw [hm]; exact ⟨_, _, rfl⟩
    · unfold osmtpd_tx_envelope; rw [hm]; exact ⟨_, _, rfl⟩
    · unfold osmtpd_tx_data; rw [hm]; exact ⟨_, _, rfl⟩
    · unfold osmtpd_tx_commit; rw [hm]; exact ⟨_, _, rfl⟩
    · unfold osmtpd_tx_rollback
      simp only
      split_ifs with h1 h2
      · exact ⟨_, _, rfl⟩
      · exact ⟨_, _, rfl⟩
      · exact ⟨_, _, rfl⟩
  · intro hsmall
    have hu := to_uint32_small _ hsmall
    have hmax : ¬ ((strtoul text 16).val = ULONG_MAX ∧ (strtoul text 16).erange = true) := by
      rintro ⟨e, _⟩
      rw [e] at hsmall
      revert hsmall
      decide
    refine ⟨fun rest hend => tx_msgid_small s text rest hsmall hend, fun hend => ⟨?_, ?_⟩⟩
    · unfold osmtpd_tx_rollback
      simp only
      rw [if_neg hmax, if_neg (by simpa using hend), if_neg (by simpa using hu), hu]
    · unfold osmtpd_tx_begin tx_begin_ctx tx_begin_message message_events
      simp only
      rw [if_neg (by rintro (h | h); exact hmax h; exact h hend), if_neg (by simpa using hu), hu]
      by_cases hk : s.oncreatecb_message ≠ NULL
      · have hk2 : (ctx_write s (if cb.storereport = false then
            { ctx with msgid := 0 } else { ctx with msgid := (strtoul text 16).val })
            ).oncreatecb_message ≠ NULL := hk
        by_cases hst : cb.storereport = true
        · simp [hst, hk, ctx_write]
        · simp [hst, hk, ctx_write]
      · by_cases hst : cb.storereport = true
        · simp [hst, hk, ctx_write]
        · simp [hst, hk, ctx_write]

/-! ## Lemmas on the header of a line given by its fields -/

/-- The header of a line given by well-formed fields: the major version must
be 0 as an `int`, the direction `smtp-in` or `smtp-out`, the phase one that
`osmtpd_strtophase` knows; then the reqid field is read. -/
theorem header_event_line (kind maj min sec frac dir ph rest : List Char) (tv_sec nsec : Int)
    (hf : event_fields kind maj min sec frac dir ph tv_sec nsec) :
    osmtpd_newline_header (event_line kind maj min sec frac dir ph rest) =
      if to_int (decimal_value maj) ≠ 0 then none
      else if dir ≠ "smtp-in".toList ∧ dir ≠ "smtp-out".toList then none
      else
        match osmtpd_strtophase ph with
        | none => none
        | some phase =>
          header_reqid (kind_type kind) (to_int (decimal_value maj))
            (to_int (decimal_value min))
            ⟨tv_sec, to_long (nsec * (10 * (9 - ((frac.length : Int) + 1))))⟩
            (if dir = "smtp-in".toList then 1 else 0) phase rest := by
  obtain ⟨hk, hmaj1, hmaj2, hmaj3, hmin1, hmin2, hmin3, hs1, hs2, hf1, hf2, hd1, hp1⟩ := hf
  have hkbar : '|' ∉ kind := by
    rcases hk with e | e <;> (rw [e]; decide)
  have hev : ∀ type : osmtpd_type,
      header_event type (maj ++ '.' :: (min ++ '|' :: (sec ++ '.' :: (frac ++ '|' ::
        (dir ++ '|' :: (ph ++ '|' :: rest)))))) =
      if to_int (decimal_value maj) ≠ 0 then none
      else if dir ≠ "smtp-in".toList ∧ dir ≠ "smtp-out".toList then none
      else
        match osmtpd_strtophase ph with
        | none => none
        | some phase =>
          header_reqid type (to_int (decimal_value maj)) (to_int (decimal_value min))
            ⟨tv_sec, to_long (nsec * (10 * (9 - ((frac.length : Int) + 1))))⟩
            (if dir = "smtp-in".toList then 1 else 0) phase rest := by
    intro type
    have h1 := strtoul_decimal maj ('.' :: (min ++ '|' :: (sec ++ '.' :: (frac ++ '|' ::
        (dir ++ '|' :: (ph ++ '|' :: rest)))))) hmaj1 hmaj2 (not_digit_dot 10 (by decide) _) hmaj3
    have h2 := strtoul_decimal min ('|' :: (sec ++ '.' :: (frac ++ '|' ::
        (dir ++ '|' :: (ph ++ '|' :: rest))))) hmin1 hmin2 (not_digit_bar 10 (by decide) _) hmin3
    have hl1 : maj.length ≠ 0 := fun e => hmaj1 (List.length_eq_zero.1 e)
    have hl2 : min.length ≠ 0 := fun e => hmin1 (List.length_eq_zero.1 e)
    unfold header_event
    simp only [h1, List.tail_cons, List.head?_cons, h2]
    rw [if_neg (by simp [hmaj1]), if_neg (by simp), if_neg (by simp [hmin1])]
    by_cases hz : to_int (decimal_value maj) ≠ 0
    · rw [if_pos hz, if_pos hz]
    · rw [if_neg hz, if_neg hz]
      unfold header_time
      rw [strchr_split_append '.' sec _ hs1]
      simp only [hs2]
      rw [strchr_split_append '|' frac _ hf1]
      simp only [hf2]
      unfold header_phase
      rw [strchr_split_append '|' dir _ hd1]
      simp only
      by_cases hdir : dir ≠ "smtp-in".toList ∧ dir ≠ "smtp-out".toList
      · rw [if_pos hdir, if_pos hdir]
      · rw [if_neg hdir, if_neg hdir, strchr_split_append '|' ph _ hp1]
  unfold osmtpd_newline_header event_line kind_type
  simp only [strchr_split_append '|' kind _ hkbar]
  rcases hk with e | e
  · rw [if_pos e, if_pos e]; exact hev _
  · have hne : kind ≠ "filter".toList := by rw [e]; decide
    rw [if_neg hne, if_pos e, if_neg hne]; exact hev _

/-- A line without a header that is not a `config` line is fatal in the
state in which only the copy of the line has been taken. -/
theorem osmtpd_newline_line_fatal (env : user_code) (s : State) (line : List Char)
    (hh : osmtpd_newline_header line = none)
    (hc : ∀ rest, strchr_split '|' line ≠ some ("config".toList, rest)) :
    ∃ msg, osmtpd_newline_line env s line = fatal_line (newline_linedup s line) msg := by
  unfold osmtpd_newline_header at hh
  unfold osmtpd_newline_line
  cases hs : strchr_split '|' line with
  | none => exact ⟨_, rfl⟩
  | some p =>
    obtain ⟨kind, rest⟩ := p
    rw [hs] at hh
    simp only at hh ⊢
    by_cases h1 : kind = "filter".toList
    · simp only [if_pos h1] at hh ⊢
      have := header_event_spec env (newline_linedup s line) OSMTPD_TYPE_FILTER rest
      rw [hh] at this; exact this
    · simp only [if_neg h1] at hh ⊢
      by_cases h2 : kind = "report".toList
      · simp only [if_pos h2] at hh ⊢
        have := header_event_spec env (newline_linedup s line) OSMTPD_TYPE_REPORT rest
        rw [hh] at this; exact this
      · simp only [if_neg h2]
        by_cases h3 : kind = "config".toList
        · exact absurd (by rw [hs, h3]) (hc rest)
        · simp only [if_neg h3]
          exact ⟨_, rfl⟩

theorem event_line_not_config (kind maj min sec frac dir ph rest : List Char)
    (hk : kind = "filter".toList ∨ kind = "report".toList) :
    ∀ r, strchr_split '|' (event_line kind maj min sec frac dir ph rest) ≠
      some ("config".toList, r) := by
  intro r
  have hkbar : '|' ∉ kind := by
    rcases hk with e | e <;> (rw [e]; decide)
  unfold event_line
  rw [strchr_split_append '|' kind _ hkbar]
  intro e
  simp only [Option.some.injEq, Prod.mk.injEq] at e
  rcases hk with e1 | e1 <;> (rw [e1] at e; exact absurd e.1 (by decide))

theorem header_reqid_fields (type : osmtpd_type) (vM vm : Int) (tm : timespec)
    (incoming : Int) (phase : osmtpd_phase) (line : List Char) (h : line_header)
    (hh : header_reqid type vM vm tm incoming phase line = some h) :
    h.type = type ∧ h.version_major = vM ∧ h.version_minor = vm ∧ h.tm = tm ∧
      h.incoming = incoming ∧ h.phase = phase ∧ h.reqid = (strtoull line 16).val := by
  unfold header_reqid at hh
  simp only at hh
  split_ifs at hh
  all_goals
    simp only [Option.some.injEq] at hh
    subst hh
    exact ⟨rfl, rfl, rfl, rfl, rfl, rfl, rfl⟩

/-! ## Claims on the header fields -/

/-- C23: in a line with well-formed fields before it, a direction field that
is neither `smtp-in` nor `smtp-out` makes the line fatal before the session
is looked up: the exit state differs from the state before the line only in
the copy of the line, so no callback has been called.  When the line gets as
far as the session lookup, the direction is exactly `smtp-in` with
`incoming = 1` or exactly `smtp-out` with `incoming = 0`. -/
theorem direction_field (env : user_code) (s : State)
    (kind maj min sec frac dir ph rest : List Char) (tv_sec nsec : Int)
    (hf : event_fields kind maj min sec frac dir ph tv_sec nsec) :
    (dir ≠ "smtp-in".toList ∧ dir ≠ "smtp-out".toList →
      osmtpd_newline_header (event_line kind maj min sec frac dir ph rest) = none ∧
      ∃ msg, osmtpd_newline_line env s (event_line kind maj min sec frac dir ph rest) =
        .error (Halt.exit 1 msg
          (newline_linedup s (event_line kind maj min sec frac dir ph rest)))) ∧
    (newline_linedup s (event_line kind maj min sec frac dir ph rest)).trace = s.trace ∧
    (∀ h, osmtpd_newline_header (event_line kind maj min sec frac dir ph rest) = some h →
      (dir = "smtp-in".toList ∧ h.incoming = 1) ∨
      (dir = "smtp-out".toList ∧ h.incoming = 0)) := by
  have hhead := header_event_line kind maj min sec frac dir ph rest tv_sec nsec hf
  refine ⟨fun hdir => ?_, rfl, fun h hh => ?_⟩
  · have hnone : osmtpd_newline_header (event_line kind maj min sec frac dir ph rest) =
        none := by
      rw [hhead]
      split_ifs <;> rfl
    obtain ⟨msg, hm⟩ := osmtpd_newline_line_fatal env s _ hnone
      (event_line_not_config kind maj min sec frac dir ph rest hf.1)
    exact ⟨hnone, _, hm⟩
  · rw [hhead] at hh
    by_cases h1 : to_int (decimal_value maj) ≠ 0
    · rw [if_pos h1] at hh; cases hh
    · rw [if_neg h1] at hh
      by_cases h2 : dir ≠ "smtp-in".toList ∧ dir ≠ "smtp-out".toList
      · rw [if_pos h2] at hh; cases hh
      · rw [if_neg h2] at hh
        cases hp : osmtpd_strtophase ph with
        | none => rw [hp] at hh; cases hh
        | some phase =>
          rw [hp] at hh
          have hinc := (header_reqid_fields _ _ _ _ _ _ _ h hh).2.2.2.2.1
          by_cases hin : dir = "smtp-in".toList
          · rw [if_pos hin] at hinc; exact Or.inl ⟨hin, hinc⟩
          · rw [if_neg hin] at hinc
            have hout : dir = "smtp-out".toList := by
              by_contra hne; exact h2 ⟨hin, hne⟩
            exact Or.inr ⟨hout, hinc⟩

/-- Witness of C23: the direction `smtp-foo`. -/
theorem direction_field_witness :
    osmtpd_newline_header line_foo_begin = none ∧
    ∃ msg, osmtpd_newline_line hook_env report_ready line_foo_begin =
      .error (Halt.exit 1 msg (newline_linedup report_ready line_foo_begin)) :=
  (direction_field hook_env report_ready "report".toList "0".toList "7".toList
    "1700000000".toList "000000000".toList "smtp-foo".toList "tx-begin".toList
    "0000000000000001|0000abcd".toList 1700000000 0
    (by unfold event_fields; decide)).1 (by decide)

/-- C24 (failing input): the major version is read with `strtoul` and stored
in an `int`.  The version `4294967296.7` has a major that is not 0, yet the
line is accepted as protocol `0.7`: the payload parser runs and the session
is created with `version_major = 0`. -/
theorem version_major_wraps :
    decimal_value "4294967296".toList ≠ 0 ∧
    osmtpd_newline_header line_major_wrap =
      some ⟨OSMTPD_TYPE_REPORT, 0, 7, ⟨1700000000, 0⟩, 1, OSMTPD_PHASE_TX_BEGIN, 1, 0,
        some "0000abcd".toList⟩ ∧
    osmtpd_newline_line hook_env report_ready line_major_wrap =
      .ok (after_lines hook_env report_ready [line_major_wrap]) ∧
    (after_lines hook_env report_ready [line_major_wrap]).osmtpd_sessions.map
      (fun c => (c.reqid, c.version_major, c.version_minor, c.msgid)) = [(1, 0, 7, 43981)] :=
  ⟨by decide, by decide, rfl, by decide⟩

/-- C27 (failing input): the fraction of the timestamp is multiplied by
`10 * (9 - (digits + 1))`, not by `10 ^ (9 - digits)`.  The timestamp
`1700000000.5` is stored with `tv_nsec = 350` (not 500000000), and
`1700000000.123456789` with `tv_nsec = -1234567890` (not 123456789). -/
theorem timestamp_fraction_scaled :
    (osmtpd_newline_header line_half_second).map (fun h => h.tm) =
      some ⟨1700000000, 350⟩ ∧
    osmtpd_newline_line hook_env report_ready line_half_second =
      .ok (after_lines hook_env report_ready [line_half_second]) ∧
    (after_lines hook_env report_ready [line_half_second]).osmtpd_sessions.map
      (fun c => c.tm) = [⟨1700000000, 350⟩] ∧
    (osmtpd_newline_header line_nine_digits).map (fun h => h.tm) =
      some ⟨1700000000, -1234567890⟩ ∧
    osmtpd_newline_line hook_env report_ready line_nine_digits =
      .ok (after_lines hook_env report_ready [line_nine_digits]) ∧
    (after_lines hook_env report_ready [line_nine_digits]).osmtpd_sessions.map
      (fun c => c.tm) = [⟨1700000000, -1234567890⟩] :=
  ⟨by decide, rfl, by decide, by decide, rfl, by decide⟩

theorem hex_digit_not_x (c : Char) (h : digit_value c < 16) : ¬ (c = 'x' ∨ c = 'X') := by
  rintro (e | e) <;> (rw [e] at h; revert h; decide)

theorem strto_skip0x_hex_bar (ds rest : List Char) (hne : ds ≠ [])
    (hd : ∀ c ∈ ds, digit_value c < 16) (hrest : rest = [] ∨ ∃ r, rest = '|' :: r) :
    strto_skip0x 16 (ds ++ rest) = ds ++ rest := by
  unfold strto_skip0x
  simp only [if_true]
  match ds, hne, hd with
  | [a], _, _ =>
    rcases hrest with e | ⟨r, e⟩
    · rw [e]; rfl
    · rw [e]
      cases r with
      | nil => rfl
      | cons d r =>
        simp only [List.singleton_append]
        rw [if_neg (by rintro ⟨_, h, _⟩; rcases h with h | h <;> exact absurd h (by decide))]
  | a :: b :: tl, _, hd =>
    have hb : ¬ (b = 'x' ∨ b = 'X') := hex_digit_not_x b (hd b (by simp))
    cases htl : tl ++ rest with
    | nil => simp [htl]
    | cons d r =>
      simp only [List.cons_append, htl]
      rw [if_neg (fun h => hb h.2.1)]

/-- `strtoull` in base 16 on a field of hexadecimal digits of either case that
ends the string or is followed by `|`: the value of the digits, or
`ULLONG_MAX` with `ERANGE` when the value does not fit 64 bits. -/
theorem strtoull_hex (ds rest : List Char) (hne : ds ≠ [])
    (hd : ∀ c ∈ ds, digit_value c < 16) (hrest : rest = [] ∨ ∃ r, rest = '|' :: r) :
    strtoull (ds ++ rest) 16 =
      if hex_value ds > ULONG_MAX then ⟨ULONG_MAX, rest, true⟩
      else ⟨hex_value ds, rest, false⟩ := by
  have hstop : ∀ c, rest.head? = some c → ¬ digit_value c < 16 := by
    rcases hrest with e | ⟨r, e⟩
    · rw [e]; intro c hc; cases hc
    · rw [e]; exact not_digit_bar 16 (by decide) r
  unfold strtoull strtoul
  rw [strto_subject_digits 16 (by decide) ds rest hne hd hstop
    (strto_skip0x_hex_bar ds rest hne hd hrest), hex_value_eq]
  simp only [Bool.true_eq_false, if_false, Bool.false_eq_true]

theorem digit_value_toUpper (c : Char) (h : digit_value c < 36) :
    digit_value c.toUpper = digit_value c := by
  have hlt : c.toNat < 128 := by
    unfold digit_value at h
    split_ifs at h <;> omega
  have hall : ∀ n : Fin 128,
      digit_value (Char.ofNat n.val).toUpper = digit_value (Char.ofNat n.val) := by decide
  have := hall ⟨c.toNat, hlt⟩
  simpa [Char.ofNat_toNat] using this

theorem digit_value_toLower (c : Char) (h : digit_value c < 36) :
    digit_value c.toLower = digit_value c := by
  have hlt : c.toNat < 128 := by
    unfold digit_value at h
    split_ifs at h <;> omega
  have hall : ∀ n : Fin 128,
      digit_value (Char.ofNat n.val).toLower = digit_value (Char.ofNat n.val) := by decide
  have := hall ⟨c.toNat, hlt⟩
  simpa [Char.ofNat_toNat] using this

theorem hex_value_map (f : Char → Char) (ds : List Char)
    (hf : ∀ c ∈ ds, digit_value (f c) = digit_value c) :
    hex_value (ds.map f) = hex_value ds := by
  unfold hex_value
  suffices h : ∀ acc, (ds.map f).foldl (fun a c => a * 16 + digit_value c) acc =
      ds.foldl (fun a c => a * 16 + digit_value c) acc from h 0
  induction ds with
  | nil => intro acc; rfl
  | cons x xs ih =>
    intro acc
    simp only [List.map_cons, List.foldl_cons, hf x (List.mem_cons_self _ _)]
    exact ih (fun c hc => hf c (List.mem_cons_of_mem _ hc)) _

/-- C28: the reqid field, a non-empty string `rs` of hexadecimal digits of
either case that ends the line or is followed by `|`, is read as an unsigned
64-bit number: when the value of the digits is at most `2^64 - 1` the line is
dispatched with that value as session key, and the record looked up or
created has that key; when the value is larger the line is fatal with
`invalid reqid`.  The upper-case and the lower-case spelling of `rs` are
again strings of hexadecimal digits and have the value of `rs`, so they are
dispatched with the same key. -/
theorem reqid_field (env : user_code) (s : State) (type : osmtpd_type) (vM vm : Int)
    (tm : timespec) (incoming : Int) (phase : osmtpd_phase) (rs rest : List Char)
    (hne : rs ≠ []) (hd : ∀ c ∈ rs, digit_value c < 16)
    (hrest : rest = [] ∨ ∃ r, rest = '|' :: r) :
    (hex_value rs ≤ ULLONG_MAX →
      osmtpd_newline_reqid env s type vM vm tm incoming phase (rs ++ rest) =
        osmtpd_newline_dispatch env s type vM vm tm incoming phase (hex_value rs) 0
          (if rest = [] then none else some rest.tail) ∧
      (session_lookup env s (hex_value rs)).2.reqid = hex_value rs) ∧
    (ULLONG_MAX < hex_value rs →
      osmtpd_newline_reqid env s type vM vm tm incoming phase (rs ++ rest) =
        fatal_line s "Invalid line received: invalid reqid: ".toList) ∧
    hex_value (rs.map Char.toUpper) = hex_value rs ∧
    hex_value (rs.map Char.toLower) = hex_value rs ∧
    (∀ c ∈ rs.map Char.toUpper, digit_value c < 16) ∧
    (∀ c ∈ rs.map Char.toLower, digit_value c < 16) := by
  have hstr := strtoull_hex rs rest hne hd hrest
  have hhead : rest.head? ≠ some '|' ∧ rest ≠ [] → False := by
    rintro ⟨h1, h2⟩
    rcases hrest with e | ⟨r, e⟩
    · exact h2 e
    · rw [e] at h1; exact h1 rfl
  have hup : ∀ c ∈ rs, digit_value c.toUpper = digit_value c :=
    fun c hc => digit_value_toUpper c (by have := hd c hc; omega)
  have hlow : ∀ c ∈ rs, digit_value c.toLower = digit_value c :=
    fun c hc => digit_value_toLower c (by have := hd c hc; omega)
  refine ⟨fun hle => ⟨?_, (session_lookup_frame env s _).2.2⟩, fun hgt => ?_,
    hex_value_map _ rs hup, hex_value_map _ rs hlow, ?_, ?_⟩
  · have hle2 : ¬ hex_value rs > ULONG_MAX := by
      have : ULLONG_MAX = ULONG_MAX := rfl
      omega
    rw [if_neg hle2] at hstr
    unfold osmtpd_newline_reqid
    simp only [hstr, Bool.false_eq_true, if_false]
    rw [if_neg (by
      rintro (⟨_, h0⟩ | h)
      · exact h0 rfl
      · exact hhead h)]
  · have hgt2 : hex_value rs > ULONG_MAX := hgt
    rw [if_pos hgt2] at hstr
    unfold osmtpd_newline_reqid
    simp only [hstr, if_true]
    rw [if_pos (Or.inl ⟨rfl, by decide⟩)]
  · intro c hc
    obtain ⟨d, hd1, hd2⟩ := List.mem_map.1 hc
    rw [← hd2, hup d hd1]; exact hd d hd1
  · intro c hc
    obtain ⟨d, hd1, hd2⟩ := List.mem_map.1 hc
    rw [← hd2, hlow d hd1]; exact hd d hd1

/-- Witness of C28: the reqid `00000000000000Ab`, value 171. -/
theorem reqid_field_witness :
    hex_value "00000000000000Ab".toList = 171 ∧
    osmtpd_newline_reqid hook_env report_ready OSMTPD_TYPE_REPORT 0 7 ⟨1700000000, 0⟩ 1
        OSMTPD_PHASE_TX_BEGIN ("00000000000000Ab".toList ++ "|0000abcd".toList) =
      osmtpd_newline_dispatch hook_env report_ready OSMTPD_TYPE_REPORT 0 7 ⟨1700000000, 0⟩ 1
        OSMTPD_PHASE_TX_BEGIN (hex_value "00000000000000Ab".toList) 0
        (if "|0000abcd".toList = [] then none else some "|0000abcd".toList.tail) :=
  ⟨by decide,
    ((reqid_field hook_env report_ready OSMTPD_TYPE_REPORT 0 7 ⟨1700000000, 0⟩ 1
      OSMTPD_PHASE_TX_BEGIN "00000000000000Ab".toList "|0000abcd".toList (by decide)
      (by decide) (Or.inr ⟨_, rfl⟩)).1 (by decide)).1⟩

/-! ## Lemmas and claim on the address lines -/

theorem header_phase_fields (type : osmtpd_type) (vM vm : Int) (tm : timespec)
    (line : List Char) (h : line_header) (hh : header_phase type vM vm tm line = some h) :
    h.type = type ∧ h.version_major = vM ∧ h.version_minor = vm ∧ h.tm = tm := by
  unfold header_phase at hh
  cases hs : strchr_split '|' line with
  | none => rw [hs] at hh; cases hh
  | some p =>
    obtain ⟨dir, line6⟩ := p
    rw [hs] at hh
    simp only at hh
    by_cases h1 : dir ≠ "smtp-in".toList ∧ dir ≠ "smtp-out".toList
    · rw [if_pos h1] at hh; cases hh
    · rw [if_neg h1] at hh
      cases hs2 : strchr_split '|' line6 with
      | none => rw [hs2] at hh; cases hh
      | some q =>
        obtain ⟨ph, line7⟩ := q
        rw [hs2] at hh
        simp only at hh
        cases hp : osmtpd_strtophase ph with
        | none => rw [hp] at hh; cases hh
        | some phase =>
          rw [hp] at hh
          obtain ⟨a, b, c, d, _⟩ := header_reqid_fields _ _ _ _ _ _ _ h hh
          exact ⟨a, b, c, d⟩

theorem header_time_fields (type : osmtpd_type) (vM vm : Int)
    (line : List Char) (h : line_header) (hh : header_time type vM vm line = some h) :
    h.type = type ∧ h.version_major = vM ∧ h.version_minor = vm := by
  unfold header_time at hh
  cases hs : strchr_split '.' line with
  | none => rw [hs] at hh; cases hh
  | some p =>
    obtain ⟨sec, line4⟩ := p
    rw [hs] at hh
    simp only at hh
    cases hn : strtonum sec 0 INT64_MAX with
    | none => rw [hn] at hh; cases hh
    | some tv_sec =>
      rw [hn] at hh
      simp only at hh
      cases hs2 : strchr_split '|' line4 with
      | none => rw [hs2] at hh; cases hh
      | some q =>
        obtain ⟨frac, line5⟩ := q
        rw [hs2] at hh
        simp only at hh
        cases hn2 : strtonum frac 0 LONG_MAX with
        | none => rw [hn2] at hh; cases hh
        | some nsec =>
          rw [hn2] at hh
          obtain ⟨a, b, c, _⟩ := header_phase_fields _ _ _ _ _ h hh
          exact ⟨a, b, c⟩

/-- Every line that gets as far as the session lookup has protocol major 0
and the type of its kind. -/
theorem osmtpd_newline_header_major (line : List Char) (h : line_header)
    (hh : osmtpd_newline_header line = some h) : h.version_major = 0 := by
  have hev : ∀ type rest, header_event type rest = some h → h.version_major = 0 := by
    intro type rest he
    unfold header_event at he
    simp only at he
    split_ifs at he with h1 h2 h3 h4
    have hz : to_int (strtoul rest 10).val = 0 := not_not.1 h4
    rw [← hz]
    exact (header_time_fields _ _ _ _ h he).2.1
  unfold osmtpd_newline_header at hh
  cases hs : strchr_split '|' line with
  | none => rw [hs] at hh; cases hh
  | some p =>
    obtain ⟨kind, rest⟩ := p
    rw [hs] at hh
    simp only at hh
    split_ifs at hh
    · exact hev _ _ hh
    · exact hev _ _ hh

theorem dispatch_ctx_version (env : user_code) (s : State) (h : line_header) (tok : Nat) :
    (dispatch_ctx env s h tok).version_major = h.version_major ∧
      (dispatch_ctx env s h tok).version_minor = h.version_minor := ⟨rfl, rfl⟩

/-- An accepted `tx-mail` payload. -/
theorem osmtpd_tx_mail_ok (env : user_code) (s s1 : State) (cb : osmtpd_callback)
    (ctx : osmtpd_ctx) (line : Option (List Char))
    (h : osmtpd_tx_mail env s cb ctx line = .ok s1) :
    ∃ text rest first second addr status,
      line = some text ∧ (strtoul text 16).endptr = '|' :: rest ∧
      strchr_split '|' rest = some (first, second) ∧
      tx_addr_status ctx first second = (addr, some status) ∧
      call_user_if env
        (ctx_write s (if cb.storereport then { ctx with mailfrom := some addr } else ctx)) cb.cb
        (if cb.storereport then { ctx with mailfrom := some addr } else ctx)
        (cb_args.tx_addr (strtoul text 16).val addr status) = .ok s1 := by
  unfold osmtpd_tx_mail at h
  cases hm : tx_msgid s line with
  | error e => rw [hm] at h; cases h
  | ok p =>
    obtain ⟨msgid, params⟩ := p
    rw [hm] at h
    simp only at h
    obtain ⟨text, ht, hv, _, hend⟩ := tx_msgid_ok s line msgid params hm
    cases hs : strchr_split '|' params with
    | none => rw [hs] at h; exact absurd h (fatal_line_ne_ok _ _ _)
    | some q =>
      obtain ⟨first, second⟩ := q
      rw [hs] at h
      simp only at h
      cases ha : tx_addr_status ctx first second with
      | mk addr st =>
        rw [ha] at h
        cases st with
        | none => exact absurd h (fatal_status_ne_ok _ _)
        | some status =>
          simp only at h
          rw [hv] at h
          exact ⟨text, params, first, second, addr, status, ht, hend, hs, ha, h⟩

/-- An accepted `tx-rcpt` payload. -/
theorem osmtpd_tx_rcpt_ok (env : user_code) (s s1 : State) (cb : osmtpd_callback)
    (ctx : osmtpd_ctx) (line : Option (List Char))
    (h : osmtpd_tx_rcpt env s cb ctx line = .ok s1) :
    ∃ text rest first second addr status,
      line = some text ∧ (strtoul text 16).endptr = '|' :: rest ∧
      strchr_split '|' rest = some (first, second) ∧
      tx_addr_status ctx first second = (addr, some status) ∧
      call_user_if env
        (ctx_write s
          (if cb.storereport then { ctx with rcptto := ctx.rcptto ++ [addr] } else ctx)) cb.cb
        (if cb.storereport then { ctx with rcptto := ctx.rcptto ++ [addr] } else ctx)
        (cb_args.tx_addr (strtoul text 16).val addr status) = .ok s1 := by
  unfold osmtpd_tx_rcpt at h
  cases hm : tx_msgid s line with
  | error e => rw [hm] at h; cases h
  | ok p =>
    obtain ⟨msgid, params⟩ := p
    rw [hm] at h
    simp only at h
    obtain ⟨text, ht, hv, _, hend⟩ := tx_msgid_ok s line msgid params hm
    cases hs : strchr_split '|' params with
    | none => rw [hs] at h; exact absurd h (fatal_line_ne_ok _ _ _)
    | some q =>
      obtain ⟨first, second⟩ := q
      rw [hs] at h
      simp only at h
      cases ha : tx_addr_status ctx first second with
      | mk addr st =>
        rw [ha] at h
        cases st with
        | none => exact absurd h (fatal_status_ne_ok _ _)
        | some status =>
          simp only at h
          rw [hv] at h
          exact ⟨text, params, first, second, addr, status, ht, hend, hs, ha, h⟩

theorem find_after_write (s0 s1 : State) (c : osmtpd_ctx) (reqid : Nat)
    (hr : c.reqid = reqid) (hmem : reqid ∈ session_keys s0)
    (hs : s1.osmtpd_sessions = (ctx_write s0 c).osmtpd_sessions) :
    RB_FIND reqid s1.osmtpd_sessions = some c := by
  rw [hs, ← hr]
  exact RB_FIND_session_put c s0.osmtpd_sessions (by rw [hr]; exact hmem)

/-- C21 (amended): in an accepted `tx-mail` or `tx-rcpt` line the payload is
`msgid|first|second`, cut at the first `|` after the message id.  For protocol
minor below 6 the address is `first` and the status is `second`; for minor 6
and above the status is `first` and the address is `second`.  The address so
selected is cached when the entry has `storereport` (as `mailfrom`, or
appended to `rcptto`) and is what the callback, if any, receives. -/
theorem tx_address_field (env : user_code) (s s1 : State) (line : List Char)
    (h : line_header)
    (hcat : catalog_shaped s.osmtpd_callbacks)
    (hh : osmtpd_newline_header line = some h)
    (hph : h.phase = OSMTPD_PHASE_TX_MAIL ∨ h.phase = OSMTPD_PHASE_TX_RCPT)
    (hok : osmtpd_newline_line env s line = .ok s1) :
    ∃ cb text rest first second addr status c,
      find_callback h.type h.phase h.incoming s.osmtpd_callbacks = some cb ∧
      h.params = some text ∧ (strtoul text 16).endptr = '|' :: rest ∧
      strchr_split '|' rest = some (first, second) ∧
      (h.version_minor < 6 → addr = first ∧ osmtpd_strtostatus second = some status) ∧
      (6 ≤ h.version_minor → addr = second ∧ osmtpd_strtostatus first = some status) ∧
      RB_FIND h.reqid s1.osmtpd_sessions = some c ∧
      (cb.storereport = true → h.phase = OSMTPD_PHASE_TX_MAIL → c.mailfrom = some addr) ∧
      (cb.storereport = true → h.phase = OSMTPD_PHASE_TX_RCPT →
        c.rcptto = (dispatch_ctx env (newline_linedup s line) h 0).rcptto ++ [addr]) ∧
      s1.trace = s.trace ++ creation_events s h.reqid ++
        callback_events cb.cb c (cb_args.tx_addr (strtoul text 16).val addr status) := by
  obtain ⟨cb, tok, params, hf, hsig, ht, hc⟩ := line_payload env s s1 line h hcat hh hok
  have hmaj := osmtpd_newline_header_major line h hh
  have hp : (h.phase = OSMTPD_PHASE_TX_MAIL ∧ cb.osmtpd_cb = parser_fn.tx_mail) ∨
      (h.phase = OSMTPD_PHASE_TX_RCPT ∧ cb.osmtpd_cb = parser_fn.tx_rcpt) := by
    have := catalog_init_tx _ hsig
    rcases hph with e | e
    · exact Or.inl ⟨e, this.2.1 e⟩
    · exact Or.inr ⟨e, this.2.2.1 e⟩
  have hrep : h.type = OSMTPD_TYPE_REPORT := by
    apply catalog_init_report _ hsig
    rcases hp with ⟨_, e⟩ | ⟨_, e⟩
    · exact Or.inr (Or.inr (Or.inl e))
    · exact Or.inr (Or.inr (Or.inr (Or.inl e)))
  obtain ⟨htok, hpar⟩ := ht hrep
  subst htok
  have hmem := dispatch_state_mem env (newline_linedup s line) h 0
  have hreq := dispatch_ctx_reqid env (newline_linedup s line) h 0
  have htr := dispatch_state_trace env s line h 0
  have hsplit : ∀ first second addr status,
      tx_addr_status (dispatch_ctx env (newline_linedup s line) h 0) first second =
        (addr, some status) →
      (h.version_minor < 6 → addr = first ∧ osmtpd_strtostatus second = some status) ∧
      (6 ≤ h.version_minor → addr = second ∧ osmtpd_strtostatus first = some status) := by
    intro first second addr status ha
    unfold tx_addr_status at ha
    rw [(dispatch_ctx_version env _ h 0).1, (dispatch_ctx_version env _ h 0).2, hmaj] at ha
    constructor
    · intro hlt
      rw [if_pos ⟨rfl, hlt⟩] at ha
      simp only [Prod.mk.injEq] at ha
      exact ⟨ha.1.symm, ha.2⟩
    · intro hge
      rw [if_neg (by rintro ⟨_, hlt⟩; omega)] at ha
      simp only [Prod.mk.injEq] at ha
      exact ⟨ha.1.symm, ha.2⟩
  unfold call_osmtpd_cb at hc
  rcases hp with ⟨hph1, hp⟩ | ⟨hph1, hp⟩
  · rw [hp] at hc
    obtain ⟨text, rest, first, second, addr, status, hl, hend, hs, ha, hcall⟩ :=
      osmtpd_tx_mail_ok env _ s1 cb _ params hc
    obtain ⟨t1, t2, _⟩ := call_user_if_trace env _ s1 _ _ _ hcall
    refine ⟨cb, text, rest, first, second, addr, status,
      (if cb.storereport then
        { dispatch_ctx env (newline_linedup s line) h 0 with mailfrom := some addr }
        else dispatch_ctx env (newline_linedup s line) h 0),
      hf, by rw [← hpar, hl], hend, hs,
      (hsplit _ _ _ _ ha).1, (hsplit _ _ _ _ ha).2, ?_, ?_, ?_, ?_⟩
    · exact find_after_write _ s1 _ h.reqid (by split_ifs <;> exact hreq) hmem t2
    · intro hst _; rw [if_pos hst]
    · intro _ hph2; rw [hph1] at hph2; cases hph2
    · rw [t1]
      show (dispatch_state env (newline_linedup s line) h 0).trace ++ _ = _
      rw [htr]
  · rw [hp] at hc
    obtain ⟨text, rest, first, second, addr, status, hl, hend, hs, ha, hcall⟩ :=
      osmtpd_tx_rcpt_ok env _ s1 cb _ params hc
    obtain ⟨t1, t2, _⟩ := call_user_if_trace env _ s1 _ _ _ hcall
    refine ⟨cb, text, rest, first, second, addr, status,
      (if cb.storereport then
        { dispatch_ctx env (newline_linedup s line) h 0 with
            rcptto := (dispatch_ctx env (newline_linedup s line) h 0).rcptto ++ [addr] }
        else dispatch_ctx env (newline_linedup s line) h 0),
      hf, by rw [← hpar, hl], hend, hs,
      (hsplit _ _ _ _ ha).1, (hsplit _ _ _ _ ha).2, ?_, ?_, ?_, ?_⟩
    · exact find_after_write _ s1 _ h.reqid (by split_ifs <;> exact hreq) hmem t2
    · intro _ hph2; rw [hph1] at hph2; cases hph2
    · intro hst _; rw [if_pos hst]
    · rw [t1]
      show (dispatch_state env (newline_linedup s line) h 0).trace ++ _ = _
      rw [htr]

/-- Witness of C21 (amended): a `tx-mail` line of protocol 0.7 with the status
before the address. -/
theorem tx_address_field_witness :
    ∃ addr c,
      (7 : Int) ≥ 6 ∧ addr = "<a@b>".toList ∧
      RB_FIND 1 (after_lines hook_env cache_ready [line_mail_7_status_first]).osmtpd_sessions =
        some c ∧
      c.mailfrom = some addr := by
  obtain ⟨cb, text, rest, first, second, addr, status, c, h1, h2, h3, h4, _, h6, h7, h8, _, _⟩ :=
    tx_address_field hook_env cache_ready
      (after_lines hook_env cache_ready [line_mail_7_status_first]) line_mail_7_status_first
      ⟨OSMTPD_TYPE_REPORT, 0, 7, ⟨1700000000, 0⟩, 1, OSMTPD_PHASE_TX_MAIL, 1, 0,
        some "0000abcd|ok|<a@b>".toList⟩
      (by decide) (by decide) (Or.inl rfl) rfl
  have hcb : cb.storereport = true := by
    have : find_callback OSMTPD_TYPE_REPORT OSMTPD_PHASE_TX_MAIL 1
        cache_ready.osmtpd_callbacks = some cb := h1
    have e : (find_callback OSMTPD_TYPE_REPORT OSMTPD_PHASE_TX_MAIL 1
        cache_ready.osmtpd_callbacks).map (fun e => e.storereport) = some true := by decide
    rw [this] at e
    simpa using e
  have htext : text = "0000abcd|ok|<a@b>".toList := by
    have : some "0000abcd|ok|<a@b>".toList = some text := h2
    exact (Option.some.inj this).symm
  subst htext
  have hrest : rest = "ok|<a@b>".toList := by
    have e : (strtoul "0000abcd|ok|<a@b>".toList 16).endptr = '|' :: "ok|<a@b>".toList := by
      decide
    rw [e] at h3
    exact (List.cons.inj h3).2.symm
  subst hrest
  have hsec : second = "<a@b>".toList := by
    have e : strchr_split '|' "ok|<a@b>".toList = some ("ok".toList, "<a@b>".toList) := by
      decide
    rw [e] at h4
    simp only [Option.some.injEq, Prod.mk.injEq] at h4
    exact h4.2.symm
  have haddr : addr = "<a@b>".toList := by rw [(h6 (by decide)).1, hsec]
  exact ⟨addr, c, by decide, haddr, h7, h8 hcb rfl⟩

/-- C21 (counterexample): with protocol 0.7 the payload `msgid|<a@b>|ok`, the
order the claim gives for minor 6 and above, is fatal (`<a@b>` is read as the
status); the payload `msgid|ok|<a@b>` is accepted and `<a@b>`, the third
field, is cached as `mailfrom`.  With protocol 0.5 the payload
`msgid|<a@b>|ok` is accepted and `<a@b>`, the second field, is cached. -/
theorem tx_address_order :
    osmtpd_newline_line hook_env cache_ready line_mail_7_address_first =
      fatal_status
        (dispatch_state hook_env (newline_linedup cache_ready line_mail_7_address_first)
          ⟨OSMTPD_TYPE_REPORT, 0, 7, ⟨1700000000, 0⟩, 1, OSMTPD_PHASE_TX_MAIL, 1, 0, none⟩ 0) ∧
    osmtpd_newline_line hook_env cache_ready line_mail_7_status_first =
      .ok (after_lines hook_env cache_ready [line_mail_7_status_first]) ∧
    (after_lines hook_env cache_ready [line_mail_7_status_first]).osmtpd_sessions.map
      (fun c => c.mailfrom) = [some "<a@b>".toList] ∧
    osmtpd_newline_line hook_env cache_ready line_mail_5_address_first =
      .ok (after_lines hook_env cache_ready [line_mail_5_address_first]) ∧
    (after_lines hook_env cache_ready [line_mail_5_address_first]).osmtpd_sessions.map
      (fun c => c.mailfrom) = [some "<a@b>".toList] :=
  ⟨rfl, rfl, by decide, rfl, by decide⟩

/-! ## Claim on the address parser -/

theorem strtonum_range (str : List Char) (lo hi v : Int) (h : strtonum str lo hi = some v) :
    lo ≤ v ∧ v ≤ hi := by
  unfold strtonum at h
  simp only at h
  split_ifs at h with h1 h2 h3 h4
  simp only [Option.some.injEq] at h
  subst h
  constructor
  · by_contra hc; exact h3 (Or.inr (by omega))
  · by_contra hc; exact h4 (Or.inr (by omega))

/-- C29 (amended): `[2001:db8::1]:587` with a port expected gives family
`AF_INET6`, port 587 and the address `inet_pton` makes of `2001:db8::1`;
`unix:/var/run/smtpd.sock` gives family `AF_UNIX` with the whole text as path,
whether a port is expected or not (the path must be shorter than `sun_path`);
`192.0.2.1:25` with a port expected gives family `AF_INET`, port 25 and the
address `inet_pton` makes of `192.0.2.1`.  For an address that is accepted
with a port expected and is not a `unix:` address, the text after the last
`:` is accepted by `strtonum` with the bounds 0 and 65535 and is the port, and
for `AF_INET6` the `:` comes right after `]`; when no port is expected the
port is 0. -/
theorem osmtpd_addrtoss_spec (env : user_code) (s : State) :
    osmtpd_addrtoss env s "[2001:db8::1]:587".toList true =
      (match env.inet_pton sa_family.AF_INET6 "2001:db8::1".toList with
        | none => .error (Halt.exit 1 ("Invalid line received: invalid address (".toList ++
            "[2001:db8::1]:587".toList ++ "): ".toList ++ s.linedup ++ "\n".toList) s)
        | some a => .ok { ss_family := sa_family.AF_INET6, port := 587, addr := a,
                          sun_path := [] }) ∧
    (24 < env.sun_path_size → ∀ hasport,
      osmtpd_addrtoss env s "unix:/var/run/smtpd.sock".toList hasport =
        .ok { ss_family := sa_family.AF_UNIX, port := 0, addr := [],
              sun_path := "unix:/var/run/smtpd.sock".toList }) ∧
    osmtpd_addrtoss env s "192.0.2.1:25".toList true =
      (match env.inet_pton sa_family.AF_INET "192.0.2.1".toList with
        | none => .error (Halt.exit 1 ("Invalid line received: invalid address (".toList ++
            "192.0.2.1:25".toList ++ "): ".toList ++ s.linedup ++ "\n".toList) s)
        | some a => .ok { ss_family := sa_family.AF_INET, port := 25, addr := a,
                          sun_path := [] }) ∧
    (∀ addr ss, osmtpd_addrtoss env s addr true = .ok ss →
      ss.ss_family ≠ sa_family.AF_UNIX →
      ∃ host port p, strrchr_split ':' addr = some (host, port) ∧
        strtonum port 0 UINT16_MAX = some p ∧ 0 ≤ p ∧ p ≤ 65535 ∧ ss.port = p.toNat ∧
        (ss.ss_family = sa_family.AF_INET6 → host.getLast? = some ']')) ∧
    (∀ addr ss, osmtpd_addrtoss env s addr false = .ok ss → ss.port = 0) := by
  refine ⟨?_, ?_, ?_, ?_, ?_⟩
  · unfold osmtpd_addrtoss
    have h1 : strrchr_split ':' "[2001:db8::1]:587".toList =
        some ("[2001:db8::1]".toList, "587".toList) := by decide
    have h2 : strtonum "587".toList 0 UINT16_MAX = some 587 := by decide
    simp only [h1, h2]
    rw [if_pos (by decide), if_pos trivial, if_neg (by decide)]
    rfl
  · intro hlen hasport
    unfold osmtpd_addrtoss
    simp only
    rw [if_neg (by decide), if_pos (by decide), if_neg (by
      have : "unix:/var/run/smtpd.sock".toList.length = 24 := by decide
      rw [this]; omega)]
  · unfold osmtpd_addrtoss
    have h1 : strrchr_split ':' "192.0.2.1:25".toList =
        some ("192.0.2.1".toList, "25".toList) := by decide
    have h2 : strtonum "25".toList 0 UINT16_MAX = some 25 := by decide
    simp only [h1, h2]
    rw [if_neg (by decide), if_neg (by decide), if_pos trivial]
    rfl
  · intro addr ss h hfam
    unfold osmtpd_addrtoss at h
    simp only at h
    by_cases hb : addr.head? = some '['
    · rw [if_pos hb, if_pos trivial] at h
      cases hs : strrchr_split ':' addr with
      | none => rw [hs] at h; cases h
      | some q =>
        obtain ⟨host, port⟩ := q
        rw [hs] at h
        simp only at h
        by_cases hl : host.getLast? ≠ some ']'
        · rw [if_pos hl] at h; cases h
        · rw [if_neg hl] at h
          cases hn : strtonum port 0 UINT16_MAX with
          | none => rw [hn] at h; cases h
          | some p =>
            rw [hn] at h
            simp only at h
            cases hi : env.inet_pton sa_family.AF_INET6 host.dropLast.tail with
            | none => rw [hi] at h; cases h
            | some a =>
              rw [hi] at h
              cases h
              have hr := strtonum_range port 0 UINT16_MAX p hn
              exact ⟨host, port, p, rfl, hn, hr.1, hr.2, rfl, fun _ => not_not.1 hl⟩
    · rw [if_neg hb] at h
      by_cases hu : (addr.take 5).map Char.toLower = "unix:".toList
      · rw [if_pos hu] at h
        split_ifs at h
        cases h
        exact absurd rfl hfam
      · rw [if_neg hu, if_pos trivial] at h
        cases hs : strrchr_split ':' addr with
        | none => rw [hs] at h; cases h
        | some q =>
          obtain ⟨host, port⟩ := q
          rw [hs] at h
          simp only at h
          cases hn : strtonum port 0 UINT16_MAX with
          | none => rw [hn] at h; cases h
          | some p =>
            rw [hn] at h
            simp only at h
            cases hi : env.inet_pton sa_family.AF_INET host with
            | none => rw [hi] at h; cases h
            | some a =>
              rw [hi] at h
              cases h
              have hr := strtonum_range port 0 UINT16_MAX p hn
              exact ⟨host, port, p, rfl, hn, hr.1, hr.2, rfl, fun e => by cases e⟩
  · intro addr ss h
    unfold osmtpd_addrtoss at h
    simp only at h
    by_cases hb : addr.head? = some '['
    · rw [if_pos hb, if_neg (by decide)] at h
      split_ifs at h
      cases hi : env.inet_pton sa_family.AF_INET6 addr.dropLast.tail with
      | none => rw [hi] at h; cases h
      | some a => rw [hi] at h; cases h; rfl
    · rw [if_neg hb] at h
      by_cases hu : (addr.take 5).map Char.toLower = "unix:".toList
      · rw [if_pos hu] at h
        split_ifs at h
        cases h
        rfl
      · rw [if_neg hu, if_neg (by decide)] at h
        cases hi : env.inet_pton sa_family.AF_INET addr with
        | none => rw [hi] at h; cases h
        | some a => rw [hi] at h; cases h; rfl

/-- C29 (counterexample): with a port expected, `unix:/var/run/smtpd.sock` is
accepted although the text after its last `:` is no number. -/
theorem osmtpd_addrtoss_unix_port :
    osmtpd_addrtoss hook_env report_ready "unix:/var/run/smtpd.sock".toList true =
      .ok { ss_family := sa_family.AF_UNIX, port := 0, addr := [],
            sun_path := "unix:/var/run/smtpd.sock".toList } ∧
    strrchr_split ':' "unix:/var/run/smtpd.sock".toList =
      some ("unix".toList, "/var/run/smtpd.sock".toList) ∧
    strtonum "/var/run/smtpd.sock".toList 0 UINT16_MAX = none :=
  ⟨rfl, by decide, by decide⟩

/-! ## Lemmas on the registration phase of `osmtpd_run` -/

theorem change_bound_refl (needs : Nat) (D : Int → Prop) (e : osmtpd_callback) :
    change_bound needs D e e :=
  ⟨entry_rel_refl e, fun h => Or.inl h, fun h => Or.inl h⟩

theorem change_bound_trans {needs : Nat} {D : Int → Prop} {a b c : osmtpd_callback}
    (h1 : change_bound needs D a b) (h2 : change_bound needs D b c) :
    change_bound needs D a c := by
  obtain ⟨r1, d1, s1⟩ := h1
  obtain ⟨r2, d2, s2⟩ := h2
  refine ⟨entry_rel_trans r1 r2, fun h => ?_, fun h => ?_⟩
  · rcases d2 h with h | ⟨ht, hd⟩
    · exact d1 h
    · exact Or.inr ⟨by rw [← r1.1]; exact ht, by rw [← r1.2.2.1]; exact hd⟩
  · rcases s2 h with h | ⟨ht, hd, hn⟩
    · exact s1 h
    · exact Or.inr ⟨by rw [← r1.1]; exact ht, by rw [← r1.2.2.1]; exact hd,
        by rw [← r1.2.1]; exact hn⟩

theorem forall₂_refl_of {R : osmtpd_callback → osmtpd_callback → Prop} (hr : ∀ e, R e e)
    (l : List osmtpd_callback) : List.Forall₂ R l l := by
  induction l with
  | nil => exact List.Forall₂.nil
  | cons x xs ih => exact List.Forall₂.cons (hr x) ih

theorem forall₂_trans_of {R : osmtpd_callback → osmtpd_callback → Prop}
    (ht : ∀ a b c, R a b → R b c → R a c) {l1 l2 l3 : List osmtpd_callback}
    (h1 : List.Forall₂ R l1 l2) (h2 : List.Forall₂ R l2 l3) : List.Forall₂ R l1 l3 := by
  induction h1 generalizing l3 with
  | nil => cases h2; exact List.Forall₂.nil
  | cons hab _ ih =>
    cases h2 with
    | cons hbc hrest => exact List.Forall₂.cons (ht _ _ _ hab hbc) (ih hrest)

theorem forall₂_update_of {R : osmtpd_callback → osmtpd_callback → Prop} (hr : ∀ e, R e e)
    (pre post : List osmtpd_callback) (e e1 : osmtpd_callback) (h : R e e1) :
    List.Forall₂ R (pre ++ e :: post) (pre ++ e1 :: post) := by
  induction pre with
  | nil => exact List.Forall₂.cons h (forall₂_refl_of hr post)
  | cons x xs ih => exact List.Forall₂.cons (hr x) ih

theorem reg_step_refl (D : Int → Prop) (s : State) : reg_step D s s :=
  ⟨rfl, forall₂_refl_of (change_bound_refl s.needs D) _⟩

theorem reg_step_trans {D : Int → Prop} {s s1 s2 : State} (h1 : reg_step D s s1)
    (h2 : reg_step D s1 s2) : reg_step D s s2 := by
  have hn : s1.needs = s.needs := by rw [h1.1]
  have b2 := h2.2
  rw [hn] at b2
  refine ⟨?_, forall₂_trans_of (R := change_bound s.needs D)
    (fun _ _ _ h h' => change_bound_trans h h') h1.2 b2⟩
  rw [h2.1, h1.1]

theorem reg_step_entry_rel {D : Int → Prop} {s s1 : State} (h : reg_step D s s1) :
    List.Forall₂ entry_rel s.osmtpd_callbacks s1.osmtpd_callbacks :=
  List.Forall₂.imp (fun _ _ h => h.1) h.2

theorem forall₂_entry_rel_sig {l l1 : List osmtpd_callback}
    (h : List.Forall₂ entry_rel l l1) : l1.map catalog_sig = l.map catalog_sig := by
  induction h with
  | nil => rfl
  | cons hab _ ih =>
    simp only [List.map_cons, ih, catalog_sig]
    rw [hab.1, hab.2.1, hab.2.2.1, hab.2.2.2.1]

theorem reg_step_catalog {D : Int → Prop} {s s1 : State} (h : reg_step D s s1)
    (hcat : catalog_shaped s.osmtpd_callbacks) : catalog_shaped s1.osmtpd_callbacks := by
  unfold catalog_shaped at *
  rw [forall₂_entry_rel_sig (reg_step_entry_rel h), hcat]

theorem reg_step_needs {D : Int → Prop} {s s1 : State} (h : reg_step D s s1) :
    s1.needs = s.needs ∧ s1.oncreatecb_message = s.oncreatecb_message := by
  rw [h.1]; exact ⟨rfl, rfl⟩

theorem catalog_shaped_nodup (cbs : List osmtpd_callback) (h : catalog_shaped cbs) :
    (cbs.map entry_key).Nodup := by
  rw [catalog_shaped_keys cbs h]
  decide

theorem has_flags_mono {a b : List osmtpd_callback} (h : List.Forall₂ entry_rel a b)
    (key : osmtpd_type × osmtpd_phase × Int) (st : Bool) (hf : has_flags a key st) :
    has_flags b key st := by
  induction h with
  | nil => intro e he; cases he
  | @cons x y xs ys hab _ ih =>
    intro e he hk
    rcases List.mem_cons.1 he with he | he
    · subst he
      have hx : entry_key x = key := by
        rw [← hk]; unfold entry_key; rw [hab.1, hab.2.1, hab.2.2.1]
      obtain ⟨f1, f2⟩ := hf x (List.mem_cons_self _ _) hx
      exact ⟨hab.2.2.2.2.2.1 f1, fun hs => hab.2.2.2.2.2.2 (f2 hs)⟩
    · exact ih (fun z hz => hf z (List.mem_cons_of_mem _ hz)) e he hk

/-- An implicit registration that succeeds: the state afterwards is within
the bound for the direction, and the entry of the event has the flags. -/
theorem osmtpd_register_spec (D : Int → Prop) (s s1 : State) (p : osmtpd_phase) (d : Int)
    (st : Bool) (hcat : catalog_shaped s.osmtpd_callbacks) (hD : D d)
    (hst : st = true → need_phase s.needs p)
    (h : osmtpd_register s OSMTPD_TYPE_REPORT p d st NULL = .ok s1) :
    reg_step D s s1 ∧ has_flags s1.osmtpd_callbacks (OSMTPD_TYPE_REPORT, p, d) st := by
  have hnd := catalog_shaped_nodup _ hcat
  rcases osmtpd_register_cases s OSMTPD_TYPE_REPORT p d st NULL with
    ⟨_, h1⟩ | ⟨_, _, h1⟩ | ⟨_, _, h1⟩ | ⟨_, pre, e, post, h1, h2, h3, h4, h5, h6⟩
  · rw [h1] at h; cases h
  · rw [h1] at h; cases h
  · rw [h1] at h; cases h
  · rw [h6] at h
    cases h
    have hnull : (if NULL ≠ NULL then NULL else e.cb) = e.cb := by simp
    constructor
    · refine ⟨rfl, ?_⟩
      simp only [h1]
      apply forall₂_update_of (change_bound_refl s.needs D)
      refine ⟨⟨rfl, rfl, rfl, rfl, hnull, fun _ => rfl, fun hs => ?_⟩, fun _ => ?_, fun hs => ?_⟩
      · simp only [hs]; split_ifs <;> rfl
      · exact Or.inr ⟨h3.1.symm, by rw [← h3.2.2]; exact hD⟩
      · by_cases hstt : st = true
        · exact Or.inr ⟨h3.1.symm, by rw [← h3.2.2]; exact hD, by rw [← h3.2.1]; exact hst hstt⟩
        · left
          simp only [hstt] at hs
          simpa using hs
    · intro x hx hk
      simp only at hx
      rw [h1, List.map_append, List.map_cons] at hnd
      rcases List.mem_append.1 hx with hx | hx
      · exfalso
        apply h2 x hx
        unfold entry_key at hk
        simp only [Prod.mk.injEq] at hk
        exact ⟨hk.1.symm, hk.2.1.symm, hk.2.2.symm⟩
      · rcases List.mem_cons.1 hx with hx | hx
        · subst hx
          refine ⟨rfl, fun hs => ?_⟩
          simp [hs]
        · exfalso
          have hke : entry_key e = (OSMTPD_TYPE_REPORT, p, d) := by
            unfold entry_key; rw [← h3.1, ← h3.2.1, ← h3.2.2]
          have hnd2 := (List.nodup_append.1 hnd).2.1
          have := (List.nodup_cons.1 hnd2).1
          apply this
          rw [hke, ← hk]
          exact List.mem_map_of_mem entry_key hx
theorem except_bind_ok (x : Except Halt State) (f : State → Except Halt State) (s1 : State)
    (h : x.bind f = .ok s1) : ∃ s0, x = .ok s0 ∧ f s0 = .ok s1 := by
  cases x with
  | error e => cases h
  | ok s0 => exact ⟨s0, rfl, h⟩

theorem need_register_spec (D : Int → Prop) (s s1 : State) (p : osmtpd_phase) (d : Int)
    (hcat : catalog_shaped s.osmtpd_callbacks) (hD : D d)
    (h : need_register (need_mask p) p d s = .ok s1) :
    reg_step D s s1 ∧
      (need_phase s.needs p → has_flags s1.osmtpd_callbacks (OSMTPD_TYPE_REPORT, p, d) true) := by
  unfold need_register at h
  by_cases hb : s.needs &&& need_mask p ≠ 0
  · rw [if_pos hb] at h
    obtain ⟨h1, h2⟩ := osmtpd_register_spec D s s1 p d true hcat hD (fun _ => hb) h
    exact ⟨h1, fun _ => h2⟩
  · rw [if_neg hb] at h
    cases h
    exact ⟨reg_step_refl D s, fun hn => absurd hn hb⟩

theorem need_register_tx_spec (D : Int → Prop) (s s1 : State) (p : osmtpd_phase) (d : Int)
    (hcat : catalog_shaped s.osmtpd_callbacks) (hD : D d)
    (h : need_register_tx (need_mask p) p d s = .ok s1) :
    reg_step D s s1 ∧
      (need_phase s.needs p →
        has_flags s1.osmtpd_callbacks (OSMTPD_TYPE_REPORT, p, d) true ∧
        has_flags s1.osmtpd_callbacks (OSMTPD_TYPE_REPORT, OSMTPD_PHASE_TX_ROLLBACK, d) false ∧
        has_flags s1.osmtpd_callbacks (OSMTPD_TYPE_REPORT, OSMTPD_PHASE_TX_COMMIT, d) false) := by
  unfold need_register_tx at h
  by_cases hb : s.needs &&& need_mask p ≠ 0
  · rw [if_pos hb] at h
    obtain ⟨sa, ha, h⟩ := except_bind_ok _ _ _ h
    obtain ⟨sb, hb2, h⟩ := except_bind_ok _ _ _ h
    obtain ⟨a1, a2⟩ := osmtpd_register_spec D s sa p d true hcat hD (fun _ => hb) ha
    obtain ⟨b1, b2⟩ := osmtpd_register_spec D sa sb OSMTPD_PHASE_TX_ROLLBACK d false
      (reg_step_catalog a1 hcat) hD (fun e => by cases e) hb2
    obtain ⟨c1, c2⟩ := osmtpd_register_spec D sb s1 OSMTPD_PHASE_TX_COMMIT d false
      (reg_step_catalog b1 (reg_step_catalog a1 hcat)) hD (fun e => by cases e) h
    refine ⟨reg_step_trans a1 (reg_step_trans b1 c1), fun _ => ⟨?_, ?_, c2⟩⟩
    · exact has_flags_mono (reg_step_entry_rel (reg_step_trans b1 c1)) _ _ a2
    · exact has_flags_mono (reg_step_entry_rel c1) _ _ b2
  · rw [if_neg hb] at h
    cases h
    exact ⟨reg_step_refl D s, fun hn => absurd hn hb⟩

theorem need_phase_cases (needs : Nat) (p : osmtpd_phase) (h : need_phase needs p) :
    p = OSMTPD_PHASE_LINK_CONNECT ∨ p = OSMTPD_PHASE_LINK_GREETING ∨
    p = OSMTPD_PHASE_LINK_IDENTIFY ∨ p = OSMTPD_PHASE_LINK_TLS ∨
    p = OSMTPD_PHASE_TX_BEGIN ∨ p = OSMTPD_PHASE_TX_MAIL ∨ p = OSMTPD_PHASE_TX_RCPT ∨
    p = OSMTPD_PHASE_TX_ENVELOPE := by
  unfold need_phase at h
  cases p <;> first
    | exact absurd (Nat.and_zero needs) h
    | simp

theorem need_flags_mono {a b : List osmtpd_callback} (h : List.Forall₂ entry_rel a b)
    (needs : Nat) (d : Int) (hf : need_flags needs d a) : need_flags needs d b :=
  ⟨fun p hp => has_flags_mono h _ _ (hf.1 p hp),
    fun hb => ⟨has_flags_mono h _ _ (hf.2.1 hb).1, has_flags_mono h _ _ (hf.2.1 hb).2⟩,
    has_flags_mono h _ _ hf.2.2⟩

/-- What a successful `osmtpd_register_need(d)` leaves: a state within the
bound for `d`, in which the events of `need_flags` are registered. -/
theorem osmtpd_register_need_spec (D : Int → Prop) (s s1 : State) (d : Int)
    (hcat : catalog_shaped s.osmtpd_callbacks) (hD : D d)
    (h : osmtpd_register_need s d = .ok s1) :
    reg_step D s s1 ∧ need_flags s.needs d s1.osmtpd_callbacks := by
  unfold osmtpd_register_need at h
  obtain ⟨s01, h01, h⟩ := except_bind_ok _ _ _ h
  obtain ⟨s02, h02, h⟩ := except_bind_ok _ _ _ h
  obtain ⟨s03, h03, h⟩ := except_bind_ok _ _ _ h
  obtain ⟨s04, h04, h⟩ := except_bind_ok _ _ _ h
  obtain ⟨s05, h05, h⟩ := except_bind_ok _ _ _ h
  obtain ⟨s06, h06, h⟩ := except_bind_ok _ _ _ h
  obtain ⟨s07, h07, h⟩ := except_bind_ok _ _ _ h
  obtain ⟨s08, h08, h⟩ := except_bind_ok _ _ _ h
  obtain ⟨r1, f1⟩ := need_register_spec D s s01 OSMTPD_PHASE_LINK_CONNECT d hcat hD h01
  have c1 := reg_step_catalog r1 hcat
  obtain ⟨r2, f2⟩ := need_register_spec D s01 s02 OSMTPD_PHASE_LINK_GREETING d c1 hD h02
  have c2 := reg_step_catalog r2 c1
  obtain ⟨r3, f3⟩ := need_register_spec D s02 s03 OSMTPD_PHASE_LINK_IDENTIFY d c2 hD h03
  have c3 := reg_step_catalog r3 c2
  obtain ⟨r4, f4⟩ := need_register_spec D s03 s04 OSMTPD_PHASE_LINK_TLS d c3 hD h04
  have c4 := reg_step_catalog r4 c3
  obtain ⟨r5, f5⟩ := need_register_tx_spec D s04 s05 OSMTPD_PHASE_TX_BEGIN d c4 hD h05
  have c5 := reg_step_catalog r5 c4
  obtain ⟨r6, f6⟩ := need_register_tx_spec D s05 s06 OSMTPD_PHASE_TX_MAIL d c5 hD h06
  have c6 := reg_step_catalog r6 c5
  obtain ⟨r7, f7⟩ := need_register_tx_spec D s06 s07 OSMTPD_PHASE_TX_RCPT d c6 hD h07
  have c7 := reg_step_catalog r7 c6
  obtain ⟨r8, f8⟩ := need_register_tx_spec D s07 s08 OSMTPD_PHASE_TX_ENVELOPE d c7 hD h08
  have c8 := reg_step_catalog r8 c7
  obtain ⟨r9, f9⟩ := osmtpd_register_spec D s08 s1 OSMTPD_PHASE_LINK_DISCONNECT d false c8 hD
    (fun e => by cases e) h
  have n1 := (reg_step_needs r1).1
  have n2 := (reg_step_needs r2).1.trans n1
  have n3 := (reg_step_needs r3).1.trans n2
  have n4 := (reg_step_needs r4).1.trans n3
  have n5 := (reg_step_needs r5).1.trans n4
  have n6 := (reg_step_needs r6).1.trans n5
  have n7 := (reg_step_needs r7).1.trans n6
  rw [n1] at f2
  rw [n2] at f3
  rw [n3] at f4
  rw [n4] at f5
  rw [n5] at f6
  rw [n6] at f7
  rw [n7] at f8
  have t8 := reg_step_entry_rel r9
  have t7 := reg_step_entry_rel (reg_step_trans r8 r9)
  have t6 := reg_step_entry_rel (reg_step_trans r7 (reg_step_trans r8 r9))
  have t5 := reg_step_entry_rel (reg_step_trans r6 (reg_step_trans r7 (reg_step_trans r8 r9)))
  have t4 := reg_step_entry_rel (reg_step_trans r5 (reg_step_trans r6 (reg_step_trans r7
    (reg_step_trans r8 r9))))
  have t3 := reg_step_entry_rel (reg_step_trans r4 (reg_step_trans r5 (reg_step_trans r6
    (reg_step_trans r7 (reg_step_trans r8 r9)))))
  have t2 := reg_step_entry_rel (reg_step_trans r3 (reg_step_trans r4 (reg_step_trans r5
    (reg_step_trans r6 (reg_step_trans r7 (reg_step_trans r8 r9))))))
  have t1 := reg_step_entry_rel (reg_step_trans r2 (reg_step_trans r3 (reg_step_trans r4
    (reg_step_trans r5 (reg_step_trans r6 (reg_step_trans r7 (reg_step_trans r8 r9)))))))
  refine ⟨reg_step_trans r1 (reg_step_trans r2 (reg_step_trans r3 (reg_step_trans r4
    (reg_step_trans r5 (reg_step_trans r6 (reg_step_trans r7 (reg_step_trans r8 r9))))))),
    fun p hp => ?_, fun hb => ?_, f9⟩
  · rcases need_phase_cases _ p hp with e | e | e | e | e | e | e | e <;> subst e
    · exact has_flags_mono t1 _ _ (f1 hp)
    · exact has_flags_mono t2 _ _ (f2 hp)
    · exact has_flags_mono t3 _ _ (f3 hp)
    · exact has_flags_mono t4 _ _ (f4 hp)
    · exact has_flags_mono t5 _ _ (f5 hp).1
    · exact has_flags_mono t6 _ _ (f6 hp).1
    · exact has_flags_mono t7 _ _ (f7 hp).1
    · exact has_flags_mono t8 _ _ (f8 hp).1
  · rcases hb with hb | hb | hb | hb
    · exact ⟨has_flags_mono t5 _ _ (f5 hb).2.1, has_flags_mono t5 _ _ (f5 hb).2.2⟩
    · exact ⟨has_flags_mono t6 _ _ (f6 hb).2.1, has_flags_mono t6 _ _ (f6 hb).2.2⟩
    · exact ⟨has_flags_mono t7 _ _ (f7 hb).2.1, has_flags_mono t7 _ _ (f7 hb).2.2⟩
    · exact ⟨has_flags_mono t8 _ _ (f8 hb).2.1, has_flags_mono t8 _ _ (f8 hb).2.2⟩

theorem forall₂_get_left {R : osmtpd_callback → osmtpd_callback → Prop}
    {a b : List osmtpd_callback} (h : List.Forall₂ R a b) (i : Nat) (x : osmtpd_callback)
    (hg : a.get? i = some x) : ∃ y, b.get? i = some y ∧ R x y := by
  induction h generalizing i with
  | nil => simp at hg
  | @cons x0 y0 xs ys hab _ ih =>
    cases i with
    | zero =>
      simp only [List.get?_cons_zero, Option.some.injEq] at hg
      subst hg
      exact ⟨y0, rfl, hab⟩
    | succ j =>
      simp only [List.get?_cons_succ] at hg ⊢
      exact ih j hg

theorem forall₂_get_right {R : osmtpd_callback → osmtpd_callback → Prop}
    {a b : List osmtpd_callback} (h : List.Forall₂ R a b) (i : Nat) (y : osmtpd_callback)
    (hg : b.get? i = some y) : ∃ x, a.get? i = some x ∧ R x y := by
  induction h generalizing i with
  | nil => simp at hg
  | @cons x0 y0 xs ys hab _ ih =>
    cases i with
    | zero =>
      simp only [List.get?_cons_zero, Option.some.injEq] at hg
      subst hg
      exact ⟨x0, rfl, hab⟩
    | succ j =>
      simp only [List.get?_cons_succ] at hg ⊢
      exact ih j hg

theorem forall₂_mem_right {R : osmtpd_callback → osmtpd_callback → Prop}
    {a b : List osmtpd_callback} (h : List.Forall₂ R a b) (y : osmtpd_callback)
    (hy : y ∈ b) : ∃ x ∈ a, R x y := by
  induction h with
  | nil => cases hy
  | @cons x0 y0 xs ys hab _ ih =>
    rcases List.mem_cons.1 hy with e | e
    · subst e
      exact ⟨x0, List.mem_cons_self _ _, hab⟩
    · obtain ⟨x, hx, hr⟩ := ih e
      exact ⟨x, List.mem_cons_of_mem _ hx, hr⟩

theorem forall₂_mem_left {R : osmtpd_callback → osmtpd_callback → Prop}
    {a b : List osmtpd_callback} (h : List.Forall₂ R a b) (x : osmtpd_callback)
    (hx : x ∈ a) : ∃ y ∈ b, R x y := by
  induction h with
  | nil => cases hx
  | @cons x0 y0 xs ys hab _ ih =>
    rcases List.mem_cons.1 hx with e | e
    · subst e
      exact ⟨y0, List.mem_cons_self _ _, hab⟩
    · obtain ⟨y, hy, hr⟩ := ih e
      exact ⟨y, List.mem_cons_of_mem _ hy, hr⟩

theorem dir_closed_step {D : Int → Prop} {s s1 : State} (h : reg_step D s s1)
    (hD : dir_closed D s.osmtpd_callbacks) : dir_closed D s1.osmtpd_callbacks := by
  intro e1 he1 hd
  obtain ⟨e, he, hb⟩ := forall₂_mem_right h.2 e1 he1
  rw [hb.1.2.2.1]
  rcases hb.2.1 hd with h0 | h0
  · exact hD e he h0
  · exact h0.2

theorem osmtpd_run_message_spec (D : Int → Prop) (s s1 : State) (d : Int)
    (hcat : catalog_shaped s.osmtpd_callbacks) (hD : D d)
    (h : osmtpd_run_message s d = .ok s1) : reg_step D s s1 := by
  unfold osmtpd_run_message at h
  by_cases hm : s.oncreatecb_message ≠ NULL
  · rw [if_pos hm] at h
    obtain ⟨sa, ha, h⟩ := except_bind_ok _ _ _ h
    obtain ⟨sb, hb, h⟩ := except_bind_ok _ _ _ h
    obtain ⟨a1, _⟩ := osmtpd_register_spec D s sa OSMTPD_PHASE_TX_BEGIN d false hcat hD
      (fun e => by cases e) ha
    obtain ⟨b1, _⟩ := osmtpd_register_spec D sa sb OSMTPD_PHASE_TX_ROLLBACK d false
      (reg_step_catalog a1 hcat) hD (fun e => by cases e) hb
    obtain ⟨c1, _⟩ := osmtpd_register_spec D sb s1 OSMTPD_PHASE_TX_COMMIT d false
      (reg_step_catalog b1 (reg_step_catalog a1 hcat)) hD (fun e => by cases e) h
    exact reg_step_trans a1 (reg_step_trans b1 c1)
  · rw [if_neg hm] at h
    cases h
    exact reg_step_refl D s

theorem osmtpd_run_identity_rel (e e1 : osmtpd_callback) (i : Nat) (l : run_locals)
    (h : entry_rel e e1) : osmtpd_run_identity e1 i l = osmtpd_run_identity e i l := by
  unfold osmtpd_run_identity
  rw [h.1, h.2.1, h.2.2.1]

/-- One iteration of the first loop of `osmtpd_run`: on an entry that is not
registered nothing changes; on a registered entry the implicit registrations
for its direction are made and the three local pointers are updated. -/
theorem osmtpd_run_step_spec (D : Int → Prop) (s s1 : State) (l l1 : run_locals) (i : Nat)
    (hcat : catalog_shaped s.osmtpd_callbacks) (hD : dir_closed D s.osmtpd_callbacks)
    (h : osmtpd_run_step s l i = .ok (s1, l1)) :
    reg_step D s s1 ∧
      ((∃ e, s.osmtpd_callbacks.get? i = some e ∧ e.doregister = true ∧
          need_flags s.needs e.incoming s1.osmtpd_callbacks ∧
          l1 = osmtpd_run_identity e i l) ∨
        ((∀ e, s.osmtpd_callbacks.get? i = some e → e.doregister = false) ∧
          s1 = s ∧ l1 = l)) := by
  unfold osmtpd_run_step at h
  cases hg : s.osmtpd_callbacks.get? i with
  | none =>
    rw [hg] at h
    cases h
    exact ⟨reg_step_refl D s, Or.inr ⟨fun e he => absurd he (by simp), rfl, rfl⟩⟩
  | some e =>
    rw [hg] at h
    simp only at h
    by_cases hd : e.doregister = true
    · rw [if_pos hd] at h
      have hDe : D e.incoming := hD e (List.get?_mem hg) hd
      cases hn : osmtpd_register_need s e.incoming with
      | error x => rw [hn] at h; cases h
      | ok sa =>
        rw [hn] at h
        simp only [Except.bind] at h
        obtain ⟨ra, fa⟩ := osmtpd_register_need_spec D s sa e.incoming hcat hDe hn
        obtain ⟨ea, hga, hra⟩ := forall₂_get_left (reg_step_entry_rel ra) i e hg
        rw [hga] at h
        simp only [Option.getD_some] at h
        cases hm : osmtpd_run_message sa ea.incoming with
        | error x => rw [hm] at h; cases h
        | ok sb =>
          rw [hm] at h
          simp only [Except.ok.injEq, Prod.mk.injEq] at h
          obtain ⟨h1, h2⟩ := h
          subst h1
          have hDa : D ea.incoming := by rw [hra.2.2.1]; exact hDe
          have rb := osmtpd_run_message_spec D sa sb ea.incoming (reg_step_catalog ra hcat) hDa hm
          obtain ⟨eb, hgb, hrb⟩ := forall₂_get_left (reg_step_entry_rel rb) i ea hga
          rw [hgb] at h2
          simp only [Option.getD_some] at h2
          refine ⟨reg_step_trans ra rb, Or.inl ⟨e, rfl, hd,
            need_flags_mono (reg_step_entry_rel rb) _ _ fa, ?_⟩⟩
          rw [← h2, osmtpd_run_identity_rel ea eb i l hrb, osmtpd_run_identity_rel e ea i l hra]
    · rw [if_neg hd] at h
      cases h
      refine ⟨reg_step_refl D s, Or.inr ⟨fun e0 he0 => ?_, rfl, rfl⟩⟩
      cases he0
      simpa using hd

/-- The first loop of `osmtpd_run` from index `i` with `n` iterations: the
final catalog is within the bound, and for every entry registered at the start
with an index the loop visits, the events of `need_flags` for its direction
are registered. -/
theorem osmtpd_run_loop_spec (D : Int → Prop) (n i : Nat) (s s1 : State) (l l1 : run_locals)
    (hcat : catalog_shaped s.osmtpd_callbacks) (hD : dir_closed D s.osmtpd_callbacks)
    (h : osmtpd_run_loop n i s l = .ok (s1, l1)) :
    reg_step D s s1 ∧
      ∀ j e, i ≤ j → j < i + n → s.osmtpd_callbacks.get? j = some e → e.doregister = true →
        need_flags s.needs e.incoming s1.osmtpd_callbacks := by
  induction n generalizing i s l with
  | zero =>
    unfold osmtpd_run_loop at h
    cases h
    exact ⟨reg_step_refl D _, fun j e h1 h2 => absurd h2 (by omega)⟩
  | succ n ih =>
    unfold osmtpd_run_loop at h
    cases hs : osmtpd_run_step s l i with
    | error x => rw [hs] at h; cases h
    | ok p =>
      obtain ⟨sa, la⟩ := p
      rw [hs] at h
      simp only at h
      obtain ⟨ra, ca⟩ := osmtpd_run_step_spec D s sa l la i hcat hD hs
      obtain ⟨rb, fb⟩ := ih (i + 1) sa la (reg_step_catalog ra hcat) (dir_closed_step ra hD) h
      refine ⟨reg_step_trans ra rb, fun j e h1 h2 hg hd => ?_⟩
      by_cases hj : j = i
      · subst hj
        rcases ca with ⟨e0, hg0, _, hf, _⟩ | ⟨hno, _, _⟩
        · rw [hg] at hg0
          cases hg0
          exact need_flags_mono (reg_step_entry_rel rb) _ _ hf
        · rw [hno e hg] at hd
          cases hd
      · obtain ⟨ea, hga, hra⟩ := forall₂_get_left (reg_step_entry_rel ra) j e hg
        have := fb j ea (by omega) (by omega) hga (hra.2.2.2.2.2.1 hd)
        rw [(reg_step_needs ra).1, hra.2.2.1] at this
        exact this

theorem catalog_get_key (cbs : List osmtpd_callback) (hcat : catalog_shaped cbs) (j : Nat)
    (e : osmtpd_callback) (hg : cbs.get? j = some e) :
    (osmtpd_callbacks_init.map entry_key).get? j = some (entry_key e) := by
  rw [← catalog_shaped_keys cbs hcat, List.get?_eq_getElem?, List.getElem?_map,
    ← List.get?_eq_getElem?, hg]
  rfl

/-- In a catalog with the shape of the initialiser an entry sits at the index
its event has there. -/
theorem catalog_index (cbs : List osmtpd_callback) (hcat : catalog_shaped cbs) (j k : Nat)
    (e : osmtpd_callback) (key : osmtpd_type × osmtpd_phase × Int)
    (hg : cbs.get? j = some e) (hk : entry_key e = key)
    (hidx : (osmtpd_callbacks_init.map entry_key).get? k = some key) : j = k := by
  have h1 := catalog_get_key cbs hcat j e hg
  have hlt : j < (osmtpd_callbacks_init.map entry_key).length := by
    by_contra hge
    rw [List.get?_eq_none.2 (not_lt.1 hge)] at h1
    cases h1
  have hn : (osmtpd_callbacks_init.map entry_key).Nodup := by decide
  apply List.getElem?_inj hlt hn
  rw [← List.get?_eq_getElem?, ← List.get?_eq_getElem?, h1, hidx, hk]

theorem catalog_entry_at (cbs : List osmtpd_callback) (hcat : catalog_shaped cbs) (k : Nat)
    (key : osmtpd_type × osmtpd_phase × Int)
    (hidx : (osmtpd_callbacks_init.map entry_key).get? k = some key) :
    ∃ e, cbs.get? k = some e ∧ entry_key e = key := by
  rw [← catalog_shaped_keys cbs hcat, List.get?_eq_getElem?, List.getElem?_map,
    ← List.get?_eq_getElem?] at hidx
  cases hg : cbs.get? k with
  | none => rw [hg] at hidx; cases hidx
  | some e =>
    rw [hg] at hidx
    simp only [Option.map_some', Option.some.injEq] at hidx
    exact ⟨e, rfl, hidx⟩

theorem catalog_filter_incoming (cbs : List osmtpd_callback) (hcat : catalog_shaped cbs)
    (e : osmtpd_callback) (he : e ∈ cbs) (ht : e.type = OSMTPD_TYPE_FILTER) :
    e.incoming = 1 := by
  have hm : entry_key e ∈ osmtpd_callbacks_init.map entry_key := by
    rw [← catalog_shaped_keys cbs hcat]
    exact List.mem_map_of_mem entry_key he
  have hall : ∀ x ∈ osmtpd_callbacks_init.map entry_key,
      x.1 = OSMTPD_TYPE_FILTER → x.2.2 = 1 := by decide
  exact hall _ hm ht

theorem osmtpd_run_identity_hidenity (e : osmtpd_callback) (i : Nat) (l : run_locals) :
    (osmtpd_run_identity e i l).hidenity =
      if e.type = OSMTPD_TYPE_FILTER ∧ e.phase = OSMTPD_PHASE_HELO then some i
      else l.hidenity := by
  unfold osmtpd_run_identity
  split_ifs <;> rfl

theorem osmtpd_run_identity_eidentity (e : osmtpd_callback) (i : Nat) (l : run_locals) :
    (osmtpd_run_identity e i l).eidentity =
      if e.type = OSMTPD_TYPE_FILTER ∧ e.phase = OSMTPD_PHASE_EHLO then some i
      else l.eidentity := by
  unfold osmtpd_run_identity
  split_ifs <;> rfl

theorem osmtpd_run_identity_ridentity (e : osmtpd_callback) (i : Nat) (l : run_locals) :
    (osmtpd_run_identity e i l).ridentity =
      if e.type = OSMTPD_TYPE_REPORT ∧ e.phase = OSMTPD_PHASE_LINK_IDENTIFY ∧ e.incoming = 1
      then some i else l.ridentity := by
  unfold osmtpd_run_identity
  split_ifs <;> rfl

theorem entry_key_eq (e : osmtpd_callback) (t : osmtpd_type) (p : osmtpd_phase) (d : Int)
    (ht : e.type = t) (hp : e.phase = p) (hd : e.incoming = d) : entry_key e = (t, p, d) := by
  unfold entry_key
  rw [ht, hp, hd]

/-- The local pointers of `osmtpd_run` after one iteration: each is as before
or points to the one entry of its event, which is at index 1 (`filter`
`helo`), 2 (`filter` `ehlo`) and 19 (inbound `report` `link-identify`). -/
theorem osmtpd_run_step_locals (D : Int → Prop) (s s1 : State) (l l1 : run_locals) (i : Nat)
    (hcat : catalog_shaped s.osmtpd_callbacks) (hD : dir_closed D s.osmtpd_callbacks)
    (h : osmtpd_run_step s l i = .ok (s1, l1)) :
    (l1.hidenity = l.hidenity ∨ l1.hidenity = some 1) ∧
    (l1.eidentity = l.eidentity ∨ l1.eidentity = some 2) ∧
    (l1.ridentity = l.ridentity ∨ l1.ridentity = some 19) := by
  obtain ⟨_, ca⟩ := osmtpd_run_step_spec D s s1 l l1 i hcat hD h
  rcases ca with ⟨e, hg, _, _, hl⟩ | ⟨_, _, hl⟩
  · rw [hl, osmtpd_run_identity_hidenity, osmtpd_run_identity_eidentity,
      osmtpd_run_identity_ridentity]
    refine ⟨?_, ?_, ?_⟩
    · by_cases hc : e.type = OSMTPD_TYPE_FILTER ∧ e.phase = OSMTPD_PHASE_HELO
      · rw [if_pos hc]
        have hk := entry_key_eq e _ _ _ hc.1 hc.2
          (catalog_filter_incoming _ hcat e (List.get?_mem hg) hc.1)
        rw [catalog_index _ hcat i 1 e _ hg hk rfl]
        exact Or.inr rfl
      · rw [if_neg hc]
        exact Or.inl rfl
    · by_cases hc : e.type = OSMTPD_TYPE_FILTER ∧ e.phase = OSMTPD_PHASE_EHLO
      · rw [if_pos hc]
        have hk := entry_key_eq e _ _ _ hc.1 hc.2
          (catalog_filter_incoming _ hcat e (List.get?_mem hg) hc.1)
        rw [catalog_index _ hcat i 2 e _ hg hk rfl]
        exact Or.inr rfl
      · rw [if_neg hc]
        exact Or.inl rfl
    · by_cases hc : e.type = OSMTPD_TYPE_REPORT ∧ e.phase = OSMTPD_PHASE_LINK_IDENTIFY ∧
          e.incoming = 1
      · rw [if_pos hc]
        have hk := entry_key_eq e _ _ _ hc.1 hc.2.1 hc.2.2
        rw [catalog_index _ hcat i 19 e _ hg hk rfl]
        exact Or.inr rfl
      · rw [if_neg hc]
        exact Or.inl rfl
  · rw [hl]
    exact ⟨Or.inl rfl, Or.inl rfl, Or.inl rfl⟩

theorem osmtpd_run_loop_locals (D : Int → Prop) (n i : Nat) (s s1 : State) (l l1 : run_locals)
    (hcat : catalog_shaped s.osmtpd_callbacks) (hD : dir_closed D s.osmtpd_callbacks)
    (h : osmtpd_run_loop n i s l = .ok (s1, l1)) :
    (l1.hidenity = l.hidenity ∨ l1.hidenity = some 1) ∧
    (l1.eidentity = l.eidentity ∨ l1.eidentity = some 2) ∧
    (l1.ridentity = l.ridentity ∨ l1.ridentity = some 19) := by
  induction n generalizing i s l with
  | zero =>
    unfold osmtpd_run_loop at h
    cases h
    exact ⟨Or.inl rfl, Or.inl rfl, Or.inl rfl⟩
  | succ n ih =>
    unfold osmtpd_run_loop at h
    cases hs : osmtpd_run_step s l i with
    | error x => rw [hs] at h; cases h
    | ok p =>
      obtain ⟨sa, la⟩ := p
      rw [hs] at h
      simp only at h
      obtain ⟨ra, _⟩ := osmtpd_run_step_spec D s sa l la i hcat hD hs
      obtain ⟨a1, a2, a3⟩ := osmtpd_run_step_locals D s sa l la i hcat hD hs
      obtain ⟨b1, b2, b3⟩ := ih (i + 1) sa la (reg_step_catalog ra hcat)
        (dir_closed_step ra hD) h
      refine ⟨?_, ?_, ?_⟩
      · rcases b1 with b | b
        · rw [b]; exact a1
        · exact Or.inr b
      · rcases b2 with b | b
        · rw [b]; exact a2
        · exact Or.inr b
      · rcases b3 with b | b
        · rw [b]; exact a3
        · exact Or.inr b

/-- An entry the loop of `osmtpd_run` visits while it is registered is
recorded in the local pointer of its event.  The inbound `report` event
`link-identify` is also recorded when the need mask has `IDENTITY` and an
inbound registered entry is visited at or before index 19, as that visit
registers it. -/
theorem osmtpd_run_loop_visit (D : Int → Prop) (n i : Nat) (s s1 : State) (l l1 : run_locals)
    (hcat : catalog_shaped s.osmtpd_callbacks) (hD : dir_closed D s.osmtpd_callbacks)
    (h : osmtpd_run_loop n i s l = .ok (s1, l1)) :
    (i ≤ 1 → 1 < i + n → (∃ e, s.osmtpd_callbacks.get? 1 = some e ∧ e.doregister = true) →
      l1.hidenity = some 1) ∧
    (i ≤ 2 → 2 < i + n → (∃ e, s.osmtpd_callbacks.get? 2 = some e ∧ e.doregister = true) →
      l1.eidentity = some 2) ∧
    (i ≤ 19 → 19 < i + n →
      ((∃ e, s.osmtpd_callbacks.get? 19 = some e ∧ e.doregister = true) ∨
        (need_phase s.needs OSMTPD_PHASE_LINK_IDENTIFY ∧
          ∃ j e, i ≤ j ∧ j ≤ 19 ∧ s.osmtpd_callbacks.get? j = some e ∧
            e.doregister = true ∧ e.incoming = 1)) →
      l1.ridentity = some 19) := by
  induction n generalizing i s l with
  | zero =>
    exact ⟨fun h1 h2 => absurd h2 (by omega), fun h1 h2 => absurd h2 (by omega),
      fun h1 h2 => absurd h2 (by omega)⟩
  | succ n ih =>
    unfold osmtpd_run_loop at h
    cases hs : osmtpd_run_step s l i with
    | error x => rw [hs] at h; cases h
    | ok p =>
      obtain ⟨sa, la⟩ := p
      rw [hs] at h
      simp only at h
      obtain ⟨ra, ca⟩ := osmtpd_run_step_spec D s sa l la i hcat hD hs
      have hcata := reg_step_catalog ra hcat
      obtain ⟨b1, b2, b3⟩ := osmtpd_run_loop_locals D n (i + 1) sa s1 la l1 hcata
        (dir_closed_step ra hD) h
      obtain ⟨c1, c2, c3⟩ := ih (i + 1) sa la hcata (dir_closed_step ra hD) h
      have keep : ∀ k, (∃ e, s.osmtpd_callbacks.get? k = some e ∧ e.doregister = true) →
          ∃ e, sa.osmtpd_callbacks.get? k = some e ∧ e.doregister = true := by
        rintro k ⟨e, hg, hd⟩
        obtain ⟨ea, hga, hra⟩ := forall₂_get_left (reg_step_entry_rel ra) k e hg
        exact ⟨ea, hga, hra.2.2.2.2.2.1 hd⟩
      have here : ∀ e, s.osmtpd_callbacks.get? i = some e → e.doregister = true →
          la = osmtpd_run_identity e i l ∧ need_flags s.needs e.incoming sa.osmtpd_callbacks := by
        intro e hg hd
        rcases ca with ⟨e0, hg0, _, hf, hl⟩ | ⟨hno, _, _⟩
        · rw [hg] at hg0
          cases hg0
          exact ⟨hl, hf⟩
        · rw [hno e hg] at hd
          cases hd
      refine ⟨fun h1 h2 hx => ?_, fun h1 h2 hx => ?_, fun h1 h2 hx => ?_⟩
      · by_cases hi : i = 1
        · subst hi
          obtain ⟨e, hg, hd⟩ := hx
          have hk := catalog_get_key _ hcat 1 e hg
          have hk2 : entry_key e = (OSMTPD_TYPE_FILTER, OSMTPD_PHASE_HELO, 1) :=
            (Option.some.inj hk).symm
          have hla : la.hidenity = some 1 := by
            rw [(here e hg hd).1, osmtpd_run_identity_hidenity, if_pos]
            exact ⟨congrArg Prod.fst hk2, congrArg (fun x => x.2.1) hk2⟩
          rcases b1 with b | b
          · rw [b, hla]
          · exact b
        · exact c1 (by omega) (by omega) (keep 1 hx)
      · by_cases hi : i = 2
        · subst hi
          obtain ⟨e, hg, hd⟩ := hx
          have hk := catalog_get_key _ hcat 2 e hg
          have hk2 : entry_key e = (OSMTPD_TYPE_FILTER, OSMTPD_PHASE_EHLO, 1) :=
            (Option.some.inj hk).symm
          have hla : la.eidentity = some 2 := by
            rw [(here e hg hd).1, osmtpd_run_identity_eidentity, if_pos]
            exact ⟨congrArg Prod.fst hk2, congrArg (fun x => x.2.1) hk2⟩
          rcases b2 with b | b
          · rw [b, hla]
          · exact b
        · exact c2 (by omega) (by omega) (keep 2 hx)
      · have at19 : (∃ e, s.osmtpd_callbacks.get? 19 = some e ∧ e.doregister = true) →
            l1.ridentity = some 19 := by
          intro hy
          by_cases hi : i = 19
          · subst hi
            obtain ⟨e, hg, hd⟩ := hy
            have hk := catalog_get_key _ hcat 19 e hg
            have hk2 : entry_key e = (OSMTPD_TYPE_REPORT, OSMTPD_PHASE_LINK_IDENTIFY, 1) :=
              (Option.some.inj hk).symm
            have hla : la.ridentity = some 19 := by
              rw [(here e hg hd).1, osmtpd_run_identity_ridentity, if_pos]
              exact ⟨congrArg Prod.fst hk2, congrArg (fun x => x.2.1) hk2,
                congrArg (fun x => x.2.2) hk2⟩
            rcases b3 with b | b
            · rw [b, hla]
            · exact b
          · exact c3 (by omega) (by omega) (Or.inl (keep 19 hy))
        rcases hx with hx | ⟨hneed, j, e, hj1, hj2, hg, hd, hin⟩
        · exact at19 hx
        · by_cases hji : j = i
          · subst hji
            have hf := (here e hg hd).2
            rw [hin] at hf
            obtain ⟨e19, hg19, hk19⟩ := catalog_entry_at _ hcata 19
              (OSMTPD_TYPE_REPORT, OSMTPD_PHASE_LINK_IDENTIFY, 1) rfl
            have hd19 := (hf.1 _ hneed e19 (List.get?_mem hg19) hk19).1
            by_cases hi : j = 19
            · subst hi
              exact at19 ⟨e, hg, hd⟩
            · exact c3 (by omega) (by omega) (Or.inl ⟨e19, hg19, hd19⟩)
          · obtain ⟨ea, hga, hra⟩ := forall₂_get_left (reg_step_entry_rel ra) j e hg
            refine c3 (by omega) (by omega) (Or.inr ⟨?_, j, ea, by omega, hj2, hga,
              hra.2.2.2.2.2.1 hd, ?_⟩)
            · rw [(reg_step_needs ra).1]
              exact hneed
            · rw [hra.2.2.1]
              exact hin

theorem set_storereport_get (p : Option Nat) (cbs : List osmtpd_callback) (k : Nat) :
    (set_storereport p cbs).get? k = (cbs.get? k).map fun e =>
      if p = some k ∧ e.doregister = true then { e with storereport := true } else e := by
  cases p with
  | none =>
    unfold set_storereport
    cases cbs.get? k with
    | none => rfl
    | some e => simp
  | some j =>
    unfold set_storereport
    simp only
    by_cases hjk : j = k
    · subst hjk
      cases hg : cbs.get? j with
      | none => exact hg
      | some e =>
        simp only [Option.map_some']
        by_cases hd : e.doregister = true
        · rw [if_pos hd, if_pos ⟨trivial, hd⟩, List.get?_eq_getElem?, List.getElem?_set_self]
          by_contra hge
          rw [List.get?_eq_none.2 (not_lt.1 hge)] at hg
          cases hg
        · rw [if_neg hd, if_neg (fun x => hd x.2), hg]
    · have hne : ∀ e : osmtpd_callback, ¬ (some j = some k ∧ e.doregister = true) :=
        fun e x => hjk (Option.some.inj x.1)
      have hmap : ∀ o : Option osmtpd_callback, o = o.map fun e =>
          if some j = some k ∧ e.doregister = true then { e with storereport := true }
          else e := by
        intro o
        cases o with
        | none => rfl
        | some e => simp only [Option.map_some', if_neg (hne e)]
      cases hg : cbs.get? j with
      | none => exact hmap _
      | some e =>
        simp only
        by_cases hd : e.doregister = true
        · rw [if_pos hd, List.get?_eq_getElem?, List.getElem?_set_ne hjk,
            ← List.get?_eq_getElem?]
          exact hmap _
        · rw [if_neg hd]
          exact hmap _

theorem osmtpd_run_promote_eq (s : State) (l : run_locals) :
    osmtpd_run_promote s l =
      if promote_gate s l = true then
        { s with osmtpd_callbacks :=
            set_storereport l.eidentity (set_storereport l.hidenity s.osmtpd_callbacks) }
      else s := by
  unfold osmtpd_run_promote promote_gate
  cases l.ridentity.bind fun i => s.osmtpd_callbacks.get? i with
  | none => rfl
  | some r => rfl

/-- The identify promotion entry by entry. -/
theorem osmtpd_run_promote_get (s : State) (l : run_locals) (k : Nat) :
    (osmtpd_run_promote s l).osmtpd_callbacks.get? k =
      (s.osmtpd_callbacks.get? k).map (promote_entry s l k) := by
  rw [osmtpd_run_promote_eq]
  by_cases hgate : promote_gate s l = true
  · rw [if_pos hgate]
    show (set_storereport l.eidentity (set_storereport l.hidenity s.osmtpd_callbacks)).get? k = _
    rw [set_storereport_get, set_storereport_get]
    cases s.osmtpd_callbacks.get? k with
    | none => rfl
    | some e =>
      simp only [Option.map_some', Option.some.injEq]
      unfold promote_entry
      by_cases hd : e.doregister = true
      · by_cases hh : l.hidenity = some k
        · by_cases he : l.eidentity = some k
          · simp [hgate, hd, hh, he]
          · simp [hgate, hd, hh, he]
        · by_cases he : l.eidentity = some k
          · simp [hgate, hd, hh, he]
          · simp [hgate, hd, hh, he]
      · simp [hd]
  · rw [if_neg hgate]
    cases s.osmtpd_callbacks.get? k with
    | none => rfl
    | some e =>
      simp only [Option.map_some', Option.some.injEq]
      unfold promote_entry
      rw [if_neg (fun x => hgate x.1)]

theorem get_some_lt {l : List osmtpd_callback} {j : Nat} {x : osmtpd_callback}
    (h : l.get? j = some x) : j < l.length := by
  by_contra hge
  rw [List.get?_eq_none.2 (not_lt.1 hge)] at h
  cases h

theorem dir_closed_self (cbs : List osmtpd_callback) :
    dir_closed (direction_active cbs) cbs :=
  fun e he hd => ⟨e, he, hd, rfl⟩

theorem osmtpd_run_register_split (s s2 : State) (h : osmtpd_run_register s = .ok s2) :
    ∃ s1 l, osmtpd_run_loop s.osmtpd_callbacks.length 0 s ⟨none, none, none⟩ = .ok (s1, l) ∧
      s2 = osmtpd_run_promote s1 l := by
  unfold osmtpd_run_register at h
  cases hl : osmtpd_run_loop s.osmtpd_callbacks.length 0 s ⟨none, none, none⟩ with
  | error x => rw [hl] at h; cases h
  | ok q =>
    obtain ⟨s1, l⟩ := q
    rw [hl] at h
    simp only [Except.ok.injEq] at h
    exact ⟨s1, l, rfl, h.symm⟩

theorem promote_entry_rel (s : State) (l : run_locals) (k : Nat) (e : osmtpd_callback) :
    (promote_entry s l k e).type = e.type ∧ (promote_entry s l k e).phase = e.phase ∧
    (promote_entry s l k e).incoming = e.incoming ∧
    (promote_entry s l k e).doregister = e.doregister ∧
    (e.storereport = true → (promote_entry s l k e).storereport = true) := by
  unfold promote_entry
  split_ifs
  · exact ⟨rfl, rfl, rfl, rfl, fun _ => rfl⟩
  · exact ⟨rfl, rfl, rfl, rfl, id⟩

/-- The identify promotion leaves the `report` entries as they are: the two
pointers it writes through are null or point to the `filter` entries at index
1 and 2. -/
theorem promote_entry_report (s : State) (l : run_locals) (k : Nat) (e : osmtpd_callback)
    (hcat : catalog_shaped s.osmtpd_callbacks)
    (hh : l.hidenity = none ∨ l.hidenity = some 1)
    (he : l.eidentity = none ∨ l.eidentity = some 2)
    (hg : s.osmtpd_callbacks.get? k = some e) (ht : e.type = OSMTPD_TYPE_REPORT) :
    promote_entry s l k e = e := by
  unfold promote_entry
  rw [if_neg]
  rintro ⟨_, hp, _⟩
  have hkey := catalog_get_key _ hcat k e hg
  rcases hp with hp | hp
  · rcases hh with h0 | h0
    · rw [h0] at hp; cases hp
    · rw [h0] at hp
      cases hp
      have h2 : entry_key e = (OSMTPD_TYPE_FILTER, OSMTPD_PHASE_HELO, 1) :=
        (Option.some.inj hkey).symm
      have h3 : e.type = OSMTPD_TYPE_FILTER := congrArg Prod.fst h2
      rw [ht] at h3
      cases h3
  · rcases he with h0 | h0
    · rw [h0] at hp; cases hp
    · rw [h0] at hp
      cases hp
      have h2 : entry_key e = (OSMTPD_TYPE_FILTER, OSMTPD_PHASE_EHLO, 1) :=
        (Option.some.inj hkey).symm
      have h3 : e.type = OSMTPD_TYPE_FILTER := congrArg Prod.fst h2
      rw [ht] at h3
      cases h3

/-- The `report` entries after the registration phase of `osmtpd_run`, started
on a catalog the public functions can leave: `storereport` is set only where
the direction has a registered event and the need mask maps to the phase; and
for a direction with a registered event, the events of the need mask are
registered with `storereport`, `tx-rollback` and `tx-commit` are registered
when the mask has a message bit, and `link-disconnect` is registered. -/
theorem osmtpd_run_register_report (s s2 : State) (hapi : api_catalog s.osmtpd_callbacks)
    (h : osmtpd_run_register s = .ok s2) :
    ∀ e ∈ s2.osmtpd_callbacks, e.type = OSMTPD_TYPE_REPORT →
      (e.storereport = true →
        direction_active s.osmtpd_callbacks e.incoming ∧ need_phase s.needs e.phase) ∧
      (direction_active s.osmtpd_callbacks e.incoming →
        (need_phase s.needs e.phase → e.doregister = true ∧ e.storereport = true) ∧
        ((s.needs &&& OSMTPD_NEED_MSGID ≠ 0 ∨ s.needs &&& OSMTPD_NEED_MAILFROM ≠ 0 ∨
            s.needs &&& OSMTPD_NEED_RCPTTO ≠ 0 ∨ s.needs &&& OSMTPD_NEED_EVPID ≠ 0) →
          (e.phase = OSMTPD_PHASE_TX_ROLLBACK ∨ e.phase = OSMTPD_PHASE_TX_COMMIT) →
          e.doregister = true) ∧
        (e.phase = OSMTPD_PHASE_LINK_DISCONNECT → e.doregister = true)) := by
  intro e he ht
  obtain ⟨s1, l, hloop, hs2⟩ := osmtpd_run_register_split s s2 h
  obtain ⟨rs, fl⟩ := osmtpd_run_loop_spec (direction_active s.osmtpd_callbacks) _ 0 s s1 _ l
    hapi.1 (dir_closed_self _) hloop
  obtain ⟨a1, a2, _⟩ := osmtpd_run_loop_locals (direction_active s.osmtpd_callbacks) _ 0 s s1 _ l
    hapi.1 (dir_closed_self _) hloop
  obtain ⟨k, hk⟩ := List.mem_iff_get?.1 he
  rw [hs2, osmtpd_run_promote_get] at hk
  cases hg1 : s1.osmtpd_callbacks.get? k with
  | none => rw [hg1] at hk; cases hk
  | some e1 =>
    rw [hg1] at hk
    simp only [Option.map_some', Option.some.injEq] at hk
    have ht1 : e1.type = OSMTPD_TYPE_REPORT := by
      rw [← (promote_entry_rel s1 l k e1).1, hk]; exact ht
    rw [promote_entry_report s1 l k e1 (reg_step_catalog rs hapi.1) a1 a2 hg1 ht1] at hk
    subst hk
    obtain ⟨e0, hg0, hb⟩ := forall₂_get_right rs.2 k e1 hg1
    have he1 : e1 ∈ s1.osmtpd_callbacks := List.get?_mem hg1
    have hkey : entry_key e1 = (OSMTPD_TYPE_REPORT, e1.phase, e1.incoming) :=
      entry_key_eq e1 _ _ _ ht rfl rfl
    refine ⟨fun hst => ?_, fun hact => ?_⟩
    · rcases hb.2.2 hst with h0 | h0
      · rw [hapi.2 e0 (List.get?_mem hg0)] at h0
        cases h0
      · rw [hb.1.2.2.1, hb.1.2.1]
        exact ⟨h0.2.1, h0.2.2⟩
    · obtain ⟨x, hx, hxd, hxi⟩ := hact
      obtain ⟨j, hj⟩ := List.mem_iff_get?.1 hx
      have nf := fl j x (Nat.zero_le j) (by rw [Nat.zero_add]; exact get_some_lt hj) hj hxd
      rw [hxi] at nf
      refine ⟨fun hn => ?_, fun hbits hph => ?_, fun hph => ?_⟩
      · have := nf.1 e1.phase hn e1 he1 hkey
        exact ⟨this.1, this.2 rfl⟩
      · rcases hph with hph | hph
        · rw [hph] at hkey
          exact ((nf.2.1 hbits).1 e1 he1 hkey).1
        · rw [hph] at hkey
          exact ((nf.2.1 hbits).2 e1 he1 hkey).1
      · rw [hph] at hkey
        exact (nf.2.2 e1 he1 hkey).1

theorem catalog_direction (cbs : List osmtpd_callback) (hcat : catalog_shaped cbs) (d : Int)
    (h : direction_active cbs d) : d = 0 ∨ d = 1 := by
  obtain ⟨e, he, _, hd⟩ := h
  have hm : entry_key e ∈ osmtpd_callbacks_init.map entry_key := by
    rw [← catalog_shaped_keys cbs hcat]
    exact List.mem_map_of_mem entry_key he
  have hall : ∀ x ∈ osmtpd_callbacks_init.map entry_key, x.2.2 = 0 ∨ x.2.2 = 1 := by decide
  rw [← hd]
  exact hall _ hm

theorem catalog_mem_key (cbs : List osmtpd_callback) (hcat : catalog_shaped cbs)
    (key : osmtpd_type × osmtpd_phase × Int)
    (hk : key ∈ osmtpd_callbacks_init.map entry_key) : ∃ e ∈ cbs, entry_key e = key := by
  rw [← catalog_shaped_keys cbs hcat] at hk
  obtain ⟨e, he, hke⟩ := List.mem_map.1 hk
  exact ⟨e, he, hke⟩

theorem osmtpd_run_register_catalog (s s2 : State) (hcat : catalog_shaped s.osmtpd_callbacks)
    (h : osmtpd_run_register s = .ok s2) :
    catalog_shaped s2.osmtpd_callbacks ∧ s2.io_stdout = s.io_stdout := by
  have hres := osmtpd_run_register_res s
  rw [h] at hres
  have hok : reg_ok s s2 := hres
  refine ⟨?_, ?_⟩
  · unfold catalog_shaped at *
    rw [forall₂_entry_rel_sig hok.2, hcat]
  · rw [hok.1]

theorem link_disconnect_line_eq (e : osmtpd_callback) (d : Int)
    (hk : entry_key e = (OSMTPD_TYPE_REPORT, OSMTPD_PHASE_LINK_DISCONNECT, d)) :
    register_line e = link_disconnect_line d := by
  have h1 : e.type = OSMTPD_TYPE_REPORT := congrArg Prod.fst hk
  have h2 : e.phase = OSMTPD_PHASE_LINK_DISCONNECT := congrArg (fun x => x.2.1) hk
  have h3 : e.incoming = d := congrArg (fun x => x.2.2) hk
  unfold register_line link_disconnect_line
  rw [h1, h2, h3]
  by_cases hd : d ≠ 0
  · rw [if_pos hd]; rfl
  · rw [if_neg hd]; rfl

/-- C11: after the registration phase of `osmtpd_run`, started on a catalog
the public registration functions can leave (the events of the initialiser,
no entry with `storereport`), a `report` entry of direction `d` has
`storereport` exactly when some event of direction `d` was registered before
the run and the need mask has a bit that `osmtpd_register_need` maps to the
phase of the entry (`need_mask`: SRC, DST, RDNS or FCRDNS for `link-connect`,
GREETING for `link-greeting`, IDENTITY for `link-identify`, CIPHERS for
`link-tls`, MSGID for `tx-begin`, MAILFROM for `tx-mail`, RCPTTO for `tx-rcpt`,
EVPID for `tx-envelope`); for any other `report` phase it is false. -/
theorem store_report_iff (s s2 : State) (hapi : api_catalog s.osmtpd_callbacks)
    (h : osmtpd_run_register s = .ok s2) :
    ∀ e ∈ s2.osmtpd_callbacks, e.type = OSMTPD_TYPE_REPORT →
      (e.storereport = true ↔
        direction_active s.osmtpd_callbacks e.incoming ∧ s.needs &&& need_mask e.phase ≠ 0) ∧
      (e.phase ≠ OSMTPD_PHASE_LINK_CONNECT → e.phase ≠ OSMTPD_PHASE_LINK_GREETING →
        e.phase ≠ OSMTPD_PHASE_LINK_IDENTIFY → e.phase ≠ OSMTPD_PHASE_LINK_TLS →
        e.phase ≠ OSMTPD_PHASE_TX_BEGIN → e.phase ≠ OSMTPD_PHASE_TX_MAIL →
        e.phase ≠ OSMTPD_PHASE_TX_RCPT → e.phase ≠ OSMTPD_PHASE_TX_ENVELOPE →
        e.storereport = false) := by
  intro e he ht
  obtain ⟨h1, h2⟩ := osmtpd_run_register_report s s2 hapi h e he ht
  refine ⟨⟨h1, fun hx => ((h2 hx.1).1 hx.2).2⟩, fun n1 n2 n3 n4 n5 n6 n7 n8 => ?_⟩
  cases hs : e.storereport with
  | false => rfl
  | true =>
    rcases need_phase_cases _ _ (h1 hs).2 with x | x | x | x | x | x | x | x
    · exact absurd x n1
    · exact absurd x n2
    · exact absurd x n3
    · exact absurd x n4
    · exact absurd x n5
    · exact absurd x n6
    · exact absurd x n7
    · exact absurd x n8

/-- Witness of C11: the registration phase on `identify_state`. -/
theorem store_report_iff_witness :
    api_catalog identify_state.osmtpd_callbacks ∧
    osmtpd_run_register identify_state = .ok identify_registered ∧
    ∀ e ∈ identify_registered.osmtpd_callbacks, e.type = OSMTPD_TYPE_REPORT →
      (e.storereport = true ↔
        direction_active identify_state.osmtpd_callbacks e.incoming ∧
          identify_state.needs &&& need_mask e.phase ≠ 0) ∧
      (e.phase ≠ OSMTPD_PHASE_LINK_CONNECT → e.phase ≠ OSMTPD_PHASE_LINK_GREETING →
        e.phase ≠ OSMTPD_PHASE_LINK_IDENTIFY → e.phase ≠ OSMTPD_PHASE_LINK_TLS →
        e.phase ≠ OSMTPD_PHASE_TX_BEGIN → e.phase ≠ OSMTPD_PHASE_TX_MAIL →
        e.phase ≠ OSMTPD_PHASE_TX_RCPT → e.phase ≠ OSMTPD_PHASE_TX_ENVELOPE →
        e.storereport = false) :=
  ⟨by decide, rfl, store_report_iff identify_state identify_registered (by decide) rfl⟩

/-- C13: when the need mask has one of MSGID, MAILFROM, RCPTTO and EVPID, then
after the registration phase of `osmtpd_run` (started on a catalog the public
registration functions can leave), for each direction with an event registered
before the run, the `report` entries `tx-rollback` and `tx-commit` have
`doregister` set and `storereport` clear, and the entry `tx-begin`, `tx-mail`,
`tx-rcpt`, `tx-envelope` of each bit in the mask has `doregister` set; the
catalog has these six entries for the direction. -/
theorem tx_need_registrations (s s2 : State) (hapi : api_catalog s.osmtpd_callbacks)
    (h : osmtpd_run_register s = .ok s2)
    (hbits : s.needs &&& OSMTPD_NEED_MSGID ≠ 0 ∨ s.needs &&& OSMTPD_NEED_MAILFROM ≠ 0 ∨
      s.needs &&& OSMTPD_NEED_RCPTTO ≠ 0 ∨ s.needs &&& OSMTPD_NEED_EVPID ≠ 0) :
    (∀ e ∈ s2.osmtpd_callbacks, e.type = OSMTPD_TYPE_REPORT →
      direction_active s.osmtpd_callbacks e.incoming →
      ((e.phase = OSMTPD_PHASE_TX_ROLLBACK ∨ e.phase = OSMTPD_PHASE_TX_COMMIT) →
        e.doregister = true ∧ e.storereport = false) ∧
      (e.phase = OSMTPD_PHASE_TX_BEGIN → s.needs &&& OSMTPD_NEED_MSGID ≠ 0 →
        e.doregister = true) ∧
      (e.phase = OSMTPD_PHASE_TX_MAIL → s.needs &&& OSMTPD_NEED_MAILFROM ≠ 0 →
        e.doregister = true) ∧
      (e.phase = OSMTPD_PHASE_TX_RCPT → s.needs &&& OSMTPD_NEED_RCPTTO ≠ 0 →
        e.doregister = true) ∧
      (e.phase = OSMTPD_PHASE_TX_ENVELOPE → s.needs &&& OSMTPD_NEED_EVPID ≠ 0 →
        e.doregister = true)) ∧
    (∀ d, direction_active s.osmtpd_callbacks d →
      ∀ p ∈ [OSMTPD_PHASE_TX_ROLLBACK, OSMTPD_PHASE_TX_COMMIT, OSMTPD_PHASE_TX_BEGIN,
          OSMTPD_PHASE_TX_MAIL, OSMTPD_PHASE_TX_RCPT, OSMTPD_PHASE_TX_ENVELOPE],
        ∃ e ∈ s2.osmtpd_callbacks, entry_key e = (OSMTPD_TYPE_REPORT, p, d)) := by
  refine ⟨fun e he ht hact => ?_, fun d hact p hp => ?_⟩
  · obtain ⟨h1, h2⟩ := osmtpd_run_register_report s s2 hapi h e he ht
    obtain ⟨a, b, _⟩ := h2 hact
    refine ⟨fun hph => ⟨b hbits hph, ?_⟩, fun hph hb => ?_, fun hph hb => ?_,
      fun hph hb => ?_, fun hph hb => ?_⟩
    · cases hs : e.storereport with
      | false => rfl
      | true =>
        have hn := (h1 hs).2
        rcases hph with hph | hph <;> rw [hph] at hn <;>
          exact absurd (Nat.and_zero s.needs) hn
    · exact (a (by rw [hph]; exact hb)).1
    · exact (a (by rw [hph]; exact hb)).1
    · exact (a (by rw [hph]; exact hb)).1
    · exact (a (by rw [hph]; exact hb)).1
  · have hcat2 := (osmtpd_run_register_catalog s s2 hapi.1 h).1
    simp only [List.mem_cons, List.mem_singleton, List.not_mem_nil, or_false] at hp
    rcases catalog_direction _ hapi.1 d hact with hd | hd <;> subst hd <;>
      rcases hp with hp | hp | hp | hp | hp | hp <;> subst hp <;>
      exact catalog_mem_key _ hcat2 _ (by decide)

/-- Witness of C13: the registration phase on `identify_state`, whose need
mask has MSGID. -/
theorem tx_need_registrations_witness :
    api_catalog identify_state.osmtpd_callbacks ∧
    osmtpd_run_register identify_state = .ok identify_registered ∧
    identify_state.needs &&& OSMTPD_NEED_MSGID ≠ 0 ∧
    direction_active identify_state.osmtpd_callbacks 1 ∧
    ∀ p ∈ [OSMTPD_PHASE_TX_ROLLBACK, OSMTPD_PHASE_TX_COMMIT, OSMTPD_PHASE_TX_BEGIN,
        OSMTPD_PHASE_TX_MAIL, OSMTPD_PHASE_TX_RCPT, OSMTPD_PHASE_TX_ENVELOPE],
      ∃ e ∈ identify_registered.osmtpd_callbacks, entry_key e = (OSMTPD_TYPE_REPORT, p, 1) :=
  ⟨by decide, rfl, by decide, by decide,
    (tx_need_registrations identify_state identify_registered (by decide) rfl
      (Or.inl (by decide))).2 1 (by decide)⟩

/-- C14: after the registration phase of `osmtpd_run` (started on a catalog
the public registration functions can leave), for every direction `d` with an
event registered before the run, whatever the need mask is, the `report`
entry `link-disconnect` of direction `d` exists, has `doregister` set and
`storereport` clear, and its line `register|report|smtp-<d>|link-disconnect`
is among the lines of the handshake; when `osmtpd_run` succeeds, what it
wrote is these lines followed by `register|ready`. -/
theorem link_disconnect_registered (s s2 : State) (hapi : api_catalog s.osmtpd_callbacks)
    (h : osmtpd_run_register s = .ok s2) :
    (∀ e ∈ s2.osmtpd_callbacks, e.type = OSMTPD_TYPE_REPORT →
      e.phase = OSMTPD_PHASE_LINK_DISCONNECT →
      direction_active s.osmtpd_callbacks e.incoming →
      e.doregister = true ∧ e.storereport = false) ∧
    (∀ d, direction_active s.osmtpd_callbacks d →
      (∃ e ∈ s2.osmtpd_callbacks,
        entry_key e = (OSMTPD_TYPE_REPORT, OSMTPD_PHASE_LINK_DISCONNECT, d)) ∧
      link_disconnect_line d ∈ register_lines s2.osmtpd_callbacks ∧
      ∀ s3, osmtpd_run s = .ok s3 →
        s3.io_stdout = s.io_stdout ++ (register_lines s2.osmtpd_callbacks).flatten ++
          "register|ready\n".toList) := by
  have flags : ∀ e ∈ s2.osmtpd_callbacks, e.type = OSMTPD_TYPE_REPORT →
      e.phase = OSMTPD_PHASE_LINK_DISCONNECT →
      direction_active s.osmtpd_callbacks e.incoming →
      e.doregister = true ∧ e.storereport = false := by
    intro e he ht hph hact
    obtain ⟨h1, h2⟩ := osmtpd_run_register_report s s2 hapi h e he ht
    refine ⟨(h2 hact).2.2 hph, ?_⟩
    cases hs : e.storereport with
    | false => rfl
    | true =>
      have hn := (h1 hs).2
      rw [hph] at hn
      exact absurd (Nat.and_zero s.needs) hn
  refine ⟨flags, fun d hact => ?_⟩
  obtain ⟨hcat2, hio⟩ := osmtpd_run_register_catalog s s2 hapi.1 h
  have hex : ∃ e ∈ s2.osmtpd_callbacks,
      entry_key e = (OSMTPD_TYPE_REPORT, OSMTPD_PHASE_LINK_DISCONNECT, d) := by
    rcases catalog_direction _ hapi.1 d hact with hd | hd <;> subst hd <;>
      exact catalog_mem_key _ hcat2 _ (by decide)
  refine ⟨hex, ?_, fun s3 hrun => ?_⟩
  · obtain ⟨e, he, hk⟩ := hex
    have h3 : e.incoming = d := congrArg (fun x => x.2.2) hk
    have hd := (flags e he (congrArg Prod.fst hk) (congrArg (fun x => x.2.1) hk)
      (by rw [h3]; exact hact)).1
    rw [← link_disconnect_line_eq e d hk]
    unfold register_lines
    exact List.mem_map.2 ⟨e, List.mem_filter.2 ⟨he, hd⟩, rfl⟩
  · rw [osmtpd_run_of_register s s2 h] at hrun
    split at hrun
    · cases hrun
    · simp only [Except.ok.injEq] at hrun
      rw [← hrun]
      show (s2.io_stdout ++ _) ++ _ = _
      rw [hio]

/-- Witness of C14: the run on `identify_state`, whose only direction with a
registered event is `smtp-in`. -/
theorem link_disconnect_registered_witness :
    api_catalog identify_state.osmtpd_callbacks ∧
    osmtpd_run_register identify_state = .ok identify_registered ∧
    direction_active identify_state.osmtpd_callbacks 1 ∧
    osmtpd_run identify_state = .ok identify_ready ∧
    "register|report|smtp-in|link-disconnect\n".toList ∈
      register_lines identify_registered.osmtpd_callbacks ∧
    identify_ready.io_stdout = identify_state.io_stdout ++
      (register_lines identify_registered.osmtpd_callbacks).flatten ++
      "register|ready\n".toList :=
  ⟨by decide, rfl, by decide, rfl,
    ((link_disconnect_registered identify_state identify_registered (by decide) rfl).2 1
      (by decide)).2.1,
    ((link_disconnect_registered identify_state identify_registered (by decide) rfl).2 1
      (by decide)).2.2 identify_ready rfl⟩

/-- C12: after the registration phase of `osmtpd_run` (started on a catalog
the public registration functions can leave), a `filter` entry has
`storereport` exactly when it is the `helo` or the `ehlo` entry, it is
registered, and the inbound `report` entry `link-identify` has `storereport`;
every other `filter` entry has `storereport` clear.  (All `filter` entries of
the catalog are inbound.) -/
theorem identify_promotion (s s2 : State) (hapi : api_catalog s.osmtpd_callbacks)
    (h : osmtpd_run_register s = .ok s2) :
    ∀ e ∈ s2.osmtpd_callbacks, e.type = OSMTPD_TYPE_FILTER →
      e.incoming = 1 ∧
      (e.storereport = true ↔
        (e.phase = OSMTPD_PHASE_HELO ∨ e.phase = OSMTPD_PHASE_EHLO) ∧ e.doregister = true ∧
        ∃ r ∈ s2.osmtpd_callbacks,
          entry_key r = (OSMTPD_TYPE_REPORT, OSMTPD_PHASE_LINK_IDENTIFY, 1) ∧
          r.storereport = true) := by
  intro e he ht
  obtain ⟨s1, l, hloop, hs2⟩ := osmtpd_run_register_split s s2 h
  obtain ⟨rs, _⟩ := osmtpd_run_loop_spec (direction_active s.osmtpd_callbacks) _ 0 s s1 _ l
    hapi.1 (dir_closed_self _) hloop
  obtain ⟨a1, a2, a3⟩ := osmtpd_run_loop_locals (direction_active s.osmtpd_callbacks) _ 0 s s1
    _ l hapi.1 (dir_closed_self _) hloop
  obtain ⟨v1, v2, v3⟩ := osmtpd_run_loop_visit (direction_active s.osmtpd_callbacks) _ 0 s s1
    _ l hapi.1 (dir_closed_self _) hloop
  have hcat1 := reg_step_catalog rs hapi.1
  have hcat2 := (osmtpd_run_register_catalog s s2 hapi.1 h).1
  refine ⟨catalog_filter_incoming _ hcat2 e he ht, ?_⟩
  obtain ⟨k, hk⟩ := List.mem_iff_get?.1 he
  rw [hs2, osmtpd_run_promote_get] at hk
  cases hg1 : s1.osmtpd_callbacks.get? k with
  | none => rw [hg1] at hk; cases hk
  | some e1 =>
    rw [hg1] at hk
    simp only [Option.map_some', Option.some.injEq] at hk
    obtain ⟨p1, p2, p3, p4, _⟩ := promote_entry_rel s1 l k e1
    rw [hk] at p1 p2 p3 p4
    obtain ⟨e0, hg0, hb⟩ := forall₂_get_right rs.2 k e1 hg1
    have ht0 : e0.type = OSMTPD_TYPE_FILTER := by rw [← hb.1.1, ← p1]; exact ht
    have hsr1 : e1.storereport = false := by
      cases hs : e1.storereport with
      | false => rfl
      | true =>
        rcases hb.2.2 hs with h0 | h0
        · rw [hapi.2 e0 (List.get?_mem hg0)] at h0
          cases h0
        · rw [ht0] at h0
          cases h0.1
    have hd0 : e1.doregister = true → e0.doregister = true := by
      intro hd
      rcases hb.2.1 hd with h0 | h0
      · exact h0
      · rw [ht0] at h0
        cases h0.1
    constructor
    · intro hst
      have hc : promote_gate s1 l = true ∧ (l.hidenity = some k ∨ l.eidentity = some k) ∧
          e1.doregister = true := by
        by_contra hn
        rw [← hk] at hst
        unfold promote_entry at hst
        rw [if_neg hn, hsr1] at hst
        cases hst
      obtain ⟨hgate, hptr, hd1⟩ := hc
      refine ⟨?_, by rw [p4]; exact hd1, ?_⟩
      · rw [p2]
        rcases hptr with hp | hp
        · rcases a1 with a | a
          · rw [a] at hp; cases hp
          · rw [a] at hp
            cases hp
            have hkey : entry_key e1 = (OSMTPD_TYPE_FILTER, OSMTPD_PHASE_HELO, 1) :=
              (Option.some.inj (catalog_get_key _ hcat1 1 e1 hg1)).symm
            exact Or.inl (congrArg (fun x => x.2.1) hkey)
        · rcases a2 with a | a
          · rw [a] at hp; cases hp
          · rw [a] at hp
            cases hp
            have hkey : entry_key e1 = (OSMTPD_TYPE_FILTER, OSMTPD_PHASE_EHLO, 1) :=
              (Option.some.inj (catalog_get_key _ hcat1 2 e1 hg1)).symm
            exact Or.inr (congrArg (fun x => x.2.1) hkey)
      · unfold promote_gate at hgate
        rcases a3 with a | a
        · rw [a] at hgate
          cases hgate
        · rw [a] at hgate
          simp only [Option.bind] at hgate
          cases hg19 : s1.osmtpd_callbacks.get? 19 with
          | none => rw [hg19] at hgate; cases hgate
          | some r1 =>
            rw [hg19] at hgate
            simp only at hgate
            have hkey : entry_key r1 =
                (OSMTPD_TYPE_REPORT, OSMTPD_PHASE_LINK_IDENTIFY, 1) :=
              (Option.some.inj (catalog_get_key _ hcat1 19 r1 hg19)).symm
            obtain ⟨q1, q2, q3, _, q5⟩ := promote_entry_rel s1 l 19 r1
            refine ⟨promote_entry s1 l 19 r1, ?_, ?_, q5 hgate⟩
            · apply List.get?_mem (n := 19)
              rw [hs2, osmtpd_run_promote_get, hg19]
              rfl
            · rw [← hkey]
              unfold entry_key
              rw [q1, q2, q3]
    · rintro ⟨hph, hd, r, hr, hkr, hrs⟩
      have hd1 : e1.doregister = true := by rw [← p4]; exact hd
      have hde0 := hd0 hd1
      have hin0 : e0.incoming = 1 := catalog_filter_incoming _ hapi.1 e0 (List.get?_mem hg0) ht0
      have hph0 : e0.phase = e.phase := by rw [← hb.1.2.1, ← p2]
      -- the entry `link-identify` before the promotion
      obtain ⟨j, hj⟩ := List.mem_iff_get?.1 hr
      have hj19 : j = 19 := catalog_index _ hcat2 j 19 r _ hj hkr rfl
      subst hj19
      rw [hs2, osmtpd_run_promote_get] at hj
      cases hg19 : s1.osmtpd_callbacks.get? 19 with
      | none => rw [hg19] at hj; cases hj
      | some r1 =>
        rw [hg19] at hj
        simp only [Option.map_some', Option.some.injEq] at hj
        have hkey1 : entry_key r1 = (OSMTPD_TYPE_REPORT, OSMTPD_PHASE_LINK_IDENTIFY, 1) :=
          (Option.some.inj (catalog_get_key _ hcat1 19 r1 hg19)).symm
        have a1n : l.hidenity = none ∨ l.hidenity = some 1 := a1
        have a2n : l.eidentity = none ∨ l.eidentity = some 2 := a2
        rw [promote_entry_report s1 l 19 r1 hcat1 a1n a2n hg19 (congrArg Prod.fst hkey1)] at hj
        subst hj
        obtain ⟨r0, hgr0, hrb⟩ := forall₂_get_right rs.2 19 r1 hg19
        have hneed : need_phase s.needs OSMTPD_PHASE_LINK_IDENTIFY := by
          rcases hrb.2.2 hrs with h0 | h0
          · rw [hapi.2 r0 (List.get?_mem hgr0)] at h0
            cases h0
          · have : r0.phase = OSMTPD_PHASE_LINK_IDENTIFY := by
              rw [← hrb.1.2.1]; exact congrArg (fun x => x.2.1) hkey1
            rw [← this]
            exact h0.2.2
        have hlen : 19 < 0 + s.osmtpd_callbacks.length := by
          rw [Nat.zero_add]; exact get_some_lt hgr0
        have hk12 : (k = 1 ∧ e.phase = OSMTPD_PHASE_HELO) ∨
            (k = 2 ∧ e.phase = OSMTPD_PHASE_EHLO) := by
          rcases hph with hp | hp
          · exact Or.inl ⟨catalog_index _ hapi.1 k 1 e0 _ hg0
              (entry_key_eq e0 _ _ _ ht0 (hph0.trans hp) hin0) rfl, hp⟩
          · exact Or.inr ⟨catalog_index _ hapi.1 k 2 e0 _ hg0
              (entry_key_eq e0 _ _ _ ht0 (hph0.trans hp) hin0) rfl, hp⟩
        have hk19 : k ≤ 19 := by rcases hk12 with x | x <;> omega
        have hrid : l.ridentity = some 19 :=
          v3 (Nat.zero_le _) hlen (Or.inr ⟨hneed, k, e0, Nat.zero_le _, hk19, hg0, hde0, hin0⟩)
        have hgate : promote_gate s1 l = true := by
          unfold promote_gate
          rw [hrid]
          simp only [Option.bind]
          rw [hg19]
          exact hrs
        have hptr : l.hidenity = some k ∨ l.eidentity = some k := by
          rcases hk12 with ⟨x, _⟩ | ⟨x, _⟩
          · subst x
            exact Or.inl (v1 (by omega) (by omega) ⟨e0, hg0, hde0⟩)
          · subst x
            exact Or.inr (v2 (by omega) (by omega) ⟨e0, hg0, hde0⟩)
        rw [← hk]
        unfold promote_entry
        rw [if_pos ⟨hgate, hptr, hd1⟩]

/-- Witness of C12: the registration phase on `identify_state`, where `helo`
is registered and the need mask has IDENTITY. -/
theorem identify_promotion_witness :
    api_catalog identify_state.osmtpd_callbacks ∧
    osmtpd_run_register identify_state = .ok identify_registered ∧
    ∀ e ∈ identify_registered.osmtpd_callbacks, e.type = OSMTPD_TYPE_FILTER →
      e.incoming = 1 ∧
      (e.storereport = true ↔
        (e.phase = OSMTPD_PHASE_HELO ∨ e.phase = OSMTPD_PHASE_EHLO) ∧ e.doregister = true ∧
        ∃ r ∈ identify_registered.osmtpd_callbacks,
          entry_key r = (OSMTPD_TYPE_REPORT, OSMTPD_PHASE_LINK_IDENTIFY, 1) ∧
          r.storereport = true) :=
  ⟨by decide, rfl, identify_promotion identify_state identify_registered (by decide) rfl⟩

/-! ## Claims on the retained copy of the line and on the timestamp fraction -/

/-- C35 (failing input): the copy kept for error messages is the whole line
exactly when the buffer size differs from the length of the line (or the line
is empty): `linedup` is reallocated only when `dupsize < linelen`, so a line
whose length equals `dupsize` is copied by `strlcpy` without its last
character.  After the 12-character line `config|ready` the buffer has size 13,
and the 13-character line `config|bogus!` that follows is reported as
`config|bogus`. -/
theorem linedup_truncated :
    (∀ (s : State) (line : List Char),
      (newline_linedup s line).linedup = line ↔ (s.dupsize ≠ line.length ∨ line = [])) ∧
    (newline_linedup State.init line_config_ready).dupsize = 13 ∧
    (newline_linedup (newline_linedup State.init line_config_ready)
      line_config_bogus).linedup = "config|bogus".toList ∧
    ∃ st, osmtpd_newline hook_env State.init [line_config_ready, line_config_bogus] =
      .error (Halt.exit 1 "Invalid line received: missing key: config|bogus\n".toList st) := by
  refine ⟨fun s line => ?_, by decide, by decide, ⟨_, rfl⟩⟩
  unfold newline_linedup
  simp only
  rw [List.take_eq_self_iff, ← List.length_eq_zero]
  by_cases hlt : s.dupsize < line.length
  · rw [if_pos hlt]
    omega
  · rw [if_neg hlt]
    omega

/-- C33 (failing input): for every line with well-formed fields up to the
phase, the fraction `nsec` of the timestamp, written with `d` characters, is
stored as `nsec * (10 * (9 - (d + 1)))` (in `long` arithmetic): `end` has been
moved past the `|` when `end - line` is taken, so the separator is counted.
The fraction `5` is stored as 350, not as `5 * (10 * (9 - 1)) = 400`. -/
theorem timestamp_fraction_factor :
    (∀ (kind maj min sec frac dir ph rest : List Char) (tv_sec nsec : Int) (h : line_header),
      event_fields kind maj min sec frac dir ph tv_sec nsec →
      osmtpd_newline_header (event_line kind maj min sec frac dir ph rest) = some h →
      h.tm = ⟨tv_sec, to_long (nsec * (10 * (9 - ((frac.length : Int) + 1))))⟩) ∧
    event_fields "report".toList "0".toList "7".toList "1700000000".toList "5".toList
      "smtp-in".toList "tx-begin".toList 1700000000 5 ∧
    (osmtpd_newline_header line_fraction_five).map (fun h => h.tm) =
      some ⟨1700000000, 350⟩ ∧
    osmtpd_newline_line hook_env report_ready line_fraction_five =
      .ok (after_lines hook_env report_ready [line_fraction_five]) ∧
    (after_lines hook_env report_ready [line_fraction_five]).osmtpd_sessions.map
      (fun c => c.tm) = [⟨1700000000, 350⟩] ∧
    (5 : Int) * (10 * (9 - 1)) = 400 := by
  refine ⟨?_, by unfold event_fields; decide, by decide, rfl, by decide, by decide⟩
  intro kind maj min sec frac dir ph rest tv_sec nsec h hf hh
  rw [header_event_line kind maj min sec frac dir ph rest tv_sec nsec hf] at hh
  by_cases h1 : to_int (decimal_value maj) ≠ 0
  · rw [if_pos h1] at hh; cases hh
  rw [if_neg h1] at hh
  by_cases h2 : dir ≠ "smtp-in".toList ∧ dir ≠ "smtp-out".toList
  · rw [if_pos h2] at hh; cases hh
  rw [if_neg h2] at hh
  cases hp : osmtpd_strtophase ph with
  | none => rw [hp] at hh; cases hh
  | some phase =>
    rw [hp] at hh
    exact (header_reqid_fields _ _ _ _ _ _ _ h hh).2.2.2.1

/-! ## Claims on the payload parsers -/

theorem strchr_split_count (c : Char) (l a b : List Char)
    (h : strchr_split c l = some (a, b)) : l.count c = b.count c + 1 := by
  induction l generalizing a with
  | nil => cases h
  | cons x xs ih =>
    unfold strchr_split at h
    by_cases hx : x = c
    · rw [if_pos hx] at h
      simp only [Option.some.injEq, Prod.mk.injEq] at h
      rw [hx, List.count_cons_self, h.2]
    · rw [if_neg hx] at h
      cases hs : strchr_split c xs with
      | none => rw [hs] at h; cases h
      | some p =>
        obtain ⟨a1, b1⟩ := p
        rw [hs] at h
        simp only [Option.some.injEq, Prod.mk.injEq] at h
        obtain ⟨_, hb⟩ := h
        subst hb
        rw [List.count_cons_of_ne (Ne.symm hx), ih a1 hs]

/-- C40: in the `link-connect` payload `rdns|fcrdns|src|dst` the word `pass` is
read as status ok, `fail` as permfail and `error` as tempfail; with two
addresses that `osmtpd_addrtoss` accepts, the values are cached when the
entry has `storereport` and handed to the callback, if any.  Any other word
(so also `ok`, `tempfail` and `permfail`) is fatal with `invalid fcrdns`, and a
payload with fewer than three `|` is fatal. -/
theorem link_connect_fcrdns (env : user_code) (s : State) (cb : osmtpd_callback)
    (ctx : osmtpd_ctx) (rdns w srcs dsts : List Char)
    (hr : '|' ∉ rdns) (hw : '|' ∉ w) (hs : '|' ∉ srcs) :
    (∀ st src dst,
      (w = "pass".toList ∧ st = OSMTPD_STATUS_OK) ∨
        (w = "fail".toList ∧ st = OSMTPD_STATUS_PERMFAIL) ∨
        (w = "error".toList ∧ st = OSMTPD_STATUS_TEMPFAIL) →
      osmtpd_addrtoss env s srcs true = .ok src →
      osmtpd_addrtoss env s dsts true = .ok dst →
      osmtpd_link_connect env s cb ctx (some (link_connect_payload rdns w srcs dsts)) =
        call_user_if env
          (ctx_write s (if cb.storereport then
            { ctx with rdns := some rdns, fcrdns := st, src := src, dst := dst } else ctx))
          cb.cb
          (if cb.storereport then
            { ctx with rdns := some rdns, fcrdns := st, src := src, dst := dst } else ctx)
          (cb_args.link_connect rdns st src dst)) ∧
    (w ≠ "pass".toList → w ≠ "fail".toList → w ≠ "error".toList →
      osmtpd_link_connect env s cb ctx (some (link_connect_payload rdns w srcs dsts)) =
        fatal_line s "Invalid line received: invalid fcrdns: ".toList) ∧
    (∀ payload : List Char, payload.count '|' < 3 →
      ∃ msg, osmtpd_link_connect env s cb ctx (some payload) = fatal_line s msg) := by
  have h1 : strchr_split '|' (link_connect_payload rdns w srcs dsts) =
      some (rdns, w ++ '|' :: (srcs ++ '|' :: dsts)) := strchr_split_append _ _ _ hr
  have h2 : strchr_split '|' (w ++ '|' :: (srcs ++ '|' :: dsts)) =
      some (w, srcs ++ '|' :: dsts) := strchr_split_append _ _ _ hw
  have h3 : strchr_split '|' (srcs ++ '|' :: dsts) = some (srcs, dsts) :=
    strchr_split_append _ _ _ hs
  refine ⟨fun st src dst hword hsrc hdst => ?_, fun n1 n2 n3 => ?_, fun payload hc => ?_⟩
  · have hf : fcrdns_of_string w = some st := by
      unfold fcrdns_of_string
      rcases hword with ⟨e, e2⟩ | ⟨e, e2⟩ | ⟨e, e2⟩ <;> rw [e, e2] <;> decide
    unfold osmtpd_link_connect
    simp only [h1, h2, h3, hf, hsrc, hdst]
  · have hf : fcrdns_of_string w = none := by
      unfold fcrdns_of_string
      rw [if_neg n1, if_neg n2, if_neg n3]
    unfold osmtpd_link_connect
    simp only [h1, h2, hf]
  · unfold osmtpd_link_connect
    simp only
    cases e1 : strchr_split '|' payload with
    | none => exact ⟨_, rfl⟩
    | some p1 =>
      obtain ⟨a1, b1⟩ := p1
      simp only
      cases e2 : strchr_split '|' b1 with
      | none => exact ⟨_, rfl⟩
      | some p2 =>
        obtain ⟨a2, b2⟩ := p2
        simp only
        cases fcrdns_of_string a2 with
        | none => exact ⟨_, rfl⟩
        | some st =>
          simp only
          cases e3 : strchr_split '|' b2 with
          | none => exact ⟨_, rfl⟩
          | some p3 =>
            obtain ⟨a3, b3⟩ := p3
            have c1 := strchr_split_count _ _ _ _ e1
            have c2 := strchr_split_count _ _ _ _ e2
            have c3 := strchr_split_count _ _ _ _ e3
            omega

/-- Witness of C40: inbound `link-connect` lines between two local sockets,
after a run with `link-connect` registered and FCRDNS needed.  The words
`pass`, `fail` and `error` are cached as ok, permfail and tempfail; the words
`ok`, `tempfail` and `permfail` are fatal. -/
theorem link_connect_fcrdns_witness :
    (∀ cb ctx,
      osmtpd_link_connect hook_env connect_ready cb ctx
          (some (link_connect_payload "localhost".toList "ok".toList "unix:/a".toList
            "unix:/b".toList)) =
        fatal_line connect_ready "Invalid line received: invalid fcrdns: ".toList) ∧
    cached_fcrdns (after_lines hook_env connect_ready [line_connect "pass".toList]) =
      [OSMTPD_STATUS_OK] ∧
    cached_fcrdns (after_lines hook_env connect_ready [line_connect "fail".toList]) =
      [OSMTPD_STATUS_PERMFAIL] ∧
    cached_fcrdns (after_lines hook_env connect_ready [line_connect "error".toList]) =
      [OSMTPD_STATUS_TEMPFAIL] ∧
    fatal_message (osmtpd_newline_line hook_env connect_ready (line_connect "ok".toList)) =
      some ("Invalid line received: invalid fcrdns: ".toList ++ line_connect "ok".toList ++
        "\n".toList) ∧
    fatal_message (osmtpd_newline_line hook_env connect_ready
        (line_connect "tempfail".toList)) =
      some ("Invalid line received: invalid fcrdns: ".toList ++
        line_connect "tempfail".toList ++ "\n".toList) ∧
    fatal_message (osmtpd_newline_line hook_env connect_ready
        (line_connect "permfail".toList)) =
      some ("Invalid line received: invalid fcrdns: ".toList ++
        line_connect "permfail".toList ++ "\n".toList) :=
  ⟨fun cb ctx =>
      (link_connect_fcrdns hook_env connect_ready cb ctx "localhost".toList "ok".toList
        "unix:/a".toList "unix:/b".toList (by decide) (by decide) (by decide)).2.1
        (by decide) (by decide) (by decide),
    by decide, by decide, by decide, by decide, by decide, by decide⟩

theorem strtoul_hex_field (ds rest : List Char) (hne : ds ≠ [])
    (hd : ∀ c ∈ ds, digit_value c < 16) (hrest : rest = [] ∨ ∃ r, rest = '|' :: r) :
    strtoul (ds ++ rest) 16 =
      if hex_value ds > ULONG_MAX then ⟨ULONG_MAX, rest, true⟩
      else ⟨hex_value ds, rest, false⟩ :=
  strtoull_hex ds rest hne hd hrest

/-- C32: `osmtpd_tx_envelope` tests the `evpid` the session had before the
line, not the value just read.  For a payload `msgid|evpid` whose `evpid` is
written with hexadecimal digits and exceeds `2^64 - 1`: when the `evpid` of
the session is not `2^64 - 1` the line is accepted, the value `2^64 - 1` is
cached if the entry has `storereport` and is handed to the callback, if any;
when the `evpid` of the session is `2^64 - 1` the line is fatal with `invalid
evpid`. -/
theorem tx_envelope_evpid_check (env : user_code) (s : State) (cb : osmtpd_callback)
    (ctx : osmtpd_ctx) (m ds : List Char)
    (hm : m ≠ []) (hmd : ∀ c ∈ m, digit_value c < 16) (hmv : hex_value m < 2 ^ 32)
    (hd : ∀ c ∈ ds, digit_value c < 16) (hov : 2 ^ 64 - 1 < hex_value ds) :
    (ctx.evpid ≠ 2 ^ 64 - 1 →
      osmtpd_tx_envelope env s cb ctx (some (m ++ '|' :: ds)) =
        call_user_if env
          (ctx_write s (if cb.storereport then { ctx with evpid := 2 ^ 64 - 1 } else ctx)) cb.cb
          (if cb.storereport then { ctx with evpid := 2 ^ 64 - 1 } else ctx)
          (cb_args.tx_envelope (hex_value m) (2 ^ 64 - 1))) ∧
    (ctx.evpid = 2 ^ 64 - 1 →
      osmtpd_tx_envelope env s cb ctx (some (m ++ '|' :: ds)) =
        fatal_line s "Invalid line received: invalid evpid: ".toList) := by
  have hne : ds ≠ [] := by
    intro e
    rw [e] at hov
    revert hov
    decide
  have e1 : strtoul (m ++ '|' :: ds) 16 = ⟨hex_value m, '|' :: ds, false⟩ := by
    rw [strtoul_hex_field m ('|' :: ds) hm hmd (Or.inr ⟨ds, rfl⟩),
      if_neg (by unfold ULONG_MAX; omega)]
  have e2 : strtoull ds 16 = ⟨2 ^ 64 - 1, [], true⟩ := by
    have := strtoull_hex ds [] hne hd (Or.inl rfl)
    rw [List.append_nil, if_pos (by unfold ULONG_MAX; exact hov)] at this
    exact this
  have e3 : tx_msgid s (some (m ++ '|' :: ds)) = .ok (hex_value m, ds) := by
    have := tx_msgid_small s (m ++ '|' :: ds) ds (by rw [e1]; exact hmv) (by rw [e1])
    rw [e1] at this
    exact this
  unfold osmtpd_tx_envelope
  rw [e3]
  simp only [e2]
  constructor
  · intro hx
    rw [if_neg]
    rintro (⟨a, _⟩ | b)
    · exact hx a
    · exact b rfl
  · intro hx
    rw [if_pos (Or.inl ⟨hx, trivial⟩)]

/-- Witness of C32: a session without an envelope id accepts the 17-digit
envelope id `1ffffffffffffffff` and caches `2^64 - 1`; the same line is fatal
for the session once its `evpid` is `2^64 - 1`. -/
theorem tx_envelope_evpid_check_witness :
    (2 ^ 64 - 1 < hex_value "1ffffffffffffffff".toList) ∧
    (∀ cb ctx, ctx.evpid = 2 ^ 64 - 1 →
      osmtpd_tx_envelope hook_env envelope_ready cb ctx
          (some ("0000abcd".toList ++ '|' :: "1ffffffffffffffff".toList)) =
        fatal_line envelope_ready "Invalid line received: invalid evpid: ".toList) ∧
    (after_lines hook_env envelope_ready [line_envelope_overflow]).osmtpd_sessions.map
      (fun c => (c.reqid, c.evpid)) = [(1, 2 ^ 64 - 1)] ∧
    fatal_message (osmtpd_newline hook_env envelope_ready
        [line_envelope_overflow, line_envelope_overflow]) =
      some ("Invalid line received: invalid evpid: ".toList ++ line_envelope_overflow ++
        "\n".toList) :=
  ⟨by decide,
    fun cb ctx =>
      (tx_envelope_evpid_check hook_env envelope_ready cb ctx "0000abcd".toList
        "1ffffffffffffffff".toList (by decide) (by decide) (by decide) (by decide)
        (by decide)).2,
    by decide, by decide⟩

/-! ## Claim on the separator before the payload -/

theorem session_lookup_linedup (env : user_code) (s : State) (reqid : Nat) :
    (session_lookup env s reqid).1.linedup = s.linedup := by
  cases hf : RB_FIND reqid s.osmtpd_sessions with
  | some c => rw [session_lookup_found env s reqid c hf]
  | none => exact (session_lookup_new env s reqid hf).2.2.2.2.2.2

theorem catalog_init_noargs :
    ∀ x ∈ osmtpd_callbacks_init.map catalog_sig,
      (x.1 = OSMTPD_TYPE_REPORT → x.2.1 = OSMTPD_PHASE_TIMEOUT →
        x.2.2.2 = parser_fn.noargs) ∧
      (x.1 = OSMTPD_TYPE_FILTER → x.2.1 ∈ noargs_phases → x.2.2.2 = parser_fn.noargs) := by
  decide

/-- The dispatch of a `report` line whose entry is `cb`. -/
theorem dispatch_header_report (env : user_code) (s : State) (h : line_header)
    (cb : osmtpd_callback)
    (hf : find_callback h.type h.phase h.incoming s.osmtpd_callbacks = some cb)
    (ht : h.type = OSMTPD_TYPE_REPORT) :
    dispatch_header env s h =
      call_osmtpd_cb env (dispatch_state env s h 0) cb (dispatch_ctx env s h 0) h.params := by
  unfold dispatch_header osmtpd_newline_dispatch
  simp only [ctx_write_callbacks, (session_lookup_frame env s h.reqid).1, hf]
  rw [if_neg (by rw [ht]; decide)]
  rfl

/-- The dispatch of a `filter` line whose entry is `cb` and whose text after
the reqid is `text`. -/
theorem dispatch_header_filter (env : user_code) (s : State) (h : line_header)
    (cb : osmtpd_callback) (text : List Char)
    (hf : find_callback h.type h.phase h.incoming s.osmtpd_callbacks = some cb)
    (ht : h.type = OSMTPD_TYPE_FILTER) (hp : h.params = some text) :
    dispatch_header env s h =
      if ((strtoull text 16).val = ULLONG_MAX ∧
          (if (strtoull text 16).erange then ERANGE else h.errno) ≠ 0) ∨
          (strtoull text 16).endptr.head? ≠ some '|' then
        fatal_line (dispatch_state env s h (strtoull text 16).val)
          "Invalid line received: invalid token: ".toList
      else
        call_osmtpd_cb env (dispatch_state env s h (strtoull text 16).val) cb
          (dispatch_ctx env s h (strtoull text 16).val) (some (strtoull text 16).endptr.tail) := by
  unfold dispatch_header osmtpd_newline_dispatch
  simp only [ctx_write_callbacks, (session_lookup_frame env s h.reqid).1, hf, hp]
  rw [if_pos ht]
  have hw : ∀ tok, ctx_write (ctx_write (session_lookup env s h.reqid).1
      { (session_lookup env s h.reqid).2 with
          type := h.type, phase := h.phase, version_major := h.version_major,
          version_minor := h.version_minor, incoming := h.incoming, tm := h.tm, token := 0 })
      (dispatch_ctx env s h tok) = dispatch_state env s h tok :=
    fun tok => ctx_write_ctx_write _ _ _ (by rfl)
  rw [← hw]
  rfl

/-- C36 (amended): the `|` before the payload is optional for `report` lines
only.  A `report` line that ends after the reqid is dispatched: for `timeout`
the callback is called, for `link-disconnect` the parser runs.  A `filter`
line that ends after the hexadecimal token is fatal with `invalid token`; with
a `|` after the token it is dispatched, and for the phases without a payload
(`starttls`, `data`, `rset`, `quit`, `noop`, `help`, `wiz`, `commit`) the
callback is called with the token stored in the context, whatever follows the
`|`. -/
theorem payload_separator (env : user_code) (s : State) (line : List Char) (h : line_header)
    (cb : osmtpd_callback)
    (hcat : catalog_shaped s.osmtpd_callbacks)
    (hh : osmtpd_newline_header line = some h)
    (hf : find_callback h.type h.phase h.incoming s.osmtpd_callbacks = some cb) :
    (h.type = OSMTPD_TYPE_REPORT → h.params = none →
      (h.phase = OSMTPD_PHASE_TIMEOUT →
        osmtpd_newline_line env s line =
          call_user env (dispatch_state env (newline_linedup s line) h 0) cb.cb
            (dispatch_ctx env (newline_linedup s line) h 0) cb_args.noargs) ∧
      (h.phase = OSMTPD_PHASE_LINK_DISCONNECT →
        osmtpd_newline_line env s line =
          osmtpd_link_disconnect env (dispatch_state env (newline_linedup s line) h 0) cb
            (dispatch_ctx env (newline_linedup s line) h 0))) ∧
    (h.type = OSMTPD_TYPE_FILTER → ∀ t : List Char, t ≠ [] → (∀ c ∈ t, digit_value c < 16) →
      (h.params = some t →
        ∃ st, osmtpd_newline_line env s line =
            fatal_line st "Invalid line received: invalid token: ".toList ∧
          st.linedup = (newline_linedup s line).linedup) ∧
      (∀ payload, h.params = some (t ++ '|' :: payload) → hex_value t < ULLONG_MAX →
        h.phase ∈ noargs_phases →
        osmtpd_newline_line env s line =
          call_user env (dispatch_state env (newline_linedup s line) h (hex_value t)) cb.cb
            (dispatch_ctx env (newline_linedup s line) h (hex_value t)) cb_args.noargs)) := by
  have hf2 : find_callback h.type h.phase h.incoming
      (newline_linedup s line).osmtpd_callbacks = some cb := hf
  obtain ⟨k1, k2, k3, hsig⟩ := catalog_find _ _ _ _ cb hcat hf
  have hna := catalog_init_noargs _ hsig
  rw [osmtpd_newline_line_header env s line h hh]
  refine ⟨fun ht hp => ?_, fun ht t hne hd => ⟨fun hp => ?_, fun payload hp hv hph => ?_⟩⟩
  · rw [dispatch_header_report env _ h cb hf2 ht, hp]
    unfold call_osmtpd_cb
    refine ⟨fun hph => ?_, fun hph => ?_⟩
    · have hp1 : cb.osmtpd_cb = parser_fn.noargs := hna.1 ht hph
      rw [hp1]
      rfl
    · have hp1 : cb.osmtpd_cb = parser_fn.link_disconnect :=
        (catalog_init_link_disconnect _ hsig).2 hph
      rw [hp1]
  · rw [dispatch_header_filter env _ h cb t hf2 ht hp]
    have e := strtoull_hex t [] hne hd (Or.inl rfl)
    rw [List.append_nil] at e
    have hend : (strtoull t 16).endptr = [] := by
      rw [e]; split_ifs <;> rfl
    rw [if_pos (Or.inr (by rw [hend]; simp))]
    refine ⟨_, rfl, ?_⟩
    show (session_lookup env (newline_linedup s line) h.reqid).1.linedup = _
    exact session_lookup_linedup env _ h.reqid
  · rw [dispatch_header_filter env _ h cb _ hf2 ht hp]
    have e := strtoull_hex t ('|' :: payload) hne hd (Or.inr ⟨payload, rfl⟩)
    rw [if_neg (by unfold ULONG_MAX; unfold ULLONG_MAX at hv; omega)] at e
    rw [e]
    simp only
    rw [if_neg]
    · have hp1 : cb.osmtpd_cb = parser_fn.noargs := hna.2 ht hph
      unfold call_osmtpd_cb
      rw [hp1]
      rfl
    · rintro (⟨a, _⟩ | b)
      · omega
      · exact b rfl

/-- Witness of C36 (amended): after a run with the `filter` event `data` and
the `report` event `timeout` registered, the `timeout` line that ends after
the reqid calls the callback 3, and the `data` line with a `|` after the token
calls the callback 4 with the token `0xab` in the context. -/
theorem payload_separator_witness :
    osmtpd_newline_line hook_env noargs_ready line_timeout_bare =
      .ok (after_lines hook_env noargs_ready [line_timeout_bare]) ∧
    logged_callbacks (after_lines hook_env noargs_ready [line_timeout_bare]) =
      [(3, 0, cb_args.noargs)] ∧
    osmtpd_newline_line hook_env noargs_ready line_data_bar =
      .ok (after_lines hook_env noargs_ready [line_data_bar]) ∧
    logged_callbacks (after_lines hook_env noargs_ready [line_data_bar]) =
      [(4, 0xab, cb_args.noargs)] ∧
    osmtpd_newline_line hook_env noargs_ready line_timeout_bare =
      call_user hook_env
        (dispatch_state hook_env (newline_linedup noargs_ready line_timeout_bare)
          ⟨OSMTPD_TYPE_REPORT, 0, 7, ⟨1700000000, 0⟩, 1, OSMTPD_PHASE_TIMEOUT, 1, 0, none⟩ 0) 3
        (dispatch_ctx hook_env (newline_linedup noargs_ready line_timeout_bare)
          ⟨OSMTPD_TYPE_REPORT, 0, 7, ⟨1700000000, 0⟩, 1, OSMTPD_PHASE_TIMEOUT, 1, 0, none⟩ 0)
        cb_args.noargs :=
  ⟨rfl, by decide, rfl, by decide,
    ((payload_separator hook_env noargs_ready line_timeout_bare
      ⟨OSMTPD_TYPE_REPORT, 0, 7, ⟨1700000000, 0⟩, 1, OSMTPD_PHASE_TIMEOUT, 1, 0, none⟩
      { type := OSMTPD_TYPE_REPORT, phase := OSMTPD_PHASE_TIMEOUT, incoming := 1,
        osmtpd_cb := parser_fn.noargs, cb := 3, doregister := true, storereport := false }
      (by decide) (by decide) (by decide)).1 rfl rfl).1 rfl⟩

/-- C36 (counterexample): with the `filter` event `data` registered, the line
`filter|0.7|...|smtp-in|data|<reqid>|<token>` that ends after the 16-digit
token has a header, but is fatal with `invalid token` and no callback is
called. -/
theorem filter_token_separator :
    osmtpd_newline_header line_data_bare =
      some ⟨OSMTPD_TYPE_FILTER, 0, 7, ⟨1700000000, 0⟩, 1, OSMTPD_PHASE_DATA, 1, 0,
        some "00000000000000ab".toList⟩ ∧
    (find_callback OSMTPD_TYPE_FILTER OSMTPD_PHASE_DATA 1 noargs_ready.osmtpd_callbacks).map
      (fun e => (e.doregister, e.cb)) = some (true, 4) ∧
    fatal_message (osmtpd_newline_line hook_env noargs_ready line_data_bare) =
      some ("Invalid line received: invalid token: ".toList ++ line_data_bare ++
        "\n".toList) ∧
    (match osmtpd_newline_line hook_env noargs_ready line_data_bare with
      | .error (Halt.exit _ _ st) => logged_callbacks st
      | _ => [(0, 0, cb_args.noargs)]) = [] := by
  refine ⟨by decide, by decide, by decide, by decide⟩

/-! ## Claim on the order of caching and callback -/

theorem osmtpd_link_connect_ok (env : user_code) (s s1 : State) (cb : osmtpd_callback)
    (ctx : osmtpd_ctx) (line : Option (List Char))
    (h : osmtpd_link_connect env s cb ctx line = .ok s1) :
    ∃ rdns fcrdns src dst,
      call_user_if env
        (ctx_write s (if cb.storereport then
          { ctx with rdns := some rdns, fcrdns := fcrdns, src := src, dst := dst } else ctx))
        cb.cb
        (if cb.storereport then
          { ctx with rdns := some rdns, fcrdns := fcrdns, src := src, dst := dst } else ctx)
        (cb_args.link_connect rdns fcrdns src dst) = .ok s1 := by
  unfold osmtpd_link_connect at h
  cases line with
  | none => cases h
  | some params =>
    simp only at h
    cases e1 : strchr_split '|' params with
    | none => rw [e1] at h; exact absurd h (fatal_line_ne_ok _ _ _)
    | some p1 =>
      obtain ⟨rdns, r1⟩ := p1
      rw [e1] at h
      simp only at h
      cases e2 : strchr_split '|' r1 with
      | none => rw [e2] at h; exact absurd h (fatal_line_ne_ok _ _ _)
      | some p2 =>
        obtain ⟨w, r2⟩ := p2
        rw [e2] at h
        simp only at h
        cases e3 : fcrdns_of_string w with
        | none => rw [e3] at h; exact absurd h (fatal_line_ne_ok _ _ _)
        | some fcrdns =>
          rw [e3] at h
          simp only at h
          cases e4 : strchr_split '|' r2 with
          | none => rw [e4] at h; exact absurd h (fatal_line_ne_ok _ _ _)
          | some p3 =>
            obtain ⟨srcs, dsts⟩ := p3
            rw [e4] at h
            simp only at h
            cases e5 : osmtpd_addrtoss env s srcs true with
            | error x => rw [e5] at h; cases h
            | ok src =>
              rw [e5] at h
              simp only at h
              cases e6 : osmtpd_addrtoss env s dsts true with
              | error x => rw [e6] at h; cases h
              | ok dst =>
                rw [e6] at h
                exact ⟨rdns, fcrdns, src, dst, h⟩

theorem osmtpd_tx_envelope_ok (env : user_code) (s s1 : State) (cb : osmtpd_callback)
    (ctx : osmtpd_ctx) (line : Option (List Char))
    (h : osmtpd_tx_envelope env s cb ctx line = .ok s1) :
    ∃ msgid evpid,
      call_user_if env
        (ctx_write s (if cb.storereport then { ctx with evpid := evpid } else ctx)) cb.cb
        (if cb.storereport then { ctx with evpid := evpid } else ctx)
        (cb_args.tx_envelope msgid evpid) = .ok s1 := by
  unfold osmtpd_tx_envelope at h
  cases hm : tx_msgid s line with
  | error e => rw [hm] at h; cases h
  | ok p =>
    obtain ⟨msgid, rest⟩ := p
    rw [hm] at h
    simp only at h
    by_cases hc : (ctx.evpid = ULLONG_MAX ∧ (strtoull rest 16).erange = true) ∨
        (strtoull rest 16).endptr ≠ []
    · rw [if_pos hc] at h
      exact absurd h (fatal_line_ne_ok _ _ _)
    · rw [if_neg hc] at h
      exact ⟨_, _, h⟩

theorem call_user_if_call (env : user_code) (s : State) (fn : Nat) (ctx : osmtpd_ctx)
    (args : cb_args) (hfn : fn ≠ NULL) :
    call_user_if env s fn ctx args = call_user env s fn ctx args := by
  unfold call_user_if
  rw [if_pos hfn]

/-- The run of a caching parser on an entry with `storereport` and a
callback: the last thing it does is the call of the callback, the context
handed over holds the values handed over as arguments, and the record of the
session in the tree is that context. -/
theorem caching_call (env : user_code) (s s1 : State) (cb : osmtpd_callback)
    (ctx : osmtpd_ctx) (params : Option (List Char))
    (hst : cb.storereport = true) (hcb : cb.cb ≠ NULL)
    (hp : cb.osmtpd_cb ∈ caching_parsers)
    (h : call_osmtpd_cb env s cb ctx params = .ok s1) :
    ∃ st c args, call_user env st cb.cb c args = .ok s1 ∧
      cached_in c cb.osmtpd_cb args ∧ c.reqid = ctx.reqid ∧
      st.osmtpd_sessions = session_put c s.osmtpd_sessions ∧
      (cb.osmtpd_cb ≠ parser_fn.tx_begin → cb.osmtpd_cb ≠ parser_fn.tx_mail →
        cb.osmtpd_cb ≠ parser_fn.tx_rcpt → cb.osmtpd_cb ≠ parser_fn.tx_envelope →
        cb.osmtpd_cb ≠ parser_fn.link_connect → ∃ v, params = some v ∧ args = cb_args.onearg v) ∧
      ∃ pre, st.trace = s.trace ++ pre ∧ ∀ e ∈ pre, e.is_hook = true := by
  have simple : ∀ (c : osmtpd_ctx) (args : cb_args),
      call_user_if env (ctx_write s c) cb.cb c args = .ok s1 → c.reqid = ctx.reqid →
      cached_in c cb.osmtpd_cb args →
      (cb.osmtpd_cb ≠ parser_fn.tx_begin → cb.osmtpd_cb ≠ parser_fn.tx_mail →
        cb.osmtpd_cb ≠ parser_fn.tx_rcpt → cb.osmtpd_cb ≠ parser_fn.tx_envelope →
        cb.osmtpd_cb ≠ parser_fn.link_connect → ∃ v, params = some v ∧ args = cb_args.onearg v) →
      ∃ st c args, call_user env st cb.cb c args = .ok s1 ∧
        cached_in c cb.osmtpd_cb args ∧ c.reqid = ctx.reqid ∧
        st.osmtpd_sessions = session_put c s.osmtpd_sessions ∧
        (cb.osmtpd_cb ≠ parser_fn.tx_begin → cb.osmtpd_cb ≠ parser_fn.tx_mail →
          cb.osmtpd_cb ≠ parser_fn.tx_rcpt → cb.osmtpd_cb ≠ parser_fn.tx_envelope →
          cb.osmtpd_cb ≠ parser_fn.link_connect →
          ∃ v, params = some v ∧ args = cb_args.onearg v) ∧
        ∃ pre, st.trace = s.trace ++ pre ∧ ∀ e ∈ pre, e.is_hook = true := by
    intro c args hc hr hcache hone
    rw [call_user_if_call env _ _ _ _ hcb] at hc
    exact ⟨_, c, args, hc, hcache, hr, rfl, hone, [], by simp [ctx_write], by simp⟩
  simp only [caching_parsers, List.mem_cons, List.mem_singleton, List.not_mem_nil,
    or_false] at hp
  unfold call_osmtpd_cb at h
  rcases hp with hp | hp | hp | hp | hp | hp | hp | hp | hp <;> rw [hp] at h <;>
    simp only at h
  · unfold osmtpd_identify at h
    cases params with
    | none => cases h
    | some v =>
      simp only [hst, if_true] at h
      rw [← call_user_if_call env _ _ _ _ hcb] at h
      exact simple _ _ h rfl (by rw [hp]; rfl) (fun _ _ _ _ _ => ⟨v, rfl, rfl⟩)
  · obtain ⟨rdns, fcrdns, src, dst, hc⟩ := osmtpd_link_connect_ok env s s1 cb ctx params h
    simp only [hst, if_true] at hc
    exact simple _ _ hc rfl (by rw [hp]; exact ⟨rfl, rfl, rfl, rfl⟩)
      (fun _ _ _ _ x => absurd hp x)
  · unfold osmtpd_link_greeting at h
    cases params with
    | none => cases h
    | some v =>
      simp only [hst, if_true] at h
      exact simple _ _ h rfl (by rw [hp]; rfl) (fun _ _ _ _ _ => ⟨v, rfl, rfl⟩)
  · unfold osmtpd_link_identify at h
    cases params with
    | none => cases h
    | some v =>
      simp only [hst, if_true] at h
      exact simple _ _ h rfl (by rw [hp]; rfl) (fun _ _ _ _ _ => ⟨v, rfl, rfl⟩)
  · unfold osmtpd_link_tls at h
    cases params with
    | none => cases h
    | some v =>
      simp only [hst, if_true] at h
      exact simple _ _ h rfl (by rw [hp]; rfl) (fun _ _ _ _ _ => ⟨v, rfl, rfl⟩)
  · obtain ⟨text, ctx2, _, _, _, hctx2, hcase⟩ := osmtpd_tx_begin_ok env s s1 cb ctx params h
    rw [hst] at hctx2
    simp only [if_true] at hctx2
    rcases hcase with ⟨_, hc⟩ | ⟨_, hc⟩
    · exact simple _ _ hc (by rw [hctx2]) (by rw [hp, hctx2]; rfl)
        (fun x _ _ _ _ => absurd hp x)
    · rw [call_user_if_call env _ _ _ _ hcb] at hc
      refine ⟨_, _, _, hc, by rw [hp, hctx2]; rfl, by rw [hctx2], ?_,
        fun x _ _ _ _ => absurd hp x,
        [event.oncreate_message s.oncreatecb_message ctx2], rfl, by simp [event.is_hook]⟩
      show session_put _ (session_put ctx2 s.osmtpd_sessions) = _
      exact session_put_put _ _ _ rfl
  · obtain ⟨text, rest, first, second, addr, status, _, _, _, _, hc⟩ :=
      osmtpd_tx_mail_ok env s s1 cb ctx params h
    simp only [hst, if_true] at hc
    exact simple _ _ hc rfl (by rw [hp]; rfl) (fun _ x _ _ _ => absurd hp x)
  · obtain ⟨text, rest, first, second, addr, status, _, _, _, _, hc⟩ :=
      osmtpd_tx_rcpt_ok env s s1 cb ctx params h
    simp only [hst, if_true] at hc
    exact simple _ _ hc rfl (by rw [hp]; simp [cached_in]) (fun _ _ x _ _ => absurd hp x)
  · obtain ⟨msgid, evpid, hc⟩ := osmtpd_tx_envelope_ok env s s1 cb ctx params h
    simp only [hst, if_true] at hc
    exact simple _ _ hc rfl (by rw [hp]; rfl) (fun _ _ _ x _ => absurd hp x)

theorem catalog_init_caching :
    ∀ x ∈ osmtpd_callbacks_init.map catalog_sig,
      (x.1, x.2.1) ∈ caching_events → x.2.2.2 ∈ caching_parsers := by
  decide

theorem creation_events_hook (s : State) (reqid : Nat) :
    ∀ e ∈ creation_events s reqid, e.is_hook = true := by
  intro e he
  unfold creation_events at he
  split at he
  · cases he
  · split_ifs at he
    · simp only [List.mem_singleton] at he
      subst he
      rfl
    · cases he

/-- C31: in an accepted line of a caching event (`filter` `helo` and `ehlo`,
`report` `link-connect`, `link-greeting`, `link-identify`, `link-tls`,
`tx-begin`, `tx-mail`, `tx-rcpt`, `tx-envelope`) whose entry has
`storereport` and a callback, the callback is the last call the line makes and
it is made once; before it only constructor hooks are called; the context it
receives already holds the values it receives as arguments, the values the
parser has read from the line, and that context is the record of the session
after the line. -/
theorem cache_before_callback (env : user_code) (s s1 : State) (line : List Char)
    (h : line_header)
    (hcat : catalog_shaped s.osmtpd_callbacks)
    (hh : osmtpd_newline_header line = some h)
    (hev : (h.type, h.phase) ∈ caching_events)
    (hok : osmtpd_newline_line env s line = .ok s1) :
    ∃ cb, find_callback h.type h.phase h.incoming s.osmtpd_callbacks = some cb ∧
      cb.osmtpd_cb ∈ caching_parsers ∧
      (cb.storereport = true → cb.cb ≠ NULL →
        ∃ pre c args,
          s1.trace = s.trace ++ pre ++ [event.user_cb cb.cb c args] ∧
          (∀ e ∈ pre, e.is_hook = true) ∧
          cached_in c cb.osmtpd_cb args ∧
          RB_FIND h.reqid s1.osmtpd_sessions = some c) := by
  obtain ⟨cb, tok, params, hf, hsig, _, hc⟩ := line_payload env s s1 line h hcat hh hok
  have hp : cb.osmtpd_cb ∈ caching_parsers := catalog_init_caching _ hsig hev
  refine ⟨cb, hf, hp, fun hst hcb => ?_⟩
  obtain ⟨st, c, args, hcall, hcached, hreq, hsess, _, pre, htr, hhook⟩ :=
    caching_call env _ s1 cb _ params hst hcb hp hc
  obtain ⟨_, text, hs1⟩ := call_user_ok env st s1 cb.cb c args hcall
  refine ⟨creation_events s h.reqid ++ pre, c, args, ?_, ?_, hcached, ?_⟩
  · rw [hs1]
    show st.trace ++ _ = _
    rw [htr, dispatch_state_trace env s line h tok]
    simp only [List.append_assoc]
  · intro e he
    rcases List.mem_append.1 he with x | x
    · exact creation_events_hook s h.reqid e x
    · exact hhook e x
  · apply find_after_write (dispatch_state env (newline_linedup s line) h tok) s1 c h.reqid
      (hreq.trans (dispatch_ctx_reqid env _ h tok)) (dispatch_state_mem env _ h tok)
    rw [hs1]
    exact hsess

/-- Witness of C31: after a run with the `filter` event `helo` registered and
IDENTITY needed, a `helo` line calls the callback 7 with a context whose
identity is the payload of the line. -/
theorem cache_before_callback_witness :
    osmtpd_newline_line hook_env identify_ready line_helo =
      .ok (after_lines hook_env identify_ready [line_helo]) ∧
    logged_identity (after_lines hook_env identify_ready [line_helo]) =
      [(7, some "mail.example.org".toList, cb_args.onearg "mail.example.org".toList)] ∧
    ∃ cb, find_callback OSMTPD_TYPE_FILTER OSMTPD_PHASE_HELO 1
        identify_ready.osmtpd_callbacks = some cb ∧
      cb.osmtpd_cb ∈ caching_parsers ∧
      (cb.storereport = true → cb.cb ≠ NULL →
        ∃ pre c args,
          (after_lines hook_env identify_ready [line_helo]).trace =
            identify_ready.trace ++ pre ++ [event.user_cb cb.cb c args] ∧
          (∀ e ∈ pre, e.is_hook = true) ∧
          cached_in c cb.osmtpd_cb args ∧
          RB_FIND 1 (after_lines hook_env identify_ready [line_helo]).osmtpd_sessions =
            some c) :=
  ⟨rfl, by decide,
    cache_before_callback hook_env identify_ready
      (after_lines hook_env identify_ready [line_helo]) line_helo
      ⟨OSMTPD_TYPE_FILTER, 0, 7, ⟨1700000000, 0⟩, 1, OSMTPD_PHASE_HELO, 1, 0,
        some "00000000000000ab|mail.example.org".toList⟩
      (by decide) (by decide) (by decide) rfl⟩

/-! ## Claim on the list of recipients -/

theorem dispatch_ctx_rcptto (env : user_code) (s : State) (line : List Char) (h : line_header)
    (tok : Nat) :
    (dispatch_ctx env (newline_linedup s line) h tok).rcptto = session_rcptto s h.reqid := by
  unfold session_rcptto
  cases hf : RB_FIND h.reqid s.osmtpd_sessions with
  | some c =>
    have hf2 : RB_FIND h.reqid (newline_linedup s line).osmtpd_sessions = some c := hf
    unfold dispatch_ctx
    rw [session_lookup_found env _ h.reqid c hf2]
  | none =>
    rw [dispatch_ctx_new env s line h tok hf]
    rfl

/-- An accepted `tx-rcpt` line: the address the parser selects is appended to
the `rcptto` list of the session when the entry has `storereport`, and the
list is left as it is when it has not. -/
theorem line_tx_rcpt (env : user_code) (s s1 : State) (line : List Char) (h : line_header)
    (hcat : catalog_shaped s.osmtpd_callbacks)
    (hh : osmtpd_newline_header line = some h)
    (hph : h.phase = OSMTPD_PHASE_TX_RCPT)
    (hok : osmtpd_newline_line env s line = .ok s1) :
    ∃ cb text rest first second addr status,
      find_callback h.type h.phase h.incoming s.osmtpd_callbacks = some cb ∧
      h.params = some text ∧ (strtoul text 16).endptr = '|' :: rest ∧
      strchr_split '|' rest = some (first, second) ∧
      tx_addr_status (dispatch_ctx env (newline_linedup s line) h 0) first second =
        (addr, some status) ∧
      same_setup s s1 ∧
      session_rcptto s1 h.reqid =
        session_rcptto s h.reqid ++ (if cb.storereport then [addr] else []) := by
  obtain ⟨cb, tok, params, hf, hsig, ht, hc⟩ := line_payload env s s1 line h hcat hh hok
  have hp : cb.osmtpd_cb = parser_fn.tx_rcpt := (catalog_init_tx _ hsig).2.2.1 hph
  have hrep : h.type = OSMTPD_TYPE_REPORT :=
    catalog_init_report _ hsig (Or.inr (Or.inr (Or.inr (Or.inl hp))))
  obtain ⟨htok, hpar⟩ := ht hrep
  subst htok
  unfold call_osmtpd_cb at hc
  rw [hp] at hc
  obtain ⟨text, rest, first, second, addr, status, hl, hend, hs, ha, hcall⟩ :=
    osmtpd_tx_rcpt_ok env _ s1 cb _ params hc
  obtain ⟨_, t2, t3⟩ := call_user_if_trace env _ s1 _ _ _ hcall
  refine ⟨cb, text, rest, first, second, addr, status, hf, by rw [← hpar, hl], hend, hs, ha,
    same_setup_trans (dispatch_state_setup env s line h 0) t3, ?_⟩
  have hfind := find_after_write (dispatch_state env (newline_linedup s line) h 0) s1 _ h.reqid
    (by split_ifs <;> exact dispatch_ctx_reqid env _ h 0) (dispatch_state_mem env _ h 0) t2
  rw [← dispatch_ctx_rcptto env s line h 0]
  unfold session_rcptto
  rw [hfind]
  cases cb.storereport with
  | false => simp
  | true => simp

theorem rcpt_line_step (env : user_code) (s s1 : State) (reqid : Nat) (d : Int)
    (cb : osmtpd_callback) (line addr : List Char)
    (hcat : catalog_shaped s.osmtpd_callbacks)
    (hf : find_callback OSMTPD_TYPE_REPORT OSMTPD_PHASE_TX_RCPT d s.osmtpd_callbacks = some cb)
    (hl : is_rcpt_line reqid d line addr)
    (hok : osmtpd_newline_line env s line = .ok s1) :
    same_setup s s1 ∧
      session_rcptto s1 reqid =
        session_rcptto s reqid ++ (if cb.storereport then [addr] else []) := by
  obtain ⟨h, m, first, second, hh, ht, hph, hd, hr, hpar, hm1, hm2, hbar, haddr⟩ := hl
  obtain ⟨cb1, text, rest, f1, s2, addr1, status, hf1, hpar1, hend, hsplit, ha, hset, hrc⟩ :=
    line_tx_rcpt env s s1 line h hcat hh hph hok
  rw [ht, hph, hd, hf] at hf1
  have hcb : cb1 = cb := (Option.some.inj hf1).symm
  subst hcb
  rw [hpar] at hpar1
  have htext : text = m ++ '|' :: (first ++ '|' :: second) := (Option.some.inj hpar1).symm
  subst htext
  have e1 : strtoul (m ++ '|' :: (first ++ '|' :: second)) 16 =
      if hex_value m > ULONG_MAX then ⟨ULONG_MAX, '|' :: (first ++ '|' :: second), true⟩
      else ⟨hex_value m, '|' :: (first ++ '|' :: second), false⟩ :=
    strtoul_hex_field m _ hm1 hm2 (Or.inr ⟨_, rfl⟩)
  have hend2 : (strtoul (m ++ '|' :: (first ++ '|' :: second)) 16).endptr =
      '|' :: (first ++ '|' :: second) := by
    rw [e1]; split_ifs <;> rfl
  rw [hend2] at hend
  have hrest : rest = first ++ '|' :: second := (List.cons.inj hend).2.symm
  subst hrest
  rw [strchr_split_append '|' first second hbar] at hsplit
  simp only [Option.some.injEq, Prod.mk.injEq] at hsplit
  obtain ⟨x1, x2⟩ := hsplit
  subst x1 x2
  have hmaj := osmtpd_newline_header_major line h hh
  unfold tx_addr_status at ha
  rw [(dispatch_ctx_version env _ h 0).1, (dispatch_ctx_version env _ h 0).2, hmaj] at ha
  have haddr1 : addr1 = addr := by
    rw [haddr]
    by_cases hlt : h.version_minor < 6
    · rw [if_pos ⟨rfl, hlt⟩] at ha
      rw [if_pos hlt]
      exact (Prod.mk.inj ha).1.symm
    · rw [if_neg (fun x => hlt x.2)] at ha
      rw [if_neg hlt]
      exact (Prod.mk.inj ha).1.symm
  rw [hr, haddr1] at hrc
  exact ⟨hset, hrc⟩

/-- C34: `rcptto` is an ordered list.  After a sequence of accepted `tx-rcpt`
lines of one session and one direction, the `rcptto` list of the session is
the list before the lines followed by the addresses of the lines in their
order, one for each line, when the entry of the event has `storereport`, and
the list before the lines when it has not; the status of a line, which is the
other field of its payload, plays no part.  Started from an empty list (a new
session, or one after `tx-commit` or `tx-rollback`) the list is the list of
the addresses and has as many elements as there were lines. -/
theorem rcptto_in_order (env : user_code) (s s1 : State) (reqid : Nat) (d : Int)
    (cb : osmtpd_callback) (ls : List (List Char × List Char))
    (hcat : catalog_shaped s.osmtpd_callbacks)
    (hf : find_callback OSMTPD_TYPE_REPORT OSMTPD_PHASE_TX_RCPT d s.osmtpd_callbacks = some cb)
    (hl : ∀ p ∈ ls, is_rcpt_line reqid d p.1 p.2)
    (hok : osmtpd_newline env s (ls.map Prod.fst) = .ok s1) :
    (cb.storereport = true →
      session_rcptto s1 reqid = session_rcptto s reqid ++ ls.map Prod.snd ∧
      (session_rcptto s reqid = [] →
        session_rcptto s1 reqid = ls.map Prod.snd ∧
        (session_rcptto s1 reqid).length = ls.length)) ∧
    (cb.storereport = false → session_rcptto s1 reqid = session_rcptto s reqid) := by
  have main : session_rcptto s1 reqid =
      session_rcptto s reqid ++ (if cb.storereport then ls.map Prod.snd else []) := by
    induction ls generalizing s with
    | nil =>
      simp only [List.map_nil, osmtpd_newline, Except.ok.injEq] at hok
      subst hok
      cases cb.storereport <;> simp
    | cons p rest ih =>
      simp only [List.map_cons] at hok ⊢
      unfold osmtpd_newline at hok
      cases hline : osmtpd_newline_line env s p.1 with
      | error x => rw [hline] at hok; cases hok
      | ok sa =>
        rw [hline] at hok
        simp only at hok
        obtain ⟨hset, hstep⟩ := rcpt_line_step env s sa reqid d cb p.1 p.2 hcat hf
          (hl p (List.mem_cons_self _ _)) hline
        have := ih sa (catalog_shaped_setup s sa hset hcat) (by rw [hset.1]; exact hf)
          (fun q hq => hl q (List.mem_cons_of_mem _ hq)) hok
        rw [this, hstep]
        cases cb.storereport <;> simp
  refine ⟨fun hst => ?_, fun hst => ?_⟩
  · rw [hst] at main
    simp only [if_true] at main
    refine ⟨main, fun he => ?_⟩
    rw [he, List.nil_append] at main
    exact ⟨main, by rw [main, List.length_map]⟩
  · rw [hst] at main
    simpa using main

/-- Witness of C34: three inbound `tx-rcpt` lines of session 1 with the
statuses `ok`, `tempfail` and `permfail`, after a run with RCPTTO needed; an
outbound `tx-rcpt` line, whose entry has no `storereport`, leaves the list
empty. -/
theorem rcptto_in_order_witness :
    osmtpd_newline hook_env cache_ready
        [line_rcpt "ok".toList "<a@b>".toList, line_rcpt "tempfail".toList "<c@d>".toList,
          line_rcpt "permfail".toList "<e@f>".toList] =
      .ok (after_lines hook_env cache_ready
        [line_rcpt "ok".toList "<a@b>".toList, line_rcpt "tempfail".toList "<c@d>".toList,
          line_rcpt "permfail".toList "<e@f>".toList]) ∧
    session_rcptto cache_ready 1 = [] ∧
    (session_rcptto (after_lines hook_env cache_ready
        [line_rcpt "ok".toList "<a@b>".toList, line_rcpt "tempfail".toList "<c@d>".toList,
          line_rcpt "permfail".toList "<e@f>".toList]) 1 =
        ["<a@b>".toList, "<c@d>".toList, "<e@f>".toList] ∧
      (session_rcptto (after_lines hook_env cache_ready
        [line_rcpt "ok".toList "<a@b>".toList, line_rcpt "tempfail".toList "<c@d>".toList,
          line_rcpt "permfail".toList "<e@f>".toList]) 1).length = 3) ∧
    (after_lines hook_env cache_ready
      [line_rcpt_out "ok".toList "<a@b>".toList]).osmtpd_sessions.map
        (fun c => (c.reqid, c.rcptto)) = [(1, [])] := by
  have hl : ∀ p ∈ [(line_rcpt "ok".toList "<a@b>".toList, "<a@b>".toList),
      (line_rcpt "tempfail".toList "<c@d>".toList, "<c@d>".toList),
      (line_rcpt "permfail".toList "<e@f>".toList, "<e@f>".toList)],
      is_rcpt_line 1 1 p.1 p.2 := by
    intro p hp
    simp only [List.mem_cons, List.mem_singleton, List.not_mem_nil, or_false] at hp
    rcases hp with e | e | e <;> subst e
    · exact ⟨⟨OSMTPD_TYPE_REPORT, 0, 7, ⟨1700000000, 0⟩, 1, OSMTPD_PHASE_TX_RCPT, 1, 0,
        some "0000abcd|ok|<a@b>".toList⟩, "0000abcd".toList, "ok".toList, "<a@b>".toList,
        by decide, rfl, rfl, rfl, rfl, rfl, by decide, by decide, by decide, by decide⟩
    · exact ⟨⟨OSMTPD_TYPE_REPORT, 0, 7, ⟨1700000000, 0⟩, 1, OSMTPD_PHASE_TX_RCPT, 1, 0,
        some "0000abcd|tempfail|<c@d>".toList⟩, "0000abcd".toList, "tempfail".toList,
        "<c@d>".toList,
        by decide, rfl, rfl, rfl, rfl, rfl, by decide, by decide, by decide, by decide⟩
    · exact ⟨⟨OSMTPD_TYPE_REPORT, 0, 7, ⟨1700000000, 0⟩, 1, OSMTPD_PHASE_TX_RCPT, 1, 0,
        some "0000abcd|permfail|<e@f>".toList⟩, "0000abcd".toList, "permfail".toList,
        "<e@f>".toList,
        by decide, rfl, rfl, rfl, rfl, rfl, by decide, by decide, by decide, by decide⟩
  exact ⟨rfl, by decide,
    ((rcptto_in_order hook_env cache_ready _ 1 1
      { type := OSMTPD_TYPE_REPORT, phase := OSMTPD_PHASE_TX_RCPT, incoming := 1,
        osmtpd_cb := parser_fn.tx_rcpt, cb := NULL, doregister := true, storereport := true }
      [(line_rcpt "ok".toList "<a@b>".toList, "<a@b>".toList),
        (line_rcpt "tempfail".toList "<c@d>".toList, "<c@d>".toList),
        (line_rcpt "permfail".toList "<e@f>".toList, "<e@f>".toList)]
      (by decide) (by decide) hl rfl).1 rfl).2 (by decide),
    by decide⟩

/-! ## Lemmas on the events `osmtpd_run` registers on its own -/

theorem entry_rel_key {e e1 : osmtpd_callback} (h : entry_rel e e1) :
    entry_key e1 = entry_key e := by
  unfold entry_key
  rw [h.1, h.2.1, h.2.2.1]

theorem raise_bound_refl (Q : osmtpd_type × osmtpd_phase × Int → Prop) (e : osmtpd_callback) :
    raise_bound Q e e :=
  ⟨entry_rel_refl e, fun h => Or.inl h⟩

theorem raise_bound_trans {Q : osmtpd_type × osmtpd_phase × Int → Prop}
    {a b c : osmtpd_callback} (h1 : raise_bound Q a b) (h2 : raise_bound Q b c) :
    raise_bound Q a c := by
  refine ⟨entry_rel_trans h1.1 h2.1, fun hd => ?_⟩
  rcases h2.2 hd with x | x
  · exact h1.2 x
  · rw [entry_rel_key h1.1] at x
    exact Or.inr x

theorem key_step_refl (Q : osmtpd_type × osmtpd_phase × Int → Prop) (s : State) :
    key_step Q s s :=
  ⟨rfl, forall₂_refl_of (raise_bound_refl Q) _⟩

theorem key_step_trans {Q : osmtpd_type × osmtpd_phase × Int → Prop} {s s1 s2 : State}
    (h1 : key_step Q s s1) (h2 : key_step Q s1 s2) : key_step Q s s2 := by
  have b := forall₂_trans_of (R := raise_bound Q) (fun _ _ _ h h' => raise_bound_trans h h')
    h1.2 h2.2
  refine ⟨?_, b⟩
  rw [h2.1, h1.1]

theorem key_step_setup {Q : osmtpd_type × osmtpd_phase × Int → Prop} {s s1 : State}
    (h : key_step Q s s1) :
    s1.needs = s.needs ∧ s1.oncreatecb_message = s.oncreatecb_message := by
  rw [h.1]; exact ⟨rfl, rfl⟩

/-- A successful implicit registration of an event with a key in `Q`. -/
theorem osmtpd_register_raise (Q : osmtpd_type × osmtpd_phase × Int → Prop) (s s1 : State)
    (p : osmtpd_phase) (d : Int) (st : Bool) (hQ : Q (OSMTPD_TYPE_REPORT, p, d))
    (h : osmtpd_register s OSMTPD_TYPE_REPORT p d st NULL = .ok s1) : key_step Q s s1 := by
  rcases osmtpd_register_cases s OSMTPD_TYPE_REPORT p d st NULL with
    ⟨_, h1⟩ | ⟨_, _, h1⟩ | ⟨_, _, h1⟩ | ⟨_, pre, e, post, h1, h2, h3, h4, h5, h6⟩
  · rw [h1] at h; cases h
  · rw [h1] at h; cases h
  · rw [h1] at h; cases h
  · rw [h6] at h
    cases h
    have hnull : (if NULL ≠ NULL then NULL else e.cb) = e.cb := by simp
    refine ⟨rfl, ?_⟩
    simp only [h1]
    apply forall₂_update_of (raise_bound_refl Q)
    refine ⟨⟨rfl, rfl, rfl, rfl, hnull, fun _ => rfl, fun hs => ?_⟩, fun _ => Or.inr ?_⟩
    · simp only [hs]; split_ifs <;> rfl
    · unfold entry_key
      rw [← h3.1, ← h3.2.1, ← h3.2.2]
      exact hQ

theorem need_register_raise (Q : osmtpd_type × osmtpd_phase × Int → Prop) (s s1 : State)
    (mask : Nat) (p : osmtpd_phase) (d : Int)
    (hQ : s.needs &&& mask ≠ 0 → Q (OSMTPD_TYPE_REPORT, p, d))
    (h : need_register mask p d s = .ok s1) : key_step Q s s1 := by
  unfold need_register at h
  by_cases hb : s.needs &&& mask ≠ 0
  · rw [if_pos hb] at h
    exact osmtpd_register_raise Q s s1 p d true (hQ hb) h
  · rw [if_neg hb] at h
    cases h
    exact key_step_refl Q s

theorem need_register_tx_raise (Q : osmtpd_type × osmtpd_phase × Int → Prop) (s s1 : State)
    (mask : Nat) (p : osmtpd_phase) (d : Int)
    (hQ : s.needs &&& mask ≠ 0 → Q (OSMTPD_TYPE_REPORT, p, d) ∧
      Q (OSMTPD_TYPE_REPORT, OSMTPD_PHASE_TX_ROLLBACK, d) ∧
      Q (OSMTPD_TYPE_REPORT, OSMTPD_PHASE_TX_COMMIT, d))
    (h : need_register_tx mask p d s = .ok s1) : key_step Q s s1 := by
  unfold need_register_tx at h
  by_cases hb : s.needs &&& mask ≠ 0
  · rw [if_pos hb] at h
    obtain ⟨sa, ha, h⟩ := except_bind_ok _ _ _ h
    obtain ⟨sb, hb2, h⟩ := except_bind_ok _ _ _ h
    obtain ⟨q1, q2, q3⟩ := hQ hb
    exact key_step_trans (osmtpd_register_raise Q s sa p d true q1 ha)
      (key_step_trans (osmtpd_register_raise Q sa sb _ d false q2 hb2)
        (osmtpd_register_raise Q sb s1 _ d false q3 h))
  · rw [if_neg hb] at h
    cases h
    exact key_step_refl Q s

/-- What `osmtpd_register_need(d)` registers is in `implicit_key`. -/
theorem osmtpd_register_need_raise (oncreate : Nat) (D : Int → Prop) (s s1 : State) (d : Int)
    (hD : D d) (h : osmtpd_register_need s d = .ok s1) :
    key_step (implicit_key s.needs oncreate D) s s1 := by
  unfold osmtpd_register_need at h
  obtain ⟨s01, h01, h⟩ := except_bind_ok _ _ _ h
  obtain ⟨s02, h02, h⟩ := except_bind_ok _ _ _ h
  obtain ⟨s03, h03, h⟩ := except_bind_ok _ _ _ h
  obtain ⟨s04, h04, h⟩ := except_bind_ok _ _ _ h
  obtain ⟨s05, h05, h⟩ := except_bind_ok _ _ _ h
  obtain ⟨s06, h06, h⟩ := except_bind_ok _ _ _ h
  obtain ⟨s07, h07, h⟩ := except_bind_ok _ _ _ h
  obtain ⟨s08, h08, h⟩ := except_bind_ok _ _ _ h
  have link : ∀ (x : State) (p : osmtpd_phase), x.needs = s.needs →
      x.needs &&& need_mask p ≠ 0 →
      implicit_key s.needs oncreate D (OSMTPD_TYPE_REPORT, p, d) :=
    fun x p hx hb => ⟨rfl, hD, Or.inr (Or.inl (by rw [← hx]; exact hb))⟩
  have tx : ∀ (x : State), x.needs = s.needs → need_tx x.needs →
      implicit_key s.needs oncreate D (OSMTPD_TYPE_REPORT, OSMTPD_PHASE_TX_ROLLBACK, d) ∧
      implicit_key s.needs oncreate D (OSMTPD_TYPE_REPORT, OSMTPD_PHASE_TX_COMMIT, d) :=
    fun x hx hb => ⟨⟨rfl, hD, Or.inr (Or.inr (Or.inl ⟨by rw [← hx]; exact hb, Or.inl rfl⟩))⟩,
      ⟨rfl, hD, Or.inr (Or.inr (Or.inl ⟨by rw [← hx]; exact hb, Or.inr rfl⟩))⟩⟩
  have r1 := need_register_raise _ s s01 _ OSMTPD_PHASE_LINK_CONNECT d
    (link s OSMTPD_PHASE_LINK_CONNECT rfl) h01
  have n1 := (key_step_setup r1).1
  have r2 := need_register_raise _ s01 s02 _ OSMTPD_PHASE_LINK_GREETING d
    (link s01 OSMTPD_PHASE_LINK_GREETING n1) h02
  have n2 := (key_step_setup r2).1.trans n1
  have r3 := need_register_raise _ s02 s03 _ OSMTPD_PHASE_LINK_IDENTIFY d
    (link s02 OSMTPD_PHASE_LINK_IDENTIFY n2) h03
  have n3 := (key_step_setup r3).1.trans n2
  have r4 := need_register_raise _ s03 s04 _ OSMTPD_PHASE_LINK_TLS d
    (link s03 OSMTPD_PHASE_LINK_TLS n3) h04
  have n4 := (key_step_setup r4).1.trans n3
  have r5 := need_register_tx_raise _ s04 s05 _ OSMTPD_PHASE_TX_BEGIN d
    (fun hb => ⟨link s04 OSMTPD_PHASE_TX_BEGIN n4 hb, tx s04 n4 (Or.inl hb)⟩) h05
  have n5 := (key_step_setup r5).1.trans n4
  have r6 := need_register_tx_raise _ s05 s06 _ OSMTPD_PHASE_TX_MAIL d
    (fun hb => ⟨link s05 OSMTPD_PHASE_TX_MAIL n5 hb, tx s05 n5 (Or.inr (Or.inl hb))⟩) h06
  have n6 := (key_step_setup r6).1.trans n5
  have r7 := need_register_tx_raise _ s06 s07 _ OSMTPD_PHASE_TX_RCPT d
    (fun hb => ⟨link s06 OSMTPD_PHASE_TX_RCPT n6 hb,
      tx s06 n6 (Or.inr (Or.inr (Or.inl hb)))⟩) h07
  have n7 := (key_step_setup r7).1.trans n6
  have r8 := need_register_tx_raise _ s07 s08 _ OSMTPD_PHASE_TX_ENVELOPE d
    (fun hb => ⟨link s07 OSMTPD_PHASE_TX_ENVELOPE n7 hb,
      tx s07 n7 (Or.inr (Or.inr (Or.inr hb)))⟩) h08
  have r9 := osmtpd_register_raise (implicit_key s.needs oncreate D) s08 s1
    OSMTPD_PHASE_LINK_DISCONNECT d false ⟨rfl, hD, Or.inl rfl⟩ h
  exact key_step_trans r1 (key_step_trans r2 (key_step_trans r3 (key_step_trans r4
    (key_step_trans r5 (key_step_trans r6 (key_step_trans r7 (key_step_trans r8 r9)))))))

/-- The message-hook statement of the loop of `osmtpd_run`: what it registers
is in `implicit_key`, and with a message constructor the three events are
registered afterwards. -/
theorem osmtpd_run_message_raise (needs : Nat) (D : Int → Prop) (s s1 : State) (d : Int)
    (hcat : catalog_shaped s.osmtpd_callbacks) (hD : D d)
    (h : osmtpd_run_message s d = .ok s1) :
    key_step (implicit_key needs s.oncreatecb_message D) s s1 ∧
      (s.oncreatecb_message ≠ NULL → message_flags d s1.osmtpd_callbacks) := by
  unfold osmtpd_run_message at h
  by_cases hm : s.oncreatecb_message ≠ NULL
  · rw [if_pos hm] at h
    obtain ⟨sa, ha, h⟩ := except_bind_ok _ _ _ h
    obtain ⟨sb, hb, h⟩ := except_bind_ok _ _ _ h
    have q1 : implicit_key needs s.oncreatecb_message D
        (OSMTPD_TYPE_REPORT, OSMTPD_PHASE_TX_BEGIN, d) :=
      ⟨rfl, hD, Or.inr (Or.inr (Or.inr ⟨hm, Or.inl rfl⟩))⟩
    have q2 : implicit_key needs s.oncreatecb_message D
        (OSMTPD_TYPE_REPORT, OSMTPD_PHASE_TX_ROLLBACK, d) :=
      ⟨rfl, hD, Or.inr (Or.inr (Or.inr ⟨hm, Or.inr (Or.inl rfl)⟩))⟩
    have q3 : implicit_key needs s.oncreatecb_message D
        (OSMTPD_TYPE_REPORT, OSMTPD_PHASE_TX_COMMIT, d) :=
      ⟨rfl, hD, Or.inr (Or.inr (Or.inr ⟨hm, Or.inr (Or.inr rfl)⟩))⟩
    obtain ⟨a1, a2⟩ := osmtpd_register_spec D s sa OSMTPD_PHASE_TX_BEGIN d false hcat hD
      (fun e => by cases e) ha
    obtain ⟨b1, b2⟩ := osmtpd_register_spec D sa sb OSMTPD_PHASE_TX_ROLLBACK d false
      (reg_step_catalog a1 hcat) hD (fun e => by cases e) hb
    obtain ⟨c1, c2⟩ := osmtpd_register_spec D sb s1 OSMTPD_PHASE_TX_COMMIT d false
      (reg_step_catalog b1 (reg_step_catalog a1 hcat)) hD (fun e => by cases e) h
    refine ⟨key_step_trans (osmtpd_register_raise _ s sa _ d false q1 ha)
      (key_step_trans (osmtpd_register_raise _ sa sb _ d false q2 hb)
        (osmtpd_register_raise _ sb s1 _ d false q3 h)), fun _ => ⟨?_, ?_, c2⟩⟩
    · exact has_flags_mono (reg_step_entry_rel (reg_step_trans b1 c1)) _ _ a2
    · exact has_flags_mono (reg_step_entry_rel c1) _ _ b2
  · rw [if_neg hm] at h
    cases h
    exact ⟨key_step_refl _ s, fun x => absurd x hm⟩

theorem key_step_entry_rel {Q : osmtpd_type × osmtpd_phase × Int → Prop} {s s1 : State}
    (h : key_step Q s s1) : List.Forall₂ entry_rel s.osmtpd_callbacks s1.osmtpd_callbacks :=
  List.Forall₂.imp (fun _ _ h => h.1) h.2

theorem message_flags_mono {a b : List osmtpd_callback} (h : List.Forall₂ entry_rel a b)
    (d : Int) (hf : message_flags d a) : message_flags d b :=
  ⟨has_flags_mono h _ _ hf.1, has_flags_mono h _ _ hf.2.1, has_flags_mono h _ _ hf.2.2⟩

/-- One iteration of the first loop of `osmtpd_run`: what it registers is in
`implicit_key`, and on a registered entry with a message constructor set the
three events of the message hooks are registered for its direction. -/
theorem osmtpd_run_step_raise (D : Int → Prop) (s s1 : State) (l l1 : run_locals) (i : Nat)
    (hcat : catalog_shaped s.osmtpd_callbacks) (hD : dir_closed D s.osmtpd_callbacks)
    (h : osmtpd_run_step s l i = .ok (s1, l1)) :
    key_step (implicit_key s.needs s.oncreatecb_message D) s s1 ∧
      (∀ e, s.osmtpd_callbacks.get? i = some e → e.doregister = true →
        s.oncreatecb_message ≠ NULL → message_flags e.incoming s1.osmtpd_callbacks) := by
  unfold osmtpd_run_step at h
  cases hg : s.osmtpd_callbacks.get? i with
  | none =>
    rw [hg] at h
    cases h
    exact ⟨key_step_refl _ _, fun e he => absurd he (by simp)⟩
  | some e =>
    rw [hg] at h
    simp only at h
    by_cases hd : e.doregister = true
    · rw [if_pos hd] at h
      have hDe : D e.incoming := hD e (List.get?_mem hg) hd
      cases hn : osmtpd_register_need s e.incoming with
      | error x => rw [hn] at h; cases h
      | ok sa =>
        rw [hn] at h
        simp only [Except.bind] at h
        obtain ⟨ra, _⟩ := osmtpd_register_need_spec D s sa e.incoming hcat hDe hn
        have ka := osmtpd_register_need_raise s.oncreatecb_message D s sa e.incoming hDe hn
        obtain ⟨ea, hga, hra⟩ := forall₂_get_left (reg_step_entry_rel ra) i e hg
        rw [hga] at h
        simp only [Option.getD_some] at h
        cases hm : osmtpd_run_message sa ea.incoming with
        | error x => rw [hm] at h; cases h
        | ok sb =>
          rw [hm] at h
          simp only [Except.ok.injEq, Prod.mk.injEq] at h
          obtain ⟨h1, _⟩ := h
          subst h1
          have hDa : D ea.incoming := by rw [hra.2.2.1]; exact hDe
          obtain ⟨kb, fb⟩ := osmtpd_run_message_raise s.needs D sa sb ea.incoming
            (reg_step_catalog ra hcat) hDa hm
          rw [(key_step_setup ka).2] at kb fb
          refine ⟨key_step_trans ka kb, fun e0 he0 _ ho => ?_⟩
          cases he0
          have := fb ho
          rw [hra.2.2.1] at this
          exact this
    · rw [if_neg hd] at h
      cases h
      refine ⟨key_step_refl _ _, fun e0 he0 hd0 => ?_⟩
      cases he0
      exact absurd hd0 hd

theorem osmtpd_run_loop_raise (D : Int → Prop) (n i : Nat) (s s1 : State) (l l1 : run_locals)
    (hcat : catalog_shaped s.osmtpd_callbacks) (hD : dir_closed D s.osmtpd_callbacks)
    (h : osmtpd_run_loop n i s l = .ok (s1, l1)) :
    key_step (implicit_key s.needs s.oncreatecb_message D) s s1 ∧
      (∀ j e, i ≤ j → j < i + n → s.osmtpd_callbacks.get? j = some e → e.doregister = true →
        s.oncreatecb_message ≠ NULL → message_flags e.incoming s1.osmtpd_callbacks) := by
  induction n generalizing i s l with
  | zero =>
    unfold osmtpd_run_loop at h
    cases h
    exact ⟨key_step_refl _ _, fun j e h1 h2 => absurd h2 (by omega)⟩
  | succ n ih =>
    unfold osmtpd_run_loop at h
    cases hs : osmtpd_run_step s l i with
    | error x => rw [hs] at h; cases h
    | ok p =>
      obtain ⟨sa, la⟩ := p
      rw [hs] at h
      simp only at h
      obtain ⟨ra, _⟩ := osmtpd_run_step_spec D s sa l la i hcat hD hs
      obtain ⟨ka, fa⟩ := osmtpd_run_step_raise D s sa l la i hcat hD hs
      obtain ⟨kb, fb⟩ := ih (i + 1) sa la (reg_step_catalog ra hcat) (dir_closed_step ra hD) h
      rw [(key_step_setup ka).1, (key_step_setup ka).2] at kb
      rw [(key_step_setup ka).2] at fb
      refine ⟨key_step_trans ka kb, fun j e h1 h2 hg hd ho => ?_⟩
      by_cases hj : j = i
      · subst hj
        exact message_flags_mono (key_step_entry_rel kb) _ (fa e hg hd ho)
      · obtain ⟨ea, hga, hra⟩ := forall₂_get_left (reg_step_entry_rel ra) j e hg
        have := fb j ea (by omega) (by omega) hga (hra.2.2.2.2.2.1 hd) ho
        rw [hra.2.2.1] at this
        exact this

/-- The entries registered after the registration phase of `osmtpd_run`: an
entry has `doregister` exactly when it had it before the run or its event is
one of those the run registers on its own (`implicit_key`). -/
theorem osmtpd_run_register_doregister (s s2 : State)
    (hcat : catalog_shaped s.osmtpd_callbacks)
    (h : osmtpd_run_register s = .ok s2) :
    ∀ k e, s2.osmtpd_callbacks.get? k = some e →
      ∃ e0, s.osmtpd_callbacks.get? k = some e0 ∧ entry_rel e0 e ∧
        (e.doregister = true ↔ e0.doregister = true ∨
          implicit_key s.needs s.oncreatecb_message (direction_active s.osmtpd_callbacks)
            (entry_key e0)) := by
  intro k e hk
  obtain ⟨s1, l, hloop, hs2⟩ := osmtpd_run_register_split s s2 h
  obtain ⟨rs, fl⟩ := osmtpd_run_loop_spec (direction_active s.osmtpd_callbacks) _ 0 s s1 _ l
    hcat (dir_closed_self _) hloop
  obtain ⟨ks, fm⟩ := osmtpd_run_loop_raise (direction_active s.osmtpd_callbacks) _ 0 s s1 _ l
    hcat (dir_closed_self _) hloop
  have hres := osmtpd_run_register_res s
  rw [h] at hres
  have hok : reg_ok s s2 := hres
  obtain ⟨e0, hg0, hrel⟩ := forall₂_get_right hok.2 k e hk
  refine ⟨e0, hg0, hrel, ?_⟩
  rw [hs2, osmtpd_run_promote_get] at hk
  obtain ⟨e1, hg1, hb⟩ := forall₂_get_left ks.2 k e0 hg0
  rw [hg1] at hk
  simp only [Option.map_some', Option.some.injEq] at hk
  have hd1 : e.doregister = e1.doregister := by
    rw [← hk]; exact (promote_entry_rel s1 l k e1).2.2.2.1
  rw [hd1]
  constructor
  · exact hb.2
  · rintro (x | ⟨ht, ⟨y, hy, hyd, hyi⟩, hph⟩)
    · exact hb.1.2.2.2.2.2.1 x
    · have he1 : e1 ∈ s1.osmtpd_callbacks := List.get?_mem hg1
      have hkey1 : entry_key e1 = entry_key e0 := entry_rel_key hb.1
      obtain ⟨j, hj⟩ := List.mem_iff_get?.1 hy
      have hlt : j < 0 + s.osmtpd_callbacks.length := by
        rw [Nat.zero_add]; exact get_some_lt hj
      have nf := fl j y (Nat.zero_le j) hlt hj hyd
      rw [hyi] at nf
      have hk3 : entry_key e1 = (OSMTPD_TYPE_REPORT, e0.phase, e0.incoming) := by
        rw [hkey1]
        exact entry_key_eq e0 _ _ _ ht rfl rfl
      rcases hph with x | x | ⟨x1, x2⟩ | ⟨x1, x2⟩
      · have x' : e0.phase = OSMTPD_PHASE_LINK_DISCONNECT := x
        rw [x'] at hk3
        exact (nf.2.2 e1 he1 hk3).1
      · exact (nf.1 e0.phase x e1 he1 hk3).1
      · rcases x2 with x2 | x2
        · have x' : e0.phase = OSMTPD_PHASE_TX_ROLLBACK := x2
          rw [x'] at hk3
          exact ((nf.2.1 x1).1 e1 he1 hk3).1
        · have x' : e0.phase = OSMTPD_PHASE_TX_COMMIT := x2
          rw [x'] at hk3
          exact ((nf.2.1 x1).2 e1 he1 hk3).1
      · have mf := fm j y (Nat.zero_le j) hlt hj hyd x1
        rw [hyi] at mf
        rcases x2 with x2 | x2 | x2
        · have x' : e0.phase = OSMTPD_PHASE_TX_BEGIN := x2
          rw [x'] at hk3
          exact (mf.1 e1 he1 hk3).1
        · have x' : e0.phase = OSMTPD_PHASE_TX_ROLLBACK := x2
          rw [x'] at hk3
          exact (mf.2.1 e1 he1 hk3).1
        · have x' : e0.phase = OSMTPD_PHASE_TX_COMMIT := x2
          rw [x'] at hk3
          exact (mf.2.2 e1 he1 hk3).1

/-! ## Claims on the events `osmtpd_run` registers on its own -/

theorem find_callback_mem (type : osmtpd_type) (phase : osmtpd_phase) (incoming : Int)
    (cbs : List osmtpd_callback) (cb : osmtpd_callback)
    (h : find_callback type phase incoming cbs = some cb) : cb ∈ cbs := by
  induction cbs with
  | nil => cases h
  | cons e es ih =>
    unfold find_callback at h
    by_cases hk : type = e.type ∧ phase = e.phase ∧ incoming = e.incoming
    · rw [if_pos hk] at h
      cases h
      exact List.mem_cons_self _ _
    · rw [if_neg hk] at h
      exact List.mem_cons_of_mem _ (ih h)

theorem catalog_init_null_safe :
    ∀ x ∈ osmtpd_callbacks_init.map catalog_sig, x.1 = OSMTPD_TYPE_REPORT →
      x.2.1 ∈ [OSMTPD_PHASE_LINK_DISCONNECT, OSMTPD_PHASE_LINK_CONNECT,
        OSMTPD_PHASE_LINK_GREETING, OSMTPD_PHASE_LINK_IDENTIFY, OSMTPD_PHASE_LINK_TLS,
        OSMTPD_PHASE_TX_BEGIN, OSMTPD_PHASE_TX_MAIL, OSMTPD_PHASE_TX_RCPT,
        OSMTPD_PHASE_TX_ENVELOPE, OSMTPD_PHASE_TX_ROLLBACK, OSMTPD_PHASE_TX_COMMIT] →
      x.2.2.2 ∈ null_safe_parsers := by
  decide

theorem implicit_key_phase (needs oncreate : Nat) (D : Int → Prop)
    (k : osmtpd_type × osmtpd_phase × Int) (h : implicit_key needs oncreate D k) :
    k.2.1 ∈ [OSMTPD_PHASE_LINK_DISCONNECT, OSMTPD_PHASE_LINK_CONNECT,
      OSMTPD_PHASE_LINK_GREETING, OSMTPD_PHASE_LINK_IDENTIFY, OSMTPD_PHASE_LINK_TLS,
      OSMTPD_PHASE_TX_BEGIN, OSMTPD_PHASE_TX_MAIL, OSMTPD_PHASE_TX_RCPT,
      OSMTPD_PHASE_TX_ENVELOPE, OSMTPD_PHASE_TX_ROLLBACK, OSMTPD_PHASE_TX_COMMIT] := by
  obtain ⟨_, _, x | x | ⟨_, x⟩ | ⟨_, x⟩⟩ := h
  · rw [x]; decide
  · rcases need_phase_cases _ _ x with y | y | y | y | y | y | y | y <;> rw [y] <;> decide
  · rcases x with y | y <;> rw [y] <;> decide
  · rcases x with y | y | y <;> rw [y] <;> decide

/-- A public registration function called with a non-null callback keeps
`api_catalog` and `api_null_inv`: every such function is
`osmtpd_register(type, phase, d, 0, cb)` followed by
`osmtpd_register(REPORT, LINK_DISCONNECT, d, 0, NULL)`. -/
theorem api_null_inv_register (s s2 : State) (t : osmtpd_type) (p : osmtpd_phase) (d : Int)
    (cb : Nat) (hcb : cb ≠ NULL)
    (hinv : api_catalog s.osmtpd_callbacks ∧ api_null_inv s.osmtpd_callbacks)
    (h : ((osmtpd_register s t p d false cb).bind fun s1 =>
      osmtpd_register s1 OSMTPD_TYPE_REPORT OSMTPD_PHASE_LINK_DISCONNECT d false NULL) =
        .ok s2) :
    api_catalog s2.osmtpd_callbacks ∧ api_null_inv s2.osmtpd_callbacks := by
  have step : ∀ (x y : State) (t1 : osmtpd_type) (p1 : osmtpd_phase) (c : Nat),
      (c = NULL → t1 = OSMTPD_TYPE_REPORT ∧ p1 = OSMTPD_PHASE_LINK_DISCONNECT) →
      api_catalog x.osmtpd_callbacks ∧ api_null_inv x.osmtpd_callbacks →
      osmtpd_register x t1 p1 d false c = .ok y →
      api_catalog y.osmtpd_callbacks ∧ api_null_inv y.osmtpd_callbacks := by
    intro x y t1 p1 c hc hx hy
    rcases osmtpd_register_cases x t1 p1 d false c with
      ⟨_, h1⟩ | ⟨_, _, h1⟩ | ⟨_, _, h1⟩ | ⟨_, pre, e, post, h1, h2, h3, h4, h5, h6⟩
    · rw [h1] at hy; cases hy
    · rw [h1] at hy; cases hy
    · rw [h1] at hy; cases hy
    · rw [h6] at hy
      cases hy
      obtain ⟨⟨hcat, hst⟩, hnull⟩ := hx
      rw [h1] at hcat hst hnull
      have he : e ∈ pre ++ e :: post := by simp
      refine ⟨⟨?_, ?_⟩, ?_⟩
      · unfold catalog_shaped at *
        rw [← hcat]
        simp [catalog_sig]
      · intro z hz
        simp only [List.mem_append, List.mem_cons] at hz
        rcases hz with hz | hz | hz
        · exact hst z (by simp [hz])
        · rw [hz]
          simp only [Bool.false_eq_true, if_false]
          exact hst e he
        · exact hst z (by simp [hz])
      · intro z hz hd hn
        simp only [List.mem_append, List.mem_cons] at hz
        rcases hz with hz | hz | hz
        · exact hnull z (by simp [hz]) hd hn
        · rw [hz] at hn ⊢
          simp only at hn ⊢
          by_cases hc0 : c = NULL
          · rw [← h3.1, ← h3.2.1]
            exact hc hc0
          · rw [if_pos hc0] at hn
            exact absurd hn hc0
        · exact hnull z (by simp [hz]) hd hn
  obtain ⟨s1, h1, h2⟩ := except_bind_ok _ _ _ h
  exact step s1 s2 _ _ NULL (fun _ => ⟨rfl, rfl⟩)
    (step s s1 t p cb (fun x => absurd x hcb) hinv h1) h2

/-- C37: started on a catalog with the events of the initialiser in which the
only registered entries without a callback are `report` `link-disconnect`
entries (what the public functions leave when each is given a non-null
callback), the registration phase of `osmtpd_run` ends with every registered
entry that has no callback using one of the parsers that test the callback
before the call (`link-connect`, `link-disconnect`, `link-greeting`,
`link-identify`, `link-tls`, `tx-begin`, `tx-mail`, `tx-rcpt`, `tx-envelope`,
`tx-commit`, `tx-rollback`).  Hence a registered entry whose parser calls the
callback without a test (`noargs`, `onearg`, `connect`, `identify`) has a
callback, and so has the entry the dispatcher finds for a line when that entry
is registered and has such a parser. -/
theorem null_callback_safe (s s2 : State) (hcat : catalog_shaped s.osmtpd_callbacks)
    (hnull : api_null_inv s.osmtpd_callbacks)
    (h : osmtpd_run_register s = .ok s2) :
    (∀ e ∈ s2.osmtpd_callbacks, e.doregister = true → e.cb = NULL →
      e.osmtpd_cb ∈ null_safe_parsers) ∧
    (∀ e ∈ s2.osmtpd_callbacks, e.doregister = true →
      e.osmtpd_cb ∈ unconditional_parsers → e.cb ≠ NULL) ∧
    (∀ type phase incoming cb,
      find_callback type phase incoming s2.osmtpd_callbacks = some cb →
      cb.doregister = true → cb.osmtpd_cb ∈ unconditional_parsers → cb.cb ≠ NULL) := by
  have first : ∀ e ∈ s2.osmtpd_callbacks, e.doregister = true → e.cb = NULL →
      e.osmtpd_cb ∈ null_safe_parsers := by
    intro e he hd hn
    obtain ⟨k, hk⟩ := List.mem_iff_get?.1 he
    obtain ⟨e0, hg0, hrel, hiff⟩ := osmtpd_run_register_doregister s s2 hcat h k e hk
    have he0 : e0 ∈ s.osmtpd_callbacks := List.get?_mem hg0
    have hsig : catalog_sig e0 ∈ osmtpd_callbacks_init.map catalog_sig := by
      rw [← hcat]
      exact List.mem_map_of_mem catalog_sig he0
    rw [hrel.2.2.2.1]
    rcases hiff.1 hd with x | x
    · obtain ⟨y1, y2⟩ := hnull e0 he0 x (by rw [← hrel.2.2.2.2.1]; exact hn)
      exact catalog_init_null_safe _ hsig y1 (by
        have : (catalog_sig e0).2.1 = OSMTPD_PHASE_LINK_DISCONNECT := y2
        rw [this]; decide)
    · exact catalog_init_null_safe _ hsig x.1 (implicit_key_phase _ _ _ _ x)
  have second : ∀ e ∈ s2.osmtpd_callbacks, e.doregister = true →
      e.osmtpd_cb ∈ unconditional_parsers → e.cb ≠ NULL := by
    intro e he hd hp hn
    have hs := first e he hd hn
    have hdis : ∀ p ∈ null_safe_parsers, p ∉ unconditional_parsers := by decide
    exact hdis _ hs hp
  exact ⟨first, second, fun type phase incoming cb hf =>
    second cb (find_callback_mem _ _ _ _ cb hf)⟩

/-- Witness of C37: the registration phase on `identify_state` (`helo`
registered with the callback 7, IDENTITY and MSGID needed). -/
theorem null_callback_safe_witness :
    catalog_shaped identify_state.osmtpd_callbacks ∧
    api_null_inv identify_state.osmtpd_callbacks ∧
    osmtpd_run_register identify_state = .ok identify_registered ∧
    (identify_registered.osmtpd_callbacks.filter
      fun e => e.doregister && decide (e.cb = NULL)).map (fun e => e.osmtpd_cb) =
      [parser_fn.link_disconnect, parser_fn.link_identify, parser_fn.tx_begin,
        parser_fn.tx_commit, parser_fn.tx_rollback] ∧
    ∀ e ∈ identify_registered.osmtpd_callbacks, e.doregister = true → e.cb = NULL →
      e.osmtpd_cb ∈ null_safe_parsers :=
  ⟨by decide, by decide, rfl, by decide,
    (null_callback_safe identify_state identify_registered (by decide) (by decide) rfl).1⟩

/-- C38: the implicit registrations are made direction by direction.  When no
event of the direction `d` is registered before the run, then after the
registration phase of `osmtpd_run` (started on a catalog the public functions
can leave) no entry of the direction `d` has `doregister` or `storereport`,
whatever the need mask and the hooks are; every line of the handshake belongs
to an entry of another direction, and what a successful `osmtpd_run` writes is
these lines followed by `register|ready`. -/
theorem implicit_per_direction (s s2 : State) (d : Int)
    (hapi : api_catalog s.osmtpd_callbacks)
    (hd : ¬ direction_active s.osmtpd_callbacks d)
    (h : osmtpd_run_register s = .ok s2) :
    (∀ e ∈ s2.osmtpd_callbacks, e.incoming = d →
      e.doregister = false ∧ e.storereport = false) ∧
    (∀ line ∈ register_lines s2.osmtpd_callbacks,
      ∃ e ∈ s2.osmtpd_callbacks, e.incoming ≠ d ∧ line = register_line e) ∧
    (∀ s3, osmtpd_run s = .ok s3 →
      s3.io_stdout = s.io_stdout ++ (register_lines s2.osmtpd_callbacks).flatten ++
        "register|ready\n".toList) := by
  have first : ∀ e ∈ s2.osmtpd_callbacks, e.incoming = d →
      e.doregister = false ∧ e.storereport = false := by
    intro e he hin
    obtain ⟨s1, l, hloop, hs2⟩ := osmtpd_run_register_split s s2 h
    obtain ⟨rs, _⟩ := osmtpd_run_loop_spec (direction_active s.osmtpd_callbacks) _ 0 s s1 _ l
      hapi.1 (dir_closed_self _) hloop
    obtain ⟨k, hk⟩ := List.mem_iff_get?.1 he
    rw [hs2, osmtpd_run_promote_get] at hk
    cases hg1 : s1.osmtpd_callbacks.get? k with
    | none => rw [hg1] at hk; cases hk
    | some e1 =>
      rw [hg1] at hk
      simp only [Option.map_some', Option.some.injEq] at hk
      obtain ⟨_, _, p3, _, _⟩ := promote_entry_rel s1 l k e1
      rw [hk] at p3
      obtain ⟨e0, hg0, hb⟩ := forall₂_get_right rs.2 k e1 hg1
      have hin0 : e0.incoming = d := by rw [← hb.1.2.2.1, ← p3]; exact hin
      have hnd : ¬ direction_active s.osmtpd_callbacks e0.incoming := by rw [hin0]; exact hd
      have hd0 : e0.doregister = false := by
        cases x : e0.doregister with
        | false => rfl
        | true => exact absurd ⟨e0, List.get?_mem hg0, x, hin0⟩ hd
      have hd1 : e1.doregister = false := by
        cases x : e1.doregister with
        | false => rfl
        | true =>
          rcases hb.2.1 x with y | y
          · rw [hd0] at y; cases y
          · exact absurd y.2 hnd
      have hs1 : e1.storereport = false := by
        cases x : e1.storereport with
        | false => rfl
        | true =>
          rcases hb.2.2 x with y | y
          · rw [hapi.2 e0 (List.get?_mem hg0)] at y; cases y
          · exact absurd y.2.1 hnd
      have heq : e = e1 := by
        rw [← hk]
        unfold promote_entry
        rw [if_neg]
        rintro ⟨_, _, x⟩
        rw [hd1] at x
        cases x
      rw [heq]
      exact ⟨hd1, hs1⟩
  refine ⟨first, fun line hl => ?_, fun s3 hrun => ?_⟩
  · unfold register_lines at hl
    obtain ⟨e, he, hline⟩ := List.mem_map.1 hl
    obtain ⟨hmem, hreg⟩ := List.mem_filter.1 he
    refine ⟨e, hmem, fun hin => ?_, hline.symm⟩
    rw [(first e hmem hin).1] at hreg
    cases hreg
  · obtain ⟨_, hio⟩ := osmtpd_run_register_catalog s s2 hapi.1 h
    rw [osmtpd_run_of_register s s2 h] at hrun
    split at hrun
    · cases hrun
    · simp only [Except.ok.injEq] at hrun
      rw [← hrun]
      show (s2.io_stdout ++ _) ++ _ = _
      rw [hio]

/-- Witness of C38: on `identify_state` only inbound events are registered,
IDENTITY and MSGID are needed, and after the registration phase every
registered event is inbound. -/
theorem implicit_per_direction_witness :
    api_catalog identify_state.osmtpd_callbacks ∧
    ¬ direction_active identify_state.osmtpd_callbacks 0 ∧
    osmtpd_run_register identify_state = .ok identify_registered ∧
    (registered_keys identify_registered.osmtpd_callbacks).map (fun k => k.2.2) =
      [1, 1, 1, 1, 1, 1] ∧
    ∀ e ∈ identify_registered.osmtpd_callbacks, e.incoming = 0 →
      e.doregister = false ∧ e.storereport = false :=
  ⟨by decide, by decide, rfl, by decide,
    (implicit_per_direction identify_state identify_registered 0 (by decide) (by decide)
      rfl).1⟩

/-- C39: after the registration phase of `osmtpd_run` (started on a catalog
the public functions can leave), for a direction with an event registered
before the run and each of the `report` entries `tx-begin`, `tx-rollback` and
`tx-commit` of that direction (which exist): with a message constructor set
the entry is registered; without one it is registered exactly when it was
before the run or the need mask asks for it (the bit of its phase, or a
message bit for `tx-rollback` and `tx-commit`), whatever the message destructor
is; in both cases `storereport` is set exactly when the need mask has the bit
of the phase, so never by the rule of the message constructor. -/
theorem message_hook_registrations (s s2 : State) (hapi : api_catalog s.osmtpd_callbacks)
    (h : osmtpd_run_register s = .ok s2) :
    (∀ k e e0, s2.osmtpd_callbacks.get? k = some e → s.osmtpd_callbacks.get? k = some e0 →
      e.type = OSMTPD_TYPE_REPORT →
      (e.phase = OSMTPD_PHASE_TX_BEGIN ∨ e.phase = OSMTPD_PHASE_TX_ROLLBACK ∨
        e.phase = OSMTPD_PHASE_TX_COMMIT) →
      direction_active s.osmtpd_callbacks e.incoming →
      (s.oncreatecb_message ≠ NULL → e.doregister = true) ∧
      (s.oncreatecb_message = NULL →
        (e.doregister = true ↔ e0.doregister = true ∨ need_phase s.needs e.phase ∨
          (need_tx s.needs ∧
            (e.phase = OSMTPD_PHASE_TX_ROLLBACK ∨ e.phase = OSMTPD_PHASE_TX_COMMIT)))) ∧
      (e.storereport = true ↔ need_phase s.needs e.phase)) ∧
    (∀ d, direction_active s.osmtpd_callbacks d →
      ∀ p ∈ [OSMTPD_PHASE_TX_BEGIN, OSMTPD_PHASE_TX_ROLLBACK, OSMTPD_PHASE_TX_COMMIT],
        ∃ e ∈ s2.osmtpd_callbacks, entry_key e = (OSMTPD_TYPE_REPORT, p, d)) := by
  refine ⟨fun k e e0 hk hg0 ht hph hact => ?_, fun d hact p hp => ?_⟩
  · obtain ⟨e0', hg0', hrel, hiff⟩ := osmtpd_run_register_doregister s s2 hapi.1 h k e hk
    rw [hg0] at hg0'
    cases hg0'
    have hkey : entry_key e0 = (OSMTPD_TYPE_REPORT, e.phase, e.incoming) :=
      entry_key_eq e0 _ _ _ (by rw [← hrel.1]; exact ht) hrel.2.1.symm hrel.2.2.1.symm
    rw [hkey] at hiff
    obtain ⟨r1, r2⟩ := osmtpd_run_register_report s s2 hapi h e (List.get?_mem hk) ht
    refine ⟨fun ho => hiff.2 (Or.inr ⟨rfl, hact, Or.inr (Or.inr (Or.inr ⟨ho, hph⟩))⟩),
      fun ho => ⟨fun hd => ?_, fun hx => ?_⟩,
      ⟨fun hs => (r1 hs).2, fun hn => ((r2 hact).1 hn).2⟩⟩
    · rcases hiff.1 hd with x | ⟨_, _, x | x | x | x⟩
      · exact Or.inl x
      · have x' : e.phase = OSMTPD_PHASE_LINK_DISCONNECT := x
        rw [x'] at hph
        rcases hph with y | y | y <;> cases y
      · exact Or.inr (Or.inl x)
      · exact Or.inr (Or.inr x)
      · exact absurd ho x.1
    · rcases hx with x | x | x
      · exact hiff.2 (Or.inl x)
      · exact hiff.2 (Or.inr ⟨rfl, hact, Or.inr (Or.inl x)⟩)
      · exact hiff.2 (Or.inr ⟨rfl, hact, Or.inr (Or.inr (Or.inl x))⟩)
  · have hcat2 := (osmtpd_run_register_catalog s s2 hapi.1 h).1
    simp only [List.mem_cons, List.mem_singleton, List.not_mem_nil, or_false] at hp
    rcases catalog_direction _ hapi.1 d hact with hd | hd <;> subst hd <;>
      rcases hp with hp | hp | hp <;> subst hp <;>
      exact catalog_mem_key _ hcat2 _ (by decide)

/-- Witness of C39: with the message constructor 23 and only the `filter`
event `data` registered, the run registers `tx-begin`, `tx-commit` and
`tx-rollback` for `smtp-in`, none with `storereport`; with only the message
destructor 24 it registers `link-disconnect` alone. -/
theorem message_hook_registrations_witness :
    api_catalog message_state.osmtpd_callbacks ∧
    osmtpd_run_register message_state = .ok message_registered ∧
    message_state.oncreatecb_message = 23 ∧
    registered_keys message_registered.osmtpd_callbacks =
      [(OSMTPD_TYPE_FILTER, OSMTPD_PHASE_DATA, 1),
        (OSMTPD_TYPE_REPORT, OSMTPD_PHASE_LINK_DISCONNECT, 1),
        (OSMTPD_TYPE_REPORT, OSMTPD_PHASE_TX_BEGIN, 1),
        (OSMTPD_TYPE_REPORT, OSMTPD_PHASE_TX_COMMIT, 1),
        (OSMTPD_TYPE_REPORT, OSMTPD_PHASE_TX_ROLLBACK, 1)] ∧
    (message_registered.osmtpd_callbacks.filter fun e => e.storereport) = [] ∧
    destructor_state.oncreatecb_message = NULL ∧
    destructor_state.ondeletecb_message = 24 ∧
    osmtpd_run_register destructor_state = .ok destructor_registered ∧
    registered_keys destructor_registered.osmtpd_callbacks =
      [(OSMTPD_TYPE_FILTER, OSMTPD_PHASE_DATA, 1),
        (OSMTPD_TYPE_REPORT, OSMTPD_PHASE_LINK_DISCONNECT, 1)] ∧
    ∀ p ∈ [OSMTPD_PHASE_TX_BEGIN, OSMTPD_PHASE_TX_ROLLBACK, OSMTPD_PHASE_TX_COMMIT],
      ∃ e ∈ message_registered.osmtpd_callbacks, entry_key e = (OSMTPD_TYPE_REPORT, p, 1) :=
  ⟨by decide, rfl, by decide, by decide, by decide, by decide, by decide, rfl, by decide,
    (message_hook_registrations message_state message_registered (by decide) rfl).2 1
      (by decide)⟩
